import Mathlib

/-!
# iot_esp_101 ESP32 firmware: provisioning, persistence and broker session

A shallow embedding of `esp32/src/main.cpp` and `esp32/src/config.h`.

Conventions of the embedding

* An Arduino `String` is a list of characters (`Str`); every character stands
  for one byte and the text is free of NUL bytes.
* C `int` / `long` values are `Int`; they enter the state only through
  `toInt` (which saturates to 32 bits like `atol`), through `asInt`
  (range checked) or through the key/value store.
* `uint8_t` is a `Nat` below 256, `unsigned long` clock readings are taken
  modulo `2 ^ 32`.
* The global objects of the sketch (`state`, `preferences`, `serialBuffer`,
  the two function-local statics, the broker client, the DNS responder and the
  route table) are the fields of `World`; every function of the sketch is a
  function `World → World`.
* Everything the firmware does to its surroundings is appended to
  `World.out` as an `Event`, oldest first.
* What the firmware reads from its surroundings is an oracle of `Hw`, indexed
  by the true time in milliseconds; `millis()` counts from the last restart.
  `delay n` advances the clock by exactly
  `n`; all other statements take no time.
* `ESP.restart()` does not return: it raises `World.restarted`, and the
  callers that would continue after it stop there.
* Libraries that are not part of the repository (Preferences, DNSServer,
  WebServer, PubSubClient, ArduinoJson, the C library) are modelled from their
  documented behaviour, each where it is used.
* A write to the store succeeds, and it reaches the store whole or not at
  all; an interruption of `saveConfiguration()` falls between two writes.
* `Event.mqttPublish` records the call of `mqttClient.publish`, whatever the
  client makes of it.
-/

namespace IotEsp101

/-! ## Text -/

/-- Arduino `String`: a sequence of bytes. -/
abbrev Str := List Char

instance : Coe String Str := ⟨String.toList⟩

/-- C `isspace` in the default locale: space, `\t`, `\n`, `\v`, `\f`, `\r`. -/
def isSpace (c : Char) : Bool :=
  c.toNat == 32 || (9 ≤ c.toNat && c.toNat ≤ 13)

/-- `String::trim()`: drops the leading and the trailing white space. -/
def trim (s : Str) : Str :=
  ((s.dropWhile isSpace).reverse.dropWhile isSpace).reverse

/-- Position of the first `ch` in `s`, counted from `base`; `-1` when absent
(the `strchr` walk of `String::indexOf`). -/
def indexFrom (ch : Char) : Str → Nat → Int
  | [], _ => -1
  | c :: cs, base => if c = ch then (base : Int) else indexFrom ch cs (base + 1)

/-- `String::indexOf(char ch, unsigned int fromIndex)`. -/
def indexOfFrom (s : Str) (ch : Char) (fromIndex : Nat) : Int :=
  if fromIndex ≥ s.length then -1 else indexFrom ch (s.drop fromIndex) fromIndex

/-- `String::indexOf(char ch)`. -/
def indexOf (s : Str) (ch : Char) : Int := indexOfFrom s ch 0

/-- `String::substring(left, right)`. -/
def substring (s : Str) (left right : Nat) : Str :=
  let l := if left > right then right else left
  let r := if left > right then left else right
  if l ≥ s.length then [] else (s.take (min r s.length)).drop l

/-- `String::substring(left)`, that is `substring(left, length())`. -/
def substringFrom (s : Str) (left : Nat) : Str := substring s left s.length

/-- `String::startsWith(s2)`. -/
def startsWith (s p : Str) : Bool := p.isPrefixOf s

/-- Largest value of a 32-bit `long`. -/
def LONG_MAX : Int := 2147483647

/-- Smallest value of a 32-bit `long`. -/
def LONG_MIN : Int := -2147483648

/-- Value of a decimal digit character, if it is one. -/
def digitVal (c : Char) : Option Nat :=
  if 48 ≤ c.toNat ∧ c.toNat ≤ 57 then some (c.toNat - 48) else none

/-- The digit run at the start of a text, read as a decimal number. -/
def readDigits : Str → Nat → Nat
  | [], acc => acc
  | c :: cs, acc =>
    match digitVal c with
    | some d => readDigits cs (acc * 10 + d)
    | none => acc

/-- Saturation of `strtol` to the range of a 32-bit `long`. -/
def clampLong (v : Int) : Int :=
  if v > LONG_MAX then LONG_MAX else if v < LONG_MIN then LONG_MIN else v

/-- C `atol`: skips white space, reads an optional sign and the digits that
follow, stops at the first other character, saturates. -/
def atol (s : Str) : Int :=
  match s.dropWhile isSpace with
  | [] => 0
  | c :: cs =>
    if c = '-' then clampLong (-(readDigits cs 0 : Int))
    else if c = '+' then clampLong (readDigits cs 0 : Int)
    else clampLong (readDigits (c :: cs) 0 : Int)

/-- `String::toInt()`. -/
def toInt (s : Str) : Int := atol s

/-- `String(int)`: decimal text of a number. -/
def fmtInt (n : Int) : Str := (toString n).toList

/-- `String(unsigned long)`: decimal text of an unsigned number. -/
def fmtNat (n : Nat) : Str := (toString n).toList

/-- `String(value, BIN)`: binary text of an unsigned number. -/
def fmtBin (n : Nat) : Str := Nat.toDigits 2 n

/-! ## Constants of `config.h` -/

def DEVICE_ID : Str := "deneyap-001"
def FIRMWARE_VERSION : Str := "1.0.0"
def AP_SSID : Str := "espressif - esp32 - deneyapkart"
def AP_PASSWORD : Str := "deneyapkart"
def AP_CHANNEL : Nat := 1
def AP_MAX_CONNECTIONS : Nat := 4
def DNS_PORT : Nat := 53
def NTP_SERVER : Str := "pool.ntp.org"
def NTP_GMT_OFFSET : Int := 10800
def NTP_DAYLIGHT_OFFSET : Int := 0
def MQTT_PORT : Int := 1883

def NVS_NAMESPACE : String := "iot_config"
def NVS_KEY_WIFI_SSID : String := "wifi_ssid"
def NVS_KEY_WIFI_PASS : String := "wifi_pass"
def NVS_KEY_MQTT_HOST : String := "mqtt_host"
def NVS_KEY_MQTT_PORT : String := "mqtt_port"
def NVS_KEY_DEVICE_ID : String := "device_id"
def NVS_KEY_CONFIGURED : String := "configured"
def NVS_KEY_READ_INTERVAL : String := "read_int"
def NVS_KEY_SENSORS_ENABLED : String := "sensors"
def NVS_KEY_SLEEP_ENABLED : String := "sleep_en"
def NVS_KEY_SLEEP_MINUTES : String := "sleep_min"
def NVS_KEY_ALARM_NEM_MIN : String := "alarm_nmin"
def NVS_KEY_ALARM_NEM_MAX : String := "alarm_nmax"
def NVS_KEY_ALARM_TEMP_MAX : String := "alarm_tmax"
def NVS_KEY_NTP_SERVER : String := "ntp_srv"
def NVS_KEY_TIMEZONE : String := "timezone"
def NVS_KEY_DEBUG_LEVEL : String := "debug_lvl"
def NVS_KEY_LED_ENABLED : String := "led_en"

def DEFAULT_READ_INTERVAL : Int := 30
def DEFAULT_SENSORS_ENABLED : Nat := 0x0F
def DEFAULT_SLEEP_ENABLED : Bool := false
def DEFAULT_SLEEP_MINUTES : Int := 5
def DEFAULT_ALARM_NEM_MIN : Int := 20
def DEFAULT_ALARM_NEM_MAX : Int := 80
def DEFAULT_ALARM_TEMP_MAX : Int := 40
def DEFAULT_DEBUG_LEVEL : Int := 1
def DEFAULT_LED_ENABLED : Bool := true

def PIN_SOIL_MOISTURE : Nat := 36
def PIN_RAIN_ANALOG : Nat := 39
def PIN_UV_ANALOG : Nat := 34

def WIFI_CONNECT_TIMEOUT_MS : Nat := 15000

/-! ## The key/value store (Preferences over NVS) -/

/-- A stored value with its NVS type. `putBool` stores a `u8` that is 0 or 1. -/
inductive NvsVal where
  | str (s : Str)
  | i32 (v : Int)
  | u8 (v : Nat)
  deriving DecidableEq, Repr

/-- Content of the namespace `iot_config`: at most one entry for a key. -/
abbrev Store := List (String × NvsVal)

/-- Entry of a key, if there is one. -/
def nvsGet : Store → String → Option NvsVal
  | [], _ => none
  | (k', v) :: rest, k => if k' = k then some v else nvsGet rest k

/-- Removes the entries of a key. -/
def nvsErase : Store → String → Store
  | [], _ => []
  | (k', v) :: rest, k => if k' = k then nvsErase rest k else (k', v) :: nvsErase rest k

/-- Writing a key replaces its former entry. -/
def nvsPut (s : Store) (k : String) (v : NvsVal) : Store :=
  (k, v) :: nvsErase s k

/-- `Preferences::getString(key, default)`: the default when the key is absent
or holds another type. -/
def getString (s : Store) (k : String) (dflt : Str) : Str :=
  match nvsGet s k with
  | some (NvsVal.str v) => v
  | _ => dflt

/-- `Preferences::getInt(key, default)`. -/
def getInt (s : Store) (k : String) (dflt : Int) : Int :=
  match nvsGet s k with
  | some (NvsVal.i32 v) => v
  | _ => dflt

/-- `Preferences::getUChar(key, default)`. -/
def getUChar (s : Store) (k : String) (dflt : Nat) : Nat :=
  match nvsGet s k with
  | some (NvsVal.u8 v) => v
  | _ => dflt

/-- `Preferences::getBool(key, default)`, which is
`getUChar(key, default ? 1 : 0) == 1`. -/
def getBool (s : Store) (k : String) (dflt : Bool) : Bool :=
  getUChar s k (if dflt then 1 else 0) == 1

/-! ## System state -/

/-- `enum SystemMode`. -/
inductive SystemMode where
  | MODE_SETUP
  | MODE_RUNNING
  deriving DecidableEq, Repr

/-- `struct SystemState`. -/
structure SystemState where
  mode : SystemMode
  wifiConnected : Bool
  ntpSynced : Bool
  mqttConnected : Bool
  uptime : Nat
  freeHeap : Int
  rssi : Int
  savedSSID : Str
  savedPassword : Str
  mqttHost : Str
  mqttPort : Int
  deviceId : Str
  readInterval : Int
  sensorsEnabled : Nat
  sleepEnabled : Bool
  sleepMinutes : Int
  alarmNemMin : Int
  alarmNemMax : Int
  alarmTempMax : Int
  ntpServer : Str
  timezone : Int
  debugLevel : Int
  ledEnabled : Bool
  deriving DecidableEq, Repr

/-- The zero-initialised global `state` before `setup()` runs. -/
def SystemState.zero : SystemState :=
  { mode := SystemMode.MODE_SETUP, wifiConnected := false, ntpSynced := false,
    mqttConnected := false, uptime := 0, freeHeap := 0, rssi := 0,
    savedSSID := [], savedPassword := [], mqttHost := [], mqttPort := 0,
    deviceId := [], readInterval := 0, sensorsEnabled := 0, sleepEnabled := false,
    sleepMinutes := 0, alarmNemMin := 0, alarmNemMax := 0, alarmTempMax := 0,
    ntpServer := [], timezone := 0, debugLevel := 0, ledEnabled := false }

/-- The sixteen persisted fields of the state, as one record. -/
structure DeviceConfig where
  savedSSID : Str
  savedPassword : Str
  mqttHost : Str
  mqttPort : Int
  deviceId : Str
  readInterval : Int
  sensorsEnabled : Nat
  sleepEnabled : Bool
  sleepMinutes : Int
  alarmNemMin : Int
  alarmNemMax : Int
  alarmTempMax : Int
  ntpServer : Str
  timezone : Int
  debugLevel : Int
  ledEnabled : Bool
  deriving DecidableEq, Repr

/-- The persisted fields held in a state. -/
def SystemState.config (s : SystemState) : DeviceConfig :=
  { savedSSID := s.savedSSID, savedPassword := s.savedPassword, mqttHost := s.mqttHost,
    mqttPort := s.mqttPort, deviceId := s.deviceId, readInterval := s.readInterval,
    sensorsEnabled := s.sensorsEnabled, sleepEnabled := s.sleepEnabled,
    sleepMinutes := s.sleepMinutes, alarmNemMin := s.alarmNemMin,
    alarmNemMax := s.alarmNemMax, alarmTempMax := s.alarmTempMax,
    ntpServer := s.ntpServer, timezone := s.timezone, debugLevel := s.debugLevel,
    ledEnabled := s.ledEnabled }

/-- The factory defaults of `config.h` and `loadConfiguration`. -/
def factoryConfig : DeviceConfig :=
  { savedSSID := [], savedPassword := [], mqttHost := [], mqttPort := MQTT_PORT,
    deviceId := DEVICE_ID, readInterval := DEFAULT_READ_INTERVAL,
    sensorsEnabled := DEFAULT_SENSORS_ENABLED, sleepEnabled := DEFAULT_SLEEP_ENABLED,
    sleepMinutes := DEFAULT_SLEEP_MINUTES, alarmNemMin := DEFAULT_ALARM_NEM_MIN,
    alarmNemMax := DEFAULT_ALARM_NEM_MAX, alarmTempMax := DEFAULT_ALARM_TEMP_MAX,
    ntpServer := NTP_SERVER, timezone := 3, debugLevel := DEFAULT_DEBUG_LEVEL,
    ledEnabled := DEFAULT_LED_ENABLED }

/-! ## What the firmware exchanges with its surroundings -/

/-- A JSON scalar. -/
inductive JsonVal where
  | null
  | bool (b : Bool)
  | int (n : Int)
  | str (s : Str)
  deriving DecidableEq, Repr

/-- A JSON object whose members are scalars. -/
abbrev JsonObj := List (String × JsonVal)

/-- A member of a document the firmware builds: a scalar, a nested object or
an array of objects. -/
inductive JsonNode where
  | val (v : JsonVal)
  | obj (o : JsonObj)
  | rows (r : List JsonObj)
  deriving DecidableEq, Repr

/-- A document the firmware builds (`JsonDocument`), members in insertion order. -/
abbrev JsonDoc := List (String × JsonNode)

/-- `WiFi.mode` argument. -/
inductive WiFiMode where
  | WIFI_STA
  | WIFI_AP
  | WIFI_AP_STA
  deriving DecidableEq, Repr

/-- One network of a scan: `WiFi.SSID(i)`, `WiFi.RSSI(i)` and whether
`WiFi.encryptionType(i)` is open. -/
structure WiFiNetwork where
  ssid : Str
  rssi : Int
  isOpen : Bool
  deriving DecidableEq, Repr

/-- HTTP method of a request, as far as the route table tells them apart. -/
inductive HttpMethod where
  | HTTP_GET
  | HTTP_POST
  | HTTP_OTHER
  deriving DecidableEq, Repr

/-- A request handed to the web server. `body` is the argument `plain`, absent
when the request has no body, given as the document `deserializeJson` makes of
it (the empty document when the text is not JSON). -/
structure HttpRequest where
  method : HttpMethod
  path : Str
  body : Option JsonObj
  deriving DecidableEq, Repr

/-- The handlers the route table can name. -/
inductive Handler where
  | handleRoot
  | handleScan
  | handleConnect
  | handleStatus
  | handleSaveConfig
  | handleReset
  | handleDashboard
  | handleSystemInfo
  deriving DecidableEq, Repr

/-- The two HTML pages (`generateSetupHTML`, `generateDashboardHTML`). -/
inductive Page where
  | setupPage
  | dashboardPage
  deriving DecidableEq, Repr

/-- Body of an HTTP response. -/
inductive HttpBody where
  | json (d : JsonDoc)
  | text (t : Str)
  | html (p : Page)
  deriving DecidableEq, Repr

/-- The multi-line read-only dumps of the operator channel. -/
inductive Report where
  | status
  | getConfig
  | help
  deriving DecidableEq, Repr

/-- An action of the firmware that is visible outside it. -/
inductive Event where
  | serial (text : Str)
  | serialReport (r : Report) (s : SystemState)
  | serialJson (tag : Str) (d : JsonDoc)
  | nvsPut (key : String) (v : NvsVal)
  | nvsClear
  | wifiMode (m : WiFiMode)
  | wifiSetHostname (name : Str)
  | wifiBegin (ssid pass : Str)
  | wifiReconnect
  | wifiSoftAP (ssid pass : Str) (channel hidden maxConn : Nat)
  | wifiScanDelete
  | dnsStart (port : Nat) (domain : Str) (ip : Str)
  | dnsReply (name : Str) (ip : Str)
  | dnsRefuse (name : Str)
  | configTime (gmtOffset daylightOffset : Int) (server1 server2 : Str)
  | httpBegin
  | httpHeader (name value : Str)
  | httpSend (code : Nat) (contentType : Str) (body : HttpBody)
  | mqttSetServer (host : Str) (port : Int)
  | mqttSetCallback
  | mqttConnect (clientId : Str)
  | mqttLoop
  | mqttPublish (topic : Str) (payload : JsonDoc) (retained : Bool)
  | restart
  deriving DecidableEq, Repr

/-- What the firmware reads from the hardware and the network. The first
argument of an oracle is the true time in milliseconds since power-on. -/
structure Hw where
  /-- Whether `WiFi.status()` is `WL_CONNECTED`. -/
  linkUp : Nat → Bool
  /-- Result of `WiFi.RSSI()`. -/
  wifiRSSI : Nat → Int
  /-- Text of `WiFi.localIP()`. -/
  localIP : Nat → Str
  /-- Text of `WiFi.softAPIP()`, the address of the access point. -/
  softAPIP : Str
  /-- Text of `WiFi.macAddress()`. -/
  macAddress : Str
  /-- Whether `mqttClient.connect` succeeds. -/
  brokerAccepts : Nat → Bool
  /-- Result of `mqttClient.state()`. -/
  brokerState : Nat → Int
  /-- Result of `ESP.getFreeHeap()`. -/
  freeHeap : Nat → Int
  /-- Whether `getLocalTime` succeeds. -/
  timeKnown : Nat → Bool
  /-- Text of the clock time and of the date, when known. -/
  timeText : Nat → Str
  /-- Text of the date. -/
  dateText : Nat → Str
  /-- Networks found by `WiFi.scanNetworks()`. -/
  scan : Nat → List WiFiNetwork
  /-- Result of the k-th `random(lo, hi)` of a call, as an offset from `lo`. -/
  noise : Nat → Nat → Nat
  /-- Result of `analogRead(pin)`. -/
  analogRead : Nat → Nat → Int
  /-- Result of `ESP.getCpuFreqMHz()`. -/
  cpuFreqMHz : Nat
  /-- Result of `ESP.getFlashChipSize()`. -/
  flashChipSize : Nat

/-- A route of the web server: `server.on(path, method, handler)`. -/
structure Route where
  path : Str
  method : HttpMethod
  handler : Handler
  deriving DecidableEq, Repr

/-- The global objects of the sketch. -/
structure World where
  /-- The global `state`. -/
  state : SystemState
  /-- Content of the namespace `iot_config` behind `preferences`. -/
  prefs : Store
  /-- The global `serialBuffer`. -/
  serialBuffer : Str
  /-- The static `lastMqttRetry` of `maintainMQTT`. -/
  lastMqttRetry : Nat
  /-- The static `lastReconnect` of `loop`. -/
  lastReconnect : Nat
  /-- True time in milliseconds. -/
  clock : Nat
  /-- True time of the last power-on or restart. -/
  bootedAt : Nat
  /-- Whether `mqttClient.connected()` holds. -/
  mqttSession : Bool
  /-- Domain and address given to `dnsServer.start`, once started. -/
  dnsConfig : Option (Str × Str)
  /-- Routes registered with `server.on`, in order. -/
  routes : List Route
  /-- Whether `ESP.restart()` has been called. -/
  restarted : Bool
  /-- Everything done so far, oldest first. -/
  out : List Event

/-- The device at power-on at time `t`, over a given content of the store:
globals and statics hold their initial values. -/
def World.powerOn (prefs : Store) (t : Nat) : World :=
  { state := SystemState.zero, prefs := prefs, serialBuffer := [], lastMqttRetry := 0,
    lastReconnect := 0, clock := t, bootedAt := t, mqttSession := false, dnsConfig := none,
    routes := [], restarted := false, out := [] }

/-! ### The primitive updates of the world, one for each field -/

/-- Appends an event to the record of what was done. -/
def emit (e : Event) (w : World) : World := { w with out := w.out ++ [e] }

/-- Assignment to fields of the global `state`. -/
def modState (f : SystemState → SystemState) (w : World) : World := { w with state := f w.state }

/-- Replaces the content of the store. -/
def setPrefs (p : Store) (w : World) : World := { w with prefs := p }

/-- Assignment to `serialBuffer`. -/
def setSerialBuffer (b : Str) (w : World) : World := { w with serialBuffer := b }

/-- Assignment to the static `lastMqttRetry`. -/
def setLastMqttRetry (t : Nat) (w : World) : World := { w with lastMqttRetry := t }

/-- Assignment to the static `lastReconnect`. -/
def setLastReconnect (t : Nat) (w : World) : World := { w with lastReconnect := t }

/-- The broker session comes up or goes down. -/
def setMqttSession (b : Bool) (w : World) : World := { w with mqttSession := b }

/-- The DNS responder is given its domain and address. -/
def setDnsConfig (c : Option (Str × Str)) (w : World) : World := { w with dnsConfig := c }

/-- Replaces the route table. -/
def setRoutes (r : List Route) (w : World) : World := { w with routes := r }

/-- Marks the device as restarting. -/
def setRestarted (w : World) : World := { w with restarted := true }

/-- `delay(ms)`. -/
def delay (ms : Nat) (w : World) : World := { w with clock := w.clock + ms }

/-! ### Derived updates -/

/-- `Serial.print` / `Serial.println` of a text. -/
def println (t : Str) (w : World) : World := emit (Event.serial t) w

/-- `millis()`: the clock as an `unsigned long`. -/
def millis (w : World) : Nat := (w.clock - w.bootedAt) % 2 ^ 32

/-- Difference of two `unsigned long` values. -/
def subU32 (a b : Nat) : Nat := (a + 2 ^ 32 - b % 2 ^ 32) % 2 ^ 32

/-- `ESP.restart()`. -/
def espRestart (w : World) : World := setRestarted (emit Event.restart w)

/-- A write through `preferences.put*`: the store changes and the write is
recorded. -/
def prefsPut (k : String) (v : NvsVal) (w : World) : World :=
  emit (Event.nvsPut k v) (setPrefs (nvsPut w.prefs k v) w)

/-- The value `putBool` writes. -/
def boolVal (b : Bool) : NvsVal := NvsVal.u8 (if b then 1 else 0)

/-- `preferences.clear()`. -/
def prefsClear (w : World) : World := emit Event.nvsClear (setPrefs [] w)

/-! ## Configuration management -/

/-- The assignments of `loadConfiguration()`: every persisted field is read
from the store with its default; the other fields are kept. -/
def loadedState (p : Store) (s : SystemState) : SystemState :=
  { s with
    savedSSID := getString p NVS_KEY_WIFI_SSID []
    savedPassword := getString p NVS_KEY_WIFI_PASS []
    mqttHost := getString p NVS_KEY_MQTT_HOST []
    mqttPort := getInt p NVS_KEY_MQTT_PORT MQTT_PORT
    deviceId := getString p NVS_KEY_DEVICE_ID DEVICE_ID
    readInterval := getInt p NVS_KEY_READ_INTERVAL DEFAULT_READ_INTERVAL
    sensorsEnabled := getUChar p NVS_KEY_SENSORS_ENABLED DEFAULT_SENSORS_ENABLED
    sleepEnabled := getBool p NVS_KEY_SLEEP_ENABLED DEFAULT_SLEEP_ENABLED
    sleepMinutes := getInt p NVS_KEY_SLEEP_MINUTES DEFAULT_SLEEP_MINUTES
    alarmNemMin := getInt p NVS_KEY_ALARM_NEM_MIN DEFAULT_ALARM_NEM_MIN
    alarmNemMax := getInt p NVS_KEY_ALARM_NEM_MAX DEFAULT_ALARM_NEM_MAX
    alarmTempMax := getInt p NVS_KEY_ALARM_TEMP_MAX DEFAULT_ALARM_TEMP_MAX
    ntpServer := getString p NVS_KEY_NTP_SERVER NTP_SERVER
    timezone := getInt p NVS_KEY_TIMEZONE 3
    debugLevel := getInt p NVS_KEY_DEBUG_LEVEL DEFAULT_DEBUG_LEVEL
    ledEnabled := getBool p NVS_KEY_LED_ENABLED DEFAULT_LED_ENABLED }

/-- `loadConfiguration()` (main.cpp 515-557). -/
def loadConfiguration (w : World) : World :=
  let w := println "[NVS] Konfigürasyon yükleniyor..." w
  let w := modState (loadedState w.prefs) w
  let w := println ("[NVS] Device ID: " ++ w.state.deviceId) w
  let w := println ("[NVS] SSID: " ++
    (if w.state.savedSSID.length > 0 then w.state.savedSSID else "(boş)")) w
  let w := println ("[NVS] MQTT: " ++
    (if w.state.mqttHost.length > 0 then w.state.mqttHost else "(boş)")) w
  println ("[NVS] Read Interval: " ++ fmtInt w.state.readInterval ++ "s") w

/-- The writes of `saveConfiguration()`, in the order of the source. -/
def savedEntries (s : SystemState) : List (String × NvsVal) :=
  [ (NVS_KEY_WIFI_SSID, NvsVal.str s.savedSSID),
    (NVS_KEY_WIFI_PASS, NvsVal.str s.savedPassword),
    (NVS_KEY_MQTT_HOST, NvsVal.str s.mqttHost),
    (NVS_KEY_MQTT_PORT, NvsVal.i32 s.mqttPort),
    (NVS_KEY_DEVICE_ID, NvsVal.str s.deviceId),
    (NVS_KEY_CONFIGURED, boolVal true),
    (NVS_KEY_READ_INTERVAL, NvsVal.i32 s.readInterval),
    (NVS_KEY_SENSORS_ENABLED, NvsVal.u8 s.sensorsEnabled),
    (NVS_KEY_SLEEP_ENABLED, boolVal s.sleepEnabled),
    (NVS_KEY_SLEEP_MINUTES, NvsVal.i32 s.sleepMinutes),
    (NVS_KEY_ALARM_NEM_MIN, NvsVal.i32 s.alarmNemMin),
    (NVS_KEY_ALARM_NEM_MAX, NvsVal.i32 s.alarmNemMax),
    (NVS_KEY_ALARM_TEMP_MAX, NvsVal.i32 s.alarmTempMax),
    (NVS_KEY_NTP_SERVER, NvsVal.str s.ntpServer),
    (NVS_KEY_TIMEZONE, NvsVal.i32 s.timezone),
    (NVS_KEY_DEBUG_LEVEL, NvsVal.i32 s.debugLevel),
    (NVS_KEY_LED_ENABLED, boolVal s.ledEnabled) ]

/-- Performs a list of writes, first to last. -/
def prefsPutAll : List (String × NvsVal) → World → World
  | [], w => w
  | (k, v) :: rest, w => prefsPutAll rest (prefsPut k v w)

/-- `saveConfiguration()` (main.cpp 559-588). -/
def saveConfiguration (w : World) : World :=
  let w := println "[NVS] Konfigürasyon kaydediliyor..." w
  let w := prefsPutAll (savedEntries w.state) w
  println "[NVS] Konfigürasyon kaydedildi!" w

/-- The store after a list of writes, first to last. -/
def putAll : List (String × NvsVal) → Store → Store
  | [], s => s
  | (k, v) :: rest, s => putAll rest (nvsPut s k v)

/-! ## JSON access (ArduinoJson) -/

/-- Member `doc[key]` of a request document; null when absent. -/
def jsonGet : JsonObj → String → JsonVal
  | [], _ => JsonVal.null
  | (k', v) :: rest, k => if k' = k then v else jsonGet rest k

/-- `doc.containsKey(key)`. -/
def containsKey : JsonObj → String → Bool
  | [], _ => false
  | (k', _) :: rest, k => if k' = k then true else containsKey rest k

/-- `as<String>()`: the text of a string, the JSON text of any other value. -/
def JsonVal.asString : JsonVal → Str
  | JsonVal.str s => s
  | JsonVal.null => "null"
  | JsonVal.bool b => if b then "true" else "false"
  | JsonVal.int n => fmtInt n

/-- Whether a text is a run of decimal digits. -/
def allDigits (s : Str) : Bool := s.all (fun c => (digitVal c).isSome)

/-- A whole decimal number held in a JSON string, if the text is one. -/
def parseWhole (s : Str) : Option Int :=
  match s with
  | [] => none
  | c :: cs =>
    if c = '-' then
      (if cs ≠ [] ∧ allDigits cs then some (-(readDigits cs 0 : Int)) else none)
    else if allDigits (c :: cs) then some (readDigits (c :: cs) 0 : Int) else none

/-- Range check of `as<int>()`: a number that does not fit a 32-bit `int`
reads as 0. -/
def fitInt (n : Int) : Int := if LONG_MIN ≤ n ∧ n ≤ LONG_MAX then n else 0

/-- `as<int>()`: the number when it fits an `int`, the number a string spells,
0 or 1 for a boolean, 0 otherwise. Numbers with a fraction or an exponent are
outside the model. -/
def JsonVal.asInt : JsonVal → Int
  | JsonVal.int n => fitInt n
  | JsonVal.bool b => if b then 1 else 0
  | JsonVal.str s => match parseWhole s with
    | some n => fitInt n
    | none => 0
  | JsonVal.null => 0

/-! ## Helpers (main.cpp 1872-1903) -/

/-- `getUptimeString()` (main.cpp 1872-1889). -/
def getUptimeString (st : SystemState) : Str :=
  let s := st.uptime / 1000
  let m := s / 60
  let s := s % 60
  let h := m / 60
  let m := m % 60
  let d := h / 24
  let h := h % 24
  let r : Str := []
  let r := if d > 0 then r ++ fmtNat d ++ "g " else r
  let r := if h > 0 ∨ d > 0 then r ++ fmtNat h ++ "s " else r
  let r := if m > 0 ∨ h > 0 ∨ d > 0 then r ++ fmtNat m ++ "d " else r
  r ++ fmtNat s ++ "sn"

/-- `getSignalQuality(rssi)` (main.cpp 1891-1903). -/
def getSignalQuality (rssi : Int) : Int :=
  if rssi ≥ -50 then 100
  else if rssi ≥ -60 then 80
  else if rssi ≥ -70 then 60
  else if rssi ≥ -80 then 40
  else if rssi ≥ -90 then 20
  else 0

/-! ## MQTT management (main.cpp 1442-1567) -/

/-- `setupMQTT()` (main.cpp 1442-1450). -/
def setupMQTT (w : World) : World :=
  if w.state.mqttHost.length = 0 then w
  else
    let w := emit (Event.mqttSetServer w.state.mqttHost w.state.mqttPort) w
    let w := emit Event.mqttSetCallback w
    println ("[MQTT] Sunucu ayarlandı: " ++ w.state.mqttHost ++ ":" ++ fmtInt w.state.mqttPort) w

/-- The document `publishStatus()` builds (main.cpp 1487-1508). -/
def statusDoc (hw : Hw) (w : World) : JsonDoc :=
  [ ("deviceId", JsonNode.val (JsonVal.str w.state.deviceId)),
    ("status", JsonNode.val (JsonVal.str "online")),
    ("ip", JsonNode.val (JsonVal.str (hw.localIP w.clock))),
    ("version", JsonNode.val (JsonVal.str FIRMWARE_VERSION)),
    ("rssi", JsonNode.val (JsonVal.int (hw.wifiRSSI w.clock))),
    ("uptime", JsonNode.val (JsonVal.str (getUptimeString w.state))),
    ("config", JsonNode.obj
      [ ("ssid", JsonVal.str w.state.savedSSID),
        ("mqtt_host", JsonVal.str w.state.mqttHost),
        ("mqtt_port", JsonVal.int w.state.mqttPort),
        ("read_interval", JsonVal.int DEFAULT_READ_INTERVAL),
        ("ntp_server", JsonVal.str "tr.pool.ntp.org"),
        ("sleep_mode", JsonVal.str "Deaktif") ]),
    ("sensors", JsonNode.obj
      [ ("nem", JsonVal.int (45 + (hw.noise w.clock 0 % 10 : Nat))),
        ("sicaklik", JsonVal.int (23 + (hw.noise w.clock 1 % 2 : Nat))) ]) ]

/-- Topic of the status message. -/
def statusTopic (w : World) : Str := "iot_esp_101/devices/" ++ w.state.deviceId ++ "/status"

/-- Topic of the sensor message. -/
def sensorsTopic (w : World) : Str := "iot_esp_101/devices/" ++ w.state.deviceId ++ "/sensors"

/-- `publishStatus()` (main.cpp 1483-1516). -/
def publishStatus (hw : Hw) (w : World) : World :=
  if ¬ w.mqttSession then w
  else
    let w := emit (Event.mqttPublish (statusTopic w) (statusDoc hw w) true) w
    println ("[MQTT] Status gönderildi: " ++ statusTopic w) w

/-- The document `publishSensors()` builds (main.cpp 1520-1533). -/
def sensorsDoc (hw : Hw) (w : World) : JsonDoc :=
  [ ("serial_type", JsonNode.val (JsonVal.str "status")),
    ("deviceId", JsonNode.val (JsonVal.str w.state.deviceId)),
    ("timestamp", JsonNode.val (JsonVal.int (millis w))),
    ("sensors", JsonNode.obj
      [ ("nem", JsonVal.int (45 + (hw.noise w.clock 0 % 10 : Nat))),
        ("sicaklik", JsonVal.int (23 + (hw.noise w.clock 1 % 2 : Nat))),
        ("uv", JsonVal.int (hw.analogRead w.clock PIN_UV_ANALOG)),
        ("yagmur", JsonVal.int (hw.analogRead w.clock PIN_RAIN_ANALOG)),
        ("toprak_nem", JsonVal.int (hw.analogRead w.clock PIN_SOIL_MOISTURE)) ]) ]

/-- `publishSensors()` (main.cpp 1518-1557). -/
def publishSensors (hw : Hw) (w : World) : World :=
  let doc := sensorsDoc hw w
  let w := emit (Event.serialJson "JSON_STATUS:" doc) w
  let w := if w.mqttSession then emit (Event.mqttPublish (sensorsTopic w) doc false) w else w
  let w := println "[MQTT/SERIAL] Sensör Verisi Okundu:" w
  let w := println ("  > UV: " ++ fmtInt (hw.analogRead w.clock PIN_UV_ANALOG)) w
  let w := println ("  > Yagmur: " ++ fmtInt (hw.analogRead w.clock PIN_RAIN_ANALOG)) w
  let w := println ("  > Toprak Nem: " ++ fmtInt (hw.analogRead w.clock PIN_SOIL_MOISTURE)) w
  println "-------------------------" w

/-- Sets `state.mqttConnected`. -/
def setMqttConnected (b : Bool) (w : World) : World :=
  modState (fun s => { s with mqttConnected := b }) w

/-- The connection attempt of `maintainMQTT()` (main.cpp 1460-1471). -/
def mqttAttempt (hw : Hw) (w : World) : World :=
  let w := setLastMqttRetry (millis w) w
  let w := println "[MQTT] Bağlanılıyor..." w
  let w := emit (Event.mqttConnect ("Deneyap-" ++ w.state.deviceId)) w
  if hw.brokerAccepts w.clock then
    let w := setMqttSession true w
    let w := println " Bağlandı!" w
    let w := setMqttConnected true w
    publishStatus hw w
  else
    let w := println (" Başarısız, rc=" ++ fmtInt (hw.brokerState w.clock)) w
    setMqttConnected false w

/-- `maintainMQTT()` (main.cpp 1452-1481). -/
def maintainMQTT (hw : Hw) (w : World) : World :=
  if w.state.mode ≠ SystemMode.MODE_RUNNING ∨ w.state.mqttHost.length = 0 ∨
      ¬ w.state.wifiConnected then w
  else if ¬ w.mqttSession then
    if subU32 (millis w) w.lastMqttRetry > 5000 then mqttAttempt hw w else w
  else
    let w := emit Event.mqttLoop w
    let w := setMqttConnected true w
    let w := publishSensors hw w
    delay 500 w

/-! ## WiFi management (main.cpp 593-650) -/

/-- The polling loop of `connectToWiFi()` and of `handleConnect()`:
`while (WiFi.status() != WL_CONNECTED && millis() - startTime < TIMEOUT)`
with `delay(500)` and a dot in the body. `rounds` bounds the number of passes;
`WIFI_CONNECT_TIMEOUT_MS / 500` passes exhaust the timeout. `lineEvery` is 40
where the source breaks the line after every 40 dots and 0 where it does not. -/
def waitForLink (hw : Hw) (startTime lineEvery : Nat) : (rounds dots : Nat) → World → World
  | 0, _, w => w
  | n + 1, dots, w =>
    if ¬ hw.linkUp w.clock ∧ subU32 (millis w) startTime < WIFI_CONNECT_TIMEOUT_MS then
      let w := delay 500 w
      let w := println "." w
      let w := if lineEvery ≠ 0 ∧ (dots + 1) % lineEvery = 0 then println [] w else w
      waitForLink hw startTime lineEvery n (dots + 1) w
    else w

/-- Number of passes after which the timeout of the polling loop has elapsed. -/
def CONNECT_ROUNDS : Nat := WIFI_CONNECT_TIMEOUT_MS / 500

/-- `connectToWiFi()` (main.cpp 593-623): the result and the world after it. -/
def connectToWiFi (hw : Hw) (w : World) : Bool × World :=
  let w := println ("[WiFi] Bağlanılıyor: " ++ w.state.savedSSID) w
  let w := emit (Event.wifiMode WiFiMode.WIFI_STA) w
  let w := emit (Event.wifiSetHostname DEVICE_ID) w
  let w := emit (Event.wifiBegin w.state.savedSSID w.state.savedPassword) w
  let startTime := millis w
  let w := waitForLink hw startTime 40 CONNECT_ROUNDS 0 w
  let w := println [] w
  if hw.linkUp w.clock then
    let w := modState (fun s => { s with wifiConnected := true, rssi := hw.wifiRSSI w.clock }) w
    let w := println "[WiFi] Bağlantı başarılı!" w
    let w := println ("[WiFi] IP: " ++ hw.localIP w.clock) w
    (true, w)
  else
    (false, println "[WiFi] Bağlantı başarısız!" w)

/-- `startAPMode()` (main.cpp 625-641). -/
def startAPMode (hw : Hw) (w : World) : World :=
  let w := println "[AP] Access Point başlatılıyor..." w
  let w := modState (fun s => { s with mode := SystemMode.MODE_SETUP }) w
  let w := emit (Event.wifiMode WiFiMode.WIFI_AP) w
  let w := emit (Event.wifiSoftAP AP_SSID AP_PASSWORD AP_CHANNEL 0 AP_MAX_CONNECTIONS) w
  let w := setDnsConfig (some ("*", hw.softAPIP)) w
  let w := emit (Event.dnsStart DNS_PORT "*" hw.softAPIP) w
  let w := println ("[AP] SSID: " ++ AP_SSID) w
  let w := println ("[AP] Şifre: " ++ AP_PASSWORD) w
  let w := println ("[AP] IP: " ++ hw.softAPIP) w
  println ("[AP] Kurulum için http://" ++ hw.softAPIP ++ " adresine gidin") w

/-- The retry loop of `setupNTP()`:
`while (!getLocalTime(&timeinfo) && retry < 10)`. Ten passes exhaust `retry`. -/
def ntpWait (hw : Hw) : (rounds retry : Nat) → World → Nat × World
  | 0, retry, w => (retry, w)
  | n + 1, retry, w =>
    if ¬ hw.timeKnown w.clock ∧ retry < 10 then
      ntpWait hw n (retry + 1) (delay 1000 (println "." w))
    else (retry, w)

/-- `setupNTP()` (main.cpp 655-680). -/
def setupNTP (hw : Hw) (w : World) : World :=
  let w := println "[NTP] Saat senkronizasyonu (İstanbul UTC+3)..." w
  let w := emit (Event.configTime NTP_GMT_OFFSET NTP_DAYLIGHT_OFFSET "tr.pool.ntp.org" "pool.ntp.org") w
  let r := ntpWait hw 10 0 w
  let w := println [] r.2
  if r.1 < 10 then
    let w := modState (fun s => { s with ntpSynced := true }) w
    println ("[NTP] Senkronize: " ++ hw.dateText w.clock ++ " " ++ hw.timeText w.clock) w
  else
    let w := modState (fun s => { s with ntpSynced := false }) w
    println "[NTP] Senkronizasyon başarısız!" w

/-- `startStationMode()` (main.cpp 643-650). -/
def startStationMode (hw : Hw) (w : World) : World :=
  let w := println "[STA] Station modu başlatılıyor..." w
  let w := modState (fun s => { s with mode := SystemMode.MODE_RUNNING }) w
  setupNTP hw w

/-! ## Web server (main.cpp 685-923) -/

/-- `server.on(path, method, handler)`. -/
def serverOn (path : Str) (m : HttpMethod) (h : Handler) (w : World) : World :=
  setRoutes (w.routes ++ [{ path := path, method := m, handler := h }]) w

/-- `setupWebServer()` (main.cpp 685-712). -/
def setupWebServer (w : World) : World :=
  let w := println "[WEB] Sunucu başlatılıyor..." w
  let w := serverOn "/status" HttpMethod.HTTP_GET Handler.handleStatus w
  let w := serverOn "/reset" HttpMethod.HTTP_POST Handler.handleReset w
  let w :=
    if w.state.mode = SystemMode.MODE_SETUP then
      let w := serverOn "/" HttpMethod.HTTP_GET Handler.handleRoot w
      let w := serverOn "/scan" HttpMethod.HTTP_GET Handler.handleScan w
      let w := serverOn "/connect" HttpMethod.HTTP_POST Handler.handleConnect w
      let w := serverOn "/save" HttpMethod.HTTP_POST Handler.handleSaveConfig w
      let w := serverOn "/generate_204" HttpMethod.HTTP_GET Handler.handleRoot w
      serverOn "/fwlink" HttpMethod.HTTP_GET Handler.handleRoot w
    else
      let w := serverOn "/" HttpMethod.HTTP_GET Handler.handleDashboard w
      serverOn "/api/system" HttpMethod.HTTP_GET Handler.handleSystemInfo w
  let w := emit Event.httpBegin w
  println "[WEB] Sunucu başlatıldı (Port: 80)" w

/-- The body of a result answer: `success`, `message` and, when given, `ip`. -/
def resultDoc (success : Bool) (message : Str) (ip : Option Str) : JsonDoc :=
  [ ("success", JsonNode.val (JsonVal.bool success)),
    ("message", JsonNode.val (JsonVal.str message)) ] ++
  (match ip with
   | some a => [("ip", JsonNode.val (JsonVal.str a))]
   | none => [])

/-- `server.send(code, "application/json", body)`. -/
def sendJson (code : Nat) (d : JsonDoc) (w : World) : World :=
  emit (Event.httpSend code "application/json" (HttpBody.json d)) w

/-- `handleRoot()` (main.cpp 717). -/
def handleRoot (w : World) : World :=
  emit (Event.httpSend 200 "text/html" (HttpBody.html Page.setupPage)) w

/-- One row of the scan answer (main.cpp 729-733). -/
def scanRow (n : WiFiNetwork) : JsonObj :=
  [ ("ssid", JsonVal.str n.ssid), ("rssi", JsonVal.int n.rssi),
    ("secure", JsonVal.bool (!n.isOpen)), ("quality", JsonVal.int (getSignalQuality n.rssi)) ]

/-- `handleScan()` (main.cpp 719-743). -/
def handleScan (hw : Hw) (w : World) : World :=
  let w := println "[WiFi] Ağlar taranıyor..." w
  let nets := hw.scan w.clock
  let w := println ("[WiFi] " ++ fmtNat nets.length ++ " ağ bulundu") w
  let doc : JsonDoc :=
    [ ("networks", JsonNode.rows (nets.map scanRow)),
      ("count", JsonNode.val (JsonVal.int nets.length)) ]
  let w := sendJson 200 doc w
  emit Event.wifiScanDelete w

/-- `handleConnect()` (main.cpp 745-797). -/
def handleConnect (hw : Hw) (body : Option JsonObj) (w : World) : World :=
  match body with
  | none => sendJson 400 (resultDoc false "No data" none) w
  | some doc =>
    let ssid := (jsonGet doc "ssid").asString
    let password := (jsonGet doc "password").asString
    let w := println ("[WiFi] Bağlanılıyor: " ++ ssid) w
    let w := emit (Event.wifiMode WiFiMode.WIFI_AP_STA) w
    let w := emit (Event.wifiBegin ssid password) w
    let startTime := millis w
    let w := waitForLink hw startTime 0 CONNECT_ROUNDS 0 w
    let w := println [] w
    if hw.linkUp w.clock then
      let w := modState (fun s => { s with savedSSID := ssid, savedPassword := password,
                                           wifiConnected := true }) w
      let w := println ("[WiFi] Bağlandı! IP: " ++ hw.localIP w.clock) w
      sendJson 200 (resultDoc true "Bağlantı başarılı!" (some (hw.localIP w.clock))) w
    else
      let w := emit (Event.wifiMode WiFiMode.WIFI_AP) w
      let w := println "[WiFi] Bağlantı başarısız!" w
      sendJson 200 (resultDoc false "Bağlantı başarısız! Şifreyi kontrol edin." none) w

/-- `handleSaveConfig()` (main.cpp 799-834). -/
def handleSaveConfig (body : Option JsonObj) (w : World) : World :=
  match body with
  | none => sendJson 400 (resultDoc false "No data" none) w
  | some doc =>
    let w := if containsKey doc "mqttHost" then
        modState (fun s => { s with mqttHost := (jsonGet doc "mqttHost").asString }) w else w
    let w := if containsKey doc "mqttPort" then
        modState (fun s => { s with mqttPort := (jsonGet doc "mqttPort").asInt }) w else w
    let w := saveConfiguration w
    let w := setupMQTT w
    let w := sendJson 200
      (resultDoc true "Ayarlar kaydedildi! Cihaz yeniden başlatılıyor..." none) w
    let w := delay 1000 w
    espRestart w

/-- Address the device reports: the access point's in Setup mode, the
station's otherwise. -/
def shownIP (hw : Hw) (w : World) : Str :=
  if w.state.mode = SystemMode.MODE_SETUP then hw.softAPIP else hw.localIP w.clock

/-- `handleStatus()` (main.cpp 836-853). -/
def handleStatus (hw : Hw) (w : World) : World :=
  let doc : JsonDoc :=
    [ ("mode", JsonNode.val (JsonVal.str
        (if w.state.mode = SystemMode.MODE_SETUP then "setup" else "running"))),
      ("wifiConnected", JsonNode.val (JsonVal.bool w.state.wifiConnected)),
      ("ssid", JsonNode.val (JsonVal.str w.state.savedSSID)),
      ("ip", JsonNode.val (JsonVal.str (shownIP hw w))),
      ("mqttHost", JsonNode.val (JsonVal.str w.state.mqttHost)),
      ("mqttPort", JsonNode.val (JsonVal.int w.state.mqttPort)),
      ("uptime", JsonNode.val (JsonVal.str (getUptimeString w.state))),
      ("freeHeap", JsonNode.val (JsonVal.int w.state.freeHeap)),
      ("firmware", JsonNode.val (JsonVal.str FIRMWARE_VERSION)) ]
  sendJson 200 doc w

/-- `handleReset()` (main.cpp 855-868). -/
def handleReset (w : World) : World :=
  let w := println "[SYS] Fabrika ayarlarına dönülüyor..." w
  let w := prefsClear w
  let w := sendJson 200 (resultDoc true "Ayarlar silindi, yeniden başlatılıyor..." none) w
  let w := delay 1000 w
  espRestart w

/-- `handleDashboard()` (main.cpp 873-875). -/
def handleDashboard (w : World) : World :=
  emit (Event.httpSend 200 "text/html" (HttpBody.html Page.dashboardPage)) w

/-- `handleSystemInfo()` (main.cpp 877-913). -/
def handleSystemInfo (hw : Hw) (w : World) : World :=
  let doc : JsonDoc :=
    [ ("time", JsonNode.val (JsonVal.str (hw.timeText w.clock))),
      ("date", JsonNode.val (JsonVal.str (hw.dateText w.clock))),
      ("ntpSynced", JsonNode.val (JsonVal.bool w.state.ntpSynced)),
      ("ip", JsonNode.val (JsonVal.str (hw.localIP w.clock))),
      ("mac", JsonNode.val (JsonVal.str hw.macAddress)),
      ("ssid", JsonNode.val (JsonVal.str w.state.savedSSID)),
      ("rssi", JsonNode.val (JsonVal.int (hw.wifiRSSI w.clock))),
      ("signalQuality", JsonNode.val (JsonVal.int (getSignalQuality (hw.wifiRSSI w.clock)))),
      ("wifiConnected", JsonNode.val (JsonVal.bool w.state.wifiConnected)),
      ("deviceName", JsonNode.val (JsonVal.str "iot_esp_101 iot_esp_101 Sistemi")),
      ("deviceId", JsonNode.val (JsonVal.str DEVICE_ID)),
      ("firmware", JsonNode.val (JsonVal.str FIRMWARE_VERSION)),
      ("uptime", JsonNode.val (JsonVal.str (getUptimeString w.state))),
      ("mode", JsonNode.val (JsonVal.str "running")),
      ("freeHeap", JsonNode.val (JsonVal.int (hw.freeHeap w.clock))),
      ("cpuFreq", JsonNode.val (JsonVal.int hw.cpuFreqMHz)),
      ("flashSize", JsonNode.val (JsonVal.int (hw.flashChipSize / (1024 * 1024)))),
      ("mqttHost", JsonNode.val (JsonVal.str w.state.mqttHost)),
      ("mqttPort", JsonNode.val (JsonVal.int w.state.mqttPort)),
      ("mqttConnected", JsonNode.val (JsonVal.bool w.state.mqttConnected)) ]
  sendJson 200 doc w

/-- `handleNotFound()` (main.cpp 915-923). -/
def handleNotFound (hw : Hw) (w : World) : World :=
  if w.state.mode = SystemMode.MODE_SETUP then
    let w := emit (Event.httpHeader "Location" ("http://" ++ hw.softAPIP)) w
    emit (Event.httpSend 302 "text/plain" (HttpBody.text [])) w
  else
    emit (Event.httpSend 404 "text/plain" (HttpBody.text "404 - Sayfa Bulunamadi")) w

/-- Runs the handler a route names. -/
def runHandler (hw : Hw) (h : Handler) (body : Option JsonObj) (w : World) : World :=
  match h with
  | Handler.handleRoot => handleRoot w
  | Handler.handleScan => handleScan hw w
  | Handler.handleConnect => handleConnect hw body w
  | Handler.handleStatus => handleStatus hw w
  | Handler.handleSaveConfig => handleSaveConfig body w
  | Handler.handleReset => handleReset w
  | Handler.handleDashboard => handleDashboard w
  | Handler.handleSystemInfo => handleSystemInfo hw w

/-- The first route that matches the method and the path of a request. -/
def findRoute : List Route → HttpRequest → Option Handler
  | [], _ => none
  | r :: rest, q => if r.method = q.method ∧ r.path = q.path then some r.handler
                    else findRoute rest q

/-- `server.handleClient()`: serves the pending request, if there is one, with
the first matching route, or with `handleNotFound`. -/
def handleClient (hw : Hw) (req : Option HttpRequest) (w : World) : World :=
  match req with
  | none => w
  | some q =>
    match findRoute w.routes q with
    | some h => runHandler hw h q.body w
    | none => handleNotFound hw w

/-- `dnsServer.processNextRequest()`: answers the pending query, if there is
one and the responder was started, with the configured address when the
configured domain is the wildcard or the queried name. -/
def dnsProcessNextRequest (query : Option Str) (w : World) : World :=
  match query, w.dnsConfig with
  | some name, some (domain, ip) =>
    if domain = "*" ∨ domain = name then emit (Event.dnsReply name ip) w
    else emit (Event.dnsRefuse name) w
  | _, _ => w

/-! ## Serial command processing (main.cpp 197-510) -/

/-- The document printed after `JSON_STATUS:` by the STATUS command
(main.cpp 251-264). -/
def serialStatusDoc (hw : Hw) (w : World) : JsonDoc :=
  [ ("serial_type", JsonNode.val (JsonVal.str "status")),
    ("deviceId", JsonNode.val (JsonVal.str w.state.deviceId)),
    ("ip", JsonNode.val (JsonVal.str (hw.localIP w.clock))),
    ("version", JsonNode.val (JsonVal.str FIRMWARE_VERSION)),
    ("rssi", JsonNode.val (JsonVal.int (hw.wifiRSSI w.clock))),
    ("uptime", JsonNode.val (JsonVal.str (getUptimeString w.state))),
    ("config", JsonNode.obj
      [ ("ssid", JsonVal.str w.state.savedSSID),
        ("mqtt_host", JsonVal.str w.state.mqttHost),
        ("mqtt_port", JsonVal.int w.state.mqttPort),
        ("read_interval", JsonVal.int w.state.readInterval),
        ("sleep_mode", JsonVal.str (if w.state.sleepEnabled then "Aktif" else "Deaktif")) ]) ]

/-- STATUS (main.cpp 223-269): the dump, one event for its lines, and the
JSON line. -/
def cmdStatus (hw : Hw) (w : World) : World :=
  let w := emit (Event.serialReport Report.status w.state) w
  emit (Event.serialJson "JSON_STATUS:" (serialStatusDoc hw w)) w

/-- GET_CONFIG (main.cpp 272-303): the dump, one event for its lines. -/
def cmdGetConfig (w : World) : World :=
  emit (Event.serialReport Report.getConfig w.state) w

/-- RESTART (main.cpp 306-311). -/
def cmdRestart (w : World) : World :=
  let w := println "[CMD] Cihaz yeniden başlatılıyor..." w
  let w := delay 500 w
  espRestart w

/-- RESET (main.cpp 314-322). -/
def cmdReset (w : World) : World :=
  let w := println "[CMD] Fabrika ayarlarına dönülüyor..." w
  let w := prefsClear w
  let w := println "[CMD] Ayarlar silindi, yeniden başlatılıyor..." w
  let w := delay 500 w
  espRestart w

/-- The line SCAN prints for the network at position `i` (main.cpp 330-332). -/
def scanLine (i : Nat) (n : WiFiNetwork) : Str :=
  fmtNat (i + 1) ++ ". " ++ n.ssid ++ " (" ++ fmtInt n.rssi ++ " dBm)" ++
    (if n.isOpen then ([] : Str) else " 🔒")

/-- Prints the lines of SCAN from position `i` on. -/
def printScan : List WiFiNetwork → Nat → World → World
  | [], _, w => w
  | n :: rest, i, w => printScan rest (i + 1) (println (scanLine i n) w)

/-- SCAN (main.cpp 325-336). -/
def cmdScan (hw : Hw) (w : World) : World :=
  let w := println "[CMD] WiFi ağları taranıyor..." w
  let nets := hw.scan w.clock
  let w := println ("=== BULUNAN AĞLAR (" ++ fmtNat nets.length ++ ") ===") w
  let w := printScan nets 0 w
  let w := println "=========================" w
  emit Event.wifiScanDelete w

/-- SET_WIFI (main.cpp 339-351), on the text after the verb. -/
def cmdSetWifi (params : Str) (w : World) : World :=
  let commaIndex := indexOf params ','
  if commaIndex > 0 then
    let w := modState (fun s => { s with savedSSID := substring params 0 commaIndex.toNat }) w
    let w := modState (fun s =>
      { s with savedPassword := substringFrom params (commaIndex.toNat + 1) }) w
    let w := saveConfiguration w
    println ("[CMD] WiFi ayarları kaydedildi! SSID: " ++ w.state.savedSSID) w
  else
    println "[CMD] HATA: Format: SET_WIFI:ssid,password" w

/-- SET_MQTT (main.cpp 354-368). -/
def cmdSetMqtt (params : Str) (w : World) : World :=
  let commaIndex := indexOf params ','
  if commaIndex > 0 then
    let w := modState (fun s => { s with mqttHost := substring params 0 commaIndex.toNat }) w
    let w := modState (fun s =>
      { s with mqttPort := toInt (substringFrom params (commaIndex.toNat + 1)) }) w
    let w := if w.state.mqttPort ≤ 0 then modState (fun s => { s with mqttPort := 1883 }) w
             else w
    let w := saveConfiguration w
    println ("[CMD] MQTT ayarları kaydedildi! " ++ w.state.mqttHost ++ ":" ++
      fmtInt w.state.mqttPort) w
  else
    println "[CMD] HATA: Format: SET_MQTT:host,port" w

/-- SET_DEVICE_ID (main.cpp 371-377), on the whole command. -/
def cmdSetDeviceId (cmd : Str) (w : World) : World :=
  let w := modState (fun s => { s with deviceId := substringFrom cmd 14 }) w
  let w := modState (fun s => { s with deviceId := trim s.deviceId }) w
  let w := saveConfiguration w
  println ("[CMD] Device ID kaydedildi: " ++ w.state.deviceId) w

/-- SET_READ_INTERVAL (main.cpp 380-390), on the whole command. -/
def cmdSetReadInterval (cmd : Str) (w : World) : World :=
  let val := toInt (substringFrom cmd 18)
  if val ≥ 5 ∧ val ≤ 3600 then
    let w := modState (fun s => { s with readInterval := val }) w
    let w := saveConfiguration w
    println ("[CMD] Okuma aralığı: " ++ fmtInt val ++ " saniye") w
  else
    println "[CMD] HATA: Değer 5-3600 arası olmalı" w

/-- The loop of SET_SENSORS (main.cpp 397-402):
`for (i = 0; i < 4 && idx < params.length(); i++)`, with `steps = 4 - i`. -/
def sensorLoop (params : Str) : (steps i idx sensors : Nat) → Nat
  | 0, _, _, sensors => sensors
  | n + 1, i, idx, sensors =>
    if idx < params.length then
      let sensors :=
        if params.get? idx = some '1' then (sensors ||| (1 <<< i)) % 256 else sensors
      sensorLoop params n (i + 1) (idx + 2) sensors
    else sensors

/-- SET_SENSORS (main.cpp 393-409). -/
def cmdSetSensors (params : Str) (w : World) : World :=
  let sensors := sensorLoop params 4 0 0 0
  let w := modState (fun s => { s with sensorsEnabled := sensors }) w
  let w := saveConfiguration w
  println ("[CMD] Sensörler: " ++ fmtBin sensors ++ " (N:" ++ fmtNat (sensors &&& 1) ++
    " S:" ++ fmtNat ((sensors >>> 1) &&& 1) ++ " U:" ++ fmtNat ((sensors >>> 2) &&& 1) ++
    " Y:" ++ fmtNat ((sensors >>> 3) &&& 1) ++ ")") w

/-- SET_SLEEP (main.cpp 412-427). -/
def cmdSetSleep (params : Str) (w : World) : World :=
  let commaIndex := indexOf params ','
  if commaIndex > 0 then
    let w := modState (fun s =>
      { s with sleepEnabled := decide (substring params 0 commaIndex.toNat = "1") }) w
    let w := modState (fun s =>
      { s with sleepMinutes := toInt (substringFrom params (commaIndex.toNat + 1)) }) w
    let w := if w.state.sleepMinutes < 1 then modState (fun s => { s with sleepMinutes := 5 }) w
             else w
    let w := saveConfiguration w
    println ("[CMD] Sleep: " ++ (if w.state.sleepEnabled then "Aktif" else "Pasif") ++ ", " ++
      fmtInt w.state.sleepMinutes ++ " dakika") w
  else
    println "[CMD] HATA: Format: SET_SLEEP:0/1,dakika" w

/-- SET_ALARMS (main.cpp 430-445). -/
def cmdSetAlarms (params : Str) (w : World) : World :=
  let c1 := indexOf params ','
  let c2 := indexOfFrom params ',' (c1 + 1).toNat
  if c1 > 0 ∧ c2 > c1 then
    let w := modState (fun s => { s with alarmNemMin := toInt (substring params 0 c1.toNat) }) w
    let w := modState (fun s =>
      { s with alarmNemMax := toInt (substring params (c1.toNat + 1) c2.toNat) }) w
    let w := modState (fun s =>
      { s with alarmTempMax := toInt (substringFrom params (c2.toNat + 1)) }) w
    let w := saveConfiguration w
    println ("[CMD] Alarmlar: Nem " ++ fmtInt w.state.alarmNemMin ++ "-" ++
      fmtInt w.state.alarmNemMax ++ "%, Temp <" ++ fmtInt w.state.alarmTempMax ++ "C") w
  else
    println "[CMD] HATA: Format: SET_ALARMS:nem_min,nem_max,temp_max" w

/-- SET_NTP (main.cpp 448-460). -/
def cmdSetNtp (params : Str) (w : World) : World :=
  let commaIndex := indexOf params ','
  if commaIndex > 0 then
    let w := modState (fun s => { s with ntpServer := substring params 0 commaIndex.toNat }) w
    let w := modState (fun s =>
      { s with timezone := toInt (substringFrom params (commaIndex.toNat + 1)) }) w
    let w := saveConfiguration w
    println ("[CMD] NTP: " ++ w.state.ntpServer ++ ", GMT" ++
      (if w.state.timezone ≥ 0 then ("+" : Str) else []) ++ fmtInt w.state.timezone) w
  else
    println "[CMD] HATA: Format: SET_NTP:server,timezone" w

/-- Names of the debug levels (main.cpp 468). -/
def debugLevelName (val : Int) : Str :=
  if val = 0 then "Off" else if val = 1 then "Error" else if val = 2 then "Info" else "Verbose"

/-- SET_DEBUG (main.cpp 463-473), on the whole command. -/
def cmdSetDebug (cmd : Str) (w : World) : World :=
  let val := toInt (substringFrom cmd 10)
  if val ≥ 0 ∧ val ≤ 3 then
    let w := modState (fun s => { s with debugLevel := val }) w
    let w := saveConfiguration w
    println ("[CMD] Debug seviyesi: " ++ debugLevelName val) w
  else
    println "[CMD] HATA: 0=Off, 1=Error, 2=Info, 3=Verbose" w

/-- SET_LED (main.cpp 476-481), on the whole command. -/
def cmdSetLed (cmd : Str) (w : World) : World :=
  let w := modState (fun s => { s with ledEnabled := decide (substringFrom cmd 8 = "1") }) w
  let w := saveConfiguration w
  println ("[CMD] LED: " ++ (if w.state.ledEnabled then "Açık" else "Kapalı")) w

/-- HELP (main.cpp 484-504): the dump, one event for its lines. -/
def cmdHelp (w : World) : World :=
  emit (Event.serialReport Report.help w.state) w

/-- The final `else` of the dispatch (main.cpp 507-509). -/
def cmdUnknown (w : World) : World :=
  println "[CMD] Bilinmeyen komut. 'HELP' yazın." w

/-- The dispatch of `handleSerialCommand` on the trimmed command
(main.cpp 223-509). -/
def dispatchCommand (hw : Hw) (cmd : Str) (w : World) : World :=
  if cmd = "STATUS" ∨ cmd = "status" then cmdStatus hw w
  else if cmd = "GET_CONFIG" ∨ cmd = "get_config" then cmdGetConfig w
  else if cmd = "RESTART" ∨ cmd = "restart" ∨ cmd = "REBOOT" ∨ cmd = "reboot" then cmdRestart w
  else if cmd = "RESET" ∨ cmd = "reset" ∨ cmd = "FACTORY_RESET" then cmdReset w
  else if cmd = "SCAN" ∨ cmd = "scan" then cmdScan hw w
  else if startsWith cmd "SET_WIFI:" ∨ startsWith cmd "set_wifi:" then
    cmdSetWifi (substringFrom cmd 9) w
  else if startsWith cmd "SET_MQTT:" ∨ startsWith cmd "set_mqtt:" then
    cmdSetMqtt (substringFrom cmd 9) w
  else if startsWith cmd "SET_DEVICE_ID:" ∨ startsWith cmd "set_device_id:" then
    cmdSetDeviceId cmd w
  else if startsWith cmd "SET_READ_INTERVAL:" ∨ startsWith cmd "set_read_interval:" then
    cmdSetReadInterval cmd w
  else if startsWith cmd "SET_SENSORS:" ∨ startsWith cmd "set_sensors:" then
    cmdSetSensors (substringFrom cmd 12) w
  else if startsWith cmd "SET_SLEEP:" ∨ startsWith cmd "set_sleep:" then
    cmdSetSleep (substringFrom cmd 10) w
  else if startsWith cmd "SET_ALARMS:" ∨ startsWith cmd "set_alarms:" then
    cmdSetAlarms (substringFrom cmd 11) w
  else if startsWith cmd "SET_NTP:" ∨ startsWith cmd "set_ntp:" then
    cmdSetNtp (substringFrom cmd 8) w
  else if startsWith cmd "SET_DEBUG:" ∨ startsWith cmd "set_debug:" then cmdSetDebug cmd w
  else if startsWith cmd "SET_LED:" ∨ startsWith cmd "set_led:" then cmdSetLed cmd w
  else if cmd = "HELP" ∨ cmd = "help" ∨ cmd = "?" then cmdHelp w
  else cmdUnknown w

/-- `handleSerialCommand(cmd)` (main.cpp 218-510). -/
def handleSerialCommand (hw : Hw) (cmd : Str) (w : World) : World :=
  let cmd := trim cmd
  let w := println ("[CMD] Alındı: " ++ cmd) w
  dispatchCommand hw cmd w

/-- One pass of the loop of `processSerialCommands()` for the character read
(main.cpp 201-214). -/
def serialChar (hw : Hw) (c : Char) (w : World) : World :=
  if c = Char.ofNat 10 ∨ c = Char.ofNat 13 then
    if w.serialBuffer.length > 0 then
      let w := handleSerialCommand hw w.serialBuffer w
      if w.restarted then w else setSerialBuffer [] w
    else w
  else
    let w := setSerialBuffer (w.serialBuffer ++ [c]) w
    if w.serialBuffer.length > 256 then setSerialBuffer [] w else w

/-- `processSerialCommands()` (main.cpp 199-216) over the characters that are
available; it stops where a command restarts the device. -/
def processSerialCommands (hw : Hw) : List Char → World → World
  | [], w => w
  | c :: cs, w =>
    let w := serialChar hw c w
    if w.restarted then w else processSerialCommands hw cs w

/-! ## Setup and loop (main.cpp 118-192) -/

/-- The start of `setup()` (main.cpp 119-129): the banner and
`loadConfiguration()`. -/
def setupBegin (w : World) : World :=
  let w := delay 1000 w
  let w := println "iot_esp_101 Sistemi - Deneyap Kart, Firmware v1.0.0" w
  loadConfiguration w

/-- The decision of `setup()` (main.cpp 132-145). -/
def setupLink (hw : Hw) (w : World) : World :=
  if w.state.savedSSID.length > 0 then
    let w := println ("[BOOT] Kayıtlı WiFi bulundu: " ++ w.state.savedSSID) w
    let r := connectToWiFi hw w
    if r.1 then startStationMode hw r.2
    else
      startAPMode hw
        (println "[BOOT] WiFi bağlantısı başarısız, kurulum moduna geçiliyor..." r.2)
  else
    startAPMode hw (println "[BOOT] Kayıtlı WiFi yok, kurulum moduna geçiliyor..." w)

/-- `setup()` (main.cpp 118-154). -/
def setup (hw : Hw) (w : World) : World :=
  let w := setupBegin w
  let w := setupLink hw w
  let w := setupWebServer w
  let w := setupMQTT w
  println "[READY] Sistem hazır!" w

/-- What arrives during one pass of `loop()`: a DNS query, an HTTP request and
serial characters, each possibly absent. -/
structure LoopInput where
  dnsQuery : Option Str
  request : Option HttpRequest
  serialIn : List Char
  deriving DecidableEq, Repr

/-- The reconnection step of `loop()` (main.cpp 183-188). -/
def reconnectStep (w : World) : World :=
  if ¬ w.state.wifiConnected ∧ subU32 (millis w) w.lastReconnect > 10000 then
    let w := setLastReconnect (millis w) w
    let w := println "[WiFi] Bağlantı koptu, yeniden bağlanılıyor..." w
    emit Event.wifiReconnect w
  else w

/-- The Running branch of `loop()` (main.cpp 175-189). -/
def loopRunning (hw : Hw) (w : World) : World :=
  let w := modState (fun s => { s with rssi := hw.wifiRSSI w.clock,
                                       wifiConnected := hw.linkUp w.clock }) w
  let w := maintainMQTT hw w
  reconnectStep w

/-- The rest of `loop()` after the serial commands (main.cpp 172-191). -/
def loopTail (hw : Hw) (w : World) : World :=
  let w := modState (fun s => { s with uptime := millis w, freeHeap := hw.freeHeap w.clock }) w
  let w := if w.state.mode = SystemMode.MODE_RUNNING then loopRunning hw w else w
  delay 10 w

/-- The part of `loop()` after the DNS step (main.cpp 166-191); it stops where
a handler or a command restarts the device. -/
def loopRest (hw : Hw) (inp : LoopInput) (w : World) : World :=
  let w := handleClient hw inp.request w
  if w.restarted then w
  else
    let w := processSerialCommands hw inp.serialIn w
    if w.restarted then w else loopTail hw w

/-- `loop()` (main.cpp 159-192). -/
def loop (hw : Hw) (inp : LoopInput) (w : World) : World :=
  loopRest hw inp
    (if w.state.mode = SystemMode.MODE_SETUP then dnsProcessNextRequest inp.dnsQuery w else w)

/-- A boot: the globals take their initial values, the store and the record of
events are kept, and `setup()` runs. -/
def boot (hw : Hw) (w : World) : World :=
  setup hw { World.powerOn w.prefs w.clock with out := w.out }

/-- What happens to the device between two passes of `loop()`: time passes
and the broker session may drop. -/
structure Gap where
  elapsed : Nat
  sessionLost : Bool
  deriving DecidableEq, Repr

/-- Time passing, and the session dropping, between two passes. -/
def idle (g : Gap) (w : World) : World :=
  setMqttSession (w.mqttSession && !g.sessionLost) (delay g.elapsed w)

/-- The life of the device after a boot: passes of `loop()` with what arrives
in each, and a new boot after every pass that restarted the device. -/
def run (hw : Hw) : List (Gap × LoopInput) → World → World
  | [], w => w
  | (g, inp) :: rest, w =>
    let w := loop hw inp (idle g w)
    run hw rest (if w.restarted then boot hw w else w)

/-! ## Vocabulary of the statements -/

/-- The record of a list of writes. -/
def putEvents (l : List (String × NvsVal)) : List Event :=
  l.map (fun e => Event.nvsPut e.1 e.2)

/-- A text field is read from its key: the default when the key is absent,
the stored text when the key holds one. -/
def ReadsStr (p : Store) (k : String) (dflt field : Str) : Prop :=
  (nvsGet p k = none → field = dflt) ∧ (∀ v, nvsGet p k = some (NvsVal.str v) → field = v)

/-- An `int` field is read from its key: the default when the key is absent,
the stored number when the key holds one. -/
def ReadsInt (p : Store) (k : String) (dflt field : Int) : Prop :=
  (nvsGet p k = none → field = dflt) ∧ (∀ v, nvsGet p k = some (NvsVal.i32 v) → field = v)

/-- A `uint8_t` field is read from its key: the default when the key is
absent, the stored byte when the key holds one. -/
def ReadsU8 (p : Store) (k : String) (dflt field : Nat) : Prop :=
  (nvsGet p k = none → field = dflt) ∧ (∀ v, nvsGet p k = some (NvsVal.u8 v) → field = v)

/-- A `bool` field is read from its key: the default when the key is absent,
the stored flag when the key holds one. -/
def ReadsBool (p : Store) (k : String) (dflt field : Bool) : Prop :=
  (nvsGet p k = none → field = dflt) ∧ (∀ b, nvsGet p k = some (boolVal b) → field = b)

/-! ## Vocabulary of the statements: parts of the world -/

/-- The constructor of an event. -/
inductive Kind where
  | serial | serialReport | serialJson | nvsPut | nvsClear | wifiMode | wifiSetHostname
  | wifiBegin | wifiReconnect | wifiSoftAP | wifiScanDelete | dnsStart | dnsReply | dnsRefuse
  | configTime | httpBegin | httpHeader | httpSend | mqttSetServer | mqttSetCallback
  | mqttConnect | mqttLoop | mqttPublish | restart
  deriving DecidableEq, Repr

/-- The kind of an event. -/
def Event.kind : Event → Kind
  | Event.serial _ => Kind.serial
  | Event.serialReport _ _ => Kind.serialReport
  | Event.serialJson _ _ => Kind.serialJson
  | Event.nvsPut _ _ => Kind.nvsPut
  | Event.nvsClear => Kind.nvsClear
  | Event.wifiMode _ => Kind.wifiMode
  | Event.wifiSetHostname _ => Kind.wifiSetHostname
  | Event.wifiBegin _ _ => Kind.wifiBegin
  | Event.wifiReconnect => Kind.wifiReconnect
  | Event.wifiSoftAP _ _ _ _ _ => Kind.wifiSoftAP
  | Event.wifiScanDelete => Kind.wifiScanDelete
  | Event.dnsStart _ _ _ => Kind.dnsStart
  | Event.dnsReply _ _ => Kind.dnsReply
  | Event.dnsRefuse _ => Kind.dnsRefuse
  | Event.configTime _ _ _ _ => Kind.configTime
  | Event.httpBegin => Kind.httpBegin
  | Event.httpHeader _ _ => Kind.httpHeader
  | Event.httpSend _ _ _ => Kind.httpSend
  | Event.mqttSetServer _ _ => Kind.mqttSetServer
  | Event.mqttSetCallback => Kind.mqttSetCallback
  | Event.mqttConnect _ => Kind.mqttConnect
  | Event.mqttLoop => Kind.mqttLoop
  | Event.mqttPublish _ _ _ => Kind.mqttPublish
  | Event.restart => Kind.restart

/-- The events of one kind in a record, oldest first. -/
def ofKind (k : Kind) (l : List Event) : List Event := l.filter (fun e => e.kind == k)

/-- The parts of the world a statement can speak about: groups of fields of
the state, the other globals, and the events of each kind. -/
inductive Part where
  | mode | link | ntpSynced | mqttConnected | gauges | config
  | prefs | serialBuffer | lastMqttRetry | lastReconnect | clock | mqttSession
  | dnsConfig | routes | restarted
  | ev (k : Kind)
  deriving DecidableEq, Repr

/-- A part of the world is the same in two worlds. -/
def Same : Part → World → World → Prop
  | Part.mode, w, w' => w'.state.mode = w.state.mode
  | Part.link, w, w' =>
    w'.state.wifiConnected = w.state.wifiConnected ∧ w'.state.rssi = w.state.rssi
  | Part.ntpSynced, w, w' => w'.state.ntpSynced = w.state.ntpSynced
  | Part.mqttConnected, w, w' => w'.state.mqttConnected = w.state.mqttConnected
  | Part.gauges, w, w' =>
    w'.state.uptime = w.state.uptime ∧ w'.state.freeHeap = w.state.freeHeap
  | Part.config, w, w' => w'.state.config = w.state.config
  | Part.prefs, w, w' => w'.prefs = w.prefs
  | Part.serialBuffer, w, w' => w'.serialBuffer = w.serialBuffer
  | Part.lastMqttRetry, w, w' => w'.lastMqttRetry = w.lastMqttRetry
  | Part.lastReconnect, w, w' => w'.lastReconnect = w.lastReconnect
  | Part.clock, w, w' => w'.clock = w.clock
  | Part.mqttSession, w, w' => w'.mqttSession = w.mqttSession
  | Part.dnsConfig, w, w' => w'.dnsConfig = w.dnsConfig
  | Part.routes, w, w' => w'.routes = w.routes
  | Part.restarted, w, w' => w'.restarted = w.restarted
  | Part.ev k, w, w' => ofKind k w'.out = ofKind k w.out

/-- Two worlds differ at most in the parts that `m` lets change; the time of
the last restart is the same. -/
def Within (m : Part → Bool) (w w' : World) : Prop :=
  w'.bootedAt = w.bootedAt ∧ ∀ p, m p = false → Same p w w'

/-- Every part of a list may change. -/
def Allows (m : Part → Bool) (ps : List Part) : Prop := ∀ p ∈ ps, m p = true

/-- The mask that lets every part change but the listed ones. -/
def allBut (ps : List Part) : Part → Bool := fun p => !(ps.contains p)

/-- An assignment to the state leaves a part of the state as it is. -/
def KeepsPart (f : SystemState → SystemState) : Part → Prop
  | Part.mode => ∀ s, (f s).mode = s.mode
  | Part.link => ∀ s, (f s).wifiConnected = s.wifiConnected ∧ (f s).rssi = s.rssi
  | Part.ntpSynced => ∀ s, (f s).ntpSynced = s.ntpSynced
  | Part.mqttConnected => ∀ s, (f s).mqttConnected = s.mqttConnected
  | Part.gauges => ∀ s, (f s).uptime = s.uptime ∧ (f s).freeHeap = s.freeHeap
  | Part.config => ∀ s, (f s).config = s.config
  | _ => True

/-! ## Vocabulary of the statements: surroundings and sequences -/

/-- Surroundings in which nothing answers: no link, no broker, no time, no
networks, and every reading is zero. -/
def Hw.quiet : Hw :=
  { linkUp := fun _ => false, wifiRSSI := fun _ => 0, localIP := fun _ => "0.0.0.0",
    softAPIP := "192.168.4.1", macAddress := "00:00:00:00:00:00",
    brokerAccepts := fun _ => false, brokerState := fun _ => -2, freeHeap := fun _ => 0,
    timeKnown := fun _ => false, timeText := fun _ => "---", dateText := fun _ => "---",
    scan := fun _ => [], noise := fun _ _ => 0, analogRead := fun _ _ => 0,
    cpuFreqMHz := 240, flashChipSize := 4194304 }

/-- The device with the factory defaults loaded: an empty store, read at
power-on. -/
def factoryWorld : World := loadConfiguration (World.powerOn [] 0)

/-- The result of the call of `connectToWiFi()` that `setup()` makes when the
loaded SSID is not empty. -/
def bootAttempt (hw : Hw) (w : World) : Bool :=
  (connectToWiFi hw
    (println ("[BOOT] Kayıtlı WiFi bulundu: " ++ (setupBegin w).state.savedSSID)
      (setupBegin w))).1

/-- Number of connection attempts made to the broker so far. -/
def attempts (w : World) : Nat := (ofKind Kind.mqttConnect w.out).length

/-- Calls of `maintainMQTT()`, each after the given time has passed since the
call before: the true times of the calls that made a connection attempt. -/
def attemptTimes (hw : Hw) : List Nat → World → List Nat
  | [], _ => []
  | d :: ds, w =>
    let w1 := delay d w
    let w2 := maintainMQTT hw w1
    (if attempts w2 > attempts w1 then [w1.clock] else []) ++ attemptTimes hw ds w2

instance (m : Part → Bool) (ps : List Part) : Decidable (Allows m ps) := by
  unfold Allows; infer_instance

/-- The mask of the steps that leave the persisted fields and the store. -/
def notConfig : Part → Bool := allBut [Part.config, Part.prefs]

/-- A property of the persisted fields and of the store that each operation
on the configuration keeps, and that loading from the store sets up again. -/
structure Invariant (P : World → Prop) : Prop where
  within : ∀ w w', Within notConfig w w' → P w → P w'
  load : ∀ w w', w'.prefs = w.prefs → P w → P (loadConfiguration w')
  setWifi : ∀ params w, P w → P (cmdSetWifi params w)
  setMqtt : ∀ params w, P w → P (cmdSetMqtt params w)
  setDeviceId : ∀ cmd w, P w → P (cmdSetDeviceId cmd w)
  setReadInterval : ∀ cmd w, P w → P (cmdSetReadInterval cmd w)
  setSensors : ∀ params w, P w → P (cmdSetSensors params w)
  setSleep : ∀ params w, P w → P (cmdSetSleep params w)
  setAlarms : ∀ params w, P w → P (cmdSetAlarms params w)
  setNtp : ∀ params w, P w → P (cmdSetNtp params w)
  setDebug : ∀ cmd w, P w → P (cmdSetDebug cmd w)
  setLed : ∀ cmd w, P w → P (cmdSetLed cmd w)
  reset : ∀ w, P w → P (cmdReset w)
  connect : ∀ hw body w, P w → P (handleConnect hw body w)
  saveConfig : ∀ body w, P w → P (handleSaveConfig body w)
  webReset : ∀ w, P w → P (handleReset w)

/-! ## Vocabulary of the statements: operator commands -/

/-- The text has no comma at an index greater than 0. -/
def NoCommaPastStart (params : Str) : Prop := ∀ i, 0 < i → params.get? i ≠ some ','

/-- The text has a first comma at an index greater than 0, followed by a
second comma. -/
def HasAlarmCommas (params : Str) : Prop :=
  ∃ i j, 0 < i ∧ i < j ∧ params.get? i = some ',' ∧ (∀ k, k < i → params.get? k ≠ some ',') ∧
    params.get? j = some ','

/-- The words and the verbs the dispatch knows. -/
def Recognised (c : Str) : Prop :=
  c ∈ ([("STATUS" : Str), "status", "GET_CONFIG", "get_config", "RESTART", "restart", "REBOOT",
    "reboot", "RESET", "reset", "FACTORY_RESET", "SCAN", "scan", "HELP", "help", "?"] :
      List Str) ∨
  ∃ v ∈ ([("SET_WIFI:" : Str), "set_wifi:", "SET_MQTT:", "set_mqtt:", "SET_DEVICE_ID:",
    "set_device_id:", "SET_READ_INTERVAL:", "set_read_interval:", "SET_SENSORS:",
    "set_sensors:", "SET_SLEEP:", "set_sleep:", "SET_ALARMS:", "set_alarms:", "SET_NTP:",
    "set_ntp:", "SET_DEBUG:", "set_debug:", "SET_LED:", "set_led:"] : List Str),
    startsWith c v = true

/-- The command has one of the two spellings of a verb. -/
def HasVerb (c : Str) (upper lower : Str) : Prop :=
  startsWith c upper = true ∨ startsWith c lower = true

/-- The commands that the dispatch rejects, as the specification lists them. -/
def Rejected (c : Str) : Prop :=
  (HasVerb c "SET_WIFI:" "set_wifi:" ∧ NoCommaPastStart (substringFrom c 9)) ∨
  (HasVerb c "SET_MQTT:" "set_mqtt:" ∧ NoCommaPastStart (substringFrom c 9)) ∨
  (HasVerb c "SET_SLEEP:" "set_sleep:" ∧ NoCommaPastStart (substringFrom c 10)) ∨
  (HasVerb c "SET_NTP:" "set_ntp:" ∧ NoCommaPastStart (substringFrom c 8)) ∨
  (HasVerb c "SET_ALARMS:" "set_alarms:" ∧ ¬ HasAlarmCommas (substringFrom c 11)) ∨
  (HasVerb c "SET_READ_INTERVAL:" "set_read_interval:" ∧
    (toInt (substringFrom c 18) < 5 ∨ 3600 < toInt (substringFrom c 18))) ∨
  (HasVerb c "SET_DEBUG:" "set_debug:" ∧
    (toInt (substringFrom c 10) < 0 ∨ 3 < toInt (substringFrom c 10))) ∨
  ¬ Recognised c

/-! ## Vocabulary of the statements: invariants and scenarios -/

/-- The sleep minutes are at least 1, in the state and in what a load would
read from the store. -/
def SleepOk (w : World) : Prop :=
  1 ≤ w.state.sleepMinutes ∧ 1 ≤ getInt w.prefs NVS_KEY_SLEEP_MINUTES DEFAULT_SLEEP_MINUTES

/-- In Setup mode the DNS responder answers every name with the address of
the access point. -/
def DnsOk (hw : Hw) (w : World) : Prop :=
  w.state.mode = SystemMode.MODE_SETUP → w.dnsConfig = some (("*" : Str), hw.softAPIP)

/-- A portal request `POST /save` whose body gives the broker port 0. -/
def savePortZero : LoopInput :=
  { dnsQuery := none,
    request := some { method := HttpMethod.HTTP_POST, path := "/save",
                      body := some [("mqttPort", JsonVal.int 0)] },
    serialIn := [] }

/-- A pass of `loop()` in which only a DNS query for a name arrives. -/
def dnsQueryFor (name : Str) : LoopInput :=
  { dnsQuery := some name, request := none, serialIn := [] }

/-- Surroundings in which the link is up at once and nothing else answers. -/
def Hw.online : Hw := { Hw.quiet with linkUp := fun _ => true }

/-- A store that holds only an SSID. -/
def storeWithSsid (ssid : Str) : Store := [(NVS_KEY_WIFI_SSID, NvsVal.str ssid)]

/-- A device in Running mode with the link up, a broker host configured and
no broker session. -/
def runningWorld : World :=
  modState (fun s => { s with mode := SystemMode.MODE_RUNNING, wifiConnected := true,
                              mqttHost := "broker.local" }) factoryWorld


/-- What a call of `maintainMQTT()` can rely on while the session is down. -/
structure BrokerDown (w : World) : Prop where
  mode : w.state.mode = SystemMode.MODE_RUNNING
  host : w.state.mqttHost.length ≠ 0
  link : w.state.wifiConnected = true
  down : w.mqttSession = false
  booted : w.bootedAt ≤ w.clock
  last : w.lastMqttRetry ≤ w.clock - w.bootedAt

/-! ## Vocabulary of the statements: persistence and the mode -/

/-- The store holds the configuration of the state: `loadConfiguration()` would
reproduce every persisted field. -/
def Synced (w : World) : Prop := (loadConfiguration w).state.config = w.state.config

/-- The SET commands that `handleSerialCommand` accepts: the verb, and the check
the source makes on the text after it, where it makes one. -/
def Accepted (c : Str) : Prop :=
  (HasVerb c "SET_WIFI:" "set_wifi:" ∧ indexOf (substringFrom c 9) ',' > 0) ∨
  (HasVerb c "SET_MQTT:" "set_mqtt:" ∧ indexOf (substringFrom c 9) ',' > 0) ∨
  HasVerb c "SET_DEVICE_ID:" "set_device_id:" ∨
  (HasVerb c "SET_READ_INTERVAL:" "set_read_interval:" ∧
    toInt (substringFrom c 18) ≥ 5 ∧ toInt (substringFrom c 18) ≤ 3600) ∨
  HasVerb c "SET_SENSORS:" "set_sensors:" ∨
  (HasVerb c "SET_SLEEP:" "set_sleep:" ∧ indexOf (substringFrom c 10) ',' > 0) ∨
  (HasVerb c "SET_ALARMS:" "set_alarms:" ∧ indexOf (substringFrom c 11) ',' > 0 ∧
    indexOfFrom (substringFrom c 11) ',' (indexOf (substringFrom c 11) ',' + 1).toNat >
      indexOf (substringFrom c 11) ',') ∨
  (HasVerb c "SET_NTP:" "set_ntp:" ∧ indexOf (substringFrom c 8) ',' > 0) ∨
  (HasVerb c "SET_DEBUG:" "set_debug:" ∧
    toInt (substringFrom c 10) ≥ 0 ∧ toInt (substringFrom c 10) ≤ 3) ∨
  HasVerb c "SET_LED:" "set_led:"

/-- A portal request `POST /connect` with the credentials of a network. -/
def connectTestNet : LoopInput :=
  { dnsQuery := none,
    request := some { method := HttpMethod.HTTP_POST, path := "/connect",
                      body := some [("ssid", JsonVal.str "TestNet"),
                                    ("password", JsonVal.str "password123")] },
    serialIn := [] }

instance (w : World) : Decidable (Synced w) := by
  unfold Synced; infer_instance

/-- A pass of `loop()` in which nothing arrives. -/
def quietPass : LoopInput := { dnsQuery := none, request := none, serialIn := [] }

/-- The mask of the steps that leave the mode, the access point and the DNS
responder as they are. -/
def keepsMode : Part → Bool :=
  allBut [Part.mode, Part.dnsConfig, Part.ev Kind.wifiSoftAP, Part.ev Kind.dnsStart]

/-! ## Vocabulary of the statements: factory reset and restart -/

/-- A store that holds a whole configuration: network, broker and device id. -/
def configuredStore : Store :=
  [(NVS_KEY_WIFI_SSID, NvsVal.str "TestNet"), (NVS_KEY_WIFI_PASS, NvsVal.str "password123"),
   (NVS_KEY_MQTT_HOST, NvsVal.str "broker.local"), (NVS_KEY_MQTT_PORT, NvsVal.i32 1884),
   (NVS_KEY_DEVICE_ID, NvsVal.str "field-7")]

/-- The portal request `POST /reset`. -/
def resetRequest (body : Option JsonObj) : HttpRequest :=
  { method := HttpMethod.HTTP_POST, path := "/reset", body := body }

/-- The commands that restart the device: the restart words and the reset
words of `handleSerialCommand`. -/
def restartWords : List Str :=
  ["RESTART", "restart", "REBOOT", "reboot", "RESET", "reset", "FACTORY_RESET"]

/-- The lines that `processSerialCommands()` hands to `handleSerialCommand`
when it reads the given characters with the given content of `serialBuffer`
and no command restarts the device (main.cpp 199-216). -/
def linesOf : Str → List Char → List Str
  | _, [] => []
  | buf, c :: cs =>
    if c = Char.ofNat 10 ∨ c = Char.ofNat 13 then
      if buf.length > 0 then buf :: linesOf [] cs else linesOf buf cs
    else
      if (buf ++ [c]).length > 256 then linesOf [] cs else linesOf (buf ++ [c]) cs

/-- The mask of the steps that request no restart. -/
def noRestart : Part → Bool := allBut [Part.restarted, Part.ev Kind.restart]

/-! ## Vocabulary of the statements: the broker and the interrupted save -/

/-- A device that booted into Running mode over a store that holds only an
SSID: the broker host is empty. -/
def runningNoBroker : World := boot Hw.online (World.powerOn (storeWithSsid "TestNet") 0)

/-- The gap before a pass that comes 10 ms after the one before. -/
def shortGap : Gap := { elapsed := 10, sessionLost := false }

/-- Surroundings in which the link is up and the broker accepts the connection. -/
def Hw.broker : Hw := { Hw.online with brokerAccepts := fun _ => true }

/-- `saveConfiguration()` (main.cpp 559-588) cut short after `k` of its writes:
the writes come one by one, in the order of the source, and the first `k`
have reached the store. -/
def saveInterrupted (k : Nat) (w : World) : World :=
  prefsPutAll ((savedEntries w.state).take k)
    (println "[NVS] Konfigürasyon kaydediliyor..." w)

/-- The record whose fields come from `new` where the write of the field is
among the first `k` writes of `saveConfiguration()`, and from `old` elsewhere.
The sixth write is the flag `configured`, which no field reads. -/
def mixedConfig (k : Nat) (new old : DeviceConfig) : DeviceConfig :=
  { savedSSID := if k ≥ 1 then new.savedSSID else old.savedSSID,
    savedPassword := if k ≥ 2 then new.savedPassword else old.savedPassword,
    mqttHost := if k ≥ 3 then new.mqttHost else old.mqttHost,
    mqttPort := if k ≥ 4 then new.mqttPort else old.mqttPort,
    deviceId := if k ≥ 5 then new.deviceId else old.deviceId,
    readInterval := if k ≥ 7 then new.readInterval else old.readInterval,
    sensorsEnabled := if k ≥ 8 then new.sensorsEnabled else old.sensorsEnabled,
    sleepEnabled := if k ≥ 9 then new.sleepEnabled else old.sleepEnabled,
    sleepMinutes := if k ≥ 10 then new.sleepMinutes else old.sleepMinutes,
    alarmNemMin := if k ≥ 11 then new.alarmNemMin else old.alarmNemMin,
    alarmNemMax := if k ≥ 12 then new.alarmNemMax else old.alarmNemMax,
    alarmTempMax := if k ≥ 13 then new.alarmTempMax else old.alarmTempMax,
    ntpServer := if k ≥ 14 then new.ntpServer else old.ntpServer,
    timezone := if k ≥ 15 then new.timezone else old.timezone,
    debugLevel := if k ≥ 16 then new.debugLevel else old.debugLevel,
    ledEnabled := if k ≥ 17 then new.ledEnabled else old.ledEnabled }

/-- A store that holds the credentials of a network. -/
def oldStore : Store :=
  [(NVS_KEY_WIFI_SSID, NvsVal.str "OldNet"), (NVS_KEY_WIFI_PASS, NvsVal.str "oldpass")]

/-- A device that loaded `oldStore` and then took new credentials into its
state, before the save. -/
def unsavedWorld : World :=
  modState (fun s => { s with savedSSID := "NewNet", savedPassword := "newpass" })
    (loadConfiguration (World.powerOn oldStore 0))

/-! ## Vocabulary of the statements: sensors, wrap-around -/

/-- The flag of sensor `i` in the text after SET_SENSORS: the character at
index `2 * i` is there and is `1`. -/
def sensorFlag (p : Str) (i : Nat) : Bool := decide (p.get? (2 * i) = some '1')

/-- The four flags as a number. -/
def sensorMask (p : Str) : Nat :=
  (if sensorFlag p 0 then 1 else 0) + (if sensorFlag p 1 then 2 else 0) +
  (if sensorFlag p 2 then 4 else 0) + (if sensorFlag p 3 then 8 else 0)

/-- Number of reconnection requests made to the link so far. -/
def requests (w : World) : Nat := (ofKind Kind.wifiReconnect w.out).length

/-- A running device without a session whose last attempt was made 1000 ms
before the 32-bit clock wrapped, read 6000 ms after the wrap. -/
def wrappedWorld : World := setLastMqttRetry (2 ^ 32 - 1000) (delay 6000 runningWorld)

/-! ## Vocabulary of the statements: the status message and the read interval -/

/-- The same world with another read interval. -/
def withReadInterval (v : Int) (w : World) : World :=
  modState (fun s => { s with readInterval := v }) w

/-- A device in Running mode with the link up and a broker session. -/
def connectedWorld : World := setMqttSession true runningWorld

/-- A connected device set to a read interval of 60 s with sleep enabled. -/
def tunedWorld : World :=
  modState (fun s => { s with readInterval := 60, sleepEnabled := true }) connectedWorld

/-- Member `key` of the object `config` of a document. -/
def configEntry (d : JsonDoc) (key : String) : Option JsonVal :=
  match d.lookup "config" with
  | some (JsonNode.obj o) => o.lookup key
  | _ => none

/-! ## Vocabulary of the statements: the portal answers -/

/-- The body of a request `POST /connect` for the network TestNet. -/
def testNetBody : JsonObj :=
  [("ssid", JsonVal.str "TestNet"), ("password", JsonVal.str "password123")]

/-- The answer of a handler: the body of the one response it sends. -/
def answerOf (w r : World) (code : Nat) (d : JsonDoc) : Prop :=
  ofKind Kind.httpSend r.out =
    ofKind Kind.httpSend w.out ++ [Event.httpSend code "application/json" (HttpBody.json d)]

/-! ## Vocabulary of the statements: the reconnection of the link -/

/-- The mask of the steps that leave the reconnection of the link alone. -/
def keepsReconnect : Part → Bool :=
  allBut [Part.lastReconnect, Part.ev Kind.wifiReconnect, Part.mode]

/-- The true times of the reconnection requests over the life of the device:
passes of `loop()` as in `run`, a request being made 10 ms before the end of
its pass. -/
def reconnectTimes (hw : Hw) : List (Gap × LoopInput) → World → List Nat
  | [], _ => []
  | (g, inp) :: rest, w =>
    let w1 := idle g w
    let w2 := loop hw inp w1
    (if requests w2 > requests w1 then [w2.clock - 10] else []) ++
      reconnectTimes hw rest (if w2.restarted then boot hw w2 else w2)

/-- A pass every 6 s in which nothing arrives. -/
def sixSeconds : Gap × LoopInput := ({ elapsed := 6000, sessionLost := false }, quietPass)

/-! # Theorems -/

/-! ## Store lemmas -/

theorem nvsGet_erase_ne (s : Store) (k k' : String) (h : k' ≠ k) :
    nvsGet (nvsErase s k) k' = nvsGet s k' := by
  induction s with
  | nil => rfl
  | cons e rest ih =>
    obtain ⟨ke, ve⟩ := e
    by_cases hk : ke = k
    · subst hk
      have hne : ¬ ke = k' := fun h' => h h'.symm
      simp [nvsErase, nvsGet, hne, ih]
    · by_cases hk' : ke = k'
      · subst hk'
        simp [nvsErase, nvsGet, hk]
      · simp [nvsErase, nvsGet, hk, hk', ih]

theorem nvsGet_put_same (s : Store) (k : String) (v : NvsVal) :
    nvsGet (nvsPut s k v) k = some v := by
  simp [nvsPut, nvsGet]

theorem nvsGet_put_other (s : Store) (k k' : String) (v : NvsVal) (h : k' ≠ k) :
    nvsGet (nvsPut s k v) k' = nvsGet s k' := by
  have h' : ¬ k = k' := fun e => h e.symm
  simp [nvsPut, nvsGet, h', nvsGet_erase_ne s k k' h]


/-! ## Projections of the primitive updates -/
@[simp]
theorem state_emit (e : Event) (w : World) : (emit e w).state = w.state := rfl
@[simp]
theorem prefs_emit (e : Event) (w : World) : (emit e w).prefs = w.prefs := rfl
@[simp]
theorem serialBuffer_emit (e : Event) (w : World) : (emit e w).serialBuffer = w.serialBuffer := rfl
@[simp]
theorem lastMqttRetry_emit (e : Event) (w : World) : (emit e w).lastMqttRetry = w.lastMqttRetry := rfl
@[simp]
theorem lastReconnect_emit (e : Event) (w : World) : (emit e w).lastReconnect = w.lastReconnect := rfl
@[simp]
theorem clock_emit (e : Event) (w : World) : (emit e w).clock = w.clock := rfl
@[simp]
theorem bootedAt_emit (e : Event) (w : World) : (emit e w).bootedAt = w.bootedAt := rfl
@[simp]
theorem mqttSession_emit (e : Event) (w : World) : (emit e w).mqttSession = w.mqttSession := rfl
@[simp]
theorem dnsConfig_emit (e : Event) (w : World) : (emit e w).dnsConfig = w.dnsConfig := rfl
@[simp]
theorem routes_emit (e : Event) (w : World) : (emit e w).routes = w.routes := rfl
@[simp]
theorem restarted_emit (e : Event) (w : World) : (emit e w).restarted = w.restarted := rfl
@[simp]
theorem out_emit (e : Event) (w : World) : (emit e w).out = w.out ++ [e] := rfl
@[simp]
theorem millis_emit (e : Event) (w : World) : millis (emit e w) = millis w := rfl

@[simp]
theorem state_modState (f : SystemState → SystemState) (w : World) : (modState f w).state = f w.state := rfl
@[simp]
theorem prefs_modState (f : SystemState → SystemState) (w : World) : (modState f w).prefs = w.prefs := rfl
@[simp]
theorem serialBuffer_modState (f : SystemState → SystemState) (w : World) : (modState f w).serialBuffer = w.serialBuffer := rfl
@[simp]
theorem lastMqttRetry_modState (f : SystemState → SystemState) (w : World) : (modState f w).lastMqttRetry = w.lastMqttRetry := rfl
@[simp]
theorem lastReconnect_modState (f : SystemState → SystemState) (w : World) : (modState f w).lastReconnect = w.lastReconnect := rfl
@[simp]
theorem clock_modState (f : SystemState → SystemState) (w : World) : (modState f w).clock = w.clock := rfl
@[simp]
theorem bootedAt_modState (f : SystemState → SystemState) (w : World) : (modState f w).bootedAt = w.bootedAt := rfl
@[simp]
theorem mqttSession_modState (f : SystemState → SystemState) (w : World) : (modState f w).mqttSession = w.mqttSession := rfl
@[simp]
theorem dnsConfig_modState (f : SystemState → SystemState) (w : World) : (modState f w).dnsConfig = w.dnsConfig := rfl
@[simp]
theorem routes_modState (f : SystemState → SystemState) (w : World) : (modState f w).routes = w.routes := rfl
@[simp]
theorem restarted_modState (f : SystemState → SystemState) (w : World) : (modState f w).restarted = w.restarted := rfl
@[simp]
theorem out_modState (f : SystemState → SystemState) (w : World) : (modState f w).out = w.out := rfl
@[simp]
theorem millis_modState (f : SystemState → SystemState) (w : World) : millis (modState f w) = millis w := rfl

@[simp]
theorem state_setPrefs (p : Store) (w : World) : (setPrefs p w).state = w.state := rfl
@[simp]
theorem prefs_setPrefs (p : Store) (w : World) : (setPrefs p w).prefs = p := rfl
@[simp]
theorem serialBuffer_setPrefs (p : Store) (w : World) : (setPrefs p w).serialBuffer = w.serialBuffer := rfl
@[simp]
theorem lastMqttRetry_setPrefs (p : Store) (w : World) : (setPrefs p w).lastMqttRetry = w.lastMqttRetry := rfl
@[simp]
theorem lastReconnect_setPrefs (p : Store) (w : World) : (setPrefs p w).lastReconnect = w.lastReconnect := rfl
@[simp]
theorem clock_setPrefs (p : Store) (w : World) : (setPrefs p w).clock = w.clock := rfl
@[simp]
theorem bootedAt_setPrefs (p : Store) (w : World) : (setPrefs p w).bootedAt = w.bootedAt := rfl
@[simp]
theorem mqttSession_setPrefs (p : Store) (w : World) : (setPrefs p w).mqttSession = w.mqttSession := rfl
@[simp]
theorem dnsConfig_setPrefs (p : Store) (w : World) : (setPrefs p w).dnsConfig = w.dnsConfig := rfl
@[simp]
theorem routes_setPrefs (p : Store) (w : World) : (setPrefs p w).routes = w.routes := rfl
@[simp]
theorem restarted_setPrefs (p : Store) (w : World) : (setPrefs p w).restarted = w.restarted := rfl
@[simp]
theorem out_setPrefs (p : Store) (w : World) : (setPrefs p w).out = w.out := rfl
@[simp]
theorem millis_setPrefs (p : Store) (w : World) : millis (setPrefs p w) = millis w := rfl

@[simp]
theorem state_setSerialBuffer (b : Str) (w : World) : (setSerialBuffer b w).state = w.state := rfl
@[simp]
theorem prefs_setSerialBuffer (b : Str) (w : World) : (setSerialBuffer b w).prefs = w.prefs := rfl
@[simp]
theorem serialBuffer_setSerialBuffer (b : Str) (w : World) : (setSerialBuffer b w).serialBuffer = b := rfl
@[simp]
theorem lastMqttRetry_setSerialBuffer (b : Str) (w : World) : (setSerialBuffer b w).lastMqttRetry = w.lastMqttRetry := rfl
@[simp]
theorem lastReconnect_setSerialBuffer (b : Str) (w : World) : (setSerialBuffer b w).lastReconnect = w.lastReconnect := rfl
@[simp]
theorem clock_setSerialBuffer (b : Str) (w : World) : (setSerialBuffer b w).clock = w.clock := rfl
@[simp]
theorem bootedAt_setSerialBuffer (b : Str) (w : World) : (setSerialBuffer b w).bootedAt = w.bootedAt := rfl
@[simp]
theorem mqttSession_setSerialBuffer (b : Str) (w : World) : (setSerialBuffer b w).mqttSession = w.mqttSession := rfl
@[simp]
theorem dnsConfig_setSerialBuffer (b : Str) (w : World) : (setSerialBuffer b w).dnsConfig = w.dnsConfig := rfl
@[simp]
theorem routes_setSerialBuffer (b : Str) (w : World) : (setSerialBuffer b w).routes = w.routes := rfl
@[simp]
theorem restarted_setSerialBuffer (b : Str) (w : World) : (setSerialBuffer b w).restarted = w.restarted := rfl
@[simp]
theorem out_setSerialBuffer (b : Str) (w : World) : (setSerialBuffer b w).out = w.out := rfl
@[simp]
theorem millis_setSerialBuffer (b : Str) (w : World) : millis (setSerialBuffer b w) = millis w := rfl

@[simp]
theorem state_setLastMqttRetry (t : Nat) (w : World) : (setLastMqttRetry t w).state = w.state := rfl
@[simp]
theorem prefs_setLastMqttRetry (t : Nat) (w : World) : (setLastMqttRetry t w).prefs = w.prefs := rfl
@[simp]
theorem serialBuffer_setLastMqttRetry (t : Nat) (w : World) : (setLastMqttRetry t w).serialBuffer = w.serialBuffer := rfl
@[simp]
theorem lastMqttRetry_setLastMqttRetry (t : Nat) (w : World) : (setLastMqttRetry t w).lastMqttRetry = t := rfl
@[simp]
theorem lastReconnect_setLastMqttRetry (t : Nat) (w : World) : (setLastMqttRetry t w).lastReconnect = w.lastReconnect := rfl
@[simp]
theorem clock_setLastMqttRetry (t : Nat) (w : World) : (setLastMqttRetry t w).clock = w.clock := rfl
@[simp]
theorem bootedAt_setLastMqttRetry (t : Nat) (w : World) : (setLastMqttRetry t w).bootedAt = w.bootedAt := rfl
@[simp]
theorem mqttSession_setLastMqttRetry (t : Nat) (w : World) : (setLastMqttRetry t w).mqttSession = w.mqttSession := rfl
@[simp]
theorem dnsConfig_setLastMqttRetry (t : Nat) (w : World) : (setLastMqttRetry t w).dnsConfig = w.dnsConfig := rfl
@[simp]
theorem routes_setLastMqttRetry (t : Nat) (w : World) : (setLastMqttRetry t w).routes = w.routes := rfl
@[simp]
theorem restarted_setLastMqttRetry (t : Nat) (w : World) : (setLastMqttRetry t w).restarted = w.restarted := rfl
@[simp]
theorem out_setLastMqttRetry (t : Nat) (w : World) : (setLastMqttRetry t w).out = w.out := rfl
@[simp]
theorem millis_setLastMqttRetry (t : Nat) (w : World) : millis (setLastMqttRetry t w) = millis w := rfl

@[simp]
theorem state_setLastReconnect (t : Nat) (w : World) : (setLastReconnect t w).state = w.state := rfl
@[simp]
theorem prefs_setLastReconnect (t : Nat) (w : World) : (setLastReconnect t w).prefs = w.prefs := rfl
@[simp]
theorem serialBuffer_setLastReconnect (t : Nat) (w : World) : (setLastReconnect t w).serialBuffer = w.serialBuffer := rfl
@[simp]
theorem lastMqttRetry_setLastReconnect (t : Nat) (w : World) : (setLastReconnect t w).lastMqttRetry = w.lastMqttRetry := rfl
@[simp]
theorem lastReconnect_setLastReconnect (t : Nat) (w : World) : (setLastReconnect t w).lastReconnect = t := rfl
@[simp]
theorem clock_setLastReconnect (t : Nat) (w : World) : (setLastReconnect t w).clock = w.clock := rfl
@[simp]
theorem bootedAt_setLastReconnect (t : Nat) (w : World) : (setLastReconnect t w).bootedAt = w.bootedAt := rfl
@[simp]
theorem mqttSession_setLastReconnect (t : Nat) (w : World) : (setLastReconnect t w).mqttSession = w.mqttSession := rfl
@[simp]
theorem dnsConfig_setLastReconnect (t : Nat) (w : World) : (setLastReconnect t w).dnsConfig = w.dnsConfig := rfl
@[simp]
theorem routes_setLastReconnect (t : Nat) (w : World) : (setLastReconnect t w).routes = w.routes := rfl
@[simp]
theorem restarted_setLastReconnect (t : Nat) (w : World) : (setLastReconnect t w).restarted = w.restarted := rfl
@[simp]
theorem out_setLastReconnect (t : Nat) (w : World) : (setLastReconnect t w).out = w.out := rfl
@[simp]
theorem millis_setLastReconnect (t : Nat) (w : World) : millis (setLastReconnect t w) = millis w := rfl

@[simp]
theorem state_setMqttSession (b : Bool) (w : World) : (setMqttSession b w).state = w.state := rfl
@[simp]
theorem prefs_setMqttSession (b : Bool) (w : World) : (setMqttSession b w).prefs = w.prefs := rfl
@[simp]
theorem serialBuffer_setMqttSession (b : Bool) (w : World) : (setMqttSession b w).serialBuffer = w.serialBuffer := rfl
@[simp]
theorem lastMqttRetry_setMqttSession (b : Bool) (w : World) : (setMqttSession b w).lastMqttRetry = w.lastMqttRetry := rfl
@[simp]
theorem lastReconnect_setMqttSession (b : Bool) (w : World) : (setMqttSession b w).lastReconnect = w.lastReconnect := rfl
@[simp]
theorem clock_setMqttSession (b : Bool) (w : World) : (setMqttSession b w).clock = w.clock := rfl
@[simp]
theorem bootedAt_setMqttSession (b : Bool) (w : World) : (setMqttSession b w).bootedAt = w.bootedAt := rfl
@[simp]
theorem mqttSession_setMqttSession (b : Bool) (w : World) : (setMqttSession b w).mqttSession = b := rfl
@[simp]
theorem dnsConfig_setMqttSession (b : Bool) (w : World) : (setMqttSession b w).dnsConfig = w.dnsConfig := rfl
@[simp]
theorem routes_setMqttSession (b : Bool) (w : World) : (setMqttSession b w).routes = w.routes := rfl
@[simp]
theorem restarted_setMqttSession (b : Bool) (w : World) : (setMqttSession b w).restarted = w.restarted := rfl
@[simp]
theorem out_setMqttSession (b : Bool) (w : World) : (setMqttSession b w).out = w.out := rfl
@[simp]
theorem millis_setMqttSession (b : Bool) (w : World) : millis (setMqttSession b w) = millis w := rfl

@[simp]
theorem state_setDnsConfig (c : Option (Str × Str)) (w : World) : (setDnsConfig c w).state = w.state := rfl
@[simp]
theorem prefs_setDnsConfig (c : Option (Str × Str)) (w : World) : (setDnsConfig c w).prefs = w.prefs := rfl
@[simp]
theorem serialBuffer_setDnsConfig (c : Option (Str × Str)) (w : World) : (setDnsConfig c w).serialBuffer = w.serialBuffer := rfl
@[simp]
theorem lastMqttRetry_setDnsConfig (c : Option (Str × Str)) (w : World) : (setDnsConfig c w).lastMqttRetry = w.lastMqttRetry := rfl
@[simp]
theorem lastReconnect_setDnsConfig (c : Option (Str × Str)) (w : World) : (setDnsConfig c w).lastReconnect = w.lastReconnect := rfl
@[simp]
theorem clock_setDnsConfig (c : Option (Str × Str)) (w : World) : (setDnsConfig c w).clock = w.clock := rfl
@[simp]
theorem bootedAt_setDnsConfig (c : Option (Str × Str)) (w : World) : (setDnsConfig c w).bootedAt = w.bootedAt := rfl
@[simp]
theorem mqttSession_setDnsConfig (c : Option (Str × Str)) (w : World) : (setDnsConfig c w).mqttSession = w.mqttSession := rfl
@[simp]
theorem dnsConfig_setDnsConfig (c : Option (Str × Str)) (w : World) : (setDnsConfig c w).dnsConfig = c := rfl
@[simp]
theorem routes_setDnsConfig (c : Option (Str × Str)) (w : World) : (setDnsConfig c w).routes = w.routes := rfl
@[simp]
theorem restarted_setDnsConfig (c : Option (Str × Str)) (w : World) : (setDnsConfig c w).restarted = w.restarted := rfl
@[simp]
theorem out_setDnsConfig (c : Option (Str × Str)) (w : World) : (setDnsConfig c w).out = w.out := rfl
@[simp]
theorem millis_setDnsConfig (c : Option (Str × Str)) (w : World) : millis (setDnsConfig c w) = millis w := rfl

@[simp]
theorem state_setRoutes (r : List Route) (w : World) : (setRoutes r w).state = w.state := rfl
@[simp]
theorem prefs_setRoutes (r : List Route) (w : World) : (setRoutes r w).prefs = w.prefs := rfl
@[simp]
theorem serialBuffer_setRoutes (r : List Route) (w : World) : (setRoutes r w).serialBuffer = w.serialBuffer := rfl
@[simp]
theorem lastMqttRetry_setRoutes (r : List Route) (w : World) : (setRoutes r w).lastMqttRetry = w.lastMqttRetry := rfl
@[simp]
theorem lastReconnect_setRoutes (r : List Route) (w : World) : (setRoutes r w).lastReconnect = w.lastReconnect := rfl
@[simp]
theorem clock_setRoutes (r : List Route) (w : World) : (setRoutes r w).clock = w.clock := rfl
@[simp]
theorem bootedAt_setRoutes (r : List Route) (w : World) : (setRoutes r w).bootedAt = w.bootedAt := rfl
@[simp]
theorem mqttSession_setRoutes (r : List Route) (w : World) : (setRoutes r w).mqttSession = w.mqttSession := rfl
@[simp]
theorem dnsConfig_setRoutes (r : List Route) (w : World) : (setRoutes r w).dnsConfig = w.dnsConfig := rfl
@[simp]
theorem routes_setRoutes (r : List Route) (w : World) : (setRoutes r w).routes = r := rfl
@[simp]
theorem restarted_setRoutes (r : List Route) (w : World) : (setRoutes r w).restarted = w.restarted := rfl
@[simp]
theorem out_setRoutes (r : List Route) (w : World) : (setRoutes r w).out = w.out := rfl
@[simp]
theorem millis_setRoutes (r : List Route) (w : World) : millis (setRoutes r w) = millis w := rfl

@[simp]
theorem state_setRestarted (w : World) : (setRestarted w).state = w.state := rfl
@[simp]
theorem prefs_setRestarted (w : World) : (setRestarted w).prefs = w.prefs := rfl
@[simp]
theorem serialBuffer_setRestarted (w : World) : (setRestarted w).serialBuffer = w.serialBuffer := rfl
@[simp]
theorem lastMqttRetry_setRestarted (w : World) : (setRestarted w).lastMqttRetry = w.lastMqttRetry := rfl
@[simp]
theorem lastReconnect_setRestarted (w : World) : (setRestarted w).lastReconnect = w.lastReconnect := rfl
@[simp]
theorem clock_setRestarted (w : World) : (setRestarted w).clock = w.clock := rfl
@[simp]
theorem bootedAt_setRestarted (w : World) : (setRestarted w).bootedAt = w.bootedAt := rfl
@[simp]
theorem mqttSession_setRestarted (w : World) : (setRestarted w).mqttSession = w.mqttSession := rfl
@[simp]
theorem dnsConfig_setRestarted (w : World) : (setRestarted w).dnsConfig = w.dnsConfig := rfl
@[simp]
theorem routes_setRestarted (w : World) : (setRestarted w).routes = w.routes := rfl
@[simp]
theorem restarted_setRestarted (w : World) : (setRestarted w).restarted = true := rfl
@[simp]
theorem out_setRestarted (w : World) : (setRestarted w).out = w.out := rfl
@[simp]
theorem millis_setRestarted (w : World) : millis (setRestarted w) = millis w := rfl

@[simp]
theorem state_delay (n : Nat) (w : World) : (delay n w).state = w.state := rfl
@[simp]
theorem prefs_delay (n : Nat) (w : World) : (delay n w).prefs = w.prefs := rfl
@[simp]
theorem serialBuffer_delay (n : Nat) (w : World) : (delay n w).serialBuffer = w.serialBuffer := rfl
@[simp]
theorem lastMqttRetry_delay (n : Nat) (w : World) : (delay n w).lastMqttRetry = w.lastMqttRetry := rfl
@[simp]
theorem lastReconnect_delay (n : Nat) (w : World) : (delay n w).lastReconnect = w.lastReconnect := rfl
@[simp]
theorem clock_delay (n : Nat) (w : World) : (delay n w).clock = w.clock + n := rfl
@[simp]
theorem bootedAt_delay (n : Nat) (w : World) : (delay n w).bootedAt = w.bootedAt := rfl
@[simp]
theorem mqttSession_delay (n : Nat) (w : World) : (delay n w).mqttSession = w.mqttSession := rfl
@[simp]
theorem dnsConfig_delay (n : Nat) (w : World) : (delay n w).dnsConfig = w.dnsConfig := rfl
@[simp]
theorem routes_delay (n : Nat) (w : World) : (delay n w).routes = w.routes := rfl
@[simp]
theorem restarted_delay (n : Nat) (w : World) : (delay n w).restarted = w.restarted := rfl
@[simp]
theorem out_delay (n : Nat) (w : World) : (delay n w).out = w.out := rfl

/-! ## The derived updates in terms of the primitive ones -/

@[simp]
theorem println_eq (t : Str) (w : World) : println t w = emit (Event.serial t) w := rfl

@[simp]
theorem sendJson_eq (c : Nat) (d : JsonDoc) (w : World) :
    sendJson c d w = emit (Event.httpSend c "application/json" (HttpBody.json d)) w := rfl

@[simp]
theorem espRestart_eq (w : World) :
    espRestart w = setRestarted (emit Event.restart w) := rfl

@[simp]
theorem prefsPut_eq (k : String) (v : NvsVal) (w : World) :
    prefsPut k v w = emit (Event.nvsPut k v) (setPrefs (nvsPut w.prefs k v) w) := rfl

@[simp]
theorem prefsClear_eq (w : World) :
    prefsClear w = emit Event.nvsClear (setPrefs [] w) := rfl

@[simp]
theorem serverOn_eq (path : Str) (m : HttpMethod) (h : Handler) (w : World) :
    serverOn path m h w =
      setRoutes (w.routes ++ [{ path := path, method := m, handler := h }]) w := rfl

@[simp]
theorem setMqttConnected_eq (b : Bool) (w : World) :
    setMqttConnected b w = modState (fun s => { s with mqttConnected := b }) w := rfl

@[simp]
theorem idle_eq (g : Gap) (w : World) :
    idle g w = setMqttSession (w.mqttSession && !g.sessionLost) (delay g.elapsed w) := rfl

/-! ## Configuration management -/

theorem prefsPutAll_eq (l : List (String × NvsVal)) (w : World) :
    prefsPutAll l w = setPrefs (putAll l w.prefs) { w with out := w.out ++ putEvents l } := by
  induction l generalizing w with
  | nil => simp [prefsPutAll, putAll, putEvents, setPrefs]
  | cons e rest ih =>
    obtain ⟨k, v⟩ := e
    simp [prefsPutAll, putAll, putEvents, ih, setPrefs, emit]

theorem state_prefsPutAll (l : List (String × NvsVal)) (w : World) :
    (prefsPutAll l w).state = w.state := by rw [prefsPutAll_eq]; rfl

theorem prefs_prefsPutAll (l : List (String × NvsVal)) (w : World) :
    (prefsPutAll l w).prefs = putAll l w.prefs := by rw [prefsPutAll_eq]; rfl

theorem out_prefsPutAll (l : List (String × NvsVal)) (w : World) :
    (prefsPutAll l w).out = w.out ++ putEvents l := by rw [prefsPutAll_eq]; rfl

theorem state_saveConfiguration (w : World) : (saveConfiguration w).state = w.state := by
  simp only [saveConfiguration, println_eq, state_emit, state_prefsPutAll]

theorem prefs_saveConfiguration (w : World) :
    (saveConfiguration w).prefs = putAll (savedEntries w.state) w.prefs := by
  simp only [saveConfiguration, println_eq, prefs_emit, prefs_prefsPutAll, state_emit]

theorem state_loadConfiguration (w : World) :
    (loadConfiguration w).state = loadedState w.prefs w.state := by
  simp only [loadConfiguration, println_eq, state_emit, state_modState, prefs_emit]

theorem prefs_loadConfiguration (w : World) : (loadConfiguration w).prefs = w.prefs := by
  simp only [loadConfiguration, println_eq, prefs_emit, prefs_modState]

theorem boolVal_read (b : Bool) : ((if b = true then 1 else 0 : Nat) == 1) = b := by
  cases b <;> rfl

/-- Loading what was just saved gives back the persisted fields. -/
theorem loaded_saved (s s' : SystemState) (p : Store) :
    (loadedState (putAll (savedEntries s) p) s').config = s.config := by
  simp [loadedState, savedEntries, putAll, SystemState.config,
    getString, getInt, getUChar, getBool, boolVal, nvsGet_put_same, nvsGet_put_other,
    NVS_KEY_WIFI_SSID, NVS_KEY_WIFI_PASS, NVS_KEY_MQTT_HOST, NVS_KEY_MQTT_PORT,
    NVS_KEY_DEVICE_ID, NVS_KEY_CONFIGURED, NVS_KEY_READ_INTERVAL, NVS_KEY_SENSORS_ENABLED,
    NVS_KEY_SLEEP_ENABLED, NVS_KEY_SLEEP_MINUTES, NVS_KEY_ALARM_NEM_MIN,
    NVS_KEY_ALARM_NEM_MAX, NVS_KEY_ALARM_TEMP_MAX, NVS_KEY_NTP_SERVER, NVS_KEY_TIMEZONE,
    NVS_KEY_DEBUG_LEVEL, NVS_KEY_LED_ENABLED, boolVal_read]

theorem readsStr_getString (p : Store) (k : String) (d : Str) :
    ReadsStr p k d (getString p k d) := by
  constructor
  · intro h; simp [getString, h]
  · intro v h; simp [getString, h]

theorem readsInt_getInt (p : Store) (k : String) (d : Int) :
    ReadsInt p k d (getInt p k d) := by
  constructor
  · intro h; simp [getInt, h]
  · intro v h; simp [getInt, h]

theorem readsU8_getUChar (p : Store) (k : String) (d : Nat) :
    ReadsU8 p k d (getUChar p k d) := by
  constructor
  · intro h; simp [getUChar, h]
  · intro v h; simp [getUChar, h]

theorem readsBool_getBool (p : Store) (k : String) (d : Bool) :
    ReadsBool p k d (getBool p k d) := by
  constructor
  · intro h; cases d <;> simp [getBool, getUChar, h]
  · intro v h; cases v <;> simp [getBool, getUChar, h, boolVal]

/-! ## Parts of the world that a step leaves as they are -/

theorem allows_nil (m : Part → Bool) : Allows m [] ↔ True := by simp [Allows]

theorem allows_cons (m : Part → Bool) (p : Part) (ps : List Part) :
    Allows m (p :: ps) ↔ m p = true ∧ Allows m ps := by simp [Allows]

theorem same_refl (p : Part) (w : World) : Same p w w := by
  cases p <;> simp [Same]

theorem same_peel {p : Part} {w x y : World} (h : Same p x y) : Same p w y ↔ Same p w x := by
  cases p <;> simp_all [Same]

theorem within_self (m : Part → Bool) (w : World) : Within m w w ↔ True :=
  iff_true_intro ⟨rfl, fun p _ => same_refl p w⟩

/-- A step that stays within the mask can be dropped from the right. -/
theorem within_peel {m : Part → Bool} {w x y : World} (h : Within m x y) :
    Within m w y ↔ Within m w x := by
  constructor
  · intro hy
    exact ⟨h.1 ▸ hy.1, fun p hp => (same_peel (h.2 p hp)).1 (hy.2 p hp)⟩
  · intro hx
    exact ⟨h.1.trans hx.1, fun p hp => (same_peel (h.2 p hp)).2 (hx.2 p hp)⟩

theorem within_trans {m : Part → Bool} {a b c : World} (h1 : Within m a b)
    (h2 : Within m b c) : Within m a c :=
  (within_peel h2).2 h1

theorem within_ite (m : Part → Bool) (c : Prop) [Decidable c] (w a b : World) :
    Within m w (if c then a else b) ↔ if c then Within m w a else Within m w b := by
  split <;> rfl

theorem ofKind_append (k : Kind) (a b : List Event) :
    ofKind k (a ++ b) = ofKind k a ++ ofKind k b := by
  simp [ofKind]

theorem ofKind_single_ne (k : Kind) (e : Event) (h : e.kind ≠ k) : ofKind k [e] = [] := by
  have hk : (e.kind == k) = false := by simpa using h
  simp [ofKind, List.filter, hk]

theorem ofKind_single_eq (e : Event) : ofKind e.kind [e] = [e] := by
  simp [ofKind, List.filter]

theorem within_emit (m : Part → Bool) (e : Event) (w x : World)
    (h : m (Part.ev e.kind) = true) : Within m w (emit e x) ↔ Within m w x := by
  apply within_peel
  refine ⟨rfl, fun p hp => ?_⟩
  cases p <;> simp [Same]
  rename_i k
  have hne : e.kind ≠ k := by rintro rfl; simp [h] at hp
  simp [ofKind_append, ofKind_single_ne k e hne]

theorem within_modState (m : Part → Bool) (f : SystemState → SystemState) (w x : World)
    (h : ∀ p, m p = false → KeepsPart f p) : Within m w (modState f x) ↔ Within m w x := by
  apply within_peel
  refine ⟨rfl, fun p hp => ?_⟩
  have hk := h p hp
  cases p <;> simp [Same] <;> simp [KeepsPart] at hk <;> simp [hk]

/-- An assignment that changes one part of the state only. -/
theorem within_modState_part (m : Part → Bool) (f : SystemState → SystemState) (w x : World)
    (q : Part) (hq : m q = true) (h : ∀ p, p ≠ q → KeepsPart f p) :
    Within m w (modState f x) ↔ Within m w x := by
  apply within_modState
  intro p hp
  apply h
  rintro rfl
  simp [hq] at hp

/-! ### Assignments to the state and the other primitive updates -/

theorem within_setMode (m : Part → Bool) (v : SystemMode) (w x : World)
    (h : m Part.mode = true) :
    Within m w (modState (fun s => { s with mode := v }) x) ↔ Within m w x := by
  refine within_modState_part m _ w x _ h (fun p hp => ?_)
  cases p <;> first | exact absurd rfl hp | exact fun _ => rfl | exact fun _ => ⟨rfl, rfl⟩ | trivial

theorem within_setMqttConnectedField (m : Part → Bool) (v : Bool) (w x : World)
    (h : m Part.mqttConnected = true) :
    Within m w (modState (fun s => { s with mqttConnected := v }) x) ↔ Within m w x := by
  refine within_modState_part m _ w x _ h (fun p hp => ?_)
  cases p <;> first | exact absurd rfl hp | exact fun _ => rfl | exact fun _ => ⟨rfl, rfl⟩ | trivial

theorem within_setNtpSynced (m : Part → Bool) (v : Bool) (w x : World)
    (h : m Part.ntpSynced = true) :
    Within m w (modState (fun s => { s with ntpSynced := v }) x) ↔ Within m w x := by
  refine within_modState_part m _ w x _ h (fun p hp => ?_)
  cases p <;> first | exact absurd rfl hp | exact fun _ => rfl | exact fun _ => ⟨rfl, rfl⟩ | trivial

theorem within_setLink (m : Part → Bool) (b : Bool) (r : Int) (w x : World)
    (h : m Part.link = true) :
    Within m w (modState (fun s => { s with wifiConnected := b, rssi := r }) x) ↔ Within m w x := by
  refine within_modState_part m _ w x _ h (fun p hp => ?_)
  cases p <;> first | exact absurd rfl hp | exact fun _ => rfl | exact fun _ => ⟨rfl, rfl⟩ | trivial

theorem within_setGauges (m : Part → Bool) (u : Nat) (g : Int) (w x : World)
    (h : m Part.gauges = true) :
    Within m w (modState (fun s => { s with uptime := u, freeHeap := g }) x) ↔ Within m w x := by
  refine within_modState_part m _ w x _ h (fun p hp => ?_)
  cases p <;> first | exact absurd rfl hp | exact fun _ => rfl | exact fun _ => ⟨rfl, rfl⟩ | trivial

theorem within_set_savedSSID (m : Part → Bool) (v : Str) (w x : World)
    (h : m Part.config = true) :
    Within m w (modState (fun s => { s with savedSSID := v }) x) ↔ Within m w x := by
  refine within_modState_part m _ w x _ h (fun p hp => ?_)
  cases p <;> first | exact absurd rfl hp | exact fun _ => rfl | exact fun _ => ⟨rfl, rfl⟩ | trivial

theorem within_set_savedPassword (m : Part → Bool) (v : Str) (w x : World)
    (h : m Part.config = true) :
    Within m w (modState (fun s => { s with savedPassword := v }) x) ↔ Within m w x := by
  refine within_modState_part m _ w x _ h (fun p hp => ?_)
  cases p <;> first | exact absurd rfl hp | exact fun _ => rfl | exact fun _ => ⟨rfl, rfl⟩ | trivial

theorem within_set_mqttHost (m : Part → Bool) (v : Str) (w x : World)
    (h : m Part.config = true) :
    Within m w (modState (fun s => { s with mqttHost := v }) x) ↔ Within m w x := by
  refine within_modState_part m _ w x _ h (fun p hp => ?_)
  cases p <;> first | exact absurd rfl hp | exact fun _ => rfl | exact fun _ => ⟨rfl, rfl⟩ | trivial

theorem within_set_mqttPort (m : Part → Bool) (v : Int) (w x : World)
    (h : m Part.config = true) :
    Within m w (modState (fun s => { s with mqttPort := v }) x) ↔ Within m w x := by
  refine within_modState_part m _ w x _ h (fun p hp => ?_)
  cases p <;> first | exact absurd rfl hp | exact fun _ => rfl | exact fun _ => ⟨rfl, rfl⟩ | trivial

theorem within_set_deviceId (m : Part → Bool) (v : Str) (w x : World)
    (h : m Part.config = true) :
    Within m w (modState (fun s => { s with deviceId := v }) x) ↔ Within m w x := by
  refine within_modState_part m _ w x _ h (fun p hp => ?_)
  cases p <;> first | exact absurd rfl hp | exact fun _ => rfl | exact fun _ => ⟨rfl, rfl⟩ | trivial

theorem within_set_readInterval (m : Part → Bool) (v : Int) (w x : World)
    (h : m Part.config = true) :
    Within m w (modState (fun s => { s with readInterval := v }) x) ↔ Within m w x := by
  refine within_modState_part m _ w x _ h (fun p hp => ?_)
  cases p <;> first | exact absurd rfl hp | exact fun _ => rfl | exact fun _ => ⟨rfl, rfl⟩ | trivial

theorem within_set_sensorsEnabled (m : Part → Bool) (v : Nat) (w x : World)
    (h : m Part.config = true) :
    Within m w (modState (fun s => { s with sensorsEnabled := v }) x) ↔ Within m w x := by
  refine within_modState_part m _ w x _ h (fun p hp => ?_)
  cases p <;> first | exact absurd rfl hp | exact fun _ => rfl | exact fun _ => ⟨rfl, rfl⟩ | trivial

theorem within_set_sleepEnabled (m : Part → Bool) (v : Bool) (w x : World)
    (h : m Part.config = true) :
    Within m w (modState (fun s => { s with sleepEnabled := v }) x) ↔ Within m w x := by
  refine within_modState_part m _ w x _ h (fun p hp => ?_)
  cases p <;> first | exact absurd rfl hp | exact fun _ => rfl | exact fun _ => ⟨rfl, rfl⟩ | trivial

theorem within_set_sleepMinutes (m : Part → Bool) (v : Int) (w x : World)
    (h : m Part.config = true) :
    Within m w (modState (fun s => { s with sleepMinutes := v }) x) ↔ Within m w x := by
  refine within_modState_part m _ w x _ h (fun p hp => ?_)
  cases p <;> first | exact absurd rfl hp | exact fun _ => rfl | exact fun _ => ⟨rfl, rfl⟩ | trivial

theorem within_set_alarmNemMin (m : Part → Bool) (v : Int) (w x : World)
    (h : m Part.config = true) :
    Within m w (modState (fun s => { s with alarmNemMin := v }) x) ↔ Within m w x := by
  refine within_modState_part m _ w x _ h (fun p hp => ?_)
  cases p <;> first | exact absurd rfl hp | exact fun _ => rfl | exact fun _ => ⟨rfl, rfl⟩ | trivial

theorem within_set_alarmNemMax (m : Part → Bool) (v : Int) (w x : World)
    (h : m Part.config = true) :
    Within m w (modState (fun s => { s with alarmNemMax := v }) x) ↔ Within m w x := by
  refine within_modState_part m _ w x _ h (fun p hp => ?_)
  cases p <;> first | exact absurd rfl hp | exact fun _ => rfl | exact fun _ => ⟨rfl, rfl⟩ | trivial

theorem within_set_alarmTempMax (m : Part → Bool) (v : Int) (w x : World)
    (h : m Part.config = true) :
    Within m w (modState (fun s => { s with alarmTempMax := v }) x) ↔ Within m w x := by
  refine within_modState_part m _ w x _ h (fun p hp => ?_)
  cases p <;> first | exact absurd rfl hp | exact fun _ => rfl | exact fun _ => ⟨rfl, rfl⟩ | trivial

theorem within_set_ntpServer (m : Part → Bool) (v : Str) (w x : World)
    (h : m Part.config = true) :
    Within m w (modState (fun s => { s with ntpServer := v }) x) ↔ Within m w x := by
  refine within_modState_part m _ w x _ h (fun p hp => ?_)
  cases p <;> first | exact absurd rfl hp | exact fun _ => rfl | exact fun _ => ⟨rfl, rfl⟩ | trivial

theorem within_set_timezone (m : Part → Bool) (v : Int) (w x : World)
    (h : m Part.config = true) :
    Within m w (modState (fun s => { s with timezone := v }) x) ↔ Within m w x := by
  refine within_modState_part m _ w x _ h (fun p hp => ?_)
  cases p <;> first | exact absurd rfl hp | exact fun _ => rfl | exact fun _ => ⟨rfl, rfl⟩ | trivial

theorem within_set_debugLevel (m : Part → Bool) (v : Int) (w x : World)
    (h : m Part.config = true) :
    Within m w (modState (fun s => { s with debugLevel := v }) x) ↔ Within m w x := by
  refine within_modState_part m _ w x _ h (fun p hp => ?_)
  cases p <;> first | exact absurd rfl hp | exact fun _ => rfl | exact fun _ => ⟨rfl, rfl⟩ | trivial

theorem within_set_ledEnabled (m : Part → Bool) (v : Bool) (w x : World)
    (h : m Part.config = true) :
    Within m w (modState (fun s => { s with ledEnabled := v }) x) ↔ Within m w x := by
  refine within_modState_part m _ w x _ h (fun p hp => ?_)
  cases p <;> first | exact absurd rfl hp | exact fun _ => rfl | exact fun _ => ⟨rfl, rfl⟩ | trivial

theorem within_trimDeviceId (m : Part → Bool) (w x : World)
    (h : m Part.config = true) :
    Within m w (modState (fun s => { s with deviceId := trim s.deviceId }) x) ↔ Within m w x := by
  refine within_modState_part m _ w x _ h (fun p hp => ?_)
  cases p <;> first | exact absurd rfl hp | exact fun _ => rfl | exact fun _ => ⟨rfl, rfl⟩ | trivial

theorem within_loadedState (m : Part → Bool) (p : Store) (w x : World)
    (h : m Part.config = true) :
    Within m w (modState (loadedState p) x) ↔ Within m w x := by
  refine within_modState_part m _ w x _ h (fun p hp => ?_)
  cases p <;> first | exact absurd rfl hp | exact fun _ => rfl | exact fun _ => ⟨rfl, rfl⟩ | trivial

theorem within_setCredentials (m : Part → Bool) (a : Str) (b : Str) (c : Bool) (w x : World)
    (h : m Part.config = true ∧ m Part.link = true) :
    Within m w
      (modState (fun s => { s with savedSSID := a, savedPassword := b, wifiConnected := c }) x) ↔
      Within m w x := by
  refine within_modState m _ w x (fun p hp => ?_)
  cases p <;> first
    | (simp [h.1] at hp)
    | (simp [h.2] at hp)
    | exact fun _ => rfl
    | exact fun _ => ⟨rfl, rfl⟩
    | trivial

theorem within_delay (m : Part → Bool) (n : Nat) (w x : World)
    (h : m Part.clock = true) :
    Within m w (delay n x) ↔ Within m w x := by
  apply within_peel
  refine ⟨rfl, fun p hp => ?_⟩
  cases p <;> first | (simp [h] at hp) | exact same_refl _ _ | rfl | exact ⟨rfl, rfl⟩

theorem within_setPrefs (m : Part → Bool) (p : Store) (w x : World)
    (h : m Part.prefs = true) :
    Within m w (setPrefs p x) ↔ Within m w x := by
  apply within_peel
  refine ⟨rfl, fun p hp => ?_⟩
  cases p <;> first | (simp [h] at hp) | exact same_refl _ _ | rfl | exact ⟨rfl, rfl⟩

theorem within_setSerialBuffer (m : Part → Bool) (b : Str) (w x : World)
    (h : m Part.serialBuffer = true) :
    Within m w (setSerialBuffer b x) ↔ Within m w x := by
  apply within_peel
  refine ⟨rfl, fun p hp => ?_⟩
  cases p <;> first | (simp [h] at hp) | exact same_refl _ _ | rfl | exact ⟨rfl, rfl⟩

theorem within_setLastMqttRetry (m : Part → Bool) (t : Nat) (w x : World)
    (h : m Part.lastMqttRetry = true) :
    Within m w (setLastMqttRetry t x) ↔ Within m w x := by
  apply within_peel
  refine ⟨rfl, fun p hp => ?_⟩
  cases p <;> first | (simp [h] at hp) | exact same_refl _ _ | rfl | exact ⟨rfl, rfl⟩

theorem within_setLastReconnect (m : Part → Bool) (t : Nat) (w x : World)
    (h : m Part.lastReconnect = true) :
    Within m w (setLastReconnect t x) ↔ Within m w x := by
  apply within_peel
  refine ⟨rfl, fun p hp => ?_⟩
  cases p <;> first | (simp [h] at hp) | exact same_refl _ _ | rfl | exact ⟨rfl, rfl⟩

theorem within_setMqttSession (m : Part → Bool) (b : Bool) (w x : World)
    (h : m Part.mqttSession = true) :
    Within m w (setMqttSession b x) ↔ Within m w x := by
  apply within_peel
  refine ⟨rfl, fun p hp => ?_⟩
  cases p <;> first | (simp [h] at hp) | exact same_refl _ _ | rfl | exact ⟨rfl, rfl⟩

theorem within_setDnsConfig (m : Part → Bool) (c : Option (Str × Str)) (w x : World)
    (h : m Part.dnsConfig = true) :
    Within m w (setDnsConfig c x) ↔ Within m w x := by
  apply within_peel
  refine ⟨rfl, fun p hp => ?_⟩
  cases p <;> first | (simp [h] at hp) | exact same_refl _ _ | rfl | exact ⟨rfl, rfl⟩

theorem within_setRoutes (m : Part → Bool) (r : List Route) (w x : World)
    (h : m Part.routes = true) :
    Within m w (setRoutes r x) ↔ Within m w x := by
  apply within_peel
  refine ⟨rfl, fun p hp => ?_⟩
  cases p <;> first | (simp [h] at hp) | exact same_refl _ _ | rfl | exact ⟨rfl, rfl⟩

theorem within_setRestarted (m : Part → Bool) (w x : World)
    (h : m Part.restarted = true) :
    Within m w (setRestarted x) ↔ Within m w x := by
  apply within_peel
  refine ⟨rfl, fun p hp => ?_⟩
  cases p <;> first | (simp [h] at hp) | exact same_refl _ _ | rfl | exact ⟨rfl, rfl⟩

/-- The rules of the primitive updates, as one statement. -/
theorem within_steps (m : Part → Bool) (w x : World) :
    (∀ e, m (Part.ev (Event.kind e)) = true → (Within m w (emit e x) ↔ Within m w x)) ∧
    (∀ (v : SystemMode), m Part.mode = true →
      (Within m w (modState (fun s => { s with mode := v }) x) ↔ Within m w x)) ∧
    (∀ (v : Bool), m Part.mqttConnected = true →
      (Within m w (modState (fun s => { s with mqttConnected := v }) x) ↔ Within m w x)) ∧
    (∀ (v : Bool), m Part.ntpSynced = true →
      (Within m w (modState (fun s => { s with ntpSynced := v }) x) ↔ Within m w x)) ∧
    (∀ (b : Bool) (r : Int), m Part.link = true →
      (Within m w (modState (fun s => { s with wifiConnected := b, rssi := r }) x) ↔ Within m w x)) ∧
    (∀ (u : Nat) (g : Int), m Part.gauges = true →
      (Within m w (modState (fun s => { s with uptime := u, freeHeap := g }) x) ↔ Within m w x)) ∧
    (∀ (v : Str), m Part.config = true →
      (Within m w (modState (fun s => { s with savedSSID := v }) x) ↔ Within m w x)) ∧
    (∀ (v : Str), m Part.config = true →
      (Within m w (modState (fun s => { s with savedPassword := v }) x) ↔ Within m w x)) ∧
    (∀ (v : Str), m Part.config = true →
      (Within m w (modState (fun s => { s with mqttHost := v }) x) ↔ Within m w x)) ∧
    (∀ (v : Int), m Part.config = true →
      (Within m w (modState (fun s => { s with mqttPort := v }) x) ↔ Within m w x)) ∧
    (∀ (v : Str), m Part.config = true →
      (Within m w (modState (fun s => { s with deviceId := v }) x) ↔ Within m w x)) ∧
    (∀ (v : Int), m Part.config = true →
      (Within m w (modState (fun s => { s with readInterval := v }) x) ↔ Within m w x)) ∧
    (∀ (v : Nat), m Part.config = true →
      (Within m w (modState (fun s => { s with sensorsEnabled := v }) x) ↔ Within m w x)) ∧
    (∀ (v : Bool), m Part.config = true →
      (Within m w (modState (fun s => { s with sleepEnabled := v }) x) ↔ Within m w x)) ∧
    (∀ (v : Int), m Part.config = true →
      (Within m w (modState (fun s => { s with sleepMinutes := v }) x) ↔ Within m w x)) ∧
    (∀ (v : Int), m Part.config = true →
      (Within m w (modState (fun s => { s with alarmNemMin := v }) x) ↔ Within m w x)) ∧
    (∀ (v : Int), m Part.config = true →
      (Within m w (modState (fun s => { s with alarmNemMax := v }) x) ↔ Within m w x)) ∧
    (∀ (v : Int), m Part.config = true →
      (Within m w (modState (fun s => { s with alarmTempMax := v }) x) ↔ Within m w x)) ∧
    (∀ (v : Str), m Part.config = true →
      (Within m w (modState (fun s => { s with ntpServer := v }) x) ↔ Within m w x)) ∧
    (∀ (v : Int), m Part.config = true →
      (Within m w (modState (fun s => { s with timezone := v }) x) ↔ Within m w x)) ∧
    (∀ (v : Int), m Part.config = true →
      (Within m w (modState (fun s => { s with debugLevel := v }) x) ↔ Within m w x)) ∧
    (∀ (v : Bool), m Part.config = true →
      (Within m w (modState (fun s => { s with ledEnabled := v }) x) ↔ Within m w x)) ∧
    (m Part.config = true →
      (Within m w (modState (fun s => { s with deviceId := trim s.deviceId }) x) ↔ Within m w x)) ∧
    (∀ (p : Store), m Part.config = true →
      (Within m w (modState (loadedState p) x) ↔ Within m w x)) ∧
    (∀ (a : Str) (b : Str) (c : Bool), (m Part.config = true ∧ m Part.link = true) →
      (Within m w (modState (fun s => { s with savedSSID := a, savedPassword := b, wifiConnected := c }) x) ↔ Within m w x)) ∧
    (∀ (n : Nat), m Part.clock = true →
      (Within m w (delay n x) ↔ Within m w x)) ∧
    (∀ (p : Store), m Part.prefs = true →
      (Within m w (setPrefs p x) ↔ Within m w x)) ∧
    (∀ (b : Str), m Part.serialBuffer = true →
      (Within m w (setSerialBuffer b x) ↔ Within m w x)) ∧
    (∀ (t : Nat), m Part.lastMqttRetry = true →
      (Within m w (setLastMqttRetry t x) ↔ Within m w x)) ∧
    (∀ (t : Nat), m Part.lastReconnect = true →
      (Within m w (setLastReconnect t x) ↔ Within m w x)) ∧
    (∀ (b : Bool), m Part.mqttSession = true →
      (Within m w (setMqttSession b x) ↔ Within m w x)) ∧
    (∀ (c : Option (Str × Str)), m Part.dnsConfig = true →
      (Within m w (setDnsConfig c x) ↔ Within m w x)) ∧
    (∀ (r : List Route), m Part.routes = true →
      (Within m w (setRoutes r x) ↔ Within m w x)) ∧
    (m Part.restarted = true →
      (Within m w (setRestarted x) ↔ Within m w x)) :=
  ⟨fun e h => within_emit m e w x h,
    fun v h => within_setMode m v w x h,
    fun v h => within_setMqttConnectedField m v w x h,
    fun v h => within_setNtpSynced m v w x h,
    fun b r h => within_setLink m b r w x h,
    fun u g h => within_setGauges m u g w x h,
    fun v h => within_set_savedSSID m v w x h,
    fun v h => within_set_savedPassword m v w x h,
    fun v h => within_set_mqttHost m v w x h,
    fun v h => within_set_mqttPort m v w x h,
    fun v h => within_set_deviceId m v w x h,
    fun v h => within_set_readInterval m v w x h,
    fun v h => within_set_sensorsEnabled m v w x h,
    fun v h => within_set_sleepEnabled m v w x h,
    fun v h => within_set_sleepMinutes m v w x h,
    fun v h => within_set_alarmNemMin m v w x h,
    fun v h => within_set_alarmNemMax m v w x h,
    fun v h => within_set_alarmTempMax m v w x h,
    fun v h => within_set_ntpServer m v w x h,
    fun v h => within_set_timezone m v w x h,
    fun v h => within_set_debugLevel m v w x h,
    fun v h => within_set_ledEnabled m v w x h,
    fun h => within_trimDeviceId m w x h,
    fun p h => within_loadedState m p w x h,
    fun a b c h => within_setCredentials m a b c w x h,
    fun n h => within_delay m n w x h,
    fun p h => within_setPrefs m p w x h,
    fun b h => within_setSerialBuffer m b w x h,
    fun t h => within_setLastMqttRetry m t w x h,
    fun t h => within_setLastReconnect m t w x h,
    fun b h => within_setMqttSession m b w x h,
    fun c h => within_setDnsConfig m c w x h,
    fun r h => within_setRoutes m r w x h,
    fun h => within_setRestarted m w x h⟩

/-! ### The functions of the sketch -/

theorem within_setupMQTT (m : Part → Bool) (w x : World)
    (h : Allows m [
      Part.ev Kind.mqttSetServer, Part.ev Kind.mqttSetCallback, Part.ev Kind.serial]) :
    Within m w (setupMQTT x) ↔ Within m w x := by
  simp only [allows_cons, allows_nil, and_true] at h
  unfold setupMQTT
  simp only [
    within_steps, within_self, within_ite, ite_self, Event.kind, println_eq, sendJson_eq,
    espRestart_eq, prefsPut_eq, prefsClear_eq, serverOn_eq, setMqttConnected_eq, idle_eq,
    allows_cons, allows_nil, and_self, and_true, true_and, apply_ite Prod.snd, h]

theorem within_publishStatus (m : Part → Bool) (hw : Hw) (w x : World)
    (h : Allows m [Part.ev Kind.mqttPublish, Part.ev Kind.serial]) :
    Within m w (publishStatus hw x) ↔ Within m w x := by
  simp only [allows_cons, allows_nil, and_true] at h
  unfold publishStatus
  simp only [
    within_steps, within_self, within_ite, ite_self, Event.kind, println_eq, sendJson_eq,
    espRestart_eq, prefsPut_eq, prefsClear_eq, serverOn_eq, setMqttConnected_eq, idle_eq,
    allows_cons, allows_nil, and_self, and_true, true_and, apply_ite Prod.snd, h]

theorem within_publishSensors (m : Part → Bool) (hw : Hw) (w x : World)
    (h : Allows m [
      Part.ev Kind.serialJson, Part.ev Kind.mqttPublish, Part.ev Kind.serial]) :
    Within m w (publishSensors hw x) ↔ Within m w x := by
  simp only [allows_cons, allows_nil, and_true] at h
  unfold publishSensors
  simp only [
    within_steps, within_self, within_ite, ite_self, Event.kind, println_eq, sendJson_eq,
    espRestart_eq, prefsPut_eq, prefsClear_eq, serverOn_eq, setMqttConnected_eq, idle_eq,
    allows_cons, allows_nil, and_self, and_true, true_and, apply_ite Prod.snd, h]

theorem within_mqttAttempt (m : Part → Bool) (hw : Hw) (w x : World)
    (h : Allows m [
      Part.lastMqttRetry, Part.ev Kind.serial, Part.ev Kind.mqttConnect, Part.mqttSession,
      Part.mqttConnected, Part.ev Kind.mqttPublish]) :
    Within m w (mqttAttempt hw x) ↔ Within m w x := by
  simp only [allows_cons, allows_nil, and_true] at h
  unfold mqttAttempt
  simp only [
    within_steps, within_self, within_ite, ite_self, Event.kind, println_eq, sendJson_eq,
    espRestart_eq, prefsPut_eq, prefsClear_eq, serverOn_eq, setMqttConnected_eq, idle_eq,
    allows_cons, allows_nil, and_self, and_true, true_and, apply_ite Prod.snd, h,
    within_publishStatus]

theorem within_maintainMQTT (m : Part → Bool) (hw : Hw) (w x : World)
    (h : Allows m [
      Part.lastMqttRetry, Part.ev Kind.serial, Part.ev Kind.mqttConnect, Part.mqttSession,
      Part.mqttConnected, Part.ev Kind.mqttPublish, Part.ev Kind.mqttLoop, Part.clock,
      Part.ev Kind.serialJson]) :
    Within m w (maintainMQTT hw x) ↔ Within m w x := by
  simp only [allows_cons, allows_nil, and_true] at h
  unfold maintainMQTT
  simp only [
    within_steps, within_self, within_ite, ite_self, Event.kind, println_eq, sendJson_eq,
    espRestart_eq, prefsPut_eq, prefsClear_eq, serverOn_eq, setMqttConnected_eq, idle_eq,
    allows_cons, allows_nil, and_self, and_true, true_and, apply_ite Prod.snd, h,
    within_mqttAttempt, within_publishSensors]

theorem within_waitForLink (m : Part → Bool) (hw : Hw) (st le n dots : Nat) (w x : World)
    (h : Allows m [Part.clock, Part.ev Kind.serial]) :
    Within m w (waitForLink hw st le n dots x) ↔ Within m w x := by
  simp only [allows_cons, allows_nil, and_true] at h
  induction n generalizing dots x with
  | zero => simp only [waitForLink]
  | succ n ih =>
    unfold waitForLink
    simp only [ih,
    within_steps, within_self, within_ite, ite_self, Event.kind, println_eq, sendJson_eq,
    espRestart_eq, prefsPut_eq, prefsClear_eq, serverOn_eq, setMqttConnected_eq, idle_eq,
    allows_cons, allows_nil, and_self, and_true, true_and, apply_ite Prod.snd, h]

theorem within_connectToWiFi (m : Part → Bool) (hw : Hw) (w x : World)
    (h : Allows m [
      Part.ev Kind.serial, Part.ev Kind.wifiMode, Part.ev Kind.wifiSetHostname,
      Part.ev Kind.wifiBegin, Part.clock, Part.link]) :
    Within m w ((connectToWiFi hw x).2) ↔ Within m w x := by
  simp only [allows_cons, allows_nil, and_true] at h
  unfold connectToWiFi
  simp only [
    within_steps, within_self, within_ite, ite_self, Event.kind, println_eq, sendJson_eq,
    espRestart_eq, prefsPut_eq, prefsClear_eq, serverOn_eq, setMqttConnected_eq, idle_eq,
    allows_cons, allows_nil, and_self, and_true, true_and, apply_ite Prod.snd, h,
    within_waitForLink]

theorem within_startAPMode (m : Part → Bool) (hw : Hw) (w x : World)
    (h : Allows m [
      Part.ev Kind.serial, Part.mode, Part.ev Kind.wifiMode, Part.ev Kind.wifiSoftAP,
      Part.dnsConfig, Part.ev Kind.dnsStart]) :
    Within m w (startAPMode hw x) ↔ Within m w x := by
  simp only [allows_cons, allows_nil, and_true] at h
  unfold startAPMode
  simp only [
    within_steps, within_self, within_ite, ite_self, Event.kind, println_eq, sendJson_eq,
    espRestart_eq, prefsPut_eq, prefsClear_eq, serverOn_eq, setMqttConnected_eq, idle_eq,
    allows_cons, allows_nil, and_self, and_true, true_and, apply_ite Prod.snd, h]

theorem within_ntpWait (m : Part → Bool) (hw : Hw) (n r : Nat) (w x : World)
    (h : Allows m [Part.ev Kind.serial, Part.clock]) :
    Within m w ((ntpWait hw n r x).2) ↔ Within m w x := by
  simp only [allows_cons, allows_nil, and_true] at h
  induction n generalizing r x with
  | zero => simp only [ntpWait]
  | succ n ih =>
    unfold ntpWait
    simp only [ih,
    within_steps, within_self, within_ite, ite_self, Event.kind, println_eq, sendJson_eq,
    espRestart_eq, prefsPut_eq, prefsClear_eq, serverOn_eq, setMqttConnected_eq, idle_eq,
    allows_cons, allows_nil, and_self, and_true, true_and, apply_ite Prod.snd, h]

theorem within_setupNTP (m : Part → Bool) (hw : Hw) (w x : World)
    (h : Allows m [
      Part.ev Kind.serial, Part.ev Kind.configTime, Part.clock, Part.ntpSynced]) :
    Within m w (setupNTP hw x) ↔ Within m w x := by
  simp only [allows_cons, allows_nil, and_true] at h
  unfold setupNTP
  simp only [
    within_steps, within_self, within_ite, ite_self, Event.kind, println_eq, sendJson_eq,
    espRestart_eq, prefsPut_eq, prefsClear_eq, serverOn_eq, setMqttConnected_eq, idle_eq,
    allows_cons, allows_nil, and_self, and_true, true_and, apply_ite Prod.snd, h, within_ntpWait]

theorem within_startStationMode (m : Part → Bool) (hw : Hw) (w x : World)
    (h : Allows m [
      Part.ev Kind.serial, Part.mode, Part.ev Kind.configTime, Part.clock, Part.ntpSynced]) :
    Within m w (startStationMode hw x) ↔ Within m w x := by
  simp only [allows_cons, allows_nil, and_true] at h
  unfold startStationMode
  simp only [
    within_steps, within_self, within_ite, ite_self, Event.kind, println_eq, sendJson_eq,
    espRestart_eq, prefsPut_eq, prefsClear_eq, serverOn_eq, setMqttConnected_eq, idle_eq,
    allows_cons, allows_nil, and_self, and_true, true_and, apply_ite Prod.snd, h, within_setupNTP]

theorem within_setupWebServer (m : Part → Bool) (w x : World)
    (h : Allows m [Part.ev Kind.serial, Part.routes, Part.ev Kind.httpBegin]) :
    Within m w (setupWebServer x) ↔ Within m w x := by
  simp only [allows_cons, allows_nil, and_true] at h
  unfold setupWebServer
  simp only [
    within_steps, within_self, within_ite, ite_self, Event.kind, println_eq, sendJson_eq,
    espRestart_eq, prefsPut_eq, prefsClear_eq, serverOn_eq, setMqttConnected_eq, idle_eq,
    allows_cons, allows_nil, and_self, and_true, true_and, apply_ite Prod.snd, h]

theorem within_handleRoot (m : Part → Bool) (w x : World)
    (h : Allows m [Part.ev Kind.httpSend]) :
    Within m w (handleRoot x) ↔ Within m w x := by
  simp only [allows_cons, allows_nil, and_true] at h
  unfold handleRoot
  simp only [
    within_steps, within_self, within_ite, ite_self, Event.kind, println_eq, sendJson_eq,
    espRestart_eq, prefsPut_eq, prefsClear_eq, serverOn_eq, setMqttConnected_eq, idle_eq,
    allows_cons, allows_nil, and_self, and_true, true_and, apply_ite Prod.snd, h]

theorem within_handleScan (m : Part → Bool) (hw : Hw) (w x : World)
    (h : Allows m [
      Part.ev Kind.serial, Part.ev Kind.httpSend, Part.ev Kind.wifiScanDelete]) :
    Within m w (handleScan hw x) ↔ Within m w x := by
  simp only [allows_cons, allows_nil, and_true] at h
  unfold handleScan
  simp only [
    within_steps, within_self, within_ite, ite_self, Event.kind, println_eq, sendJson_eq,
    espRestart_eq, prefsPut_eq, prefsClear_eq, serverOn_eq, setMqttConnected_eq, idle_eq,
    allows_cons, allows_nil, and_self, and_true, true_and, apply_ite Prod.snd, h]

theorem within_handleConnect (m : Part → Bool) (hw : Hw) (body : Option JsonObj) (w x : World)
    (h : Allows m [
      Part.ev Kind.httpSend, Part.ev Kind.serial, Part.ev Kind.wifiMode, Part.ev Kind.wifiBegin,
      Part.clock, Part.config, Part.link]) :
    Within m w (handleConnect hw body x) ↔ Within m w x := by
  simp only [allows_cons, allows_nil, and_true] at h
  unfold handleConnect
  split <;> simp only [
    within_steps, within_self, within_ite, ite_self, Event.kind, println_eq, sendJson_eq,
    espRestart_eq, prefsPut_eq, prefsClear_eq, serverOn_eq, setMqttConnected_eq, idle_eq,
    allows_cons, allows_nil, and_self, and_true, true_and, apply_ite Prod.snd, h,
    within_waitForLink]

theorem within_prefsPutAll (m : Part → Bool) (l : List (String × NvsVal)) (w x : World)
    (h : Allows m [Part.prefs, Part.ev Kind.nvsPut]) :
    Within m w (prefsPutAll l x) ↔ Within m w x := by
  simp only [allows_cons, allows_nil, and_true] at h
  induction l generalizing x with
  | nil => simp only [prefsPutAll]
  | cons e rest ih =>
    obtain ⟨k, v⟩ := e
    simp only [prefsPutAll, ih,
    within_steps, within_self, within_ite, ite_self, Event.kind, println_eq, sendJson_eq,
    espRestart_eq, prefsPut_eq, prefsClear_eq, serverOn_eq, setMqttConnected_eq, idle_eq,
    allows_cons, allows_nil, and_self, and_true, true_and, apply_ite Prod.snd, h]

theorem within_saveConfiguration (m : Part → Bool) (w x : World)
    (h : Allows m [Part.ev Kind.serial, Part.prefs, Part.ev Kind.nvsPut]) :
    Within m w (saveConfiguration x) ↔ Within m w x := by
  simp only [allows_cons, allows_nil, and_true] at h
  unfold saveConfiguration
  simp only [
    within_steps, within_self, within_ite, ite_self, Event.kind, println_eq, sendJson_eq,
    espRestart_eq, prefsPut_eq, prefsClear_eq, serverOn_eq, setMqttConnected_eq, idle_eq,
    allows_cons, allows_nil, and_self, and_true, true_and, apply_ite Prod.snd, h,
    within_prefsPutAll]

theorem within_loadConfiguration (m : Part → Bool) (w x : World)
    (h : Allows m [Part.ev Kind.serial, Part.config]) :
    Within m w (loadConfiguration x) ↔ Within m w x := by
  simp only [allows_cons, allows_nil, and_true] at h
  unfold loadConfiguration
  simp only [
    within_steps, within_self, within_ite, ite_self, Event.kind, println_eq, sendJson_eq,
    espRestart_eq, prefsPut_eq, prefsClear_eq, serverOn_eq, setMqttConnected_eq, idle_eq,
    allows_cons, allows_nil, and_self, and_true, true_and, apply_ite Prod.snd, h]

theorem within_handleSaveConfig (m : Part → Bool) (body : Option JsonObj) (w x : World)
    (h : Allows m [
      Part.ev Kind.httpSend, Part.config, Part.ev Kind.serial, Part.prefs, Part.ev Kind.nvsPut,
      Part.ev Kind.mqttSetServer, Part.ev Kind.mqttSetCallback, Part.clock, Part.restarted,
      Part.ev Kind.restart]) :
    Within m w (handleSaveConfig body x) ↔ Within m w x := by
  simp only [allows_cons, allows_nil, and_true] at h
  unfold handleSaveConfig
  split <;> simp only [
    within_steps, within_self, within_ite, ite_self, Event.kind, println_eq, sendJson_eq,
    espRestart_eq, prefsPut_eq, prefsClear_eq, serverOn_eq, setMqttConnected_eq, idle_eq,
    allows_cons, allows_nil, and_self, and_true, true_and, apply_ite Prod.snd, h,
    within_saveConfiguration, within_setupMQTT]

theorem within_handleStatus (m : Part → Bool) (hw : Hw) (w x : World)
    (h : Allows m [Part.ev Kind.httpSend]) :
    Within m w (handleStatus hw x) ↔ Within m w x := by
  simp only [allows_cons, allows_nil, and_true] at h
  unfold handleStatus
  simp only [
    within_steps, within_self, within_ite, ite_self, Event.kind, println_eq, sendJson_eq,
    espRestart_eq, prefsPut_eq, prefsClear_eq, serverOn_eq, setMqttConnected_eq, idle_eq,
    allows_cons, allows_nil, and_self, and_true, true_and, apply_ite Prod.snd, h]

theorem within_handleReset (m : Part → Bool) (w x : World)
    (h : Allows m [
      Part.ev Kind.serial, Part.prefs, Part.ev Kind.nvsClear, Part.ev Kind.httpSend, Part.clock,
      Part.restarted, Part.ev Kind.restart]) :
    Within m w (handleReset x) ↔ Within m w x := by
  simp only [allows_cons, allows_nil, and_true] at h
  unfold handleReset
  simp only [
    within_steps, within_self, within_ite, ite_self, Event.kind, println_eq, sendJson_eq,
    espRestart_eq, prefsPut_eq, prefsClear_eq, serverOn_eq, setMqttConnected_eq, idle_eq,
    allows_cons, allows_nil, and_self, and_true, true_and, apply_ite Prod.snd, h]

theorem within_handleDashboard (m : Part → Bool) (w x : World)
    (h : Allows m [Part.ev Kind.httpSend]) :
    Within m w (handleDashboard x) ↔ Within m w x := by
  simp only [allows_cons, allows_nil, and_true] at h
  unfold handleDashboard
  simp only [
    within_steps, within_self, within_ite, ite_self, Event.kind, println_eq, sendJson_eq,
    espRestart_eq, prefsPut_eq, prefsClear_eq, serverOn_eq, setMqttConnected_eq, idle_eq,
    allows_cons, allows_nil, and_self, and_true, true_and, apply_ite Prod.snd, h]

theorem within_handleSystemInfo (m : Part → Bool) (hw : Hw) (w x : World)
    (h : Allows m [Part.ev Kind.httpSend]) :
    Within m w (handleSystemInfo hw x) ↔ Within m w x := by
  simp only [allows_cons, allows_nil, and_true] at h
  unfold handleSystemInfo
  simp only [
    within_steps, within_self, within_ite, ite_self, Event.kind, println_eq, sendJson_eq,
    espRestart_eq, prefsPut_eq, prefsClear_eq, serverOn_eq, setMqttConnected_eq, idle_eq,
    allows_cons, allows_nil, and_self, and_true, true_and, apply_ite Prod.snd, h]

theorem within_handleNotFound (m : Part → Bool) (hw : Hw) (w x : World)
    (h : Allows m [Part.ev Kind.httpHeader, Part.ev Kind.httpSend]) :
    Within m w (handleNotFound hw x) ↔ Within m w x := by
  simp only [allows_cons, allows_nil, and_true] at h
  unfold handleNotFound
  simp only [
    within_steps, within_self, within_ite, ite_self, Event.kind, println_eq, sendJson_eq,
    espRestart_eq, prefsPut_eq, prefsClear_eq, serverOn_eq, setMqttConnected_eq, idle_eq,
    allows_cons, allows_nil, and_self, and_true, true_and, apply_ite Prod.snd, h]

theorem within_runHandler (m : Part → Bool) (hw : Hw) (hd : Handler) (body : Option JsonObj) (w x : World)
    (h : Allows m [
      Part.ev Kind.httpSend, Part.ev Kind.serial, Part.ev Kind.wifiScanDelete,
      Part.ev Kind.wifiMode, Part.ev Kind.wifiBegin, Part.clock, Part.config, Part.link,
      Part.prefs, Part.ev Kind.nvsPut, Part.ev Kind.mqttSetServer, Part.ev Kind.mqttSetCallback,
      Part.restarted, Part.ev Kind.restart, Part.ev Kind.nvsClear]) :
    Within m w (runHandler hw hd body x) ↔ Within m w x := by
  simp only [allows_cons, allows_nil, and_true] at h
  cases hd <;> simp only [runHandler,
    within_steps, within_self, within_ite, ite_self, Event.kind, println_eq, sendJson_eq,
    espRestart_eq, prefsPut_eq, prefsClear_eq, serverOn_eq, setMqttConnected_eq, idle_eq,
    allows_cons, allows_nil, and_self, and_true, true_and, apply_ite Prod.snd, h,
    within_handleRoot, within_handleScan, within_handleConnect, within_handleStatus,
    within_handleSaveConfig, within_handleReset, within_handleDashboard, within_handleSystemInfo]

theorem within_handleClient (m : Part → Bool) (hw : Hw) (req : Option HttpRequest) (w x : World)
    (h : Allows m [
      Part.ev Kind.httpSend, Part.ev Kind.serial, Part.ev Kind.wifiScanDelete,
      Part.ev Kind.wifiMode, Part.ev Kind.wifiBegin, Part.clock, Part.config, Part.link,
      Part.prefs, Part.ev Kind.nvsPut, Part.ev Kind.mqttSetServer, Part.ev Kind.mqttSetCallback,
      Part.restarted, Part.ev Kind.restart, Part.ev Kind.nvsClear, Part.ev Kind.httpHeader]) :
    Within m w (handleClient hw req x) ↔ Within m w x := by
  simp only [allows_cons, allows_nil, and_true] at h
  unfold handleClient
  split
  · simp only [within_self]
  · split <;> simp only [
    within_steps, within_self, within_ite, ite_self, Event.kind, println_eq, sendJson_eq,
    espRestart_eq, prefsPut_eq, prefsClear_eq, serverOn_eq, setMqttConnected_eq, idle_eq,
    allows_cons, allows_nil, and_self, and_true, true_and, apply_ite Prod.snd, h,
    within_runHandler, within_handleNotFound]

theorem within_dnsProcessNextRequest (m : Part → Bool) (q : Option Str) (w x : World)
    (h : Allows m [Part.ev Kind.dnsReply, Part.ev Kind.dnsRefuse]) :
    Within m w (dnsProcessNextRequest q x) ↔ Within m w x := by
  simp only [allows_cons, allows_nil, and_true] at h
  unfold dnsProcessNextRequest
  split <;> simp only [
    within_steps, within_self, within_ite, ite_self, Event.kind, println_eq, sendJson_eq,
    espRestart_eq, prefsPut_eq, prefsClear_eq, serverOn_eq, setMqttConnected_eq, idle_eq,
    allows_cons, allows_nil, and_self, and_true, true_and, apply_ite Prod.snd, h]

theorem within_cmdStatus (m : Part → Bool) (hw : Hw) (w x : World)
    (h : Allows m [Part.ev Kind.serialReport, Part.ev Kind.serialJson]) :
    Within m w (cmdStatus hw x) ↔ Within m w x := by
  simp only [allows_cons, allows_nil, and_true] at h
  unfold cmdStatus
  simp only [
    within_steps, within_self, within_ite, ite_self, Event.kind, println_eq, sendJson_eq,
    espRestart_eq, prefsPut_eq, prefsClear_eq, serverOn_eq, setMqttConnected_eq, idle_eq,
    allows_cons, allows_nil, and_self, and_true, true_and, apply_ite Prod.snd, h]

theorem within_cmdGetConfig (m : Part → Bool) (w x : World)
    (h : Allows m [Part.ev Kind.serialReport]) :
    Within m w (cmdGetConfig x) ↔ Within m w x := by
  simp only [allows_cons, allows_nil, and_true] at h
  unfold cmdGetConfig
  simp only [
    within_steps, within_self, within_ite, ite_self, Event.kind, println_eq, sendJson_eq,
    espRestart_eq, prefsPut_eq, prefsClear_eq, serverOn_eq, setMqttConnected_eq, idle_eq,
    allows_cons, allows_nil, and_self, and_true, true_and, apply_ite Prod.snd, h]

theorem within_cmdRestart (m : Part → Bool) (w x : World)
    (h : Allows m [
      Part.ev Kind.serial, Part.clock, Part.restarted, Part.ev Kind.restart]) :
    Within m w (cmdRestart x) ↔ Within m w x := by
  simp only [allows_cons, allows_nil, and_true] at h
  unfold cmdRestart
  simp only [
    within_steps, within_self, within_ite, ite_self, Event.kind, println_eq, sendJson_eq,
    espRestart_eq, prefsPut_eq, prefsClear_eq, serverOn_eq, setMqttConnected_eq, idle_eq,
    allows_cons, allows_nil, and_self, and_true, true_and, apply_ite Prod.snd, h]

theorem within_cmdReset (m : Part → Bool) (w x : World)
    (h : Allows m [
      Part.ev Kind.serial, Part.prefs, Part.ev Kind.nvsClear, Part.clock, Part.restarted,
      Part.ev Kind.restart]) :
    Within m w (cmdReset x) ↔ Within m w x := by
  simp only [allows_cons, allows_nil, and_true] at h
  unfold cmdReset
  simp only [
    within_steps, within_self, within_ite, ite_self, Event.kind, println_eq, sendJson_eq,
    espRestart_eq, prefsPut_eq, prefsClear_eq, serverOn_eq, setMqttConnected_eq, idle_eq,
    allows_cons, allows_nil, and_self, and_true, true_and, apply_ite Prod.snd, h]

theorem within_printScan (m : Part → Bool) (l : List WiFiNetwork) (i : Nat) (w x : World)
    (h : Allows m [Part.ev Kind.serial]) :
    Within m w (printScan l i x) ↔ Within m w x := by
  simp only [allows_cons, allows_nil, and_true] at h
  induction l generalizing i x with
  | nil => simp only [printScan]
  | cons n rest ih => simp only [printScan, ih,
    within_steps, within_self, within_ite, ite_self, Event.kind, println_eq, sendJson_eq,
    espRestart_eq, prefsPut_eq, prefsClear_eq, serverOn_eq, setMqttConnected_eq, idle_eq,
    allows_cons, allows_nil, and_self, and_true, true_and, apply_ite Prod.snd, h]

theorem within_cmdScan (m : Part → Bool) (hw : Hw) (w x : World)
    (h : Allows m [Part.ev Kind.serial, Part.ev Kind.wifiScanDelete]) :
    Within m w (cmdScan hw x) ↔ Within m w x := by
  simp only [allows_cons, allows_nil, and_true] at h
  unfold cmdScan
  simp only [
    within_steps, within_self, within_ite, ite_self, Event.kind, println_eq, sendJson_eq,
    espRestart_eq, prefsPut_eq, prefsClear_eq, serverOn_eq, setMqttConnected_eq, idle_eq,
    allows_cons, allows_nil, and_self, and_true, true_and, apply_ite Prod.snd, h,
    within_printScan]

theorem within_cmdSetWifi (m : Part → Bool) (params : Str) (w x : World)
    (h : Allows m [
      Part.config, Part.ev Kind.serial, Part.prefs, Part.ev Kind.nvsPut]) :
    Within m w (cmdSetWifi params x) ↔ Within m w x := by
  simp only [allows_cons, allows_nil, and_true] at h
  unfold cmdSetWifi
  simp only [
    within_steps, within_self, within_ite, ite_self, Event.kind, println_eq, sendJson_eq,
    espRestart_eq, prefsPut_eq, prefsClear_eq, serverOn_eq, setMqttConnected_eq, idle_eq,
    allows_cons, allows_nil, and_self, and_true, true_and, apply_ite Prod.snd, h,
    within_saveConfiguration]

theorem within_cmdSetMqtt (m : Part → Bool) (params : Str) (w x : World)
    (h : Allows m [
      Part.config, Part.ev Kind.serial, Part.prefs, Part.ev Kind.nvsPut]) :
    Within m w (cmdSetMqtt params x) ↔ Within m w x := by
  simp only [allows_cons, allows_nil, and_true] at h
  unfold cmdSetMqtt
  simp only [
    within_steps, within_self, within_ite, ite_self, Event.kind, println_eq, sendJson_eq,
    espRestart_eq, prefsPut_eq, prefsClear_eq, serverOn_eq, setMqttConnected_eq, idle_eq,
    allows_cons, allows_nil, and_self, and_true, true_and, apply_ite Prod.snd, h,
    within_saveConfiguration]

theorem within_cmdSetDeviceId (m : Part → Bool) (cmd : Str) (w x : World)
    (h : Allows m [
      Part.config, Part.ev Kind.serial, Part.prefs, Part.ev Kind.nvsPut]) :
    Within m w (cmdSetDeviceId cmd x) ↔ Within m w x := by
  simp only [allows_cons, allows_nil, and_true] at h
  unfold cmdSetDeviceId
  simp only [
    within_steps, within_self, within_ite, ite_self, Event.kind, println_eq, sendJson_eq,
    espRestart_eq, prefsPut_eq, prefsClear_eq, serverOn_eq, setMqttConnected_eq, idle_eq,
    allows_cons, allows_nil, and_self, and_true, true_and, apply_ite Prod.snd, h,
    within_saveConfiguration]

theorem within_cmdSetReadInterval (m : Part → Bool) (cmd : Str) (w x : World)
    (h : Allows m [
      Part.config, Part.ev Kind.serial, Part.prefs, Part.ev Kind.nvsPut]) :
    Within m w (cmdSetReadInterval cmd x) ↔ Within m w x := by
  simp only [allows_cons, allows_nil, and_true] at h
  unfold cmdSetReadInterval
  simp only [
    within_steps, within_self, within_ite, ite_self, Event.kind, println_eq, sendJson_eq,
    espRestart_eq, prefsPut_eq, prefsClear_eq, serverOn_eq, setMqttConnected_eq, idle_eq,
    allows_cons, allows_nil, and_self, and_true, true_and, apply_ite Prod.snd, h,
    within_saveConfiguration]

theorem within_cmdSetSensors (m : Part → Bool) (params : Str) (w x : World)
    (h : Allows m [
      Part.config, Part.ev Kind.serial, Part.prefs, Part.ev Kind.nvsPut]) :
    Within m w (cmdSetSensors params x) ↔ Within m w x := by
  simp only [allows_cons, allows_nil, and_true] at h
  unfold cmdSetSensors
  simp only [
    within_steps, within_self, within_ite, ite_self, Event.kind, println_eq, sendJson_eq,
    espRestart_eq, prefsPut_eq, prefsClear_eq, serverOn_eq, setMqttConnected_eq, idle_eq,
    allows_cons, allows_nil, and_self, and_true, true_and, apply_ite Prod.snd, h,
    within_saveConfiguration]

theorem within_cmdSetSleep (m : Part → Bool) (params : Str) (w x : World)
    (h : Allows m [
      Part.config, Part.ev Kind.serial, Part.prefs, Part.ev Kind.nvsPut]) :
    Within m w (cmdSetSleep params x) ↔ Within m w x := by
  simp only [allows_cons, allows_nil, and_true] at h
  unfold cmdSetSleep
  simp only [
    within_steps, within_self, within_ite, ite_self, Event.kind, println_eq, sendJson_eq,
    espRestart_eq, prefsPut_eq, prefsClear_eq, serverOn_eq, setMqttConnected_eq, idle_eq,
    allows_cons, allows_nil, and_self, and_true, true_and, apply_ite Prod.snd, h,
    within_saveConfiguration]

theorem within_cmdSetAlarms (m : Part → Bool) (params : Str) (w x : World)
    (h : Allows m [
      Part.config, Part.ev Kind.serial, Part.prefs, Part.ev Kind.nvsPut]) :
    Within m w (cmdSetAlarms params x) ↔ Within m w x := by
  simp only [allows_cons, allows_nil, and_true] at h
  unfold cmdSetAlarms
  simp only [
    within_steps, within_self, within_ite, ite_self, Event.kind, println_eq, sendJson_eq,
    espRestart_eq, prefsPut_eq, prefsClear_eq, serverOn_eq, setMqttConnected_eq, idle_eq,
    allows_cons, allows_nil, and_self, and_true, true_and, apply_ite Prod.snd, h,
    within_saveConfiguration]

theorem within_cmdSetNtp (m : Part → Bool) (params : Str) (w x : World)
    (h : Allows m [
      Part.config, Part.ev Kind.serial, Part.prefs, Part.ev Kind.nvsPut]) :
    Within m w (cmdSetNtp params x) ↔ Within m w x := by
  simp only [allows_cons, allows_nil, and_true] at h
  unfold cmdSetNtp
  simp only [
    within_steps, within_self, within_ite, ite_self, Event.kind, println_eq, sendJson_eq,
    espRestart_eq, prefsPut_eq, prefsClear_eq, serverOn_eq, setMqttConnected_eq, idle_eq,
    allows_cons, allows_nil, and_self, and_true, true_and, apply_ite Prod.snd, h,
    within_saveConfiguration]

theorem within_cmdSetDebug (m : Part → Bool) (cmd : Str) (w x : World)
    (h : Allows m [
      Part.config, Part.ev Kind.serial, Part.prefs, Part.ev Kind.nvsPut]) :
    Within m w (cmdSetDebug cmd x) ↔ Within m w x := by
  simp only [allows_cons, allows_nil, and_true] at h
  unfold cmdSetDebug
  simp only [
    within_steps, within_self, within_ite, ite_self, Event.kind, println_eq, sendJson_eq,
    espRestart_eq, prefsPut_eq, prefsClear_eq, serverOn_eq, setMqttConnected_eq, idle_eq,
    allows_cons, allows_nil, and_self, and_true, true_and, apply_ite Prod.snd, h,
    within_saveConfiguration]

theorem within_cmdSetLed (m : Part → Bool) (cmd : Str) (w x : World)
    (h : Allows m [
      Part.config, Part.ev Kind.serial, Part.prefs, Part.ev Kind.nvsPut]) :
    Within m w (cmdSetLed cmd x) ↔ Within m w x := by
  simp only [allows_cons, allows_nil, and_true] at h
  unfold cmdSetLed
  simp only [
    within_steps, within_self, within_ite, ite_self, Event.kind, println_eq, sendJson_eq,
    espRestart_eq, prefsPut_eq, prefsClear_eq, serverOn_eq, setMqttConnected_eq, idle_eq,
    allows_cons, allows_nil, and_self, and_true, true_and, apply_ite Prod.snd, h,
    within_saveConfiguration]

theorem within_cmdHelp (m : Part → Bool) (w x : World)
    (h : Allows m [Part.ev Kind.serialReport]) :
    Within m w (cmdHelp x) ↔ Within m w x := by
  simp only [allows_cons, allows_nil, and_true] at h
  unfold cmdHelp
  simp only [
    within_steps, within_self, within_ite, ite_self, Event.kind, println_eq, sendJson_eq,
    espRestart_eq, prefsPut_eq, prefsClear_eq, serverOn_eq, setMqttConnected_eq, idle_eq,
    allows_cons, allows_nil, and_self, and_true, true_and, apply_ite Prod.snd, h]

theorem within_cmdUnknown (m : Part → Bool) (w x : World)
    (h : Allows m [Part.ev Kind.serial]) :
    Within m w (cmdUnknown x) ↔ Within m w x := by
  simp only [allows_cons, allows_nil, and_true] at h
  unfold cmdUnknown
  simp only [
    within_steps, within_self, within_ite, ite_self, Event.kind, println_eq, sendJson_eq,
    espRestart_eq, prefsPut_eq, prefsClear_eq, serverOn_eq, setMqttConnected_eq, idle_eq,
    allows_cons, allows_nil, and_self, and_true, true_and, apply_ite Prod.snd, h]

theorem within_dispatchCommand (m : Part → Bool) (hw : Hw) (cmd : Str) (w x : World)
    (h : Allows m [
      Part.ev Kind.serialReport, Part.ev Kind.serialJson, Part.ev Kind.serial, Part.clock,
      Part.restarted, Part.ev Kind.restart, Part.prefs, Part.ev Kind.nvsClear,
      Part.ev Kind.wifiScanDelete, Part.config, Part.ev Kind.nvsPut]) :
    Within m w (dispatchCommand hw cmd x) ↔ Within m w x := by
  simp only [allows_cons, allows_nil, and_true] at h
  unfold dispatchCommand
  simp only [
    within_steps, within_self, within_ite, ite_self, Event.kind, println_eq, sendJson_eq,
    espRestart_eq, prefsPut_eq, prefsClear_eq, serverOn_eq, setMqttConnected_eq, idle_eq,
    allows_cons, allows_nil, and_self, and_true, true_and, apply_ite Prod.snd, h,
    within_cmdStatus, within_cmdGetConfig, within_cmdRestart, within_cmdReset, within_cmdScan,
    within_cmdSetWifi, within_cmdSetMqtt, within_cmdSetDeviceId, within_cmdSetReadInterval,
    within_cmdSetSensors, within_cmdSetSleep, within_cmdSetAlarms, within_cmdSetNtp,
    within_cmdSetDebug, within_cmdSetLed, within_cmdHelp, within_cmdUnknown]

theorem within_handleSerialCommand (m : Part → Bool) (hw : Hw) (cmd : Str) (w x : World)
    (h : Allows m [
      Part.ev Kind.serialReport, Part.ev Kind.serialJson, Part.ev Kind.serial, Part.clock,
      Part.restarted, Part.ev Kind.restart, Part.prefs, Part.ev Kind.nvsClear,
      Part.ev Kind.wifiScanDelete, Part.config, Part.ev Kind.nvsPut]) :
    Within m w (handleSerialCommand hw cmd x) ↔ Within m w x := by
  simp only [allows_cons, allows_nil, and_true] at h
  unfold handleSerialCommand
  simp only [
    within_steps, within_self, within_ite, ite_self, Event.kind, println_eq, sendJson_eq,
    espRestart_eq, prefsPut_eq, prefsClear_eq, serverOn_eq, setMqttConnected_eq, idle_eq,
    allows_cons, allows_nil, and_self, and_true, true_and, apply_ite Prod.snd, h,
    within_dispatchCommand]

theorem within_serialChar (m : Part → Bool) (hw : Hw) (c : Char) (w x : World)
    (h : Allows m [
      Part.serialBuffer, Part.ev Kind.serialReport, Part.ev Kind.serialJson, Part.ev Kind.serial,
      Part.clock, Part.restarted, Part.ev Kind.restart, Part.prefs, Part.ev Kind.nvsClear,
      Part.ev Kind.wifiScanDelete, Part.config, Part.ev Kind.nvsPut]) :
    Within m w (serialChar hw c x) ↔ Within m w x := by
  simp only [allows_cons, allows_nil, and_true] at h
  unfold serialChar
  simp only [
    within_steps, within_self, within_ite, ite_self, Event.kind, println_eq, sendJson_eq,
    espRestart_eq, prefsPut_eq, prefsClear_eq, serverOn_eq, setMqttConnected_eq, idle_eq,
    allows_cons, allows_nil, and_self, and_true, true_and, apply_ite Prod.snd, h,
    within_handleSerialCommand]

theorem within_processSerialCommands (m : Part → Bool) (hw : Hw) (cs : List Char) (w x : World)
    (h : Allows m [
      Part.serialBuffer, Part.ev Kind.serialReport, Part.ev Kind.serialJson, Part.ev Kind.serial,
      Part.clock, Part.restarted, Part.ev Kind.restart, Part.prefs, Part.ev Kind.nvsClear,
      Part.ev Kind.wifiScanDelete, Part.config, Part.ev Kind.nvsPut]) :
    Within m w (processSerialCommands hw cs x) ↔ Within m w x := by
  simp only [allows_cons, allows_nil, and_true] at h
  induction cs generalizing x with
  | nil => simp only [processSerialCommands, within_self]
  | cons c rest ih =>
    unfold processSerialCommands
    simp only [ih,
    within_steps, within_self, within_ite, ite_self, Event.kind, println_eq, sendJson_eq,
    espRestart_eq, prefsPut_eq, prefsClear_eq, serverOn_eq, setMqttConnected_eq, idle_eq,
    allows_cons, allows_nil, and_self, and_true, true_and, apply_ite Prod.snd, h,
    within_serialChar]

theorem within_reconnectStep (m : Part → Bool) (w x : World)
    (h : Allows m [
      Part.lastReconnect, Part.ev Kind.serial, Part.ev Kind.wifiReconnect]) :
    Within m w (reconnectStep x) ↔ Within m w x := by
  simp only [allows_cons, allows_nil, and_true] at h
  unfold reconnectStep
  simp only [
    within_steps, within_self, within_ite, ite_self, Event.kind, println_eq, sendJson_eq,
    espRestart_eq, prefsPut_eq, prefsClear_eq, serverOn_eq, setMqttConnected_eq, idle_eq,
    allows_cons, allows_nil, and_self, and_true, true_and, apply_ite Prod.snd, h]

theorem within_loopRunning (m : Part → Bool) (hw : Hw) (w x : World)
    (h : Allows m [
      Part.link, Part.lastMqttRetry, Part.ev Kind.serial, Part.ev Kind.mqttConnect,
      Part.mqttSession, Part.mqttConnected, Part.ev Kind.mqttPublish, Part.ev Kind.mqttLoop,
      Part.clock, Part.ev Kind.serialJson, Part.lastReconnect, Part.ev Kind.wifiReconnect]) :
    Within m w (loopRunning hw x) ↔ Within m w x := by
  simp only [allows_cons, allows_nil, and_true] at h
  unfold loopRunning
  simp only [
    within_steps, within_self, within_ite, ite_self, Event.kind, println_eq, sendJson_eq,
    espRestart_eq, prefsPut_eq, prefsClear_eq, serverOn_eq, setMqttConnected_eq, idle_eq,
    allows_cons, allows_nil, and_self, and_true, true_and, apply_ite Prod.snd, h,
    within_maintainMQTT, within_reconnectStep]

theorem within_loopTail (m : Part → Bool) (hw : Hw) (w x : World)
    (h : Allows m [
      Part.gauges, Part.clock, Part.link, Part.lastMqttRetry, Part.ev Kind.serial,
      Part.ev Kind.mqttConnect, Part.mqttSession, Part.mqttConnected, Part.ev Kind.mqttPublish,
      Part.ev Kind.mqttLoop, Part.ev Kind.serialJson, Part.lastReconnect,
      Part.ev Kind.wifiReconnect]) :
    Within m w (loopTail hw x) ↔ Within m w x := by
  simp only [allows_cons, allows_nil, and_true] at h
  unfold loopTail
  simp only [
    within_steps, within_self, within_ite, ite_self, Event.kind, println_eq, sendJson_eq,
    espRestart_eq, prefsPut_eq, prefsClear_eq, serverOn_eq, setMqttConnected_eq, idle_eq,
    allows_cons, allows_nil, and_self, and_true, true_and, apply_ite Prod.snd, h,
    within_loopRunning]

theorem within_loopRest (m : Part → Bool) (hw : Hw) (inp : LoopInput) (w x : World)
    (h : Allows m [
      Part.ev Kind.httpSend, Part.ev Kind.serial, Part.ev Kind.wifiScanDelete,
      Part.ev Kind.wifiMode, Part.ev Kind.wifiBegin, Part.clock, Part.config, Part.link,
      Part.prefs, Part.ev Kind.nvsPut, Part.ev Kind.mqttSetServer, Part.ev Kind.mqttSetCallback,
      Part.restarted, Part.ev Kind.restart, Part.ev Kind.nvsClear, Part.ev Kind.httpHeader,
      Part.serialBuffer, Part.ev Kind.serialReport, Part.ev Kind.serialJson, Part.gauges,
      Part.lastMqttRetry, Part.ev Kind.mqttConnect, Part.mqttSession, Part.mqttConnected,
      Part.ev Kind.mqttPublish, Part.ev Kind.mqttLoop, Part.lastReconnect,
      Part.ev Kind.wifiReconnect]) :
    Within m w (loopRest hw inp x) ↔ Within m w x := by
  simp only [allows_cons, allows_nil, and_true] at h
  unfold loopRest
  simp only [
    within_steps, within_self, within_ite, ite_self, Event.kind, println_eq, sendJson_eq,
    espRestart_eq, prefsPut_eq, prefsClear_eq, serverOn_eq, setMqttConnected_eq, idle_eq,
    allows_cons, allows_nil, and_self, and_true, true_and, apply_ite Prod.snd, h,
    within_handleClient, within_processSerialCommands, within_loopTail]

theorem within_loop (m : Part → Bool) (hw : Hw) (inp : LoopInput) (w x : World)
    (h : Allows m [
      Part.ev Kind.dnsReply, Part.ev Kind.dnsRefuse, Part.ev Kind.httpSend, Part.ev Kind.serial,
      Part.ev Kind.wifiScanDelete, Part.ev Kind.wifiMode, Part.ev Kind.wifiBegin, Part.clock,
      Part.config, Part.link, Part.prefs, Part.ev Kind.nvsPut, Part.ev Kind.mqttSetServer,
      Part.ev Kind.mqttSetCallback, Part.restarted, Part.ev Kind.restart, Part.ev Kind.nvsClear,
      Part.ev Kind.httpHeader, Part.serialBuffer, Part.ev Kind.serialReport,
      Part.ev Kind.serialJson, Part.gauges, Part.lastMqttRetry, Part.ev Kind.mqttConnect,
      Part.mqttSession, Part.mqttConnected, Part.ev Kind.mqttPublish, Part.ev Kind.mqttLoop,
      Part.lastReconnect, Part.ev Kind.wifiReconnect]) :
    Within m w (loop hw inp x) ↔ Within m w x := by
  simp only [allows_cons, allows_nil, and_true] at h
  unfold loop
  simp only [
    within_steps, within_self, within_ite, ite_self, Event.kind, println_eq, sendJson_eq,
    espRestart_eq, prefsPut_eq, prefsClear_eq, serverOn_eq, setMqttConnected_eq, idle_eq,
    allows_cons, allows_nil, and_self, and_true, true_and, apply_ite Prod.snd, h,
    within_dnsProcessNextRequest, within_loopRest]

theorem within_setupBegin (m : Part → Bool) (w x : World)
    (h : Allows m [Part.clock, Part.ev Kind.serial, Part.config]) :
    Within m w (setupBegin x) ↔ Within m w x := by
  simp only [allows_cons, allows_nil, and_true] at h
  unfold setupBegin
  simp only [
    within_steps, within_self, within_ite, ite_self, Event.kind, println_eq, sendJson_eq,
    espRestart_eq, prefsPut_eq, prefsClear_eq, serverOn_eq, setMqttConnected_eq, idle_eq,
    allows_cons, allows_nil, and_self, and_true, true_and, apply_ite Prod.snd, h,
    within_loadConfiguration]

theorem within_setupLink (m : Part → Bool) (hw : Hw) (w x : World)
    (h : Allows m [
      Part.ev Kind.serial, Part.ev Kind.wifiMode, Part.ev Kind.wifiSetHostname,
      Part.ev Kind.wifiBegin, Part.clock, Part.link, Part.mode, Part.ev Kind.configTime,
      Part.ntpSynced, Part.ev Kind.wifiSoftAP, Part.dnsConfig, Part.ev Kind.dnsStart]) :
    Within m w (setupLink hw x) ↔ Within m w x := by
  simp only [allows_cons, allows_nil, and_true] at h
  unfold setupLink
  simp only [
    within_steps, within_self, within_ite, ite_self, Event.kind, println_eq, sendJson_eq,
    espRestart_eq, prefsPut_eq, prefsClear_eq, serverOn_eq, setMqttConnected_eq, idle_eq,
    allows_cons, allows_nil, and_self, and_true, true_and, apply_ite Prod.snd, h,
    within_connectToWiFi, within_startStationMode, within_startAPMode]

theorem within_setup (m : Part → Bool) (hw : Hw) (w x : World)
    (h : Allows m [
      Part.clock, Part.ev Kind.serial, Part.config, Part.ev Kind.wifiMode,
      Part.ev Kind.wifiSetHostname, Part.ev Kind.wifiBegin, Part.link, Part.mode,
      Part.ev Kind.configTime, Part.ntpSynced, Part.ev Kind.wifiSoftAP, Part.dnsConfig,
      Part.ev Kind.dnsStart, Part.routes, Part.ev Kind.httpBegin, Part.ev Kind.mqttSetServer,
      Part.ev Kind.mqttSetCallback]) :
    Within m w (setup hw x) ↔ Within m w x := by
  simp only [allows_cons, allows_nil, and_true] at h
  unfold setup
  simp only [
    within_steps, within_self, within_ite, ite_self, Event.kind, println_eq, sendJson_eq,
    espRestart_eq, prefsPut_eq, prefsClear_eq, serverOn_eq, setMqttConnected_eq, idle_eq,
    allows_cons, allows_nil, and_self, and_true, true_and, apply_ite Prod.snd, h,
    within_setupBegin, within_setupLink, within_setupWebServer, within_setupMQTT]


/-! ## Round trip and defaults of the persisted record -/

/-- C1. Round trip of the persisted record: whatever the sixteen persisted
fields of the state hold and whatever the store held before,
`saveConfiguration()` followed by `loadConfiguration()` leaves each of the
sixteen fields equal to its value before the save. -/
theorem C1_save_load_roundtrip (w : World) :
    (loadConfiguration (saveConfiguration w)).state.config = w.state.config := by
  rw [state_loadConfiguration, prefs_saveConfiguration, state_saveConfiguration]
  exact loaded_saved _ _ _

/-- C7. Defaults for absent keys: for every store, `loadConfiguration()` gives
a field whose key is absent its default and a field whose key holds a value of
the type of the field that value; on the empty store it yields SSID, password
and broker host empty, port 1883, device id deneyap-001, read interval 30,
sensor mask 0x0F, sleep off, sleep minutes 5, alarm thresholds 20 / 80 / 40,
time server pool.ntp.org, UTC offset 3, debug level 1, LED on. -/
theorem C7_load_defaults (w : World) :
    ReadsStr w.prefs NVS_KEY_WIFI_SSID [] (loadConfiguration w).state.savedSSID ∧
    ReadsStr w.prefs NVS_KEY_WIFI_PASS [] (loadConfiguration w).state.savedPassword ∧
    ReadsStr w.prefs NVS_KEY_MQTT_HOST [] (loadConfiguration w).state.mqttHost ∧
    ReadsInt w.prefs NVS_KEY_MQTT_PORT 1883 (loadConfiguration w).state.mqttPort ∧
    ReadsStr w.prefs NVS_KEY_DEVICE_ID "deneyap-001" (loadConfiguration w).state.deviceId ∧
    ReadsInt w.prefs NVS_KEY_READ_INTERVAL 30 (loadConfiguration w).state.readInterval ∧
    ReadsU8 w.prefs NVS_KEY_SENSORS_ENABLED 0x0F (loadConfiguration w).state.sensorsEnabled ∧
    ReadsBool w.prefs NVS_KEY_SLEEP_ENABLED false (loadConfiguration w).state.sleepEnabled ∧
    ReadsInt w.prefs NVS_KEY_SLEEP_MINUTES 5 (loadConfiguration w).state.sleepMinutes ∧
    ReadsInt w.prefs NVS_KEY_ALARM_NEM_MIN 20 (loadConfiguration w).state.alarmNemMin ∧
    ReadsInt w.prefs NVS_KEY_ALARM_NEM_MAX 80 (loadConfiguration w).state.alarmNemMax ∧
    ReadsInt w.prefs NVS_KEY_ALARM_TEMP_MAX 40 (loadConfiguration w).state.alarmTempMax ∧
    ReadsStr w.prefs NVS_KEY_NTP_SERVER "pool.ntp.org" (loadConfiguration w).state.ntpServer ∧
    ReadsInt w.prefs NVS_KEY_TIMEZONE 3 (loadConfiguration w).state.timezone ∧
    ReadsInt w.prefs NVS_KEY_DEBUG_LEVEL 1 (loadConfiguration w).state.debugLevel ∧
    ReadsBool w.prefs NVS_KEY_LED_ENABLED true (loadConfiguration w).state.ledEnabled ∧
    (loadConfiguration (setPrefs [] w)).state.config =
      { savedSSID := [], savedPassword := [], mqttHost := [], mqttPort := 1883,
        deviceId := "deneyap-001", readInterval := 30, sensorsEnabled := 0x0F,
        sleepEnabled := false, sleepMinutes := 5, alarmNemMin := 20, alarmNemMax := 80,
        alarmTempMax := 40, ntpServer := "pool.ntp.org", timezone := 3, debugLevel := 1,
        ledEnabled := true } := by
  simp only [state_loadConfiguration]
  refine ⟨readsStr_getString _ _ _, readsStr_getString _ _ _, readsStr_getString _ _ _,
    readsInt_getInt _ _ _, readsStr_getString _ _ _, readsInt_getInt _ _ _,
    readsU8_getUChar _ _ _, readsBool_getBool _ _ _, readsInt_getInt _ _ _,
    readsInt_getInt _ _ _, readsInt_getInt _ _ _, readsInt_getInt _ _ _,
    readsStr_getString _ _ _, readsInt_getInt _ _ _, readsInt_getInt _ _ _,
    readsBool_getBool _ _ _, ?_⟩
  rfl

/-! ## Reading a part out of a frame -/

theorem same_of_within {m : Part → Bool} {w w' : World} (h : Within m w w') (p : Part)
    (hp : m p = false) : Same p w w' :=
  h.2 p hp

theorem within_of_rule {m : Part → Bool} {w y : World} (h : Within m w y ↔ Within m w w) :
    Within m w y :=
  h.2 ((within_self m w).2 trivial)

/-! ## The dispatch of the operator commands -/

theorem startsWith_iff (c p : Str) : startsWith c p = true ↔ ∃ r, c = p ++ r := by
  simp only [startsWith, List.isPrefixOf_iff_prefix]
  constructor
  · rintro ⟨r, rfl⟩; exact ⟨r, rfl⟩
  · rintro ⟨r, rfl⟩; exact ⟨r, rfl⟩

theorem dispatch_setWifi (hw : Hw) (w : World) (cmd : Str)
    (h : startsWith cmd "SET_WIFI:" = true ∨ startsWith cmd "set_wifi:" = true) :
    dispatchCommand hw cmd w = cmdSetWifi (substringFrom cmd 9) w := by
  rcases h with h | h <;> obtain ⟨r, rfl⟩ := (startsWith_iff _ _).1 h <;>
    simp [dispatchCommand, startsWith, List.isPrefixOf]

theorem dispatch_setMqtt (hw : Hw) (w : World) (cmd : Str)
    (h : startsWith cmd "SET_MQTT:" = true ∨ startsWith cmd "set_mqtt:" = true) :
    dispatchCommand hw cmd w = cmdSetMqtt (substringFrom cmd 9) w := by
  rcases h with h | h <;> obtain ⟨r, rfl⟩ := (startsWith_iff _ _).1 h <;>
    simp [dispatchCommand, startsWith, List.isPrefixOf]

theorem dispatch_setReadInterval (hw : Hw) (w : World) (cmd : Str)
    (h : startsWith cmd "SET_READ_INTERVAL:" = true ∨
      startsWith cmd "set_read_interval:" = true) :
    dispatchCommand hw cmd w = cmdSetReadInterval cmd w := by
  rcases h with h | h <;> obtain ⟨r, rfl⟩ := (startsWith_iff _ _).1 h <;>
    simp [dispatchCommand, startsWith, List.isPrefixOf]

theorem dispatch_setSleep (hw : Hw) (w : World) (cmd : Str)
    (h : startsWith cmd "SET_SLEEP:" = true ∨ startsWith cmd "set_sleep:" = true) :
    dispatchCommand hw cmd w = cmdSetSleep (substringFrom cmd 10) w := by
  rcases h with h | h <;> obtain ⟨r, rfl⟩ := (startsWith_iff _ _).1 h <;>
    simp [dispatchCommand, startsWith, List.isPrefixOf]

theorem dispatch_setAlarms (hw : Hw) (w : World) (cmd : Str)
    (h : startsWith cmd "SET_ALARMS:" = true ∨ startsWith cmd "set_alarms:" = true) :
    dispatchCommand hw cmd w = cmdSetAlarms (substringFrom cmd 11) w := by
  rcases h with h | h <;> obtain ⟨r, rfl⟩ := (startsWith_iff _ _).1 h <;>
    simp [dispatchCommand, startsWith, List.isPrefixOf]

theorem dispatch_setNtp (hw : Hw) (w : World) (cmd : Str)
    (h : startsWith cmd "SET_NTP:" = true ∨ startsWith cmd "set_ntp:" = true) :
    dispatchCommand hw cmd w = cmdSetNtp (substringFrom cmd 8) w := by
  rcases h with h | h <;> obtain ⟨r, rfl⟩ := (startsWith_iff _ _).1 h <;>
    simp [dispatchCommand, startsWith, List.isPrefixOf]

theorem dispatch_setDebug (hw : Hw) (w : World) (cmd : Str)
    (h : startsWith cmd "SET_DEBUG:" = true ∨ startsWith cmd "set_debug:" = true) :
    dispatchCommand hw cmd w = cmdSetDebug cmd w := by
  rcases h with h | h <;> obtain ⟨r, rfl⟩ := (startsWith_iff _ _).1 h <;>
    simp [dispatchCommand, startsWith, List.isPrefixOf]

/-! ## The read interval -/

/-- What is stored under a key after a save. -/
theorem saved_readInterval (s : SystemState) (p : Store) :
    nvsGet (putAll (savedEntries s) p) NVS_KEY_READ_INTERVAL = some (NvsVal.i32 s.readInterval) := by
  simp [savedEntries, putAll, nvsGet_put_same, nvsGet_put_other,
    NVS_KEY_WIFI_SSID, NVS_KEY_WIFI_PASS, NVS_KEY_MQTT_HOST, NVS_KEY_MQTT_PORT,
    NVS_KEY_DEVICE_ID, NVS_KEY_CONFIGURED, NVS_KEY_READ_INTERVAL, NVS_KEY_SENSORS_ENABLED,
    NVS_KEY_SLEEP_ENABLED, NVS_KEY_SLEEP_MINUTES, NVS_KEY_ALARM_NEM_MIN,
    NVS_KEY_ALARM_NEM_MAX, NVS_KEY_ALARM_TEMP_MAX, NVS_KEY_NTP_SERVER, NVS_KEY_TIMEZONE,
    NVS_KEY_DEBUG_LEVEL, NVS_KEY_LED_ENABLED]

/-- C2. Read-interval bounds: for a serial command whose verb is SET_READ_INTERVAL: in
upper or lower case, with n the integer parsed from the text after the verb: if n is
outside [5, 3600] the persisted fields of the state and the store are unchanged; if n is
inside, `state.readInterval` becomes n, the store holds n under the read-interval key and
a load reads n. -/
theorem C2_read_interval_bounds (hw : Hw) (w : World) (cmd : Str)
    (hverb : startsWith (trim cmd) "SET_READ_INTERVAL:" = true ∨
      startsWith (trim cmd) "set_read_interval:" = true) :
    ((toInt (substringFrom (trim cmd) 18) < 5 ∨ 3600 < toInt (substringFrom (trim cmd) 18)) →
      (handleSerialCommand hw cmd w).state.config = w.state.config ∧
      (handleSerialCommand hw cmd w).prefs = w.prefs) ∧
    ((5 ≤ toInt (substringFrom (trim cmd) 18) ∧ toInt (substringFrom (trim cmd) 18) ≤ 3600) →
      (handleSerialCommand hw cmd w).state.readInterval = toInt (substringFrom (trim cmd) 18) ∧
      nvsGet (handleSerialCommand hw cmd w).prefs NVS_KEY_READ_INTERVAL =
        some (NvsVal.i32 (toInt (substringFrom (trim cmd) 18))) ∧
      (loadConfiguration (handleSerialCommand hw cmd w)).state.readInterval =
        toInt (substringFrom (trim cmd) 18)) := by
  have hd : handleSerialCommand hw cmd w =
      cmdSetReadInterval (trim cmd) (println ("[CMD] Alındı: " ++ trim cmd) w) := by
    simp only [handleSerialCommand]
    exact dispatch_setReadInterval hw _ _ hverb
  rw [hd]
  constructor
  · intro hout
    have hno : ¬ (toInt (substringFrom (trim cmd) 18) ≥ 5 ∧
        toInt (substringFrom (trim cmd) 18) ≤ 3600) := by omega
    simp only [cmdSetReadInterval, hno, if_false, println_eq, state_emit, prefs_emit, and_self]
  · intro hin
    have hyes : toInt (substringFrom (trim cmd) 18) ≥ 5 ∧
        toInt (substringFrom (trim cmd) 18) ≤ 3600 := ⟨hin.1, hin.2⟩
    simp only [cmdSetReadInterval, hyes, and_self, if_true, println_eq, state_emit, prefs_emit,
      state_saveConfiguration, prefs_saveConfiguration, state_modState, state_loadConfiguration,
      prefs_loadConfiguration, saved_readInterval, true_and]
    have := congrArg DeviceConfig.readInterval (loaded_saved
      { w.state with readInterval := toInt (substringFrom (trim cmd) 18) }
      { w.state with readInterval := toInt (substringFrom (trim cmd) 18) } w.prefs)
    simpa [SystemState.config] using this

/-- Witness of C2: SET_READ_INTERVAL:2 on the factory defaults leaves the interval at 30. -/
theorem C2_read_interval_bounds_witness :
    (handleSerialCommand Hw.quiet "SET_READ_INTERVAL:2" factoryWorld).state.readInterval = 30 :=
  (congrArg DeviceConfig.readInterval
    ((C2_read_interval_bounds Hw.quiet factoryWorld "SET_READ_INTERVAL:2" (by decide)).1
      (by decide)).1).trans (by decide)

/-! ## The initial mode -/

theorem mode_startAPMode (hw : Hw) (x : World) :
    (startAPMode hw x).state.mode = SystemMode.MODE_SETUP := by
  simp only [startAPMode, println_eq, state_emit, state_setDnsConfig, state_modState]

theorem dnsConfig_startAPMode (hw : Hw) (x : World) :
    (startAPMode hw x).dnsConfig = some (("*" : Str), hw.softAPIP) := by
  simp only [startAPMode, println_eq, dnsConfig_emit, dnsConfig_setDnsConfig]

theorem mode_startStationMode (hw : Hw) (x : World) :
    (startStationMode hw x).state.mode = SystemMode.MODE_RUNNING := by
  unfold startStationMode
  have h := same_of_within (within_of_rule (within_setupNTP (allBut [Part.mode]) hw
    (modState (fun s => { s with mode := SystemMode.MODE_RUNNING })
      (println "[STA] Station modu başlatılıyor..." x)) _ (by decide))) Part.mode (by decide)
  exact h.trans (by simp only [state_modState])

/-- The decision of `setup()`, as a case distinction. -/
theorem setupLink_cases (hw : Hw) (x : World) :
    (x.state.savedSSID.length > 0 ∧
      (connectToWiFi hw (println ("[BOOT] Kayıtlı WiFi bulundu: " ++ x.state.savedSSID) x)).1
        = true ∧
      (setupLink hw x).state.mode = SystemMode.MODE_RUNNING) ∨
    (¬ (x.state.savedSSID.length > 0 ∧
      (connectToWiFi hw (println ("[BOOT] Kayıtlı WiFi bulundu: " ++ x.state.savedSSID) x)).1
        = true) ∧
      (setupLink hw x).state.mode = SystemMode.MODE_SETUP ∧
      (setupLink hw x).dnsConfig = some (("*" : Str), hw.softAPIP)) := by
  unfold setupLink
  by_cases hs : x.state.savedSSID.length > 0
  · by_cases hr : (connectToWiFi hw
        (println ("[BOOT] Kayıtlı WiFi bulundu: " ++ x.state.savedSSID) x)).1 = true
    · left
      simp only [hs, hr, if_true, mode_startStationMode, and_self]
    · right
      simp only [hs, hr, if_true, if_false, mode_startAPMode, dnsConfig_startAPMode, and_self,
        and_false, not_false_eq_true, Bool.false_eq_true]
  · right
    simp only [hs, if_false, mode_startAPMode, dnsConfig_startAPMode, and_self, false_and,
      not_false_eq_true]

/-- What follows the decision in `setup()` keeps the mode and the DNS
responder. -/
theorem setup_after_link (hw : Hw) (w : World) :
    (setup hw w).state.mode = (setupLink hw (setupBegin w)).state.mode ∧
    (setup hw w).dnsConfig = (setupLink hw (setupBegin w)).dnsConfig := by
  have h : Within (allBut [Part.mode, Part.dnsConfig]) (setupLink hw (setupBegin w))
      (setup hw w) := by
    unfold setup
    simp only [println_eq]
    rw [within_emit _ _ _ _ (by decide), within_setupMQTT _ _ _ (by decide),
      within_setupWebServer _ _ _ (by decide)]
    exact (within_self _ _).2 trivial
  exact ⟨same_of_within h Part.mode (by decide), same_of_within h Part.dnsConfig (by decide)⟩

theorem savedSSID_setupBegin (w : World) :
    (setupBegin w).state.savedSSID = getString w.prefs NVS_KEY_WIFI_SSID [] := by
  simp only [setupBegin, println_eq, state_loadConfiguration, prefs_emit, prefs_delay,
    loadedState]

theorem length_pos_iff_ne_nil (s : Str) : s.length > 0 ↔ s ≠ [] := by
  cases s <;> simp

/-- C3. Initial mode decision: the SSID that `setup()` decides on is the one read from
the store; when it is empty the mode after `setup()` is MODE_SETUP and no `WiFi.begin` was
issued; when `connectToWiFi()` returns false the mode is MODE_SETUP; and the mode is
MODE_RUNNING exactly when the loaded SSID is not empty and `connectToWiFi()` returns true. -/
theorem C3_initial_mode (hw : Hw) (w : World) :
    (setupBegin w).state.savedSSID = getString w.prefs NVS_KEY_WIFI_SSID [] ∧
    ((setupBegin w).state.savedSSID = [] →
      (setup hw w).state.mode = SystemMode.MODE_SETUP ∧
      ofKind Kind.wifiBegin (setup hw w).out = ofKind Kind.wifiBegin w.out) ∧
    (bootAttempt hw w = false → (setup hw w).state.mode = SystemMode.MODE_SETUP) ∧
    ((setup hw w).state.mode = SystemMode.MODE_RUNNING ↔
      (setupBegin w).state.savedSSID ≠ [] ∧ bootAttempt hw w = true) := by
  have hm := (setup_after_link hw w).1
  have hc := setupLink_cases hw (setupBegin w)
  rw [length_pos_iff_ne_nil] at hc
  refine ⟨savedSSID_setupBegin w, ?_, ?_, ?_⟩
  · intro hempty
    constructor
    · rcases hc with ⟨h1, _, _⟩ | ⟨_, h2, _⟩
      · exact absurd hempty h1
      · exact hm.trans h2
    · have hlen : ¬ ((setupBegin w).state.savedSSID.length > 0) := by simp [hempty]
      have h : Within (allBut [Part.ev Kind.wifiBegin]) w (setup hw w) := by
        unfold setup
        simp only [println_eq]
        rw [within_emit _ _ _ _ (by decide), within_setupMQTT _ _ _ (by decide),
          within_setupWebServer _ _ _ (by decide)]
        unfold setupLink
        simp only [hlen, if_false, println_eq]
        rw [within_startAPMode _ _ _ _ (by decide), within_emit _ _ _ _ (by decide),
          within_setupBegin _ _ _ (by decide)]
        exact (within_self _ _).2 trivial
      exact same_of_within h (Part.ev Kind.wifiBegin) (by decide)
  · intro hfalse
    rcases hc with ⟨_, h1, _⟩ | ⟨_, h2, _⟩
    · exact absurd (show bootAttempt hw w = true from h1) (by simp [hfalse])
    · exact hm.trans h2
  · constructor
    · intro hrun
      rcases hc with ⟨h1, h2, _⟩ | ⟨_, h2, _⟩
      · exact ⟨h1, h2⟩
      · rw [hm, h2] at hrun
        exact absurd hrun (by decide)
    · intro hboth
      rcases hc with ⟨_, _, h3⟩ | ⟨h1, _, _⟩
      · exact hm.trans h3
      · exact absurd hboth h1

/-- Witness of C3: an empty store and a store with an SSID but no link both end in
Setup; a store with an SSID and a link that comes up ends in Running. -/
theorem C3_initial_mode_witness :
    (setup Hw.quiet (World.powerOn [] 0)).state.mode = SystemMode.MODE_SETUP ∧
    (setup Hw.quiet (World.powerOn (storeWithSsid "TestNet") 0)).state.mode =
      SystemMode.MODE_SETUP ∧
    (setup Hw.online (World.powerOn (storeWithSsid "TestNet") 0)).state.mode =
      SystemMode.MODE_RUNNING :=
  ⟨((C3_initial_mode Hw.quiet (World.powerOn [] 0)).2.1 (by decide)).1,
    (C3_initial_mode Hw.quiet (World.powerOn (storeWithSsid "TestNet") 0)).2.2.1 (by decide),
    (C3_initial_mode Hw.online (World.powerOn (storeWithSsid "TestNet") 0)).2.2.2.2
      ⟨by decide, by decide⟩⟩

/-! ## The cadence of the broker retries -/

theorem subU32_of_le (a b : Nat) (hb : b ≤ a) (ha : a < 2 ^ 32) : subU32 a b = a - b := by
  unfold subU32
  have hb' : b % 2 ^ 32 = b := Nat.mod_eq_of_lt (by omega)
  rw [hb']
  have : a + 2 ^ 32 - b = (a - b) + 2 ^ 32 := by omega
  rw [this, Nat.add_mod_right]
  exact Nat.mod_eq_of_lt (by omega)

/-- A refused attempt: the retry time is set, one attempt is recorded, and the
session stays down. -/
theorem mqttAttempt_refused (hw : Hw) (w : World) (hr : hw.brokerAccepts w.clock = false) :
    (mqttAttempt hw w).state.mode = w.state.mode ∧
    (mqttAttempt hw w).state.mqttHost = w.state.mqttHost ∧
    (mqttAttempt hw w).state.wifiConnected = w.state.wifiConnected ∧
    (mqttAttempt hw w).mqttSession = w.mqttSession ∧
    (mqttAttempt hw w).clock = w.clock ∧
    (mqttAttempt hw w).bootedAt = w.bootedAt ∧
    (mqttAttempt hw w).lastMqttRetry = millis w ∧
    attempts (mqttAttempt hw w) = attempts w + 1 := by
  unfold mqttAttempt
  simp only [println_eq, clock_emit, clock_setLastMqttRetry, hr, Bool.false_eq_true, if_false,
    setMqttConnected_eq, state_modState, state_emit, state_setLastMqttRetry,
    mqttSession_modState, mqttSession_emit, mqttSession_setLastMqttRetry, clock_modState,
    bootedAt_modState, bootedAt_emit, bootedAt_setLastMqttRetry, lastMqttRetry_modState,
    lastMqttRetry_emit, lastMqttRetry_setLastMqttRetry, attempts, out_modState, out_emit,
    out_setLastMqttRetry, ofKind_append, List.length_append, true_and]
  rfl

theorem maintainMQTT_down (hw : Hw) (w : World) (h : BrokerDown w) :
    maintainMQTT hw w =
      if subU32 (millis w) w.lastMqttRetry > 5000 then mqttAttempt hw w else w := by
  unfold maintainMQTT
  have h1 : ¬ (w.state.mode ≠ SystemMode.MODE_RUNNING ∨ w.state.mqttHost.length = 0 ∨
      ¬ w.state.wifiConnected = true) := by
    simp [h.mode, h.host, h.link]
  have h2 : ¬ w.mqttSession = true := by simp [h.down]
  rw [if_neg h1, if_pos h2]

theorem attemptTimes_chain (hw : Hw) (hrefuse : ∀ t, hw.brokerAccepts t = false)
    (gaps : List Nat) (w : World) (h : BrokerDown w)
    (hnowrap : w.clock - w.bootedAt + gaps.sum < 2 ^ 32) :
    List.Chain (fun a b => a + 5000 < b) (w.bootedAt + w.lastMqttRetry)
      (attemptTimes hw gaps w) := by
  induction gaps generalizing w with
  | nil => exact List.Chain.nil
  | cons d ds ih =>
    simp only [List.sum_cons] at hnowrap
    have hb := h.booted
    have hl := h.last
    have h1 : BrokerDown (delay d w) :=
      ⟨h.mode, h.host, h.link, h.down, by simp only [clock_delay, bootedAt_delay]; omega,
        by simp only [clock_delay, bootedAt_delay, lastMqttRetry_delay]; omega⟩
    have hmil : millis (delay d w) = w.clock + d - w.bootedAt := by
      simp only [millis, clock_delay, bootedAt_delay]
      exact Nat.mod_eq_of_lt (by omega)
    have hsub : subU32 (millis (delay d w)) (delay d w).lastMqttRetry =
        w.clock + d - w.bootedAt - w.lastMqttRetry := by
      rw [hmil, lastMqttRetry_delay]
      exact subU32_of_le _ _ (by omega) (by omega)
    unfold attemptTimes
    simp only []
    rw [maintainMQTT_down hw _ h1, hsub]
    by_cases hgo : w.clock + d - w.bootedAt - w.lastMqttRetry > 5000
    · obtain ⟨a1, a2, a3, a4, a5, a6, a7, a8⟩ := mqttAttempt_refused hw (delay d w) (hrefuse _)
      have hlast2 : (mqttAttempt hw (delay d w)).lastMqttRetry ≤
          (mqttAttempt hw (delay d w)).clock - (mqttAttempt hw (delay d w)).bootedAt := by
        rw [a5, a6, a7, hmil]
        simp only [clock_delay, bootedAt_delay]
        omega
      have hboot2 : (mqttAttempt hw (delay d w)).bootedAt ≤ (mqttAttempt hw (delay d w)).clock := by
        rw [a5, a6]
        exact h1.booted
      have hhost2 : (mqttAttempt hw (delay d w)).state.mqttHost.length ≠ 0 := by
        rw [a2]
        exact h1.host
      have h2 : BrokerDown (mqttAttempt hw (delay d w)) :=
        ⟨a1.trans h1.mode, hhost2, a3.trans h1.link, a4.trans h1.down, hboot2, hlast2⟩
      have hgt : attempts (mqttAttempt hw (delay d w)) > attempts (delay d w) := by omega
      simp only [hgo, if_true, hgt, List.singleton_append]
      refine List.Chain.cons ?_ ?_
      · simp only [clock_delay]; omega
      · have := ih (mqttAttempt hw (delay d w)) h2 (by
          rw [a5, a6]; simp only [clock_delay, bootedAt_delay]; omega)
        rw [a6, a7, hmil] at this
        simp only [bootedAt_delay] at this
        have he : w.bootedAt + (w.clock + d - w.bootedAt) = (delay d w).clock := by
          simp only [clock_delay]; omega
        rw [he] at this
        exact this
    · have hno : ¬ attempts (delay d w) > attempts (delay d w) := by omega
      simp only [hgo, if_false, hno, List.nil_append]
      have := ih (delay d w) h1 (by simp only [clock_delay, bootedAt_delay]; omega)
      simpa only [bootedAt_delay, lastMqttRetry_delay] using this

/-- Of times that are pairwise more than 5000 apart, at most two fall in a
window of 10000. -/
theorem window_count (l : List Nat) (h : List.Chain' (fun a b => a + 5000 < b) l)
    (a : Nat) :
    (l.filter (fun t => decide (a ≤ t ∧ t ≤ a + 10000))).length ≤ 2 := by
  have htrans : ∀ x y z : Nat, x + 5000 < y → y + 5000 < z → x + 5000 < z := by
    intro x y z h1 h2; omega
  haveI : IsTrans Nat (fun a b => a + 5000 < b) := ⟨htrans⟩
  have hp : List.Pairwise (fun a b => a + 5000 < b) l := List.chain'_iff_pairwise.1 h
  have hf := hp.sublist (List.filter_sublist (p := fun t => decide (a ≤ t ∧ t ≤ a + 10000)) l)
  have hmem : ∀ t ∈ l.filter (fun t => decide (a ≤ t ∧ t ≤ a + 10000)),
      a ≤ t ∧ t ≤ a + 10000 := by
    intro t ht
    simpa using (List.mem_filter.1 ht).2
  generalize l.filter (fun t => decide (a ≤ t ∧ t ≤ a + 10000)) = f at hf hmem
  match f, hf, hmem with
  | [], _, _ => simp
  | [_], _, _ => simp
  | [_, _], _, _ => simp
  | x :: y :: z :: rest, hf, hmem =>
    exfalso
    have hx := hmem x (by simp)
    have hz := hmem z (by simp)
    have hxy : x + 5000 < y := (List.pairwise_cons.1 hf).1 y (by simp)
    have hyz : y + 5000 < z :=
      (List.pairwise_cons.1 (List.pairwise_cons.1 hf).2).1 z (by simp)
    omega

/-- C4. Broker retry cadence: in Running mode with a host, the link up, no session and a
broker that refuses, for calls of `maintainMQTT()` at any non-negative distances in time
(the clock not wrapping), every connection attempt is made more than 5000 ms after the
attempt before it, and at most 2 attempts fall in any window of 10 000 ms. -/
theorem C4_broker_retry_cadence (hw : Hw) (w : World) (gaps : List Nat)
    (hmode : w.state.mode = SystemMode.MODE_RUNNING)
    (hhost : w.state.mqttHost.length ≠ 0)
    (hlink : w.state.wifiConnected = true)
    (hdown : w.mqttSession = false)
    (hrefuse : ∀ t, hw.brokerAccepts t = false)
    (hbooted : w.bootedAt ≤ w.clock)
    (hlast : w.lastMqttRetry ≤ w.clock - w.bootedAt)
    (hnowrap : w.clock - w.bootedAt + gaps.sum < 2 ^ 32) :
    List.Chain (fun a b => a + 5000 < b) (w.bootedAt + w.lastMqttRetry)
      (attemptTimes hw gaps w) ∧
    ∀ a, ((attemptTimes hw gaps w).filter
      (fun t => decide (a ≤ t ∧ t ≤ a + 10000))).length ≤ 2 := by
  have hc := attemptTimes_chain hw hrefuse gaps w
    ⟨hmode, hhost, hlink, hdown, hbooted, hlast⟩ hnowrap
  have hc' : List.Chain' (fun a b => a + 5000 < b)
      ((w.bootedAt + w.lastMqttRetry) :: attemptTimes hw gaps w) := hc
  exact ⟨hc, fun a => window_count _ hc'.tail a⟩

/-- Witness of C4: a call every 10 ms for 10 s makes at most 2 attempts in the first
10 s. -/
theorem C4_broker_retry_cadence_witness :
    ((attemptTimes Hw.quiet (List.replicate 1000 10) runningWorld).filter
      (fun t => decide (0 ≤ t ∧ t ≤ 0 + 10000))).length ≤ 2 :=
  (C4_broker_retry_cadence Hw.quiet runningWorld (List.replicate 1000 10) (by decide)
    (by decide) (by decide) (by decide) (fun _ => rfl) (by decide) (by decide)
    (by
      rw [show runningWorld.clock = 0 from rfl, show runningWorld.bootedAt = 0 from rfl,
        List.sum_replicate]
      decide)).2 0

/-! ## Telemetry without a broker session -/

/-- C5. Telemetry drop: without a broker session `publishStatus()` changes nothing at
all, and `publishSensors()` only appends serial output to the record: it publishes
nothing to the broker, leaves the state and every other global as they are, and does not
restart. -/
theorem C5_telemetry_drop (hw : Hw) (w : World) (hdown : w.mqttSession = false) :
    publishStatus hw w = w ∧
    (∃ evs, publishSensors hw w = { w with out := w.out ++ evs } ∧
      ∀ e ∈ evs, e.kind = Kind.serial ∨ e.kind = Kind.serialJson) ∧
    ofKind Kind.mqttPublish (publishSensors hw w).out = ofKind Kind.mqttPublish w.out ∧
    (publishSensors hw w).state = w.state ∧
    (publishSensors hw w).restarted = w.restarted := by
  have h1 : publishSensors hw w =
      emit (Event.serial "-------------------------")
        (emit (Event.serial ("  > Toprak Nem: " ++ fmtInt (hw.analogRead w.clock PIN_SOIL_MOISTURE)))
          (emit (Event.serial ("  > Yagmur: " ++ fmtInt (hw.analogRead w.clock PIN_RAIN_ANALOG)))
            (emit (Event.serial ("  > UV: " ++ fmtInt (hw.analogRead w.clock PIN_UV_ANALOG)))
              (emit (Event.serial "[MQTT/SERIAL] Sensör Verisi Okundu:")
                (emit (Event.serialJson "JSON_STATUS:" (sensorsDoc hw w)) w))))) := by
    unfold publishSensors
    simp only [println_eq, mqttSession_emit, clock_emit, hdown, Bool.false_eq_true, if_false]
  have hs : publishSensors hw w = { w with out := w.out ++
      [Event.serialJson "JSON_STATUS:" (sensorsDoc hw w),
       Event.serial "[MQTT/SERIAL] Sensör Verisi Okundu:",
       Event.serial ("  > UV: " ++ fmtInt (hw.analogRead w.clock PIN_UV_ANALOG)),
       Event.serial ("  > Yagmur: " ++ fmtInt (hw.analogRead w.clock PIN_RAIN_ANALOG)),
       Event.serial ("  > Toprak Nem: " ++ fmtInt (hw.analogRead w.clock PIN_SOIL_MOISTURE)),
       Event.serial "-------------------------"] } := by
    rw [h1]
    simp only [emit, List.append_assoc, List.singleton_append, List.cons_append,
      List.nil_append]
  refine ⟨?_, ⟨_, hs, ?_⟩, ?_, ?_, ?_⟩
  · simp only [publishStatus, hdown, Bool.false_eq_true, not_false_eq_true, if_true]
  · intro e he
    simp only [List.mem_cons, List.mem_singleton, List.not_mem_nil, or_false] at he
    rcases he with rfl | rfl | rfl | rfl | rfl | rfl <;> simp [Event.kind]
  · rw [hs]
    simp only [ofKind_append]
    have : ofKind Kind.mqttPublish
        [Event.serialJson "JSON_STATUS:" (sensorsDoc hw w),
         Event.serial "[MQTT/SERIAL] Sensör Verisi Okundu:",
         Event.serial ("  > UV: " ++ fmtInt (hw.analogRead w.clock PIN_UV_ANALOG)),
         Event.serial ("  > Yagmur: " ++ fmtInt (hw.analogRead w.clock PIN_RAIN_ANALOG)),
         Event.serial ("  > Toprak Nem: " ++ fmtInt (hw.analogRead w.clock PIN_SOIL_MOISTURE)),
         Event.serial "-------------------------"] = [] := rfl
    rw [this, List.append_nil]
  · rw [hs]
  · rw [hs]

/-- Witness of C5 on the factory defaults. -/
theorem C5_telemetry_drop_witness :
    publishStatus Hw.quiet factoryWorld = factoryWorld ∧
    (publishSensors Hw.quiet factoryWorld).state = factoryWorld.state :=
  ⟨(C5_telemetry_drop Hw.quiet factoryWorld (by decide)).1,
    (C5_telemetry_drop Hw.quiet factoryWorld (by decide)).2.2.2.1⟩

/-! ## The captive DNS responder -/

theorem dnsOk_boot (hw : Hw) (w : World) : DnsOk hw (boot hw w) := by
  unfold boot DnsOk
  intro hmode
  have h := setup_after_link hw { World.powerOn w.prefs w.clock with out := w.out }
  rw [h.1] at hmode
  rw [h.2]
  rcases setupLink_cases hw (setupBegin { World.powerOn w.prefs w.clock with out := w.out })
    with ⟨_, _, h3⟩ | ⟨_, _, h3⟩
  · rw [h3] at hmode
    exact absurd hmode (by decide)
  · exact h3

theorem dnsOk_of_within (hw : Hw) (w w' : World)
    (h : Within (allBut [Part.mode, Part.dnsConfig]) w w') (hp : DnsOk hw w) : DnsOk hw w' := by
  have hm : w'.state.mode = w.state.mode := same_of_within h Part.mode (by decide)
  have hd : w'.dnsConfig = w.dnsConfig := same_of_within h Part.dnsConfig (by decide)
  intro hs
  rw [hd]
  exact hp (hm ▸ hs)

theorem dnsOk_run (hw : Hw) (l : List (Gap × LoopInput)) (w : World) (hp : DnsOk hw w) :
    DnsOk hw (run hw l w) := by
  induction l generalizing w with
  | nil => exact hp
  | cons a rest ih =>
    obtain ⟨g, inp⟩ := a
    unfold run
    simp only []
    apply ih
    split
    · exact dnsOk_boot hw _
    · refine dnsOk_of_within hw w _ ?_ hp
      rw [within_loop _ _ _ _ _ (by decide)]
      simp only [idle_eq]
      rw [within_setMqttSession _ _ _ _ (by decide), within_delay _ _ _ _ (by decide)]
      exact (within_self _ _).2 trivial

/-- C6. Captive DNS: at every point of the life of the device, if the mode is Setup the
DNS responder holds the wildcard domain and the address of the access point; a pass of
`loop()` in Setup mode answers the pending query, whatever its name, with the configured
address and keeps mode and responder; a pass in Running mode answers and refuses no DNS
query. -/
theorem C6_captive_dns (hw : Hw) (w0 w : World) (inputs : List (Gap × LoopInput))
    (inp : LoopInput) (name ip : Str) :
    DnsOk hw (run hw inputs (boot hw w0)) ∧
    (w.state.mode = SystemMode.MODE_SETUP → w.dnsConfig = some (("*" : Str), ip) →
      inp.dnsQuery = some name →
      ofKind Kind.dnsReply (loop hw inp w).out = ofKind Kind.dnsReply w.out ++
        [Event.dnsReply name ip] ∧
      ofKind Kind.dnsRefuse (loop hw inp w).out = ofKind Kind.dnsRefuse w.out ∧
      (loop hw inp w).state.mode = SystemMode.MODE_SETUP ∧
      (loop hw inp w).dnsConfig = some (("*" : Str), ip)) ∧
    (w.state.mode = SystemMode.MODE_RUNNING →
      ofKind Kind.dnsReply (loop hw inp w).out = ofKind Kind.dnsReply w.out ∧
      ofKind Kind.dnsRefuse (loop hw inp w).out = ofKind Kind.dnsRefuse w.out) := by
  have hrest : ∀ x : World, Within
      (allBut [Part.mode, Part.dnsConfig, Part.ev Kind.dnsReply, Part.ev Kind.dnsRefuse]) x
      (loopRest hw inp x) := fun x =>
    within_of_rule (within_loopRest _ hw inp x x (by decide))
  refine ⟨dnsOk_run hw inputs _ (dnsOk_boot hw w0), ?_, ?_⟩
  · intro hmode hcfg hq
    have hstep : (if w.state.mode = SystemMode.MODE_SETUP then
        dnsProcessNextRequest inp.dnsQuery w else w) = emit (Event.dnsReply name ip) w := by
      simp only [hmode, if_true, dnsProcessNextRequest, hq, hcfg, true_or]
    have h := hrest (emit (Event.dnsReply name ip) w)
    unfold loop
    rw [hstep]
    refine ⟨?_, ?_, ?_, ?_⟩
    · exact (same_of_within h (Part.ev Kind.dnsReply) (by decide)).trans (by
        simp only [out_emit, ofKind_append]; rfl)
    · exact (same_of_within h (Part.ev Kind.dnsRefuse) (by decide)).trans (by
        simp only [out_emit, ofKind_append]; exact List.append_nil _)
    · exact (same_of_within h Part.mode (by decide)).trans hmode
    · exact (same_of_within h Part.dnsConfig (by decide)).trans hcfg
  · intro hmode
    have hne : ¬ w.state.mode = SystemMode.MODE_SETUP := by rw [hmode]; decide
    have h := hrest w
    unfold loop
    simp only [hne, if_false]
    exact ⟨same_of_within h (Part.ev Kind.dnsReply) (by decide),
      same_of_within h (Part.ev Kind.dnsRefuse) (by decide)⟩

/-- Witness of C6: after a boot from an empty store, a query for example.com is
answered with the address of the access point. -/
theorem C6_captive_dns_witness :
    ofKind Kind.dnsReply
        (loop Hw.quiet (dnsQueryFor "example.com") (boot Hw.quiet (World.powerOn [] 0))).out =
      ofKind Kind.dnsReply (boot Hw.quiet (World.powerOn [] 0)).out ++
        [Event.dnsReply "example.com" "192.168.4.1"] :=
  ((C6_captive_dns Hw.quiet (World.powerOn [] 0) (boot Hw.quiet (World.powerOn [] 0)) []
    (dnsQueryFor "example.com") "example.com" "192.168.4.1").2.1
      (by decide) (by decide) (by decide)).1

/-! ## Invariants of the configuration over the life of the device -/

theorem invariant_ite {P : World → Prop} (c : Prop) [Decidable c] (a b : World) (ha : P a)
    (hb : P b) : P (if c then a else b) := by
  split <;> assumption

theorem invariant_dispatch {P : World → Prop} (h : Invariant P) (hw : Hw) (cmd : Str)
    (w : World) (hp : P w) : P (dispatchCommand hw cmd w) := by
  unfold dispatchCommand
  refine invariant_ite _ _ _ ?_ ?_
  · exact h.within _ _ (within_of_rule (within_cmdStatus notConfig hw w w (by decide))) hp
  refine invariant_ite _ _ _ ?_ ?_
  · exact h.within _ _ (within_of_rule (within_cmdGetConfig notConfig w w (by decide))) hp
  refine invariant_ite _ _ _ ?_ ?_
  · exact h.within _ _ (within_of_rule (within_cmdRestart notConfig w w (by decide))) hp
  refine invariant_ite _ _ _ ?_ ?_
  · exact h.reset _ hp
  refine invariant_ite _ _ _ ?_ ?_
  · exact h.within _ _ (within_of_rule (within_cmdScan notConfig hw w w (by decide))) hp
  refine invariant_ite _ _ _ ?_ ?_
  · exact h.setWifi _ _ hp
  refine invariant_ite _ _ _ ?_ ?_
  · exact h.setMqtt _ _ hp
  refine invariant_ite _ _ _ ?_ ?_
  · exact h.setDeviceId _ _ hp
  refine invariant_ite _ _ _ ?_ ?_
  · exact h.setReadInterval _ _ hp
  refine invariant_ite _ _ _ ?_ ?_
  · exact h.setSensors _ _ hp
  refine invariant_ite _ _ _ ?_ ?_
  · exact h.setSleep _ _ hp
  refine invariant_ite _ _ _ ?_ ?_
  · exact h.setAlarms _ _ hp
  refine invariant_ite _ _ _ ?_ ?_
  · exact h.setNtp _ _ hp
  refine invariant_ite _ _ _ ?_ ?_
  · exact h.setDebug _ _ hp
  refine invariant_ite _ _ _ ?_ ?_
  · exact h.setLed _ _ hp
  refine invariant_ite _ _ _ ?_ ?_
  · exact h.within _ _ (within_of_rule (within_cmdHelp notConfig w w (by decide))) hp
  exact h.within _ _ (within_of_rule (within_cmdUnknown notConfig w w (by decide))) hp

theorem invariant_emit {P : World → Prop} (h : Invariant P) (e : Event) (w : World)
    (hp : P w) : P (emit e w) :=
  h.within _ _ (within_of_rule (within_emit notConfig e w w (by cases e <;> rfl))) hp

theorem invariant_command {P : World → Prop} (h : Invariant P) (hw : Hw) (cmd : Str)
    (w : World) (hp : P w) : P (handleSerialCommand hw cmd w) := by
  unfold handleSerialCommand
  exact invariant_dispatch h hw _ _ (invariant_emit h _ _ hp)

theorem invariant_setSerialBuffer {P : World → Prop} (h : Invariant P) (b : Str) (w : World)
    (hp : P w) : P (setSerialBuffer b w) :=
  h.within _ _ (within_of_rule (within_setSerialBuffer notConfig b w w (by decide))) hp

theorem invariant_serialChar {P : World → Prop} (h : Invariant P) (hw : Hw) (c : Char)
    (w : World) (hp : P w) : P (serialChar hw c w) := by
  unfold serialChar
  simp only []
  split_ifs
  · exact invariant_command h hw _ _ hp
  · exact invariant_setSerialBuffer h _ _ (invariant_command h hw _ _ hp)
  · exact hp
  · exact invariant_setSerialBuffer h _ _ (invariant_setSerialBuffer h _ _ hp)
  · exact invariant_setSerialBuffer h _ _ hp

theorem invariant_serial {P : World → Prop} (h : Invariant P) (hw : Hw) (cs : List Char)
    (w : World) (hp : P w) : P (processSerialCommands hw cs w) := by
  induction cs generalizing w with
  | nil => exact hp
  | cons c rest ih =>
    unfold processSerialCommands
    simp only []
    split_ifs
    · exact invariant_serialChar h hw c w hp
    · exact ih _ (invariant_serialChar h hw c w hp)

theorem invariant_handler {P : World → Prop} (h : Invariant P) (hw : Hw) (hd : Handler)
    (body : Option JsonObj) (w : World) (hp : P w) : P (runHandler hw hd body w) := by
  cases hd <;> simp only [runHandler]
  · exact h.within _ _ (within_of_rule (within_handleRoot notConfig w w (by decide))) hp
  · exact h.within _ _ (within_of_rule (within_handleScan notConfig hw w w (by decide))) hp
  · exact h.connect hw body w hp
  · exact h.within _ _ (within_of_rule (within_handleStatus notConfig hw w w (by decide))) hp
  · exact h.saveConfig body w hp
  · exact h.webReset w hp
  · exact h.within _ _ (within_of_rule (within_handleDashboard notConfig w w (by decide))) hp
  · exact h.within _ _ (within_of_rule (within_handleSystemInfo notConfig hw w w (by decide))) hp

theorem invariant_client {P : World → Prop} (h : Invariant P) (hw : Hw)
    (req : Option HttpRequest) (w : World) (hp : P w) : P (handleClient hw req w) := by
  unfold handleClient
  split
  · exact hp
  · split
    · exact invariant_handler h hw _ _ w hp
    · exact h.within _ _ (within_of_rule (within_handleNotFound notConfig hw w w (by decide))) hp

theorem invariant_loop {P : World → Prop} (h : Invariant P) (hw : Hw) (inp : LoopInput)
    (w : World) (hp : P w) : P (loop hw inp w) := by
  have h1 : P (if w.state.mode = SystemMode.MODE_SETUP then
      dnsProcessNextRequest inp.dnsQuery w else w) :=
    invariant_ite _ _ _
      (h.within _ _
        (within_of_rule (within_dnsProcessNextRequest notConfig _ w w (by decide))) hp) hp
  have h2 := invariant_client h hw inp.request _ h1
  have h3 := invariant_serial h hw inp.serialIn _ h2
  unfold loop loopRest
  exact invariant_ite _ _ _ h2 (invariant_ite _ _ _ h3
    (h.within _ _ (within_of_rule (within_loopTail notConfig hw _ _ (by decide))) h3))

theorem invariant_boot {P : World → Prop} (h : Invariant P) (hw : Hw) (w : World)
    (hp : P w) : P (boot hw w) := by
  unfold boot setup
  simp only []
  have h0 : P (setupBegin { World.powerOn w.prefs w.clock with out := w.out }) := by
    unfold setupBegin
    exact h.load w _ rfl hp
  have h1 := h.within _ _ (within_of_rule (within_setupLink notConfig hw _ _ (by decide))) h0
  have h2 := h.within _ _ (within_of_rule (within_setupWebServer notConfig _ _ (by decide))) h1
  have h3 := h.within _ _ (within_of_rule (within_setupMQTT notConfig _ _ (by decide))) h2
  exact invariant_emit h _ _ h3

theorem invariant_idle {P : World → Prop} (h : Invariant P) (g : Gap) (w : World)
    (hp : P w) : P (idle g w) :=
  h.within _ _ (within_of_rule (by
    simp only [idle_eq]
    rw [within_setMqttSession notConfig _ _ _ (by decide),
      within_delay notConfig _ _ _ (by decide)])) hp

theorem invariant_run {P : World → Prop} (h : Invariant P) (hw : Hw)
    (l : List (Gap × LoopInput)) (w : World) (hp : P w) : P (run hw l w) := by
  induction l generalizing w with
  | nil => exact hp
  | cons a rest ih =>
    obtain ⟨g, inp⟩ := a
    unfold run
    simp only []
    apply ih
    have hl := invariant_loop h hw inp _ (invariant_idle h g w hp)
    split
    · exact invariant_boot h hw _ hl
    · exact hl

theorem saved_sleepMinutes (s : SystemState) (p : Store) :
    nvsGet (putAll (savedEntries s) p) NVS_KEY_SLEEP_MINUTES =
      some (NvsVal.i32 s.sleepMinutes) := by
  simp [savedEntries, putAll, nvsGet_put_same, nvsGet_put_other,
    NVS_KEY_WIFI_SSID, NVS_KEY_WIFI_PASS, NVS_KEY_MQTT_HOST, NVS_KEY_MQTT_PORT,
    NVS_KEY_DEVICE_ID, NVS_KEY_CONFIGURED, NVS_KEY_READ_INTERVAL, NVS_KEY_SENSORS_ENABLED,
    NVS_KEY_SLEEP_ENABLED, NVS_KEY_SLEEP_MINUTES, NVS_KEY_ALARM_NEM_MIN,
    NVS_KEY_ALARM_NEM_MAX, NVS_KEY_ALARM_TEMP_MAX, NVS_KEY_NTP_SERVER, NVS_KEY_TIMEZONE,
    NVS_KEY_DEBUG_LEVEL, NVS_KEY_LED_ENABLED]

theorem sleepOk_saved (x : World) (h : 1 ≤ x.state.sleepMinutes) :
    SleepOk (saveConfiguration x) := by
  simp only [SleepOk, state_saveConfiguration, prefs_saveConfiguration, getInt,
    saved_sleepMinutes]
  exact ⟨h, h⟩

theorem sleepOk_emit (e : Event) (x : World) : SleepOk (emit e x) ↔ SleepOk x := Iff.rfl

theorem sleepOk_delay (n : Nat) (x : World) : SleepOk (delay n x) ↔ SleepOk x := Iff.rfl

theorem sleepOk_setRestarted (x : World) : SleepOk (setRestarted x) ↔ SleepOk x := Iff.rfl

theorem sleepOk_cleared (x : World) (h : 1 ≤ x.state.sleepMinutes) : SleepOk (setPrefs [] x) :=
  ⟨h, by show 1 ≤ getInt [] NVS_KEY_SLEEP_MINUTES DEFAULT_SLEEP_MINUTES; decide⟩

theorem state_waitForLink (hw : Hw) (st le n dots : Nat) (x : World) :
    (waitForLink hw st le n dots x).state = x.state := by
  induction n generalizing dots x with
  | zero => rfl
  | succ n ih =>
    unfold waitForLink
    simp only [println_eq]
    split
    · split <;> simp only [ih, state_emit, state_delay]
    · rfl

theorem prefs_waitForLink (hw : Hw) (st le n dots : Nat) (x : World) :
    (waitForLink hw st le n dots x).prefs = x.prefs := by
  induction n generalizing dots x with
  | zero => rfl
  | succ n ih =>
    unfold waitForLink
    simp only [println_eq]
    split
    · split <;> simp only [ih, prefs_emit, prefs_delay]
    · rfl

theorem sleepOk_within (w w' : World) (hw : Within notConfig w w') (hp : SleepOk w) :
    SleepOk w' := by
  have hc : w'.state.config = w.state.config := hw.2 Part.config (by decide)
  have hs : w'.prefs = w.prefs := hw.2 Part.prefs (by decide)
  have hm : w'.state.sleepMinutes = w.state.sleepMinutes :=
    congrArg DeviceConfig.sleepMinutes hc
  exact ⟨hm ▸ hp.1, hs ▸ hp.2⟩

theorem sleepOk_handleConnect (hw : Hw) (body : Option JsonObj) (w : World) (hp : SleepOk w) :
    SleepOk (handleConnect hw body w) := by
  unfold handleConnect
  split
  · exact hp
  · simp only [println_eq, sendJson_eq]
    split <;>
      simp only [SleepOk, state_emit, prefs_emit, state_modState, prefs_modState,
        state_waitForLink, prefs_waitForLink] <;> exact hp

theorem sleepOk_handleSaveConfig (body : Option JsonObj) (w : World) (hp : SleepOk w) :
    SleepOk (handleSaveConfig body w) := by
  unfold handleSaveConfig
  split
  · exact hp
  · simp only [sendJson_eq, espRestart_eq]
    refine (sleepOk_setRestarted _).2 ((sleepOk_emit _ _).2 ((sleepOk_delay _ _).2
      ((sleepOk_emit _ _).2 ?_)))
    refine sleepOk_within _ _ (within_of_rule (within_setupMQTT notConfig _ _ (by decide)))
      (sleepOk_saved _ ?_)
    simp only [apply_ite World.state, apply_ite SystemState.sleepMinutes, state_modState,
      ite_self]
    exact hp.1

theorem sleepOk_invariant : Invariant SleepOk where
  within := sleepOk_within
  load := by
    intro w w' hs hp
    simp only [SleepOk, state_loadConfiguration, prefs_loadConfiguration, loadedState, hs]
    exact ⟨hp.2, hp.2⟩
  setWifi := by
    intro params w hp
    unfold cmdSetWifi
    refine invariant_ite _ _ _ ?_ hp
    exact (sleepOk_emit _ _).2 (sleepOk_saved _ hp.1)
  setMqtt := by
    intro params w hp
    unfold cmdSetMqtt
    refine invariant_ite _ _ _ ?_ hp
    refine (sleepOk_emit _ _).2 (sleepOk_saved _ ?_)
    simp only [apply_ite World.state, apply_ite SystemState.sleepMinutes, state_modState, ite_self]
    exact hp.1
  setDeviceId := by
    intro cmd w hp
    exact (sleepOk_emit _ _).2 (sleepOk_saved _ hp.1)
  setReadInterval := by
    intro cmd w hp
    unfold cmdSetReadInterval
    refine invariant_ite _ _ _ ?_ hp
    exact (sleepOk_emit _ _).2 (sleepOk_saved _ hp.1)
  setSensors := by
    intro params w hp
    exact (sleepOk_emit _ _).2 (sleepOk_saved _ hp.1)
  setSleep := by
    intro params w hp
    unfold cmdSetSleep
    refine invariant_ite _ _ _ ?_ hp
    refine (sleepOk_emit _ _).2 (sleepOk_saved _ ?_)
    simp only [state_modState]
    split
    · simp only [state_modState]; decide
    · simp only [state_modState] at *; omega
  setAlarms := by
    intro params w hp
    unfold cmdSetAlarms
    refine invariant_ite _ _ _ ?_ hp
    exact (sleepOk_emit _ _).2 (sleepOk_saved _ hp.1)
  setNtp := by
    intro params w hp
    unfold cmdSetNtp
    refine invariant_ite _ _ _ ?_ hp
    exact (sleepOk_emit _ _).2 (sleepOk_saved _ hp.1)
  setDebug := by
    intro cmd w hp
    unfold cmdSetDebug
    refine invariant_ite _ _ _ ?_ hp
    exact (sleepOk_emit _ _).2 (sleepOk_saved _ hp.1)
  setLed := by
    intro cmd w hp
    exact (sleepOk_emit _ _).2 (sleepOk_saved _ hp.1)
  reset := by
    intro w hp
    exact ⟨hp.1, by show 1 ≤ getInt [] NVS_KEY_SLEEP_MINUTES DEFAULT_SLEEP_MINUTES; decide⟩
  connect := sleepOk_handleConnect
  saveConfig := sleepOk_handleSaveConfig
  webReset := by
    intro w hp
    exact ⟨hp.1, by show 1 ≤ getInt [] NVS_KEY_SLEEP_MINUTES DEFAULT_SLEEP_MINUTES; decide⟩


/-- C9. Sleep-minutes invariant: from the factory defaults, after any passes of
`loop()` with any serial input and portal requests, restarts included,
`state.sleepMinutes` is at least 1; an accepted SET_SLEEP command whose minutes parse to
less than 1 stores 5, in the state and in the store. -/
theorem C9_sleep_minutes (hw : Hw) (t : Nat) (inputs : List (Gap × LoopInput)) (w : World)
    (cmd : Str)
    (hverb : HasVerb (trim cmd) "SET_SLEEP:" "set_sleep:")
    (hcomma : 0 < indexOf (substringFrom (trim cmd) 10) ',')
    (hlow : toInt (substringFrom (substringFrom (trim cmd) 10)
      ((indexOf (substringFrom (trim cmd) 10) ',').toNat + 1)) < 1) :
    1 ≤ (run hw inputs (boot hw (World.powerOn [] t))).state.sleepMinutes ∧
    (handleSerialCommand hw cmd w).state.sleepMinutes = 5 ∧
    nvsGet (handleSerialCommand hw cmd w).prefs NVS_KEY_SLEEP_MINUTES =
      some (NvsVal.i32 5) := by
  constructor
  · have h0 : SleepOk (modState (fun s => { s with sleepMinutes := 5 }) (World.powerOn [] t)) :=
      ⟨by simp only [state_modState]; decide,
        by show 1 ≤ getInt [] NVS_KEY_SLEEP_MINUTES DEFAULT_SLEEP_MINUTES; decide⟩
    have hb : SleepOk (boot hw (World.powerOn [] t)) := by
      have h1 := invariant_boot sleepOk_invariant hw _ h0
      exact h1
    exact (invariant_run sleepOk_invariant hw inputs _ hb).1
  · have hd : handleSerialCommand hw cmd w =
        cmdSetSleep (substringFrom (trim cmd) 10) (println ("[CMD] Alındı: " ++ trim cmd) w) := by
      simp only [handleSerialCommand]
      exact dispatch_setSleep hw _ _ hverb
    have hpos : indexOf (substringFrom (trim cmd) 10) ',' > 0 := hcomma
    rw [hd]
    simp only [cmdSetSleep, hpos, if_true, println_eq, state_emit, prefs_emit,
      state_saveConfiguration, prefs_saveConfiguration, saved_sleepMinutes, state_modState,
      hlow, and_self]

/-- Witness of C9: SET_SLEEP:1,0 stores 5. -/
theorem C9_sleep_minutes_witness :
    1 ≤ (run Hw.quiet [] (boot Hw.quiet (World.powerOn [] 0))).state.sleepMinutes ∧
    (handleSerialCommand Hw.quiet "SET_SLEEP:1,0" factoryWorld).state.sleepMinutes = 5 ∧
    nvsGet (handleSerialCommand Hw.quiet "SET_SLEEP:1,0" factoryWorld).prefs
      NVS_KEY_SLEEP_MINUTES = some (NvsVal.i32 5) :=
  C9_sleep_minutes Hw.quiet 0 [] factoryWorld "SET_SLEEP:1,0" (Or.inl (by decide)) (by decide)
    (by decide)

/-- C8, the failing input. From the factory defaults in Setup mode, the portal request
`POST /save` with `mqttPort` 0 leaves `state.mqttPort` at 0, and after the restart that
follows the port loaded from the store is 0 again: the fall-back to 1883 that SET_MQTT
applies is missing in `handleSaveConfig()`. -/
theorem C8_port_zero_accepted :
    (loop Hw.quiet savePortZero (boot Hw.quiet (World.powerOn [] 0))).state.mqttPort = 0 ∧
    (run Hw.quiet [({ elapsed := 0, sessionLost := false }, savePortZero)]
      (boot Hw.quiet (World.powerOn [] 0))).state.mqttPort = 0 := by
  decide

/-! ## Rejected commands -/

theorem indexFrom_spec (ch : Char) (s : Str) (base : Nat) :
    indexFrom ch s base = -1 ∨
    ∃ k : Nat, indexFrom ch s base = ((base + k : Nat) : Int) ∧ s.get? k = some ch ∧
      ∀ j, j < k → s.get? j ≠ some ch := by
  induction s generalizing base with
  | nil => left; rfl
  | cons c cs ih =>
    unfold indexFrom
    by_cases hc : c = ch
    · right
      refine ⟨0, by simp [hc], by simp [hc], by simp⟩
    · rcases ih (base + 1) with h | ⟨k, hk, hget, hfirst⟩
      · left; simp [hc, h]
      · right
        refine ⟨k + 1, ?_, by simpa using hget, ?_⟩
        · simp only [hc, if_false, hk]; push_cast; ring
        · intro j hj
          cases j with
          | zero => simp [hc]
          | succ j => simpa using hfirst j (by omega)

theorem indexOf_spec (s : Str) (ch : Char) :
    indexOf s ch = -1 ∨
    ∃ k : Nat, indexOf s ch = (k : Int) ∧ s.get? k = some ch ∧ ∀ j, j < k → s.get? j ≠ some ch := by
  unfold indexOf indexOfFrom
  by_cases h : 0 ≥ s.length
  · left; simp [h]
  · simp only [h, if_false, List.drop_zero]
    rcases indexFrom_spec ch s 0 with h0 | ⟨k, hk, hget, hfirst⟩
    · left; exact h0
    · right; exact ⟨k, by simpa using hk, hget, hfirst⟩

theorem indexOfFrom_spec (s : Str) (ch : Char) (n : Nat) :
    indexOfFrom s ch n = -1 ∨
    ∃ k : Nat, indexOfFrom s ch n = (k : Int) ∧ n ≤ k ∧ s.get? k = some ch := by
  unfold indexOfFrom
  by_cases h : n ≥ s.length
  · left; simp [h]
  · simp only [h, if_false]
    rcases indexFrom_spec ch (s.drop n) n with h0 | ⟨k, hk, hget, _⟩
    · left; exact h0
    · right
      refine ⟨n + k, hk, by omega, ?_⟩
      rw [← hget, List.get?_eq_getElem?, List.get?_eq_getElem?, List.getElem?_drop]

theorem not_pos_of_noComma (params : Str) (h : NoCommaPastStart params) :
    ¬ (indexOf params ',' > 0) := by
  intro hpos
  rcases indexOf_spec params ',' with h0 | ⟨k, hk, hget, _⟩
  · omega
  · exact h k (by omega) hget

theorem alarms_of_indices (params : Str)
    (h : indexOf params ',' > 0 ∧
      indexOfFrom params ',' (indexOf params ',' + 1).toNat > indexOf params ',') :
    HasAlarmCommas params := by
  obtain ⟨h1, h2⟩ := h
  rcases indexOf_spec params ',' with h0 | ⟨k, hk, hget, hfirst⟩
  · omega
  · rcases indexOfFrom_spec params ',' (indexOf params ',' + 1).toNat with h0 | ⟨j, hj, hle, hgetj⟩
    · omega
    · refine ⟨k, j, by omega, by omega, hget, hfirst, hgetj⟩

theorem dispatch_unknown (hw : Hw) (w : World) (cmd : Str) (h : ¬ Recognised cmd) :
    dispatchCommand hw cmd w = cmdUnknown w := by
  simp [Recognised] at h
  simp [dispatchCommand, h]

/-- A rejected command only prints its error line. -/
theorem rejected_prints (hw : Hw) (w : World) (c : Str) (h : Rejected c) :
    ∃ msg, dispatchCommand hw c w = println msg w := by
  rcases h with ⟨hv, hc⟩ | ⟨hv, hc⟩ | ⟨hv, hc⟩ | ⟨hv, hc⟩ | ⟨hv, hc⟩ | ⟨hv, hc⟩ | ⟨hv, hc⟩ | hu
  · rw [dispatch_setWifi hw w c hv]
    exact ⟨_, by simp only [cmdSetWifi, not_pos_of_noComma _ hc, if_false]; rfl⟩
  · rw [dispatch_setMqtt hw w c hv]
    exact ⟨_, by simp only [cmdSetMqtt, not_pos_of_noComma _ hc, if_false]; rfl⟩
  · rw [dispatch_setSleep hw w c hv]
    exact ⟨_, by simp only [cmdSetSleep, not_pos_of_noComma _ hc, if_false]; rfl⟩
  · rw [dispatch_setNtp hw w c hv]
    exact ⟨_, by simp only [cmdSetNtp, not_pos_of_noComma _ hc, if_false]; rfl⟩
  · rw [dispatch_setAlarms hw w c hv]
    have hno : ¬ (indexOf (substringFrom c 11) ',' > 0 ∧
        indexOfFrom (substringFrom c 11) ',' (indexOf (substringFrom c 11) ',' + 1).toNat >
          indexOf (substringFrom c 11) ',') :=
      fun hh => hc (alarms_of_indices (substringFrom c 11) hh)
    exact ⟨_, by simp only [cmdSetAlarms, hno, if_false]; rfl⟩
  · rw [dispatch_setReadInterval hw w c hv]
    have hno : ¬ (toInt (substringFrom c 18) ≥ 5 ∧ toInt (substringFrom c 18) ≤ 3600) := by
      omega
    exact ⟨_, by simp only [cmdSetReadInterval, hno, if_false]; rfl⟩
  · rw [dispatch_setDebug hw w c hv]
    have hno : ¬ (toInt (substringFrom c 10) ≥ 0 ∧ toInt (substringFrom c 10) ≤ 3) := by
      omega
    exact ⟨_, by simp only [cmdSetDebug, hno, if_false]; rfl⟩
  · rw [dispatch_unknown hw w c hu]
    exact ⟨_, rfl⟩

/-- C10. Rejected commands are atomic: a command that the dispatch rejects (SET_WIFI,
SET_MQTT, SET_SLEEP or SET_NTP without a comma past index 0, SET_ALARMS without its two
commas, SET_READ_INTERVAL or SET_DEBUG out of range, an unknown verb) leaves the whole
state and the store as they are and adds two serial lines to the record, the echo and
the error: nothing is written, `saveConfiguration()` is not called. -/
theorem C10_rejected_atomic (hw : Hw) (w : World) (cmd : Str) (h : Rejected (trim cmd)) :
    (handleSerialCommand hw cmd w).state = w.state ∧
    (handleSerialCommand hw cmd w).prefs = w.prefs ∧
    ∃ msg, (handleSerialCommand hw cmd w).out =
      w.out ++ [Event.serial ("[CMD] Alındı: " ++ trim cmd), Event.serial msg] := by
  obtain ⟨msg, hm⟩ := rejected_prints hw (println ("[CMD] Alındı: " ++ trim cmd) w) (trim cmd) h
  have hd : handleSerialCommand hw cmd w =
      println msg (println ("[CMD] Alındı: " ++ trim cmd) w) := by
    simp only [handleSerialCommand]
    exact hm
  rw [hd]
  refine ⟨rfl, rfl, msg, ?_⟩
  simp only [println_eq, out_emit, List.append_assoc, List.singleton_append]

/-- Witness of C10: SET_WIFI:nocomma is rejected and changes nothing. -/
theorem C10_rejected_atomic_witness :
    Rejected (trim ("SET_WIFI:nocomma" : Str)) ∧
    (handleSerialCommand Hw.quiet "SET_WIFI:nocomma" factoryWorld).state = factoryWorld.state ∧
    (handleSerialCommand Hw.quiet "SET_WIFI:nocomma" factoryWorld).prefs = factoryWorld.prefs :=
  have h : Rejected (trim ("SET_WIFI:nocomma" : Str)) :=
    Or.inl ⟨Or.inl (by decide), by
      intro i hi
      have : (substringFrom (trim ("SET_WIFI:nocomma" : Str)) 9) = ("nocomma" : Str) := by decide
      rw [this]
      match i, hi with
      | 1, _ => decide
      | 2, _ => decide
      | 3, _ => decide
      | 4, _ => decide
      | 5, _ => decide
      | 6, _ => decide
      | (n + 7), _ => simp⟩
  ⟨h, (C10_rejected_atomic Hw.quiet factoryWorld "SET_WIFI:nocomma" h).1,
    (C10_rejected_atomic Hw.quiet factoryWorld "SET_WIFI:nocomma" h).2.1⟩

/-! ## The debug level -/

/-- C11, the failing input. On the factory defaults (debug level 1) the command
SET_DEBUG:abc is accepted: `toInt()` reads the text as 0, the range check passes, and the
level 0 is stored in the state and in the store; the empty parameter does the same. The
bounded field next to it rejects the same texts: SET_READ_INTERVAL:abc changes nothing. -/
theorem C11_debug_text_accepted :
    factoryWorld.state.debugLevel = 1 ∧
    (handleSerialCommand Hw.quiet "SET_DEBUG:abc" factoryWorld).state.debugLevel = 0 ∧
    nvsGet (handleSerialCommand Hw.quiet "SET_DEBUG:abc" factoryWorld).prefs NVS_KEY_DEBUG_LEVEL =
      some (NvsVal.i32 0) ∧
    (handleSerialCommand Hw.quiet "SET_DEBUG:" factoryWorld).state.debugLevel = 0 ∧
    (handleSerialCommand Hw.quiet "SET_READ_INTERVAL:abc" factoryWorld).state.config =
      factoryWorld.state.config ∧
    (handleSerialCommand Hw.quiet "SET_READ_INTERVAL:abc" factoryWorld).prefs =
      factoryWorld.prefs := by
  decide

/-! ## The credentials of the link -/

theorem trim_eq_self (s : Str) (h1 : ∀ c, s.head? = some c → isSpace c = false)
    (h2 : ∀ c, s.getLast? = some c → isSpace c = false) : trim s = s := by
  unfold trim
  have hd : s.dropWhile isSpace = s := by
    cases s with
    | nil => rfl
    | cons c cs => simp [List.dropWhile, h1 c rfl]
  rw [hd]
  have hr : s.reverse.dropWhile isSpace = s.reverse := by
    cases hrev : s.reverse with
    | nil => rfl
    | cons c cs =>
      have hl : s.getLast? = some c := by
        rw [← List.head?_reverse, hrev]; rfl
      simp [List.dropWhile, h2 c hl]
  rw [hr, List.reverse_reverse]

theorem indexFrom_first (ch : Char) (s p : Str) (base : Nat) (h : ch ∉ s) :
    indexFrom ch (s ++ ch :: p) base = ((base + s.length : Nat) : Int) := by
  induction s generalizing base with
  | nil => simp [indexFrom]
  | cons c cs ih =>
    have hc : c ≠ ch := fun e => h (by simp [e])
    have hcs : ch ∉ cs := fun e => h (by simp [e])
    rw [List.cons_append, indexFrom, if_neg hc, ih (base + 1) hcs, List.length_cons]
    congr 1; omega

theorem indexOf_first (ch : Char) (s p : Str) (h : ch ∉ s) :
    indexOf (s ++ ch :: p) ch = (s.length : Int) := by
  unfold indexOf indexOfFrom
  have hlen : ¬ (0 ≥ (s ++ ch :: p).length) := by simp
  simp only [hlen, if_false, List.drop_zero, indexFrom_first ch s p 0 h, Nat.zero_add]

theorem substring_left (s p : Str) (c : Char) : substring (s ++ c :: p) 0 s.length = s ∨ s = [] := by
  by_cases hs : s = []
  · right; exact hs
  · left
    unfold substring
    have h1 : ¬ (0 > s.length) := by omega
    have h2 : ¬ (0 ≥ (s ++ c :: p).length) := by simp
    simp only [h1, if_false, h2, List.drop_zero]
    rw [Nat.min_eq_left (by simp)]
    simp

theorem substringFrom_append (a b : Str) : substringFrom (a ++ b) a.length = b := by
  unfold substringFrom substring
  by_cases hb : b = []
  · subst hb; simp
  · have hpos : 0 < b.length := List.length_pos.2 hb
    have h1 : ¬ (a.length > (a ++ b).length) := by simp
    have h2 : ¬ (a.length ≥ (a ++ b).length) := by rw [List.length_append]; omega
    simp only [h1, if_false, h2, Nat.min_self, List.take_length]
    simp


/-- The call of `WiFi.begin` that `connectToWiFi()` makes. -/
theorem begin_connectToWiFi (hw : Hw) (y : World) :
    ofKind Kind.wifiBegin (connectToWiFi hw y).2.out =
      ofKind Kind.wifiBegin y.out ++ [Event.wifiBegin y.state.savedSSID y.state.savedPassword] := by
  have hW : Within (allBut [Part.ev Kind.wifiBegin])
      (emit (Event.wifiBegin y.state.savedSSID y.state.savedPassword)
        (emit (Event.wifiSetHostname DEVICE_ID) (emit (Event.wifiMode WiFiMode.WIFI_STA)
          (emit (Event.serial ("[WiFi] Bağlanılıyor: " ++ y.state.savedSSID)) y))))
      (connectToWiFi hw y).2 := by
    have h1 : allBut [Part.ev Kind.wifiBegin] (Part.ev Kind.serial) = true := by decide
    have h2 : allBut [Part.ev Kind.wifiBegin] Part.clock = true := by decide
    have h3 : allBut [Part.ev Kind.wifiBegin] Part.link = true := by decide
    unfold connectToWiFi
    simp only [
      within_steps, within_self, within_ite, ite_self, Event.kind, println_eq,
      and_self, and_true, true_and, apply_ite Prod.snd, h1, h2, h3, state_emit,
      within_waitForLink, allows_cons, allows_nil]
  have h := same_of_within hW (Part.ev Kind.wifiBegin) (by decide)
  simp only [Same, out_emit, ofKind_append] at h
  rw [h]
  simp [ofKind, Event.kind]

/-- A boot over a store that holds an SSID calls `WiFi.begin` with the stored
credentials. -/
theorem begin_setup (hw : Hw) (x : World) (h : getString x.prefs NVS_KEY_WIFI_SSID [] ≠ []) :
    ofKind Kind.wifiBegin (setup hw x).out =
      ofKind Kind.wifiBegin x.out ++
        [Event.wifiBegin (getString x.prefs NVS_KEY_WIFI_SSID [])
          (getString x.prefs NVS_KEY_WIFI_PASS [])] := by
  have hlen : (setupBegin x).state.savedSSID.length > 0 := by
    rw [length_pos_iff_ne_nil, savedSSID_setupBegin]; exact h
  have hpass : (setupBegin x).state.savedPassword = getString x.prefs NVS_KEY_WIFI_PASS [] := by
    simp only [setupBegin, println_eq, state_loadConfiguration, prefs_emit, prefs_delay,
      loadedState]
  have hW : Within (allBut [Part.ev Kind.wifiBegin])
      (connectToWiFi hw (println ("[BOOT] Kayıtlı WiFi bulundu: " ++
        (setupBegin x).state.savedSSID) (setupBegin x))).2 (setup hw x) := by
    unfold setup
    simp only [println_eq]
    rw [within_emit _ _ _ _ (by decide), within_setupMQTT _ _ _ (by decide),
      within_setupWebServer _ _ _ (by decide)]
    unfold setupLink
    simp only [hlen, if_true, println_eq]
    rw [within_ite]
    split
    · rw [within_startStationMode _ _ _ _ (by decide)]
      exact (within_self _ _).2 trivial
    · rw [within_startAPMode _ _ _ _ (by decide), within_emit _ _ _ _ (by decide)]
      exact (within_self _ _).2 trivial
  have h1 := same_of_within hW (Part.ev Kind.wifiBegin) (by decide)
  have h0 : Within (allBut [Part.ev Kind.wifiBegin]) x (setupBegin x) := by
    rw [within_setupBegin _ _ _ (by decide)]
    exact (within_self _ _).2 trivial
  have h2 := same_of_within h0 (Part.ev Kind.wifiBegin) (by decide)
  simp only [Same] at h1 h2
  rw [h1, begin_connectToWiFi, println_eq, out_emit, state_emit, ofKind_append,
    ofKind_single_ne _ _ (by simp [Event.kind]), List.append_nil, h2, savedSSID_setupBegin, hpass]

/-- A boot over a store that holds credentials calls `WiFi.begin` with them. -/
theorem begin_boot (hw : Hw) (r : World) (s p : Str)
    (h1 : nvsGet r.prefs NVS_KEY_WIFI_SSID = some (NvsVal.str s))
    (h2 : nvsGet r.prefs NVS_KEY_WIFI_PASS = some (NvsVal.str p)) (hs : s ≠ []) :
    ofKind Kind.wifiBegin (boot hw r).out =
      ofKind Kind.wifiBegin r.out ++ [Event.wifiBegin s p] := by
  have hS : getString r.prefs NVS_KEY_WIFI_SSID [] = s := by simp only [getString, h1]
  have hP : getString r.prefs NVS_KEY_WIFI_PASS [] = p := by simp only [getString, h2]
  have hb : ofKind Kind.wifiBegin (boot hw r).out =
      ofKind Kind.wifiBegin r.out ++
        [Event.wifiBegin (getString r.prefs NVS_KEY_WIFI_SSID [])
          (getString r.prefs NVS_KEY_WIFI_PASS [])] :=
    begin_setup hw { World.powerOn r.prefs r.clock with out := r.out }
      (by show getString r.prefs NVS_KEY_WIFI_SSID [] ≠ []; rw [hS]; exact hs)
  rw [hb, hS, hP]

/-- What is stored under the keys of the credentials after a save. -/
theorem saved_wifi (s : SystemState) (p : Store) :
    nvsGet (putAll (savedEntries s) p) NVS_KEY_WIFI_SSID = some (NvsVal.str s.savedSSID) ∧
    nvsGet (putAll (savedEntries s) p) NVS_KEY_WIFI_PASS = some (NvsVal.str s.savedPassword) := by
  simp [savedEntries, putAll, nvsGet_put_same, nvsGet_put_other,
    NVS_KEY_WIFI_SSID, NVS_KEY_WIFI_PASS, NVS_KEY_MQTT_HOST, NVS_KEY_MQTT_PORT,
    NVS_KEY_DEVICE_ID, NVS_KEY_CONFIGURED, NVS_KEY_READ_INTERVAL, NVS_KEY_SENSORS_ENABLED,
    NVS_KEY_SLEEP_ENABLED, NVS_KEY_SLEEP_MINUTES, NVS_KEY_ALARM_NEM_MIN,
    NVS_KEY_ALARM_NEM_MAX, NVS_KEY_ALARM_TEMP_MAX, NVS_KEY_NTP_SERVER, NVS_KEY_TIMEZONE,
    NVS_KEY_DEBUG_LEVEL, NVS_KEY_LED_ENABLED]

/-- An accepted SET_WIFI, as one assignment followed by the save. -/
theorem cmdSetWifi_accepted (s p : Str) (w : World) (hs : s ≠ []) (hc : ',' ∉ s) :
    cmdSetWifi (s ++ ',' :: p) w =
      println ("[CMD] WiFi ayarları kaydedildi! SSID: " ++ s)
        (saveConfiguration (modState (fun st => { st with savedPassword := p })
          (modState (fun st => { st with savedSSID := s }) w))) := by
  have hi : indexOf (s ++ ',' :: p) ',' = (s.length : Int) := indexOf_first ',' s p hc
  have hpos : (s.length : Int) > 0 := by
    have := List.length_pos.2 hs
    omega
  have hl : substring (s ++ ',' :: p) 0 s.length = s :=
    (substring_left s p ',').resolve_right hs
  have hr : substringFrom (s ++ ',' :: p) (s.length + 1) = p := by
    have := substringFrom_append (s ++ [',']) p
    simpa using this
  unfold cmdSetWifi
  simp only [hi, hpos, if_true, Int.toNat_ofNat, hl, hr, state_saveConfiguration,
    state_modState]

/-- C12. SET_WIFI stores the credentials: for a verb SET_WIFI: in upper or lower case, an
SSID s that is not empty and holds no comma, and a password p that does not end in white
space (so the line has no white space at either end), the command sets `savedSSID` to s
and `savedPassword` to p, writes both to the store, a load after it reads both back, and
the next boot calls `WiFi.begin` with s and p. -/
theorem C12_set_wifi_stores (hw : Hw) (w : World) (verb s p : Str)
    (hverb : verb = "SET_WIFI:" ∨ verb = "set_wifi:")
    (hs : s ≠ []) (hcomma : ',' ∉ s)
    (hend : ∀ c, p.getLast? = some c → isSpace c = false) :
    (handleSerialCommand hw (verb ++ (s ++ ',' :: p)) w).state.savedSSID = s ∧
    (handleSerialCommand hw (verb ++ (s ++ ',' :: p)) w).state.savedPassword = p ∧
    nvsGet (handleSerialCommand hw (verb ++ (s ++ ',' :: p)) w).prefs NVS_KEY_WIFI_SSID =
      some (NvsVal.str s) ∧
    nvsGet (handleSerialCommand hw (verb ++ (s ++ ',' :: p)) w).prefs NVS_KEY_WIFI_PASS =
      some (NvsVal.str p) ∧
    (loadConfiguration (handleSerialCommand hw (verb ++ (s ++ ',' :: p)) w)).state.savedSSID
      = s ∧
    (loadConfiguration (handleSerialCommand hw (verb ++ (s ++ ',' :: p)) w)).state.savedPassword
      = p ∧
    ∀ hw2, ofKind Kind.wifiBegin
        (boot hw2 (handleSerialCommand hw (verb ++ (s ++ ',' :: p)) w)).out =
      ofKind Kind.wifiBegin (handleSerialCommand hw (verb ++ (s ++ ',' :: p)) w).out ++
        [Event.wifiBegin s p] := by
  have hlen : verb.length = 9 := by rcases hverb with h | h <;> subst h <;> rfl
  have hhead : ∀ c, (verb ++ (s ++ ',' :: p)).head? = some c → isSpace c = false := by
    rcases hverb with h | h <;> subst h <;> intro c hc <;> simp at hc <;> subst hc <;> decide
  have hlast : ∀ c, (verb ++ (s ++ ',' :: p)).getLast? = some c → isSpace c = false := by
    intro c hc
    rw [← List.append_assoc, List.getLast?_append_cons] at hc
    cases p with
    | nil => simp at hc; subst hc; decide
    | cons d ds =>
      rw [List.getLast?_cons_cons] at hc
      exact hend c (by simpa using hc)
  have htrim : trim (verb ++ (s ++ ',' :: p)) = verb ++ (s ++ ',' :: p) :=
    trim_eq_self _ hhead hlast
  have hsw : startsWith (verb ++ (s ++ ',' :: p)) "SET_WIFI:" = true ∨
      startsWith (verb ++ (s ++ ',' :: p)) "set_wifi:" = true := by
    rcases hverb with h | h
    · left; rw [startsWith_iff]; exact ⟨_, by rw [h]⟩
    · right; rw [startsWith_iff]; exact ⟨_, by rw [h]⟩
  have hsub : substringFrom (verb ++ (s ++ ',' :: p)) 9 = s ++ ',' :: p := by
    rw [← hlen]; exact substringFrom_append _ _
  have heq : handleSerialCommand hw (verb ++ (s ++ ',' :: p)) w =
      println ("[CMD] WiFi ayarları kaydedildi! SSID: " ++ s)
        (saveConfiguration (modState (fun st => { st with savedPassword := p })
          (modState (fun st => { st with savedSSID := s })
            (println ("[CMD] Alındı: " ++ (verb ++ (s ++ ',' :: p))) w)))) := by
    unfold handleSerialCommand
    simp only [htrim]
    rw [dispatch_setWifi hw _ _ hsw, hsub, cmdSetWifi_accepted s p _ hs hcomma]
  obtain ⟨x, hx⟩ : ∃ x, x = modState (fun st => { st with savedPassword := p })
      (modState (fun st => { st with savedSSID := s })
        (println ("[CMD] Alındı: " ++ (verb ++ (s ++ ',' :: p))) w)) := ⟨_, rfl⟩
  rw [← hx] at heq
  have hx1 : x.state.savedSSID = s := by rw [hx]; rfl
  have hx2 : x.state.savedPassword = p := by rw [hx]; rfl
  have hxp : x.prefs = w.prefs := by rw [hx]; rfl
  have hpr : (handleSerialCommand hw (verb ++ (s ++ ',' :: p)) w).prefs =
      putAll (savedEntries x.state) x.prefs := by
    rw [heq]
    simp only [println_eq, prefs_emit, prefs_saveConfiguration]
  have hsaved := saved_wifi x.state x.prefs
  rw [hx1, hx2, ← hpr] at hsaved
  have hst : (handleSerialCommand hw (verb ++ (s ++ ',' :: p)) w).state.savedSSID = s ∧
      (handleSerialCommand hw (verb ++ (s ++ ',' :: p)) w).state.savedPassword = p := by
    rw [heq]
    simp only [println_eq, state_emit, state_saveConfiguration, hx1, hx2, and_self]
  have hload : (loadConfiguration (handleSerialCommand hw (verb ++ (s ++ ',' :: p)) w)).state.savedSSID = s ∧
      (loadConfiguration (handleSerialCommand hw (verb ++ (s ++ ',' :: p)) w)).state.savedPassword = p := by
    simp only [state_loadConfiguration, loadedState, getString, hsaved.1, hsaved.2, and_self]
  refine ⟨hst.1, hst.2, hsaved.1, hsaved.2, hload.1, hload.2, ?_⟩
  intro hw2
  exact begin_boot hw2 _ s p hsaved.1 hsaved.2 hs

/-- Witness of C12: SET_WIFI:TestNet,password123 persists the SSID TestNet, and the boot
that follows, with the network in reach, tries the link and ends in Running. -/
theorem C12_set_wifi_stores_witness :
    (loadConfiguration
      (handleSerialCommand Hw.quiet "SET_WIFI:TestNet,password123" factoryWorld)).state.savedSSID
      = "TestNet" ∧
    ofKind Kind.wifiBegin
        (boot Hw.online
          (handleSerialCommand Hw.quiet "SET_WIFI:TestNet,password123" factoryWorld)).out =
      [Event.wifiBegin "TestNet" "password123"] ∧
    (boot Hw.online
      (handleSerialCommand Hw.quiet "SET_WIFI:TestNet,password123" factoryWorld)).state.mode =
      SystemMode.MODE_RUNNING :=
  ⟨(C12_set_wifi_stores Hw.quiet factoryWorld "SET_WIFI:" "TestNet" "password123"
      (Or.inl rfl) (by decide) (by decide) (by decide)).2.2.2.2.1,
    by decide, by decide⟩

/-! ## Every mutation is persisted -/

/-- C13, the counterexample. In Setup mode with the network in reach, the portal request
`POST /connect` with the credentials of TestNet changes `savedSSID` in the state, returns
without a restart, and leaves the store as it was: a load would not reproduce the
configuration of the state. -/
theorem C13_connect_not_persisted :
    (loop Hw.online connectTestNet (boot Hw.online (World.powerOn [] 0))).state.savedSSID =
      "TestNet" ∧
    (loop Hw.online connectTestNet (boot Hw.online (World.powerOn [] 0))).state.config ≠
      (boot Hw.online (World.powerOn [] 0)).state.config ∧
    (loop Hw.online connectTestNet (boot Hw.online (World.powerOn [] 0))).restarted = false ∧
    ¬ Synced (loop Hw.online connectTestNet (boot Hw.online (World.powerOn [] 0))) := by
  decide

theorem dispatch_setDeviceId (hw : Hw) (w : World) (cmd : Str)
    (h : startsWith cmd "SET_DEVICE_ID:" = true ∨ startsWith cmd "set_device_id:" = true) :
    dispatchCommand hw cmd w = cmdSetDeviceId cmd w := by
  rcases h with h | h <;> obtain ⟨r, rfl⟩ := (startsWith_iff _ _).1 h <;>
    simp [dispatchCommand, startsWith, List.isPrefixOf]

theorem dispatch_setSensors (hw : Hw) (w : World) (cmd : Str)
    (h : startsWith cmd "SET_SENSORS:" = true ∨ startsWith cmd "set_sensors:" = true) :
    dispatchCommand hw cmd w = cmdSetSensors (substringFrom cmd 12) w := by
  rcases h with h | h <;> obtain ⟨r, rfl⟩ := (startsWith_iff _ _).1 h <;>
    simp [dispatchCommand, startsWith, List.isPrefixOf]

theorem dispatch_setLed (hw : Hw) (w : World) (cmd : Str)
    (h : startsWith cmd "SET_LED:" = true ∨ startsWith cmd "set_led:" = true) :
    dispatchCommand hw cmd w = cmdSetLed cmd w := by
  rcases h with h | h <;> obtain ⟨r, rfl⟩ := (startsWith_iff _ _).1 h <;>
    simp [dispatchCommand, startsWith, List.isPrefixOf]

theorem synced_saved (w : World) : Synced (saveConfiguration w) := by
  unfold Synced
  rw [state_loadConfiguration, prefs_saveConfiguration, state_saveConfiguration, loaded_saved]

theorem config_loadedState (p : Store) (s s' : SystemState) :
    (loadedState p s).config = (loadedState p s').config := rfl

/-- A step that leaves the persisted fields and the store keeps them in step. -/
theorem synced_within (w w' : World) (h : Within notConfig w w') (hs : Synced w) :
    Synced w' := by
  have hc : w'.state.config = w.state.config := same_of_within h Part.config (by decide)
  have hp : w'.prefs = w.prefs := same_of_within h Part.prefs (by decide)
  unfold Synced at *
  rw [state_loadConfiguration] at *
  rw [hc, hp, config_loadedState w.prefs w'.state w.state]
  exact hs

theorem synced_println (t : Str) (w : World) (h : Synced w) : Synced (println t w) :=
  synced_within w _ (by
    rw [println_eq, within_emit _ _ _ _ (show notConfig (Part.ev Kind.serial) = true by decide)]
    exact (within_self _ _).2 trivial) h

theorem synced_accepted (hw : Hw) (c : Str) (w : World) (h : Accepted c) :
    Synced (dispatchCommand hw c w) := by
  rcases h with ⟨hv, hc⟩ | ⟨hv, hc⟩ | hv | ⟨hv, hc⟩ | hv | ⟨hv, hc⟩ | ⟨hv, hc⟩ | ⟨hv, hc⟩ |
    ⟨hv, hc⟩ | hv
  · rw [dispatch_setWifi hw w c hv]
    simp only [cmdSetWifi, hc, if_true]
    exact synced_println _ _ (synced_saved _)
  · rw [dispatch_setMqtt hw w c hv]
    simp only [cmdSetMqtt, hc, if_true]
    exact synced_println _ _ (synced_saved _)
  · rw [dispatch_setDeviceId hw w c hv]
    exact synced_println _ _ (synced_saved _)
  · rw [dispatch_setReadInterval hw w c hv]
    simp only [cmdSetReadInterval, hc, if_true]
    exact synced_println _ _ (synced_saved _)
  · rw [dispatch_setSensors hw w c hv]
    exact synced_println _ _ (synced_saved _)
  · rw [dispatch_setSleep hw w c hv]
    simp only [cmdSetSleep, hc, if_true]
    exact synced_println _ _ (synced_saved _)
  · rw [dispatch_setAlarms hw w c hv]
    simp only [cmdSetAlarms, hc, if_true]
    exact synced_println _ _ (synced_saved _)
  · rw [dispatch_setNtp hw w c hv]
    simp only [cmdSetNtp, hc, if_true]
    exact synced_println _ _ (synced_saved _)
  · rw [dispatch_setDebug hw w c hv]
    simp only [cmdSetDebug, hc, if_true]
    exact synced_println _ _ (synced_saved _)
  · rw [dispatch_setLed hw w c hv]
    exact synced_println _ _ (synced_saved _)

theorem synced_handleSaveConfig (doc : JsonObj) (w : World) :
    Synced (handleSaveConfig (some doc) w) := by
  have key : ∀ (d : JsonDoc) (y : World),
      Synced (espRestart (delay 1000 (sendJson 200 d (setupMQTT (saveConfiguration y))))) := by
    intro d y
    refine synced_within (saveConfiguration y) _ ?_ (synced_saved y)
    simp only [espRestart_eq, sendJson_eq]
    rw [within_setRestarted _ _ _ (by decide), within_emit _ _ _ _ (by decide),
      within_delay _ _ _ _ (by decide),
      within_emit _ _ _ _ (show notConfig (Part.ev Kind.httpSend) = true by decide),
      within_setupMQTT _ _ _ (by decide)]
    exact (within_self _ _).2 trivial
  exact key _ _

/-- C13, as amended. Every accepted serial SET command and every portal `POST /save` with
a body is persisted: when it returns, `loadConfiguration()` on the store would reproduce
every persisted field of the state. `POST /connect` does not write the store; what it
changed in the state reaches the store with the `POST /save` that follows. -/
theorem C13_mutations_persisted (hw : Hw) (w : World) (cmd : Str) (doc : JsonObj)
    (body : Option JsonObj) :
    (Accepted (trim cmd) → Synced (handleSerialCommand hw cmd w)) ∧
    Synced (handleSaveConfig (some doc) w) ∧
    (handleConnect hw body w).prefs = w.prefs ∧
    Synced (handleSaveConfig (some doc) (handleConnect hw body w)) := by
  refine ⟨fun h => ?_, synced_handleSaveConfig doc w, ?_, synced_handleSaveConfig doc _⟩
  · unfold handleSerialCommand
    exact synced_accepted hw _ _ h
  · exact same_of_within (within_of_rule (within_handleConnect (allBut [Part.prefs]) hw body
      w w (by decide))) Part.prefs (by decide)

/-- Witness of C13: SET_LED:0 on the factory defaults is accepted and persisted. -/
theorem C13_mutations_persisted_witness :
    Accepted (trim ("SET_LED:0" : Str)) ∧
    Synced (handleSerialCommand Hw.quiet "SET_LED:0" factoryWorld) :=
  ⟨by unfold Accepted HasVerb; decide,
    (C13_mutations_persisted Hw.quiet factoryWorld "SET_LED:0" [] none).1
      (by unfold Accepted HasVerb; decide)⟩

/-! ## The mode after `setup()` -/

/-- C14. No silent return to Setup: a pass of `loop()`, a serial command, a web handler and
`server.handleClient()` each leave `state.mode` as it is; a pass in Running mode with the
link down ends in Running mode, and it neither starts the access point nor the DNS
responder. -/
theorem C14_mode_kept (hw : Hw) (w : World) (inp : LoopInput) (cmd : Str) (h : Handler)
    (body : Option JsonObj) (req : Option HttpRequest) :
    (loop hw inp w).state.mode = w.state.mode ∧
    (handleSerialCommand hw cmd w).state.mode = w.state.mode ∧
    (runHandler hw h body w).state.mode = w.state.mode ∧
    (handleClient hw req w).state.mode = w.state.mode ∧
    (w.state.mode = SystemMode.MODE_RUNNING → (∀ t, hw.linkUp t = false) →
      (loop hw inp w).state.mode = SystemMode.MODE_RUNNING ∧
      ofKind Kind.wifiSoftAP (loop hw inp w).out = ofKind Kind.wifiSoftAP w.out ∧
      ofKind Kind.dnsStart (loop hw inp w).out = ofKind Kind.dnsStart w.out ∧
      (loop hw inp w).dnsConfig = w.dnsConfig) := by
  have hl : Within keepsMode w (loop hw inp w) :=
    within_of_rule (within_loop keepsMode hw inp w w (by decide))
  have h1 : (loop hw inp w).state.mode = w.state.mode := same_of_within hl Part.mode (by decide)
  refine ⟨h1, ?_, ?_, ?_, ?_⟩
  · exact same_of_within (within_of_rule (within_handleSerialCommand keepsMode hw cmd
      w w (by decide))) Part.mode (by decide)
  · exact same_of_within (within_of_rule (within_runHandler keepsMode hw h body
      w w (by decide))) Part.mode (by decide)
  · exact same_of_within (within_of_rule (within_handleClient keepsMode hw req
      w w (by decide))) Part.mode (by decide)
  · intro hrun _
    exact ⟨h1.trans hrun, same_of_within hl (Part.ev Kind.wifiSoftAP) (by decide),
      same_of_within hl (Part.ev Kind.dnsStart) (by decide),
      same_of_within hl Part.dnsConfig (by decide)⟩

/-- Witness of C14: a pass on a running device without a link stays in Running mode. -/
theorem C14_mode_kept_witness :
    (loop Hw.quiet quietPass runningWorld).state.mode = SystemMode.MODE_RUNNING :=
  ((C14_mode_kept Hw.quiet runningWorld quietPass [] Handler.handleRoot none none).2.2.2.2
    (by decide) (fun _ => rfl)).1

/-! ## Factory reset -/

theorem dispatch_reset (hw : Hw) (w : World) (c : Str)
    (h : c = "RESET" ∨ c = "reset" ∨ c = "FACTORY_RESET") :
    dispatchCommand hw c w = cmdReset w := by
  rcases h with h | h | h <;> subst h <;> simp [dispatchCommand]

/-- Loading from the empty store gives the factory defaults. -/
theorem config_load_empty (x : World) (h : x.prefs = []) :
    (loadConfiguration x).state.config = factoryConfig := by
  rw [state_loadConfiguration, h]
  rfl

/-- A boot keeps what `loadConfiguration()` read. -/
theorem config_boot (hw : Hw) (x : World) :
    (boot hw x).state.config = (loadedState x.prefs SystemState.zero).config := by
  have hW : Within (allBut [Part.config])
      (setupBegin { World.powerOn x.prefs x.clock with out := x.out }) (boot hw x) := by
    unfold boot setup
    simp only [println_eq]
    rw [within_emit _ _ _ _ (by decide), within_setupMQTT _ _ _ (by decide),
      within_setupWebServer _ _ _ (by decide), within_setupLink _ _ _ _ (by decide)]
    exact (within_self _ _).2 trivial
  have h := same_of_within hW Part.config (by decide)
  simp only [Same] at h
  rw [h]
  simp only [setupBegin, println_eq, state_loadConfiguration, prefs_emit, prefs_delay,
    state_emit, state_delay]
  rfl

/-- A boot over the empty store ends in Setup mode. -/
theorem mode_boot_empty (hw : Hw) (x : World) (h : x.prefs = []) :
    (boot hw x).state.mode = SystemMode.MODE_SETUP := by
  unfold boot
  have hm := (setup_after_link hw { World.powerOn x.prefs x.clock with out := x.out }).1
  have hs := savedSSID_setupBegin { World.powerOn x.prefs x.clock with out := x.out }
  have hs2 : (setupBegin { World.powerOn x.prefs x.clock with out := x.out }).state.savedSSID
      = [] := by
    rw [hs]; show getString x.prefs NVS_KEY_WIFI_SSID [] = []; rw [h]; rfl
  rcases setupLink_cases hw (setupBegin { World.powerOn x.prefs x.clock with out := x.out })
    with ⟨h1, _, _⟩ | ⟨_, h2, _⟩
  · rw [hs2] at h1; simp at h1
  · exact hm.trans h2

/-- In the table `setupWebServer()` builds, `POST /reset` leads to `handleReset`. -/
theorem findRoute_reset (y : World) (h : y.routes = []) (body : Option JsonObj) :
    findRoute (setupWebServer y).routes (resetRequest body) = some Handler.handleReset := by
  unfold setupWebServer
  by_cases hm : y.state.mode = SystemMode.MODE_SETUP <;>
    simp [hm, serverOn_eq, println_eq, h, findRoute, resetRequest]

/-- After a boot, in either mode, `POST /reset` is served by `handleReset`. -/
theorem client_reset (hw : Hw) (x : World) (body : Option JsonObj) :
    handleClient hw (some (resetRequest body)) (boot hw x) = handleReset (boot hw x) := by
  have hW : Within (allBut [Part.routes])
      (setupWebServer (setupLink hw (setupBegin { World.powerOn x.prefs x.clock with
        out := x.out }))) (boot hw x) := by
    unfold boot setup
    simp only [println_eq]
    rw [within_emit _ _ _ _ (by decide), within_setupMQTT _ _ _ (by decide)]
    exact (within_self _ _).2 trivial
  have hr := same_of_within hW Part.routes (by decide)
  have h0 : Within (allBut [Part.routes]) { World.powerOn x.prefs x.clock with out := x.out }
      (setupLink hw (setupBegin { World.powerOn x.prefs x.clock with out := x.out })) := by
    rw [within_setupLink _ _ _ _ (by decide), within_setupBegin _ _ _ (by decide)]
    exact (within_self _ _).2 trivial
  have hr0 := same_of_within h0 Part.routes (by decide)
  simp only [Same] at hr hr0
  have hf := findRoute_reset _ hr0 body
  rw [← hr] at hf
  simp only [handleClient, hf, runHandler]

/-- C15. Factory reset: the serial commands RESET, reset and FACTORY_RESET, and
`handleReset()`, which serves the portal request `POST /reset` in both modes, empty
the store and then request a restart; `loadConfiguration()` on the store they leave gives
the factory defaults, and the boot that follows ends in Setup mode with the factory
defaults, whatever the store and the state held before. -/
theorem C15_factory_reset (hw hw2 : Hw) (w : World) (cmd : Str) (body : Option JsonObj)
    (hcmd : trim cmd = "RESET" ∨ trim cmd = "reset" ∨ trim cmd = "FACTORY_RESET") :
    ((handleSerialCommand hw cmd w).prefs = [] ∧
      (handleSerialCommand hw cmd w).restarted = true ∧
      (handleSerialCommand hw cmd w).out = w.out ++
        [Event.serial ("[CMD] Alındı: " ++ trim cmd),
         Event.serial "[CMD] Fabrika ayarlarına dönülüyor...", Event.nvsClear,
         Event.serial "[CMD] Ayarlar silindi, yeniden başlatılıyor...", Event.restart]) ∧
    ((handleReset w).prefs = [] ∧ (handleReset w).restarted = true ∧
      ofKind Kind.nvsClear (handleReset w).out = ofKind Kind.nvsClear w.out ++ [Event.nvsClear] ∧
      ∃ evs, (handleReset w).out = w.out ++ evs ++ [Event.restart] ∧ Event.nvsClear ∈ evs) ∧
    handleClient hw (some (resetRequest body)) (boot hw w) = handleReset (boot hw w) ∧
    (loadConfiguration (handleSerialCommand hw cmd w)).state.config = factoryConfig ∧
    (loadConfiguration (handleReset w)).state.config = factoryConfig ∧
    (boot hw2 (handleSerialCommand hw cmd w)).state.mode = SystemMode.MODE_SETUP ∧
    (boot hw2 (handleSerialCommand hw cmd w)).state.config = factoryConfig ∧
    (boot hw2 (handleReset w)).state.mode = SystemMode.MODE_SETUP ∧
    (boot hw2 (handleReset w)).state.config = factoryConfig := by
  have heq : handleSerialCommand hw cmd w = cmdReset (println ("[CMD] Alındı: " ++ trim cmd) w) := by
    unfold handleSerialCommand
    exact dispatch_reset hw _ _ hcmd
  have hp1 : (handleSerialCommand hw cmd w).prefs = [] := by
    rw [heq]; rfl
  have hp2 : (handleReset w).prefs = [] := rfl
  refine ⟨⟨hp1, by rw [heq]; rfl, by rw [heq]; simp [cmdReset, emit, delay, setPrefs, setRestarted]⟩,
    ⟨hp2, rfl, ?_, ?_⟩, client_reset hw w body, config_load_empty _ hp1, config_load_empty _ hp2,
    mode_boot_empty hw2 _ hp1, ?_, mode_boot_empty hw2 _ hp2, ?_⟩
  · simp [handleReset, emit, delay, setPrefs, setRestarted, ofKind_append, ofKind, Event.kind]
  · refine ⟨[Event.serial "[SYS] Fabrika ayarlarına dönülüyor...", Event.nvsClear,
      Event.httpSend 200 "application/json" (HttpBody.json
        (resultDoc true "Ayarlar silindi, yeniden başlatılıyor..." none))], ?_, by simp⟩
    simp [handleReset, emit, delay, setPrefs, setRestarted]
  · rw [config_boot, hp1]; rfl
  · rw [config_boot, hp2]; rfl

/-- Witness of C15: a configured device that runs in Running mode has an empty store
after RESET, and the boot that follows ends in Setup mode. -/
theorem C15_factory_reset_witness :
    (boot Hw.online (World.powerOn configuredStore 0)).state.mode = SystemMode.MODE_RUNNING ∧
    (handleSerialCommand Hw.online "RESET" (boot Hw.online (World.powerOn configuredStore 0))).prefs
      = [] ∧
    (boot Hw.online (handleSerialCommand Hw.online "RESET"
      (boot Hw.online (World.powerOn configuredStore 0)))).state.mode = SystemMode.MODE_SETUP :=
  ⟨by decide,
    (C15_factory_reset Hw.online Hw.online (boot Hw.online (World.powerOn configuredStore 0))
      "RESET" none (Or.inl (by decide))).1.1,
    (C15_factory_reset Hw.online Hw.online (boot Hw.online (World.powerOn configuredStore 0))
      "RESET" none (Or.inl (by decide))).2.2.2.2.2.1⟩

/-! ## The paths to a restart -/

theorem dispatch_restart (hw : Hw) (w : World) (c : Str)
    (h : c = "RESTART" ∨ c = "restart" ∨ c = "REBOOT" ∨ c = "reboot") :
    dispatchCommand hw c w = cmdRestart w := by
  rcases h with h | h | h | h <;> subst h <;> simp [dispatchCommand]

theorem within_dispatch_other (m : Part → Bool) (hw : Hw) (cmd : Str) (w x : World)
    (h : Allows m [
      Part.ev Kind.serialReport, Part.ev Kind.serialJson, Part.ev Kind.serial,
      Part.ev Kind.wifiScanDelete, Part.config, Part.prefs, Part.ev Kind.nvsPut])
    (hnot : cmd ∉ restartWords) :
    Within m w (dispatchCommand hw cmd x) ↔ Within m w x := by
  simp only [allows_cons, allows_nil, and_true] at h
  have h1 : ¬ (cmd = "RESTART" ∨ cmd = "restart" ∨ cmd = "REBOOT" ∨ cmd = "reboot") := by
    intro hc; apply hnot; unfold restartWords
    rcases hc with hc | hc | hc | hc <;> subst hc <;> decide
  have h2 : ¬ (cmd = "RESET" ∨ cmd = "reset" ∨ cmd = "FACTORY_RESET") := by
    intro hc; apply hnot; unfold restartWords
    rcases hc with hc | hc | hc <;> subst hc <;> decide
  unfold dispatchCommand
  rw [if_neg h1, if_neg h2]
  simp only [
    within_steps, within_self, within_ite, ite_self, Event.kind, println_eq, sendJson_eq,
    espRestart_eq, prefsPut_eq, prefsClear_eq, serverOn_eq, setMqttConnected_eq, idle_eq,
    allows_cons, allows_nil, and_self, and_true, true_and, apply_ite Prod.snd, h,
    within_cmdStatus, within_cmdGetConfig, within_cmdScan,
    within_cmdSetWifi, within_cmdSetMqtt, within_cmdSetDeviceId, within_cmdSetReadInterval,
    within_cmdSetSensors, within_cmdSetSleep, within_cmdSetAlarms, within_cmdSetNtp,
    within_cmdSetDebug, within_cmdSetLed, within_cmdHelp, within_cmdUnknown]

/-- A command other than the restart and reset words requests no restart. -/
theorem noRestart_command (hw : Hw) (cmd : Str) (w : World) (hnot : trim cmd ∉ restartWords) :
    Within noRestart w (handleSerialCommand hw cmd w) := by
  unfold handleSerialCommand
  simp only [println_eq]
  rw [within_dispatch_other noRestart hw _ _ _ (by decide) hnot,
    within_emit _ _ _ _ (show noRestart (Part.ev Kind.serial) = true by decide)]
  exact (within_self _ _).2 trivial

/-- One character of serial input: no restart, and the content of
`serialBuffer` that `linesOf` follows. -/
theorem noRestart_serialChar (hw : Hw) (c : Char) (cs : List Char) (w : World)
    (hr : w.restarted = false)
    (h : ∀ l ∈ linesOf w.serialBuffer (c :: cs), trim l ∉ restartWords) :
    Within noRestart w (serialChar hw c w) ∧
    ∀ l ∈ linesOf (serialChar hw c w).serialBuffer cs, trim l ∉ restartWords := by
  unfold serialChar
  unfold linesOf at h
  by_cases hc : c = Char.ofNat 10 ∨ c = Char.ofNat 13
  · simp only [hc, if_true] at h ⊢
    by_cases hb : w.serialBuffer.length > 0
    · simp only [hb, if_true] at h ⊢
      have hW := noRestart_command hw w.serialBuffer w (h _ (List.mem_cons_self _ _))
      have h1 : (handleSerialCommand hw w.serialBuffer w).restarted = false :=
        (same_of_within hW Part.restarted (by decide)).trans hr
      simp only [h1, Bool.false_eq_true, if_false, serialBuffer_setSerialBuffer]
      refine ⟨?_, fun l hl => h l (List.mem_cons_of_mem _ hl)⟩
      rw [within_setSerialBuffer _ _ _ _ (by decide)]
      exact hW
    · simp only [hb, if_false] at h ⊢
      exact ⟨(within_self _ _).2 trivial, h⟩
  · simp only [hc, if_false] at h ⊢
    simp only [serialBuffer_setSerialBuffer]
    by_cases hlen : (w.serialBuffer ++ [c]).length > 256
    · simp only [hlen, if_true] at h ⊢
      refine ⟨?_, h⟩
      rw [within_setSerialBuffer _ _ _ _ (by decide), within_setSerialBuffer _ _ _ _ (by decide)]
      exact (within_self _ _).2 trivial
    · simp only [hlen, if_false] at h ⊢
      refine ⟨?_, h⟩
      rw [within_setSerialBuffer _ _ _ _ (by decide)]
      exact (within_self _ _).2 trivial

/-- Serial input none of whose lines is a restart or reset word requests no
restart. -/
theorem noRestart_serial (hw : Hw) (cs : List Char) (w : World) (hr : w.restarted = false)
    (h : ∀ l ∈ linesOf w.serialBuffer cs, trim l ∉ restartWords) :
    Within noRestart w (processSerialCommands hw cs w) := by
  induction cs generalizing w with
  | nil => exact (within_self _ _).2 trivial
  | cons c cs ih =>
    unfold processSerialCommands
    obtain ⟨h1, h2⟩ := noRestart_serialChar hw c cs w hr h
    have hr1 : (serialChar hw c w).restarted = false :=
      (same_of_within h1 Part.restarted (by decide)).trans hr
    simp only [hr1, Bool.false_eq_true, if_false]
    exact within_trans h1 (ih _ hr1 h2)

/-- A handler other than the two that restart requests no restart. -/
theorem noRestart_handler (hw : Hw) (h : Handler) (body : Option JsonObj) (w : World)
    (hs : h = Handler.handleSaveConfig → body = none) (hr : h ≠ Handler.handleReset) :
    Within noRestart w (runHandler hw h body w) := by
  cases h with
  | handleRoot =>
    exact within_of_rule (within_handleRoot noRestart w w (by decide))
  | handleScan =>
    exact within_of_rule (within_handleScan noRestart hw w w (by decide))
  | handleConnect =>
    exact within_of_rule (within_handleConnect noRestart hw body w w (by decide))
  | handleStatus =>
    exact within_of_rule (within_handleStatus noRestart hw w w (by decide))
  | handleSaveConfig =>
    rw [hs rfl]
    show Within noRestart w (sendJson 400 (resultDoc false "No data" none) w)
    rw [sendJson_eq, within_emit _ _ _ _ (show noRestart (Part.ev Kind.httpSend) = true by decide)]
    exact (within_self _ _).2 trivial
  | handleReset => exact absurd rfl hr
  | handleDashboard =>
    exact within_of_rule (within_handleDashboard noRestart w w (by decide))
  | handleSystemInfo =>
    exact within_of_rule (within_handleSystemInfo noRestart hw w w (by decide))

/-- A request that is not routed to a save with a body or to the reset
requests no restart. -/
theorem noRestart_client (hw : Hw) (req : Option HttpRequest) (w : World)
    (h : ∀ q, req = some q → findRoute w.routes q ≠ some Handler.handleReset ∧
      (findRoute w.routes q = some Handler.handleSaveConfig → q.body = none)) :
    Within noRestart w (handleClient hw req w) := by
  unfold handleClient
  cases req with
  | none => exact (within_self _ _).2 trivial
  | some q =>
    obtain ⟨h1, h2⟩ := h q rfl
    cases hf : findRoute w.routes q with
    | none =>
      simp only [hf]
      exact within_of_rule (within_handleNotFound noRestart hw w w (by decide))
    | some hd =>
      rw [hf] at h1 h2
      simp only [hf]
      exact noRestart_handler hw hd q.body w (fun e => h2 (by rw [e]))
        (fun e => h1 (by rw [e]))

/-- A pass of `loop()` in which no request is routed to a save with a body or
to the reset, and no line of the serial input is a restart or reset word,
requests no restart. -/
theorem noRestart_loop (hw : Hw) (inp : LoopInput) (w : World) (hr : w.restarted = false)
    (hreq : ∀ q, inp.request = some q → findRoute w.routes q ≠ some Handler.handleReset ∧
      (findRoute w.routes q = some Handler.handleSaveConfig → q.body = none))
    (hser : ∀ l ∈ linesOf w.serialBuffer inp.serialIn, trim l ∉ restartWords) :
    Within noRestart w (loop hw inp w) := by
  obtain ⟨w0, hw0⟩ : ∃ w0, w0 = (if w.state.mode = SystemMode.MODE_SETUP then
      dnsProcessNextRequest inp.dnsQuery w else w) := ⟨_, rfl⟩
  have h0 : Within (allBut [Part.restarted, Part.routes, Part.serialBuffer]) w w0 := by
    rw [hw0, within_ite]
    split
    · exact within_of_rule (within_dnsProcessNextRequest _ _ w w (by decide))
    · exact (within_self _ _).2 trivial
  have h0n : Within noRestart w w0 := by
    rw [hw0, within_ite]
    split
    · exact within_of_rule (within_dnsProcessNextRequest _ _ w w (by decide))
    · exact (within_self _ _).2 trivial
  have hr0 : w0.restarted = false := (same_of_within h0 Part.restarted (by decide)).trans hr
  have hro : w0.routes = w.routes := same_of_within h0 Part.routes (by decide)
  have hb0 : w0.serialBuffer = w.serialBuffer := same_of_within h0 Part.serialBuffer (by decide)
  have h1 : Within noRestart w0 (handleClient hw inp.request w0) :=
    noRestart_client hw inp.request w0 (by rw [hro]; exact hreq)
  have hr1 : (handleClient hw inp.request w0).restarted = false :=
    (same_of_within h1 Part.restarted (by decide)).trans hr0
  have hb1 : (handleClient hw inp.request w0).serialBuffer = w.serialBuffer :=
    (same_of_within (within_of_rule (within_handleClient (allBut [Part.serialBuffer]) hw
      inp.request w0 w0 (by decide))) Part.serialBuffer (by decide)).trans hb0
  have h2 : Within noRestart (handleClient hw inp.request w0)
      (processSerialCommands hw inp.serialIn (handleClient hw inp.request w0)) :=
    noRestart_serial hw _ _ hr1 (by rw [hb1]; exact hser)
  have hr2 : (processSerialCommands hw inp.serialIn (handleClient hw inp.request w0)).restarted
      = false := (same_of_within h2 Part.restarted (by decide)).trans hr1
  unfold loop loopRest
  rw [← hw0]
  simp only [hr1, hr2, Bool.false_eq_true, if_false]
  rw [within_loopTail _ _ _ _ (by decide)]
  exact within_trans h0n (within_trans h1 h2)

/-- C16. Restart paths: the restart and reset words, `handleSaveConfig()` with a body and
`handleReset()` request a restart. No other serial command does, no other handler does
(`handleSaveConfig()` without a body and `handleNotFound()` included), and no pass of
`loop()` does in which no request is routed to a save with a body or to the reset and no
line of the serial input is a restart or reset word: the flag stays and no restart is
recorded. -/
theorem C16_restart_paths (hw : Hw) (w : World) (cmd : Str) (h : Handler)
    (body : Option JsonObj) (doc : JsonObj) (inp : LoopInput) :
    (trim cmd ∈ restartWords → (handleSerialCommand hw cmd w).restarted = true) ∧
    (handleSaveConfig (some doc) w).restarted = true ∧
    (handleReset w).restarted = true ∧
    (trim cmd ∉ restartWords →
      (handleSerialCommand hw cmd w).restarted = w.restarted ∧
      ofKind Kind.restart (handleSerialCommand hw cmd w).out = ofKind Kind.restart w.out) ∧
    ((h = Handler.handleSaveConfig → body = none) → h ≠ Handler.handleReset →
      (runHandler hw h body w).restarted = w.restarted ∧
      ofKind Kind.restart (runHandler hw h body w).out = ofKind Kind.restart w.out) ∧
    ((handleNotFound hw w).restarted = w.restarted ∧
      ofKind Kind.restart (handleNotFound hw w).out = ofKind Kind.restart w.out) ∧
    (w.restarted = false →
      (∀ q, inp.request = some q → findRoute w.routes q ≠ some Handler.handleReset ∧
        (findRoute w.routes q = some Handler.handleSaveConfig → q.body = none)) →
      (∀ l ∈ linesOf w.serialBuffer inp.serialIn, trim l ∉ restartWords) →
      (loop hw inp w).restarted = false ∧
      ofKind Kind.restart (loop hw inp w).out = ofKind Kind.restart w.out) := by
  refine ⟨?_, rfl, rfl, ?_, ?_, ?_, ?_⟩
  · intro hin
    unfold handleSerialCommand
    have hcases : (trim cmd = "RESTART" ∨ trim cmd = "restart" ∨ trim cmd = "REBOOT" ∨
        trim cmd = "reboot") ∨
        (trim cmd = "RESET" ∨ trim cmd = "reset" ∨ trim cmd = "FACTORY_RESET") := by
      simp only [restartWords, List.mem_cons, List.mem_singleton, List.not_mem_nil,
        or_false] at hin
      tauto
    rcases hcases with hc | hc
    · simp only [dispatch_restart hw _ _ hc]; rfl
    · simp only [dispatch_reset hw _ _ hc]; rfl
  · intro hnot
    have hW := noRestart_command hw cmd w hnot
    exact ⟨same_of_within hW Part.restarted (by decide),
      same_of_within hW (Part.ev Kind.restart) (by decide)⟩
  · intro hs hr
    have hW := noRestart_handler hw h body w hs hr
    exact ⟨same_of_within hW Part.restarted (by decide),
      same_of_within hW (Part.ev Kind.restart) (by decide)⟩
  · have hW : Within noRestart w (handleNotFound hw w) :=
      within_of_rule (within_handleNotFound noRestart hw w w (by decide))
    exact ⟨same_of_within hW Part.restarted (by decide),
      same_of_within hW (Part.ev Kind.restart) (by decide)⟩
  · intro hr hreq hser
    have hW := noRestart_loop hw inp w hr hreq hser
    exact ⟨(same_of_within hW Part.restarted (by decide)).trans hr,
      same_of_within hW (Part.ev Kind.restart) (by decide)⟩

/-- Witness of C16: RESTART restarts; SET_LED:0, the connect handler and a quiet pass do
not. -/
theorem C16_restart_paths_witness :
    (handleSerialCommand Hw.quiet "RESTART" factoryWorld).restarted = true ∧
    (handleSerialCommand Hw.quiet "SET_LED:0" factoryWorld).restarted = false ∧
    (runHandler Hw.quiet Handler.handleConnect none factoryWorld).restarted = false ∧
    (loop Hw.quiet quietPass factoryWorld).restarted = false :=
  ⟨(C16_restart_paths Hw.quiet factoryWorld "RESTART" Handler.handleRoot none [] quietPass).1
      (by decide),
    ((C16_restart_paths Hw.quiet factoryWorld "SET_LED:0" Handler.handleRoot none [] quietPass
      ).2.2.2.1 (by decide)).1,
    ((C16_restart_paths Hw.quiet factoryWorld [] Handler.handleConnect none [] quietPass
      ).2.2.2.2.1 (by intro h; cases h) (by intro h; cases h)).1,
    ((C16_restart_paths Hw.quiet factoryWorld [] Handler.handleRoot none [] quietPass
      ).2.2.2.2.2.2 rfl (by intro q h; cases h) (by intro l h; cases h)).1⟩

/-! ## The broker without a host -/

/-- C17. Empty host disables the broker: when `state.mqttHost` is empty, `setupMQTT()` and
`maintainMQTT()` return the world as it is, at every clock value: no server is set on the
client, no connection is attempted, nothing is published, the state is unchanged. -/
theorem C17_empty_host (hw : Hw) (w : World) (h : w.state.mqttHost = []) :
    setupMQTT w = w ∧ maintainMQTT hw w = w ∧
    ofKind Kind.mqttSetServer (setupMQTT w).out = ofKind Kind.mqttSetServer w.out ∧
    ofKind Kind.mqttConnect (maintainMQTT hw w).out = ofKind Kind.mqttConnect w.out ∧
    ofKind Kind.mqttPublish (maintainMQTT hw w).out = ofKind Kind.mqttPublish w.out ∧
    (maintainMQTT hw w).state = w.state := by
  have h1 : setupMQTT w = w := by simp only [setupMQTT, h, List.length_nil, if_true]
  have h2 : maintainMQTT hw w = w := by
    simp only [maintainMQTT, h, List.length_nil, true_or, or_true, if_true]
  rw [h1, h2]
  exact ⟨rfl, rfl, rfl, rfl, rfl, rfl⟩

/-- Witness of C17 on the factory defaults and on a running device without a broker. -/
theorem C17_empty_host_witness :
    setupMQTT factoryWorld = factoryWorld ∧ maintainMQTT Hw.quiet runningNoBroker = runningNoBroker :=
  ⟨(C17_empty_host Hw.quiet factoryWorld (by decide)).1,
    (C17_empty_host Hw.quiet runningNoBroker (by decide)).2.1⟩

/-- C18, the failing input. A device in Running mode with the link up and an empty
broker host: a pass of `loop()` in which nothing arrives, and ten such passes in a row,
record nothing at all, so no telemetry sample reaches the serial port;
`publishSensors()`, had it been called, would have written the sample to the serial
port without a broker session. -/
theorem C18_no_telemetry_without_host :
    runningNoBroker.state.mode = SystemMode.MODE_RUNNING ∧
    runningNoBroker.state.mqttHost = [] ∧
    (loop Hw.online quietPass runningNoBroker).out = runningNoBroker.out ∧
    (run Hw.online (List.replicate 10 (shortGap, quietPass)) runningNoBroker).out =
      runningNoBroker.out ∧
    ofKind Kind.serialJson (publishSensors Hw.online runningNoBroker).out =
      ofKind Kind.serialJson runningNoBroker.out ++
        [Event.serialJson "JSON_STATUS:" (sensorsDoc Hw.online runningNoBroker)] := by
  decide

/-! ## What goes to the broker -/

/-- A successful attempt, event by event. -/
theorem mqttAttempt_accepted (hw : Hw) (w : World) (h : hw.brokerAccepts w.clock = true) :
    ∃ payload, (mqttAttempt hw w).out = w.out ++
      [Event.serial "[MQTT] Bağlanılıyor...",
       Event.mqttConnect ("Deneyap-" ++ w.state.deviceId),
       Event.serial " Bağlandı!",
       Event.mqttPublish ("iot_esp_101/devices/" ++ w.state.deviceId ++ "/status") payload true,
       Event.serial ("[MQTT] Status gönderildi: " ++
         ("iot_esp_101/devices/" ++ w.state.deviceId ++ "/status"))] := by
  refine ⟨statusDoc hw (setMqttConnected true (println " Bağlandı!" (setMqttSession true
    (emit (Event.mqttConnect ("Deneyap-" ++ w.state.deviceId))
      (println "[MQTT] Bağlanılıyor..." (setLastMqttRetry (millis w) w)))))), ?_⟩
  unfold mqttAttempt
  simp only [println_eq, clock_emit, clock_setLastMqttRetry, h, if_true, publishStatus,
    setMqttConnected_eq, mqttSession_emit, mqttSession_modState, mqttSession_setMqttSession,
    not_true_eq_false, if_false, out_emit, out_modState, out_setMqttSession,
    out_setLastMqttRetry, statusTopic, state_emit, state_modState, state_setMqttSession,
    state_setLastMqttRetry, List.append_assoc, List.singleton_append, List.cons_append,
    List.nil_append, Bool.not_eq_true]

/-- A refused attempt publishes nothing. -/
theorem mqttAttempt_silent (hw : Hw) (w : World) (h : hw.brokerAccepts w.clock = false) :
    ofKind Kind.mqttPublish (mqttAttempt hw w).out = ofKind Kind.mqttPublish w.out := by
  unfold mqttAttempt
  simp only [println_eq, clock_emit, clock_setLastMqttRetry, h, Bool.false_eq_true, if_false,
    setMqttConnected_eq, out_emit, out_modState, out_setLastMqttRetry, ofKind_append]
  simp [ofKind, Event.kind]

/-- What `publishSensors()` sends to the broker. -/
theorem publishSensors_wire (hw : Hw) (w : World) :
    ofKind Kind.mqttPublish (publishSensors hw w).out = ofKind Kind.mqttPublish w.out ++
      (if w.mqttSession then
        [Event.mqttPublish ("iot_esp_101/devices/" ++ w.state.deviceId ++ "/sensors")
          (sensorsDoc hw w) false]
       else []) := by
  unfold publishSensors
  cases hs : w.mqttSession <;>
    simp [println_eq, hs, out_emit, ofKind_append, ofKind, Event.kind, sensorsTopic]

/-- What `publishStatus()` sends to the broker. -/
theorem publishStatus_wire (hw : Hw) (w : World) :
    ofKind Kind.mqttPublish (publishStatus hw w).out = ofKind Kind.mqttPublish w.out ++
      (if w.mqttSession then
        [Event.mqttPublish ("iot_esp_101/devices/" ++ w.state.deviceId ++ "/status")
          (statusDoc hw w) true]
       else []) := by
  unfold publishStatus
  cases hs : w.mqttSession <;>
    simp [println_eq, hs, out_emit, ofKind_append, ofKind, Event.kind, statusTopic]

/-- C19. Broker wire contract: for a device id d in Running mode with a host and the link
up, a successful connection attempt of `maintainMQTT()` records the connect and right
after it one publication on iot_esp_101/devices/d/status with the retain flag set; a
refused attempt publishes nothing; with a session `maintainMQTT()` publishes once, on
iot_esp_101/devices/d/sensors with the retain flag clear; and whatever
`publishSensors()` and `publishStatus()` publish goes to these topics with these flags. -/
theorem C19_wire_contract (hw : Hw) (w : World) (d : Str)
    (hd : w.state.deviceId = d)
    (hmode : w.state.mode = SystemMode.MODE_RUNNING)
    (hhost : w.state.mqttHost.length ≠ 0)
    (hlink : w.state.wifiConnected = true) :
    (w.mqttSession = false → subU32 (millis w) w.lastMqttRetry > 5000 →
      hw.brokerAccepts w.clock = true →
      ∃ payload, (maintainMQTT hw w).out = w.out ++
        [Event.serial "[MQTT] Bağlanılıyor...",
         Event.mqttConnect ("Deneyap-" ++ d),
         Event.serial " Bağlandı!",
         Event.mqttPublish ("iot_esp_101/devices/" ++ d ++ "/status") payload true,
         Event.serial ("[MQTT] Status gönderildi: " ++
           ("iot_esp_101/devices/" ++ d ++ "/status"))]) ∧
    (w.mqttSession = false → hw.brokerAccepts w.clock = false →
      ofKind Kind.mqttPublish (maintainMQTT hw w).out = ofKind Kind.mqttPublish w.out) ∧
    (w.mqttSession = true →
      ∃ payload, ofKind Kind.mqttPublish (maintainMQTT hw w).out =
        ofKind Kind.mqttPublish w.out ++
          [Event.mqttPublish ("iot_esp_101/devices/" ++ d ++ "/sensors") payload false]) ∧
    (∃ sent, ofKind Kind.mqttPublish (publishSensors hw w).out =
        ofKind Kind.mqttPublish w.out ++ sent ∧
      ∀ e ∈ sent, ∃ payload,
        e = Event.mqttPublish ("iot_esp_101/devices/" ++ d ++ "/sensors") payload false) ∧
    (∃ sent, ofKind Kind.mqttPublish (publishStatus hw w).out =
        ofKind Kind.mqttPublish w.out ++ sent ∧
      ∀ e ∈ sent, ∃ payload,
        e = Event.mqttPublish ("iot_esp_101/devices/" ++ d ++ "/status") payload true) := by
  subst hd
  have hgate : ¬ (w.state.mode ≠ SystemMode.MODE_RUNNING ∨ w.state.mqttHost.length = 0 ∨
      ¬ w.state.wifiConnected = true) := by
    simp [hmode, hhost, hlink]
  refine ⟨?_, ?_, ?_, ?_, ?_⟩
  · intro hs hdue hacc
    have hm : maintainMQTT hw w = mqttAttempt hw w := by
      unfold maintainMQTT
      simp only [hgate, if_false, hs, Bool.false_eq_true, not_false_eq_true, if_true, hdue]
    rw [hm]
    exact mqttAttempt_accepted hw w hacc
  · intro hs hrej
    unfold maintainMQTT
    simp only [hgate, if_false, hs, Bool.false_eq_true, not_false_eq_true, if_true]
    split
    · exact mqttAttempt_silent hw w hrej
    · rfl
  · intro hs
    refine ⟨sensorsDoc hw (setMqttConnected true (emit Event.mqttLoop w)), ?_⟩
    unfold maintainMQTT
    simp only [hgate, if_false, hs, not_true_eq_false, out_delay]
    rw [publishSensors_wire]
    simp [setMqttConnected_eq, hs, ofKind_append, ofKind, Event.kind]
  · refine ⟨_, publishSensors_wire hw w, ?_⟩
    intro e he
    split at he
    · exact ⟨_, by simpa using he⟩
    · simp at he
  · refine ⟨_, publishStatus_wire hw w, ?_⟩
    intro e he
    split at he
    · exact ⟨_, by simpa using he⟩
    · simp at he

/-- Witness of C19: the first attempt of a running device with the factory device id,
more than 5 s after the boot, with a broker that accepts. -/
theorem C19_wire_contract_witness :
    ∃ payload, (maintainMQTT Hw.broker (delay 6000 runningWorld)).out =
      (delay 6000 runningWorld).out ++
        [Event.serial "[MQTT] Bağlanılıyor...",
         Event.mqttConnect ("Deneyap-" ++ "deneyap-001"),
         Event.serial " Bağlandı!",
         Event.mqttPublish ("iot_esp_101/devices/" ++ "deneyap-001" ++ "/status") payload true,
         Event.serial ("[MQTT] Status gönderildi: " ++
           ("iot_esp_101/devices/" ++ "deneyap-001" ++ "/status"))] :=
  (C19_wire_contract Hw.broker (delay 6000 runningWorld) "deneyap-001" (by decide) (by decide)
    (by decide) (by decide)).1 (by decide) (by decide) (by decide)

/-! ## A save cut short -/

/-- C20, the counterexample. The store holds the credentials OldNet / oldpass and the
state the new credentials NewNet / newpass; a save cut short after its first write leaves
a store from which a load reads the SSID NewNet with the password oldpass: neither the
old record nor the new one. -/
theorem C20_torn_save :
    (loadConfiguration unsavedWorld).state.savedSSID = "OldNet" ∧
    (loadConfiguration unsavedWorld).state.savedPassword = "oldpass" ∧
    (loadConfiguration (saveInterrupted 1 unsavedWorld)).state.savedSSID = "NewNet" ∧
    (loadConfiguration (saveInterrupted 1 unsavedWorld)).state.savedPassword = "oldpass" ∧
    (loadConfiguration (saveInterrupted 1 unsavedWorld)).state.config ≠
      (loadConfiguration unsavedWorld).state.config ∧
    (loadConfiguration (saveInterrupted 1 unsavedWorld)).state.config ≠
      unsavedWorld.state.config := by
  decide

theorem config_saveInterrupted (k : Nat) (w : World) :
    (loadConfiguration (saveInterrupted k w)).state.config =
      (loadedState (putAll ((savedEntries w.state).take k) w.prefs) w.state).config := by
  unfold saveInterrupted
  rw [state_loadConfiguration, prefs_prefsPutAll, println_eq, prefs_emit]
  rfl

/-- C20, as amended. After a save cut short after k of its writes, a load returns for
each field the new value where the write of the field is among the first k writes, in
the order of `saveConfiguration()`, and the old value elsewhere: the whole old record for
k = 0 and the whole new record once all 17 writes are done. -/
theorem C20_interrupted_save (k : Nat) (w : World) :
    (loadConfiguration (saveInterrupted k w)).state.config =
      mixedConfig k w.state.config (loadConfiguration w).state.config ∧
    mixedConfig 0 w.state.config (loadConfiguration w).state.config =
      (loadConfiguration w).state.config ∧
    mixedConfig (17 + k) w.state.config (loadConfiguration w).state.config =
      w.state.config := by
  refine ⟨?_, rfl, ?_⟩
  · rw [config_saveInterrupted, state_loadConfiguration]
    by_cases hk : 17 ≤ k
    · have ht : (savedEntries w.state).take k = savedEntries w.state :=
        List.take_of_length_le (by simpa [savedEntries] using hk)
      rw [ht, loaded_saved]
      simp [mixedConfig, SystemState.config, show 1 ≤ k by omega, show 2 ≤ k by omega,
        show 3 ≤ k by omega, show 4 ≤ k by omega, show 5 ≤ k by omega, show 7 ≤ k by omega,
        show 8 ≤ k by omega, show 9 ≤ k by omega, show 10 ≤ k by omega, show 11 ≤ k by omega,
        show 12 ≤ k by omega, show 13 ≤ k by omega, show 14 ≤ k by omega,
        show 15 ≤ k by omega, show 16 ≤ k by omega, hk]
    · have hk' : k < 17 := by omega
      interval_cases k <;>
      simp [loadedState, savedEntries, putAll, SystemState.config, mixedConfig,
        getString, getInt, getUChar, getBool, boolVal, nvsGet_put_same, nvsGet_put_other,
        NVS_KEY_WIFI_SSID, NVS_KEY_WIFI_PASS, NVS_KEY_MQTT_HOST, NVS_KEY_MQTT_PORT,
        NVS_KEY_DEVICE_ID, NVS_KEY_CONFIGURED, NVS_KEY_READ_INTERVAL, NVS_KEY_SENSORS_ENABLED,
        NVS_KEY_SLEEP_ENABLED, NVS_KEY_SLEEP_MINUTES, NVS_KEY_ALARM_NEM_MIN,
        NVS_KEY_ALARM_NEM_MAX, NVS_KEY_ALARM_TEMP_MAX, NVS_KEY_NTP_SERVER, NVS_KEY_TIMEZONE,
        NVS_KEY_DEBUG_LEVEL, NVS_KEY_LED_ENABLED, boolVal_read]
  · simp [mixedConfig, SystemState.config, show 1 ≤ 17 + k by omega,
      show 2 ≤ 17 + k by omega, show 3 ≤ 17 + k by omega, show 4 ≤ 17 + k by omega,
      show 5 ≤ 17 + k by omega, show 7 ≤ 17 + k by omega, show 8 ≤ 17 + k by omega,
      show 9 ≤ 17 + k by omega, show 10 ≤ 17 + k by omega, show 11 ≤ 17 + k by omega,
      show 12 ≤ 17 + k by omega, show 13 ≤ 17 + k by omega, show 14 ≤ 17 + k by omega,
      show 15 ≤ 17 + k by omega, show 16 ≤ 17 + k by omega]

/-! ## The sensor mask -/

theorem sensorLoop_eq (p : Str) : sensorLoop p 4 0 0 0 = sensorMask p := by
  have hnone : ∀ i, ¬ i < p.length → p.get? i = none := fun i h =>
    List.get?_eq_none.2 (by omega)
  unfold sensorMask sensorFlag
  simp only [sensorLoop]
  by_cases h0 : 0 < p.length
  · by_cases h2 : 2 < p.length
    · by_cases h4 : 4 < p.length
      · by_cases h6 : 6 < p.length
        · simp only [h0, h2, h4, h6, if_true]
          by_cases b0 : p.get? 0 = some '1' <;> by_cases b1 : p.get? 2 = some '1' <;>
          by_cases b2 : p.get? 4 = some '1' <;> by_cases b3 : p.get? 6 = some '1' <;>
          simp only [b0, b1, b2, b3, if_true, if_false, decide_True, decide_False] <;> rfl
        · simp only [h0, h2, h4, h6, if_true, if_false, hnone 6 h6]
          by_cases b0 : p.get? 0 = some '1' <;> by_cases b1 : p.get? 2 = some '1' <;>
          by_cases b2 : p.get? 4 = some '1' <;>
          simp only [b0, b1, b2, if_true, if_false, decide_True, decide_False] <;> rfl
      · simp only [h0, h2, h4, if_true, if_false, hnone 4 h4, hnone 6 (by omega)]
        by_cases b0 : p.get? 0 = some '1' <;> by_cases b1 : p.get? 2 = some '1' <;>
        simp only [b0, b1, if_true, if_false, decide_True, decide_False] <;> rfl
    · simp only [h0, h2, if_true, if_false, hnone 2 h2, hnone 4 (by omega), hnone 6 (by omega)]
      by_cases b0 : p.get? 0 = some '1' <;>
      simp only [b0, if_true, if_false, decide_True, decide_False] <;> rfl
  · simp only [h0, if_false, hnone 0 h0, hnone 2 (by omega), hnone 4 (by omega),
      hnone 6 (by omega)]
    rfl

/-- What is stored under the key of the sensor mask after a save. -/
theorem saved_sensors (s : SystemState) (p : Store) :
    nvsGet (putAll (savedEntries s) p) NVS_KEY_SENSORS_ENABLED =
      some (NvsVal.u8 s.sensorsEnabled) := by
  simp [savedEntries, putAll, nvsGet_put_same, nvsGet_put_other,
    NVS_KEY_WIFI_SSID, NVS_KEY_WIFI_PASS, NVS_KEY_MQTT_HOST, NVS_KEY_MQTT_PORT,
    NVS_KEY_DEVICE_ID, NVS_KEY_CONFIGURED, NVS_KEY_READ_INTERVAL, NVS_KEY_SENSORS_ENABLED,
    NVS_KEY_SLEEP_ENABLED, NVS_KEY_SLEEP_MINUTES, NVS_KEY_ALARM_NEM_MIN,
    NVS_KEY_ALARM_NEM_MAX, NVS_KEY_ALARM_TEMP_MAX, NVS_KEY_NTP_SERVER, NVS_KEY_TIMEZONE,
    NVS_KEY_DEBUG_LEVEL, NVS_KEY_LED_ENABLED]

theorem sensorMask_bits (p : Str) :
    sensorMask p < 16 ∧ ∀ i, i < 4 → (sensorMask p).testBit i = sensorFlag p i := by
  unfold sensorMask
  refine ⟨?_, fun i hi => ?_⟩
  · cases sensorFlag p 0 <;> cases sensorFlag p 1 <;> cases sensorFlag p 2 <;>
      cases sensorFlag p 3 <;> decide
  · interval_cases i <;>
    cases h0 : sensorFlag p 0 <;> cases h1 : sensorFlag p 1 <;> cases h2 : sensorFlag p 2 <;>
      cases h3 : sensorFlag p 3 <;> rfl

/-- C26. Sensor mask parsing: for every command with the verb SET_SENSORS: in upper or
lower case, with p the text after the verb, the command stores a mask below 16 whose
bit i, for i in 0..3, is set exactly when p has a character at index 2 * i and that
character is 1; it is never rejected, the mask is written to the store and a load reads
it back. -/
theorem C26_sensor_mask (hw : Hw) (w : World) (cmd : Str)
    (hverb : HasVerb (trim cmd) "SET_SENSORS:" "set_sensors:") :
    (handleSerialCommand hw cmd w).state.sensorsEnabled =
      sensorMask (substringFrom (trim cmd) 12) ∧
    sensorMask (substringFrom (trim cmd) 12) < 16 ∧
    (∀ i, i < 4 → (sensorMask (substringFrom (trim cmd) 12)).testBit i =
      decide ((substringFrom (trim cmd) 12).get? (2 * i) = some '1')) ∧
    nvsGet (handleSerialCommand hw cmd w).prefs NVS_KEY_SENSORS_ENABLED =
      some (NvsVal.u8 (sensorMask (substringFrom (trim cmd) 12))) ∧
    (loadConfiguration (handleSerialCommand hw cmd w)).state.sensorsEnabled =
      sensorMask (substringFrom (trim cmd) 12) := by
  have hd : handleSerialCommand hw cmd w =
      cmdSetSensors (substringFrom (trim cmd) 12) (println ("[CMD] Alındı: " ++ trim cmd) w) := by
    simp only [handleSerialCommand]
    exact dispatch_setSensors hw _ _ hverb
  have hst : (handleSerialCommand hw cmd w).state.sensorsEnabled =
      sensorMask (substringFrom (trim cmd) 12) := by
    rw [hd]
    simp only [cmdSetSensors, println_eq, state_emit, state_saveConfiguration, state_modState,
      sensorLoop_eq]
  have hpr : nvsGet (handleSerialCommand hw cmd w).prefs NVS_KEY_SENSORS_ENABLED =
      some (NvsVal.u8 (sensorMask (substringFrom (trim cmd) 12))) := by
    rw [hd]
    simp only [cmdSetSensors, println_eq, prefs_emit, prefs_saveConfiguration, state_modState,
      state_emit, saved_sensors, sensorLoop_eq]
  refine ⟨hst, (sensorMask_bits _).1, (sensorMask_bits _).2, hpr, ?_⟩
  simp only [state_loadConfiguration, loadedState, getUChar, hpr]

/-- Witness of C26: SET_SENSORS:1,0,1,0 stores 5. -/
theorem C26_sensor_mask_witness :
    (handleSerialCommand Hw.quiet "SET_SENSORS:1,0,1,0" factoryWorld).state.sensorsEnabled = 5 :=
  (C26_sensor_mask Hw.quiet factoryWorld "SET_SENSORS:1,0,1,0" (Or.inl (by decide))).1

/-! ## The cooldown tests at the wrap of the clock -/

/-- The unsigned difference of two readings is the time that passed between
them, as long as that is less than `2 ^ 32` ms. -/
theorem subU32_elapsed (last e : Nat) (hl : last < 2 ^ 32) (he : e < 2 ^ 32) :
    subU32 ((last + e) % 2 ^ 32) last = e := by
  unfold subU32
  rw [Nat.mod_eq_of_lt hl]
  by_cases h : last + e < 2 ^ 32
  · rw [Nat.mod_eq_of_lt h]
    have : last + e + 2 ^ 32 - last = e + 2 ^ 32 := by omega
    rw [this, Nat.add_mod_right, Nat.mod_eq_of_lt he]
  · have h1 : (last + e) % 2 ^ 32 = last + e - 2 ^ 32 := by
      rw [Nat.mod_eq_sub_mod (by omega)]
      exact Nat.mod_eq_of_lt (by omega)
    rw [h1]
    have : last + e - 2 ^ 32 + 2 ^ 32 - last = e := by omega
    rw [this, Nat.mod_eq_of_lt he]

/-- Every attempt records one connect. -/
theorem attempts_mqttAttempt (hw : Hw) (w : World) :
    attempts (mqttAttempt hw w) = attempts w + 1 := by
  unfold mqttAttempt attempts
  cases hb : hw.brokerAccepts w.clock <;>
    simp [println_eq, hb, setMqttConnected_eq, publishStatus, out_emit, ofKind_append, ofKind,
      Event.kind]

theorem requests_reconnectStep (w : World) :
    requests (reconnectStep w) =
      requests w + (if ¬ w.state.wifiConnected ∧ subU32 (millis w) w.lastReconnect > 10000
        then 1 else 0) := by
  unfold reconnectStep requests
  split <;> simp [println_eq, out_emit, ofKind_append, ofKind, Event.kind]

/-- C27. Cooldown tests survive clock wrap-around: for 32-bit readings with
now = last + e modulo 2 ^ 32 and e below 2 ^ 32, the unsigned difference now - last is e,
so it exceeds 5000 (10 000) exactly when e does; `maintainMQTT()` without a session makes
an attempt exactly when e exceeds 5000, and the reconnection step of `loop()` with the
link down makes a request exactly when e exceeds 10 000. -/
theorem C27_wraparound (hw : Hw) (w : World) (last e : Nat)
    (hl : last < 2 ^ 32) (he : e < 2 ^ 32) (hnow : millis w = (last + e) % 2 ^ 32) :
    subU32 ((last + e) % 2 ^ 32) last = e ∧
    (subU32 ((last + e) % 2 ^ 32) last > 5000 ↔ e > 5000) ∧
    (subU32 ((last + e) % 2 ^ 32) last > 10000 ↔ e > 10000) ∧
    (w.lastMqttRetry = last → w.state.mode = SystemMode.MODE_RUNNING →
      w.state.mqttHost.length ≠ 0 → w.state.wifiConnected = true → w.mqttSession = false →
      (attempts (maintainMQTT hw w) = attempts w + 1 ↔ e > 5000) ∧
      (attempts (maintainMQTT hw w) = attempts w ↔ e ≤ 5000)) ∧
    (w.lastReconnect = last → w.state.wifiConnected = false →
      (requests (reconnectStep w) = requests w + 1 ↔ e > 10000) ∧
      (requests (reconnectStep w) = requests w ↔ e ≤ 10000)) := by
  have hsub := subU32_elapsed last e hl he
  refine ⟨hsub, by rw [hsub], by rw [hsub], ?_, ?_⟩
  · intro hlast hmode hhost hlink hdown
    have hgate : ¬ (w.state.mode ≠ SystemMode.MODE_RUNNING ∨ w.state.mqttHost.length = 0 ∨
        ¬ w.state.wifiConnected = true) := by
      simp [hmode, hhost, hlink]
    have hm : maintainMQTT hw w = if e > 5000 then mqttAttempt hw w else w := by
      unfold maintainMQTT
      simp only [hgate, if_false, hdown, Bool.false_eq_true, not_false_eq_true, if_true,
        hlast, hnow, hsub]
    rw [hm]
    by_cases h5 : e > 5000
    · rw [if_pos h5, attempts_mqttAttempt]
      exact ⟨⟨fun _ => h5, fun _ => rfl⟩, ⟨fun h => by omega, fun h => by omega⟩⟩
    · rw [if_neg h5]
      exact ⟨⟨fun h => by omega, fun h => absurd h h5⟩, ⟨fun _ => by omega, fun _ => rfl⟩⟩
  · intro hlast hlink
    rw [requests_reconnectStep, hlast, hnow, hsub]
    by_cases h10 : e > 10000
    · simp [hlink, h10]
    · simp [hlink, h10]
      omega

/-- Witness of C27: the last attempt 1000 ms before the wrap and the reading 6000 ms
after it are 7000 ms apart, and the attempt is made. -/
theorem C27_wraparound_witness :
    millis wrappedWorld = 6000 ∧ wrappedWorld.lastMqttRetry = 4294966296 ∧
    attempts (maintainMQTT Hw.quiet wrappedWorld) = attempts wrappedWorld + 1 :=
  ⟨by decide, by decide,
    (((C27_wraparound Hw.quiet wrappedWorld (2 ^ 32 - 1000) 7000 (by decide) (by decide)
      (by decide)).2.2.2.1 (by decide) (by decide) (by decide) (by decide) (by decide)).1).2
      (by decide)⟩

/-! ## The command buffer -/

/-- A command does not touch `serialBuffer`. -/
theorem serialBuffer_command (hw : Hw) (cmd : Str) (w : World) :
    (handleSerialCommand hw cmd w).serialBuffer = w.serialBuffer :=
  same_of_within (within_of_rule (within_handleSerialCommand (allBut [Part.serialBuffer]) hw cmd
    w w (by decide))) Part.serialBuffer (by decide)

theorem serialBuffer_boot (hw : Hw) (x : World) : (boot hw x).serialBuffer = [] := by
  unfold boot
  exact same_of_within (within_of_rule (within_setup (allBut [Part.serialBuffer]) hw
    { World.powerOn x.prefs x.clock with out := x.out } _ (by decide))) Part.serialBuffer
    (by decide)

theorem bounded_serialChar (hw : Hw) (c : Char) (w : World) (h : w.serialBuffer.length ≤ 256) :
    (serialChar hw c w).serialBuffer.length ≤ 256 := by
  unfold serialChar
  split
  · split
    · simp only
      split
      · rw [serialBuffer_command]; exact h
      · simp only [serialBuffer_setSerialBuffer, List.length_nil]; omega
    · exact h
  · simp only [serialBuffer_setSerialBuffer]
    split
    · simp
    · rename_i hlen
      simp only [serialBuffer_setSerialBuffer] at hlen ⊢
      omega

theorem bounded_serial (hw : Hw) (cs : List Char) (w : World) (h : w.serialBuffer.length ≤ 256) :
    (processSerialCommands hw cs w).serialBuffer.length ≤ 256 := by
  induction cs generalizing w with
  | nil => exact h
  | cons c cs ih =>
    unfold processSerialCommands
    have h1 := bounded_serialChar hw c w h
    simp only
    split
    · exact h1
    · exact ih _ h1

/-- C28. Bounded command buffer: a buffer of at most 256 characters stays so after each
character and after any stream. A line terminator with a non-empty buffer hands the
buffer, 1 to 256 characters, to `handleSerialCommand`, and the buffer is empty when the
command returns, and after the boot when it restarts the device; a terminator with an
empty buffer does nothing; any other character is only stored, and as the 257th it
empties the buffer with nothing dispatched. -/
theorem C28_bounded_buffer (hw hw2 : Hw) (w : World) (c : Char) (cs : List Char)
    (hbuf : w.serialBuffer.length ≤ 256) :
    (serialChar hw c w).serialBuffer.length ≤ 256 ∧
    (processSerialCommands hw cs w).serialBuffer.length ≤ 256 ∧
    ((c = Char.ofNat 10 ∨ c = Char.ofNat 13) → w.serialBuffer ≠ [] →
      1 ≤ w.serialBuffer.length ∧ w.serialBuffer.length ≤ 256 ∧
      serialChar hw c w =
        (if (handleSerialCommand hw w.serialBuffer w).restarted
          then handleSerialCommand hw w.serialBuffer w
          else setSerialBuffer [] (handleSerialCommand hw w.serialBuffer w)) ∧
      ((serialChar hw c w).restarted = false → (serialChar hw c w).serialBuffer = []) ∧
      (boot hw2 (serialChar hw c w)).serialBuffer = []) ∧
    ((c = Char.ofNat 10 ∨ c = Char.ofNat 13) → w.serialBuffer = [] → serialChar hw c w = w) ∧
    (¬ (c = Char.ofNat 10 ∨ c = Char.ofNat 13) →
      serialChar hw c w =
        setSerialBuffer (if w.serialBuffer.length < 256 then w.serialBuffer ++ [c] else []) w ∧
      (w.serialBuffer.length = 256 →
        (serialChar hw c w).serialBuffer = [] ∧ (serialChar hw c w).out = w.out)) := by
  refine ⟨bounded_serialChar hw c w hbuf, bounded_serial hw cs w hbuf, ?_, ?_, ?_⟩
  · intro hc hne
    have hpos : w.serialBuffer.length > 0 := List.length_pos.2 hne
    have heq : serialChar hw c w =
        (if (handleSerialCommand hw w.serialBuffer w).restarted
          then handleSerialCommand hw w.serialBuffer w
          else setSerialBuffer [] (handleSerialCommand hw w.serialBuffer w)) := by
      unfold serialChar
      simp only [hc, if_true, hpos]
    refine ⟨hpos, hbuf, heq, ?_, serialBuffer_boot hw2 _⟩
    intro hr
    rw [heq] at hr ⊢
    by_cases h : (handleSerialCommand hw w.serialBuffer w).restarted = true
    · rw [if_pos h] at hr; rw [hr] at h; exact absurd h (by decide)
    · rw [if_neg h]; rfl
  · intro hc he
    unfold serialChar
    simp only [hc, if_true, he, List.length_nil, gt_iff_lt, Nat.lt_irrefl, if_false]
  · intro hc
    have heq : serialChar hw c w =
        setSerialBuffer (if w.serialBuffer.length < 256 then w.serialBuffer ++ [c] else []) w := by
      unfold serialChar
      simp only [hc, if_false, serialBuffer_setSerialBuffer, List.length_append,
        List.length_singleton]
      by_cases hl : w.serialBuffer.length < 256
      · have : ¬ (w.serialBuffer.length + 1 > 256) := by omega
        simp only [this, if_false, hl, if_true]
      · have : w.serialBuffer.length + 1 > 256 := by omega
        simp only [this, if_true, hl, if_false]
        rfl
    refine ⟨heq, fun h256 => ?_⟩
    rw [heq]
    simp [h256, setSerialBuffer]

/-- Witness of C28: 300 characters without a terminator leave at most 256 in the buffer. -/
theorem C28_bounded_buffer_witness :
    (processSerialCommands Hw.quiet (List.replicate 300 'x') factoryWorld).serialBuffer.length
      ≤ 256 :=
  (C28_bounded_buffer Hw.quiet Hw.quiet factoryWorld 'x' (List.replicate 300 'x')
    (by decide)).2.1

/-! ## Uptime text and signal quality -/

/-- C29. Uptime decomposition: `getUptimeString()` splits `uptime / 1000` into days d,
hours h < 24, minutes m < 60 and seconds s < 60 with d * 86400 + h * 3600 + m * 60 + s =
uptime / 1000, and returns the day part iff d > 0, then the hour part iff d > 0 or h > 0,
then the minute part iff d > 0 or h > 0 or m > 0, then the seconds followed by sn. -/
theorem C29_uptime_parts (st : SystemState) :
    ∃ d h m s : Nat, h < 24 ∧ m < 60 ∧ s < 60 ∧
      d * 86400 + h * 3600 + m * 60 + s = st.uptime / 1000 ∧
      getUptimeString st =
        (if d > 0 then fmtNat d ++ "g " else []) ++
        (if d > 0 ∨ h > 0 then fmtNat h ++ "s " else []) ++
        (if d > 0 ∨ h > 0 ∨ m > 0 then fmtNat m ++ "d " else []) ++
        (fmtNat s ++ "sn") := by
  refine ⟨st.uptime / 1000 / 60 / 60 / 24, st.uptime / 1000 / 60 / 60 % 24,
    st.uptime / 1000 / 60 % 60, st.uptime / 1000 % 60, Nat.mod_lt _ (by decide),
    Nat.mod_lt _ (by decide), Nat.mod_lt _ (by decide), by omega, ?_⟩
  unfold getUptimeString
  simp only [List.nil_append, List.append_assoc]
  by_cases hd : st.uptime / 1000 / 60 / 60 / 24 > 0 <;>
  by_cases hh : st.uptime / 1000 / 60 / 60 % 24 > 0 <;>
  by_cases hm : st.uptime / 1000 / 60 % 60 > 0 <;>
  simp [hd, hh, hm]

/-- C30. Signal quality: `getSignalQuality` returns one of 0, 20, 40, 60, 80, 100, does
not decrease when rssi grows, returns 100 exactly for rssi >= -50 and 0 exactly for
rssi < -90. -/
theorem C30_signal_quality (rssi a b : Int) :
    getSignalQuality rssi ∈ ([0, 20, 40, 60, 80, 100] : List Int) ∧
    (a ≤ b → getSignalQuality a ≤ getSignalQuality b) ∧
    (getSignalQuality rssi = 100 ↔ rssi ≥ -50) ∧
    (getSignalQuality rssi = 0 ↔ rssi < -90) := by
  refine ⟨?_, ?_, ?_, ?_⟩
  · unfold getSignalQuality
    split_ifs <;> simp
  · intro hab
    unfold getSignalQuality
    split_ifs <;> omega
  · unfold getSignalQuality
    split_ifs <;> constructor <;> intro h <;> omega
  · unfold getSignalQuality
    split_ifs <;> constructor <;> intro h <;> omega

/-- Witness of C30: -75 dBm gives 40 and -55 dBm gives 80. -/
theorem C30_signal_quality_witness :
    getSignalQuality (-75) ≤ getSignalQuality (-55) ∧ getSignalQuality (-75) = 40 ∧
    getSignalQuality (-55) = 80 :=
  ⟨(C30_signal_quality 0 (-75) (-55)).2.1 (by decide), by decide, by decide⟩

/-! ## The snapshot in the status message -/

/-- C24, the failing input. A connected device with a read interval of 60 s and sleep
enabled: the status message `publishStatus()` sends carries read_interval 30 and
sleep_mode Deaktif, while the snapshot that the STATUS command prints from the same
state carries 60 and Aktif. -/
theorem C24_snapshot_hard_coded :
    tunedWorld.state.readInterval = 60 ∧ tunedWorld.state.sleepEnabled = true ∧
    ofKind Kind.mqttPublish (publishStatus Hw.online tunedWorld).out =
      [Event.mqttPublish "iot_esp_101/devices/deneyap-001/status"
        (statusDoc Hw.online tunedWorld) true] ∧
    configEntry (statusDoc Hw.online tunedWorld) "read_interval" = some (JsonVal.int 30) ∧
    configEntry (statusDoc Hw.online tunedWorld) "sleep_mode" = some (JsonVal.str "Deaktif") ∧
    configEntry (serialStatusDoc Hw.online tunedWorld) "read_interval" =
      some (JsonVal.int 60) ∧
    configEntry (serialStatusDoc Hw.online tunedWorld) "sleep_mode" =
      some (JsonVal.str "Aktif") := by
  decide

/-! ## The cadence of the telemetry -/

theorem publishSensors_readInterval (hw : Hw) (v : Int) (w : World) :
    publishSensors hw (withReadInterval v w) = withReadInterval v (publishSensors hw w) := by
  unfold publishSensors withReadInterval
  simp only [println_eq, mqttSession_emit, mqttSession_modState]
  split <;> rfl

theorem publishStatus_readInterval (hw : Hw) (v : Int) (w : World) :
    publishStatus hw (withReadInterval v w) = withReadInterval v (publishStatus hw w) := by
  unfold publishStatus withReadInterval
  simp only [println_eq, mqttSession_modState]
  split <;> rfl

theorem mqttAttempt_readInterval (hw : Hw) (v : Int) (w : World) :
    mqttAttempt hw (withReadInterval v w) = withReadInterval v (mqttAttempt hw w) := by
  unfold mqttAttempt
  simp only [println_eq, setMqttConnected_eq]
  have hc : ∀ x : World, (withReadInterval v x).clock = x.clock := fun _ => rfl
  simp only [clock_emit, clock_setLastMqttRetry, hc]
  split
  · exact publishStatus_readInterval hw v
      (modState (fun s => { s with mqttConnected := true }) (emit (Event.serial " Bağlandı!")
        (setMqttSession true (emit (Event.mqttConnect ("Deneyap-" ++ w.state.deviceId))
          (emit (Event.serial "[MQTT] Bağlanılıyor...") (setLastMqttRetry (millis w) w))))))
  · rfl

theorem maintainMQTT_readInterval (hw : Hw) (v : Int) (w : World) :
    maintainMQTT hw (withReadInterval v w) = withReadInterval v (maintainMQTT hw w) := by
  unfold maintainMQTT
  have h1 : (withReadInterval v w).state.mode = w.state.mode := rfl
  have h2 : (withReadInterval v w).state.mqttHost = w.state.mqttHost := rfl
  have h3 : (withReadInterval v w).state.wifiConnected = w.state.wifiConnected := rfl
  have h4 : (withReadInterval v w).mqttSession = w.mqttSession := rfl
  have h5 : millis (withReadInterval v w) = millis w := rfl
  have h6 : (withReadInterval v w).lastMqttRetry = w.lastMqttRetry := rfl
  simp only [h1, h2, h3, h4, h5, h6, setMqttConnected_eq]
  split
  · rfl
  · split
    · split
      · exact mqttAttempt_readInterval hw v w
      · rfl
    · have := publishSensors_readInterval hw v
        (modState (fun s => { s with mqttConnected := true }) (emit Event.mqttLoop w))
      show delay 500 (publishSensors hw (withReadInterval v
        (modState (fun s => { s with mqttConnected := true }) (emit Event.mqttLoop w)))) = _
      rw [this]
      rfl

/-- C25. Telemetry cadence ignores the read interval: `maintainMQTT()` on two worlds that
differ only in `readInterval` does the same, so it records the same events; and every
call in Running mode with a host, the link up and a session writes one sample to the
serial port and publishes it on the sensors topic, takes 500 ms, and leaves the device
connected, so that the next call does the same, whatever the read interval. -/
theorem C25_cadence_ignores_interval (hw : Hw) (w : World) (v : Int) :
    maintainMQTT hw (withReadInterval v w) = withReadInterval v (maintainMQTT hw w) ∧
    (maintainMQTT hw (withReadInterval v w)).out = (maintainMQTT hw w).out ∧
    (w.state.mode = SystemMode.MODE_RUNNING → w.state.mqttHost.length ≠ 0 →
      w.state.wifiConnected = true → w.mqttSession = true →
      (∃ doc,
        ofKind Kind.serialJson (maintainMQTT hw w).out =
          ofKind Kind.serialJson w.out ++ [Event.serialJson "JSON_STATUS:" doc] ∧
        ofKind Kind.mqttPublish (maintainMQTT hw w).out =
          ofKind Kind.mqttPublish w.out ++
            [Event.mqttPublish ("iot_esp_101/devices/" ++ w.state.deviceId ++ "/sensors") doc
              false]) ∧
      (maintainMQTT hw w).clock = w.clock + 500 ∧
      (maintainMQTT hw w).state.mode = SystemMode.MODE_RUNNING ∧
      (maintainMQTT hw w).state.mqttHost = w.state.mqttHost ∧
      (maintainMQTT hw w).state.wifiConnected = true ∧
      (maintainMQTT hw w).mqttSession = true) := by
  refine ⟨maintainMQTT_readInterval hw v w, ?_, ?_⟩
  · rw [maintainMQTT_readInterval]; rfl
  · intro hmode hhost hlink hs
    have hgate : ¬ (w.state.mode ≠ SystemMode.MODE_RUNNING ∨ w.state.mqttHost.length = 0 ∨
        ¬ w.state.wifiConnected = true) := by
      simp [hmode, hhost, hlink]
    have hm : maintainMQTT hw w = delay 500 (publishSensors hw
        (setMqttConnected true (emit Event.mqttLoop w))) := by
      unfold maintainMQTT
      simp only [hgate, if_false, hs, not_true_eq_false]
    rw [hm]
    refine ⟨⟨sensorsDoc hw (setMqttConnected true (emit Event.mqttLoop w)), ?_, ?_⟩, ?_, ?_, ?_,
      ?_, ?_⟩
    · simp [publishSensors, println_eq, setMqttConnected_eq, hs, out_emit, ofKind_append,
        ofKind, Event.kind]
    · simp [publishSensors, println_eq, setMqttConnected_eq, hs, out_emit, ofKind_append,
        ofKind, Event.kind, sensorsTopic]
    · simp [publishSensors, println_eq, setMqttConnected_eq, hs]
    · simp [publishSensors, println_eq, setMqttConnected_eq, hs, hmode]
    · simp [publishSensors, println_eq, setMqttConnected_eq, hs]
    · simp [publishSensors, println_eq, setMqttConnected_eq, hs, hlink]
    · simp [publishSensors, println_eq, setMqttConnected_eq, hs]

/-- Witness of C25: a connected call takes 500 ms, and two calls in a row at a read
interval of 60 s publish two samples. -/
theorem C25_cadence_ignores_interval_witness :
    (maintainMQTT Hw.online connectedWorld).clock = connectedWorld.clock + 500 ∧
    (ofKind Kind.mqttPublish
      (maintainMQTT Hw.online (maintainMQTT Hw.online tunedWorld)).out).length = 2 :=
  ⟨((C25_cadence_ignores_interval Hw.online connectedWorld 0).2.2 (by decide) (by decide)
    (by decide) (by decide)).2.1, by decide⟩

/-! ## The timeout of the link -/

/-- The reading of `millis()` a number of polls after the start of the
polling loop, against the reading at its start. -/
theorem polled_elapsed (w : World) (c0 j : Nat) (hb : w.bootedAt ≤ c0)
    (hc : w.clock = c0 + 500 * j) (hj : j ≤ 30) :
    subU32 (millis w) ((c0 - w.bootedAt) % 2 ^ 32) = 500 * j := by
  have hm : millis w = ((c0 - w.bootedAt) % 2 ^ 32 + 500 * j) % 2 ^ 32 := by
    unfold millis
    rw [hc, Nat.mod_add_mod]
    congr 1
    omega
  rw [hm]
  exact subU32_elapsed _ _ (Nat.mod_lt _ (by decide)) (by omega)

/-- The polling loop from its `j`-th poll on, with the rounds that remain of
the 30: it stops within them, with the link up or at the timeout, and more
rounds change nothing. -/
theorem waitForLink_spec (hw : Hw) (le : Nat) (n : Nat) :
    ∀ (j dots c0 : Nat) (w : World), w.bootedAt ≤ c0 → w.clock = c0 + 500 * j → j + n = 30 →
      (∃ k, j ≤ k ∧ k ≤ 30 ∧
        (waitForLink hw ((c0 - w.bootedAt) % 2 ^ 32) le n dots w).clock = c0 + 500 * k ∧
        (hw.linkUp (c0 + 500 * k) = true ∨ k = 30)) ∧
      (waitForLink hw ((c0 - w.bootedAt) % 2 ^ 32) le n dots w).bootedAt = w.bootedAt ∧
      ∀ m, waitForLink hw ((c0 - w.bootedAt) % 2 ^ 32) le (n + m) dots w =
        waitForLink hw ((c0 - w.bootedAt) % 2 ^ 32) le n dots w := by
  induction n with
  | zero =>
    intro j dots c0 w hb hc hj
    have hj30 : j = 30 := by omega
    have hel := polled_elapsed w c0 j hb hc (by omega)
    refine ⟨⟨30, by omega, le_refl _, by rw [← hj30]; exact hc, Or.inr rfl⟩, rfl, ?_⟩
    intro m
    cases m with
    | zero => rfl
    | succ m =>
      simp only [Nat.zero_add]
      unfold waitForLink
      have hno : ¬ (¬ hw.linkUp w.clock = true ∧
          subU32 (millis w) ((c0 - w.bootedAt) % 2 ^ 32) < WIFI_CONNECT_TIMEOUT_MS) := by
        rw [hel, hj30]
        intro h
        exact absurd h.2 (by decide)
      simp only [hno, if_false]
  | succ n ih =>
    intro j dots c0 w hb hc hj
    by_cases hcond : ¬ hw.linkUp w.clock = true ∧
        subU32 (millis w) ((c0 - w.bootedAt) % 2 ^ 32) < WIFI_CONNECT_TIMEOUT_MS
    · obtain ⟨w1, hw1⟩ : ∃ w1, w1 = (if le ≠ 0 ∧ (dots + 1) % le = 0
          then println [] (println "." (delay 500 w)) else println "." (delay 500 w)) := ⟨_, rfl⟩
      have hb1 : w1.bootedAt = w.bootedAt := by rw [hw1]; split <;> rfl
      have hc1 : w1.clock = c0 + 500 * (j + 1) := by
        have : w1.clock = w.clock + 500 := by rw [hw1]; split <;> rfl
        rw [this, hc]; ring
      have hstep : ∀ r, waitForLink hw ((c0 - w.bootedAt) % 2 ^ 32) le (r + 1) dots w =
          waitForLink hw ((c0 - w.bootedAt) % 2 ^ 32) le r (dots + 1) w1 := by
        intro r
        rw [waitForLink, if_pos hcond, hw1]
      have hi := ih (j + 1) (dots + 1) c0 w1 (by rw [hb1]; exact hb) hc1 (by omega)
      rw [hb1] at hi
      obtain ⟨⟨k, hk1, hk2, hk3, hk4⟩, hbo, hfu⟩ := hi
      rw [hstep n]
      refine ⟨⟨k, by omega, hk2, hk3, hk4⟩, hbo, ?_⟩
      intro m
      have : n + 1 + m = (n + m) + 1 := by omega
      rw [this, hstep (n + m)]
      exact hfu m
    · have hstop : ∀ r, waitForLink hw ((c0 - w.bootedAt) % 2 ^ 32) le (r + 1) dots w = w := by
        intro r
        rw [waitForLink, if_neg hcond]
      rw [hstop n]
      refine ⟨⟨j, le_refl _, by omega, hc, ?_⟩, rfl, ?_⟩
      · by_cases hl : hw.linkUp w.clock = true
        · left; rw [← hc]; exact hl
        · right
          have hel := polled_elapsed w c0 j hb hc (by omega)
          rw [hel] at hcond
          have : ¬ (500 * j < WIFI_CONNECT_TIMEOUT_MS) := fun h => hcond ⟨hl, h⟩
          unfold WIFI_CONNECT_TIMEOUT_MS at this
          omega
      · intro m
        have : n + 1 + m = (n + m) + 1 := by omega
        rw [this, hstop (n + m)]

/-- The polling loop from its start: at most 30 polls of 500 ms, it stops with
the link up or at the timeout, and more than 30 rounds change nothing. -/
theorem waitForLink_start (hw : Hw) (le : Nat) (x : World) (hb : x.bootedAt ≤ x.clock) :
    (∃ k, k ≤ 30 ∧
      (waitForLink hw (millis x) le CONNECT_ROUNDS 0 x).clock = x.clock + 500 * k ∧
      (hw.linkUp (x.clock + 500 * k) = true ∨ k = 30)) ∧
    ∀ m, waitForLink hw (millis x) le (CONNECT_ROUNDS + m) 0 x =
      waitForLink hw (millis x) le CONNECT_ROUNDS 0 x := by
  have h := waitForLink_spec hw le 30 0 0 x.clock x hb (by omega) (by omega)
  obtain ⟨⟨k, _, hk2, hk3, hk4⟩, _, hfu⟩ := h
  exact ⟨⟨k, hk2, hk3, hk4⟩, hfu⟩

/-- C22. Connect timeout: on a device whose clock is not behind its last restart,
`connectToWiFi()` polls at most 30 times, 500 ms each, and stops with the link up or
after 15 000 ms; the polling loop started at any such world gives the same result with
any number of rounds from 30 on, so the 30 rounds of the model let it run to its end. It
returns true exactly when the link is up where the polling stops, and then sets
`wifiConnected` and `rssi` and keeps the configuration; it returns false only at the
timeout, and then leaves the whole state as it was. -/
theorem C22_connect_timeout (hw : Hw) (w x : World) (le : Nat) (hb : w.bootedAt ≤ w.clock)
    (hx : x.bootedAt ≤ x.clock) :
    (∃ k, k ≤ 30 ∧ (connectToWiFi hw w).2.clock = w.clock + 500 * k ∧
      (hw.linkUp (w.clock + 500 * k) = true ∨ k = 30)) ∧
    (∀ m, waitForLink hw (millis x) le (CONNECT_ROUNDS + m) 0 x =
      waitForLink hw (millis x) le CONNECT_ROUNDS 0 x) ∧
    ((connectToWiFi hw w).1 = true ↔ hw.linkUp (connectToWiFi hw w).2.clock = true) ∧
    ((connectToWiFi hw w).1 = true →
      (connectToWiFi hw w).2.state.wifiConnected = true ∧
      (connectToWiFi hw w).2.state.rssi = hw.wifiRSSI (connectToWiFi hw w).2.clock ∧
      (connectToWiFi hw w).2.state.config = w.state.config) ∧
    ((connectToWiFi hw w).1 = false →
      (connectToWiFi hw w).2.state = w.state ∧
      (connectToWiFi hw w).2.clock = w.clock + 15000) := by
  obtain ⟨e, he⟩ : ∃ e, e = emit (Event.wifiBegin w.state.savedSSID w.state.savedPassword)
      (emit (Event.wifiSetHostname DEVICE_ID) (emit (Event.wifiMode WiFiMode.WIFI_STA)
        (println ("[WiFi] Bağlanılıyor: " ++ w.state.savedSSID) w))) := ⟨_, rfl⟩
  have hec : e.clock = w.clock := by rw [he]; rfl
  have heb : e.bootedAt = w.bootedAt := by rw [he]; rfl
  have hes : e.state = w.state := by rw [he]; rfl
  have hem : millis e = millis w := by unfold millis; rw [hec, heb]
  obtain ⟨r, hr⟩ : ∃ r, r = waitForLink hw (millis e) 40 CONNECT_ROUNDS 0 e := ⟨_, rfl⟩
  have hrs : r.state = w.state := by rw [hr, state_waitForLink, hes]
  obtain ⟨⟨k, hk1, hk2, hk3⟩, _⟩ := waitForLink_start hw 40 e (by rw [heb, hec]; exact hb)
  rw [← hr, hec] at hk2
  rw [hec] at hk3
  have hcon : connectToWiFi hw w =
      if hw.linkUp r.clock = true then
        (true, println ("[WiFi] IP: " ++ hw.localIP r.clock)
          (println "[WiFi] Bağlantı başarılı!"
            (modState (fun s => { s with wifiConnected := true, rssi := hw.wifiRSSI r.clock })
              (println [] r))))
      else (false, println "[WiFi] Bağlantı başarısız!" (println [] r)) := by
    unfold connectToWiFi
    simp only [println_eq, state_emit, clock_emit, clock_modState]
    rw [hr, he]
    simp only [println_eq]
  refine ⟨?_, (waitForLink_start hw le x hx).2, ?_, ?_, ?_⟩
  · refine ⟨k, hk1, ?_, hk3⟩
    rw [hcon]
    split <;> exact hk2
  · rw [hcon]
    split <;> rename_i hl
    · simp only [println_eq, clock_emit, clock_modState, hl]
    · simp only [println_eq, clock_emit, hl, Bool.false_eq_true]
  · rw [hcon]
    split <;> rename_i hl
    · intro _
      simp only [println_eq, state_emit, state_modState, clock_emit, clock_modState, true_and]
      rw [← hrs]
      rfl
    · intro h; exact absurd h (by simp)
  · rw [hcon]
    split <;> rename_i hl
    · intro h; exact absurd h (by simp)
    · intro _
      simp only [println_eq, state_emit, clock_emit]
      refine ⟨hrs, ?_⟩
      rcases hk3 with h | h
      · rw [← hk2] at h; exact absurd h hl
      · rw [hk2, h]

/-- Witness of C22: with no link in reach the call returns false after 15 000 ms. -/
theorem C22_connect_timeout_witness :
    (connectToWiFi Hw.quiet factoryWorld).1 = false ∧
    (connectToWiFi Hw.quiet factoryWorld).2.clock = factoryWorld.clock + 15000 :=
  ⟨by decide,
    ((C22_connect_timeout Hw.quiet factoryWorld factoryWorld 40 (by decide)
      (by decide)).2.2.2.2 (by decide)).2⟩

/-! ## The answer to POST /connect -/

/-- C23. POST /connect result: without a body `handleConnect()` answers 400 with success
false, a message and no ip, and keeps the state. With a body it polls for at most
15 000 ms; when the link is up where the polling stops it answers with success true and
the ip, and sets `savedSSID` and `savedPassword` to what `as<String>()` reads from the
members ssid and password, the submitted texts when they are strings; when the link is
not up it answers with success false, a message and no ip, at the timeout, and leaves the
whole state as it was. -/
theorem C23_connect_result (hw : Hw) (w : World) (doc : JsonObj) (s p : Str)
    (hb : w.bootedAt ≤ w.clock) :
    (answerOf w (handleConnect hw none w) 400 (resultDoc false "No data" none) ∧
      (handleConnect hw none w).state = w.state) ∧
    (∃ k, k ≤ 30 ∧ (handleConnect hw (some doc) w).clock = w.clock + 500 * k ∧
      (hw.linkUp (w.clock + 500 * k) = true ∨ k = 30)) ∧
    (hw.linkUp (handleConnect hw (some doc) w).clock = true →
      answerOf w (handleConnect hw (some doc) w) 200
        (resultDoc true "Bağlantı başarılı!"
          (some (hw.localIP (handleConnect hw (some doc) w).clock))) ∧
      (handleConnect hw (some doc) w).state.savedSSID = (jsonGet doc "ssid").asString ∧
      (handleConnect hw (some doc) w).state.savedPassword =
        (jsonGet doc "password").asString ∧
      (jsonGet doc "ssid" = JsonVal.str s → jsonGet doc "password" = JsonVal.str p →
        (handleConnect hw (some doc) w).state.savedSSID = s ∧
        (handleConnect hw (some doc) w).state.savedPassword = p)) ∧
    (hw.linkUp (handleConnect hw (some doc) w).clock = false →
      answerOf w (handleConnect hw (some doc) w) 200
        (resultDoc false "Bağlantı başarısız! Şifreyi kontrol edin." none) ∧
      (handleConnect hw (some doc) w).state = w.state ∧
      (handleConnect hw (some doc) w).clock = w.clock + 15000) ∧
    (∀ (m ip : Str), (resultDoc false m none).lookup "ip" = none ∧
      (resultDoc false m none).lookup "success" = some (JsonNode.val (JsonVal.bool false)) ∧
      (resultDoc false m none).lookup "message" = some (JsonNode.val (JsonVal.str m)) ∧
      (resultDoc true m (some ip)).lookup "ip" = some (JsonNode.val (JsonVal.str ip)) ∧
      (resultDoc true m (some ip)).lookup "success" =
        some (JsonNode.val (JsonVal.bool true))) := by
  obtain ⟨a, ha⟩ : ∃ a, a = (jsonGet doc "ssid").asString := ⟨_, rfl⟩
  obtain ⟨b, hb2⟩ : ∃ b, b = (jsonGet doc "password").asString := ⟨_, rfl⟩
  rw [← ha, ← hb2]
  obtain ⟨e, he⟩ : ∃ e, e = emit (Event.wifiBegin a b)
      (emit (Event.wifiMode WiFiMode.WIFI_AP_STA)
        (println ("[WiFi] Bağlanılıyor: " ++ a) w)) := ⟨_, rfl⟩
  have hec : e.clock = w.clock := by rw [he]; rfl
  have heb : e.bootedAt = w.bootedAt := by rw [he]; rfl
  have hes : e.state = w.state := by rw [he]; rfl
  have heo : ofKind Kind.httpSend e.out = ofKind Kind.httpSend w.out := by
    rw [he]
    simp [println_eq, out_emit, ofKind_append, ofKind, Event.kind]
  obtain ⟨r, hr⟩ : ∃ r, r = waitForLink hw (millis e) 0 CONNECT_ROUNDS 0 e := ⟨_, rfl⟩
  have hrs : r.state = w.state := by rw [hr, state_waitForLink, hes]
  have hro : ofKind Kind.httpSend r.out = ofKind Kind.httpSend w.out := by
    have hW : Within (allBut [Part.ev Kind.httpSend]) e r := by
      rw [hr]
      exact within_of_rule (within_waitForLink _ hw _ _ _ _ e e (by decide))
    exact (same_of_within hW (Part.ev Kind.httpSend) (by decide)).trans heo
  obtain ⟨⟨k, hk1, hk2, hk3⟩, _⟩ := waitForLink_start hw 0 e (by rw [heb, hec]; exact hb)
  rw [← hr, hec] at hk2
  rw [hec] at hk3
  have hcon : handleConnect hw (some doc) w =
      if hw.linkUp r.clock = true then
        sendJson 200 (resultDoc true "Bağlantı başarılı!" (some (hw.localIP r.clock)))
          (println ("[WiFi] Bağlandı! IP: " ++ hw.localIP r.clock)
            (modState (fun st => { st with savedSSID := a, savedPassword := b, wifiConnected := true })
              (println [] r)))
      else
        sendJson 200 (resultDoc false "Bağlantı başarısız! Şifreyi kontrol edin." none)
          (println "[WiFi] Bağlantı başarısız!" (emit (Event.wifiMode WiFiMode.WIFI_AP)
            (println [] r))) := by
    simp only [handleConnect, println_eq, state_emit, clock_emit, clock_modState]
    rw [hr, he, ha, hb2]
    simp only [println_eq]
  have hclock : (handleConnect hw (some doc) w).clock = r.clock := by
    rw [hcon]; split <;> rfl
  refine ⟨⟨?_, rfl⟩, ⟨k, hk1, by rw [hclock]; exact hk2, hk3⟩, ?_, ?_, ?_⟩
  · simp [answerOf, handleConnect, sendJson_eq, out_emit, ofKind_append, ofKind, Event.kind]
  · rw [hclock]
    intro hl
    rw [hcon, if_pos hl]
    refine ⟨?_, rfl, rfl, fun h1 h2 => ?_⟩
    · unfold answerOf
      simp only [sendJson_eq, println_eq, out_emit, out_modState, ofKind_append, hro]
      simp [ofKind, Event.kind]
    · simp only [sendJson_eq, println_eq, state_emit, state_modState, ha, hb2, h1, h2,
        JsonVal.asString, and_self]
  · rw [hclock]
    intro hl
    have hl' : ¬ hw.linkUp r.clock = true := by simp [hl]
    rw [hcon, if_neg hl']
    refine ⟨?_, hrs, ?_⟩
    · unfold answerOf
      simp only [sendJson_eq, println_eq, out_emit, ofKind_append, hro]
      simp [ofKind, Event.kind]
    · show r.clock = w.clock + 15000
      rcases hk3 with h | h
      · rw [← hk2] at h; exact absurd h hl'
      · rw [hk2, h]
  · intro m ip
    simp [resultDoc, List.lookup]

/-- Witness of C23: with TestNet in reach the credentials are taken into the state;
without it the state stays as it was. -/
theorem C23_connect_result_witness :
    (handleConnect Hw.online (some testNetBody) factoryWorld).state.savedSSID = "TestNet" ∧
    (handleConnect Hw.online (some testNetBody) factoryWorld).state.savedPassword =
      "password123" ∧
    (handleConnect Hw.quiet (some testNetBody) factoryWorld).state = factoryWorld.state :=
  ⟨(((C23_connect_result Hw.online factoryWorld testNetBody "TestNet" "password123"
      (by decide)).2.2.1 (by decide)).2.2.2 (by decide) (by decide)).1,
    (((C23_connect_result Hw.online factoryWorld testNetBody "TestNet" "password123"
      (by decide)).2.2.1 (by decide)).2.2.2 (by decide) (by decide)).2,
    ((C23_connect_result Hw.quiet factoryWorld testNetBody [] []
      (by decide)).2.2.2.1 (by decide)).2.1⟩

/-! ## The clock never goes back -/

/-- A step that stays clear of the clock leaves it as it is. -/
theorem clock_of_within {w w' : World} (h : Within (allBut [Part.clock]) w w') :
    w'.clock = w.clock :=
  same_of_within h Part.clock (by decide)

theorem clock_le_waitForLink (hw : Hw) (st le n dots : Nat) (x : World) :
    x.clock ≤ (waitForLink hw st le n dots x).clock := by
  induction n generalizing dots x with
  | zero => exact le_refl _
  | succ n ih =>
    unfold waitForLink
    simp only [println_eq]
    split
    · split
      · exact le_trans (by simp only [clock_emit, clock_delay]; omega) (ih _ _)
      · exact le_trans (by simp only [clock_emit, clock_delay]; omega) (ih _ _)
    · exact le_refl _

theorem clock_le_connectToWiFi (hw : Hw) (x : World) :
    x.clock ≤ (connectToWiFi hw x).2.clock := by
  unfold connectToWiFi
  simp only [println_eq, apply_ite Prod.snd, apply_ite World.clock, clock_emit, clock_modState,
    ite_self]
  refine le_trans ?_ (clock_le_waitForLink hw _ _ _ _ _)
  exact le_refl _

theorem clock_le_ntpWait (hw : Hw) (n r : Nat) (x : World) :
    x.clock ≤ (ntpWait hw n r x).2.clock := by
  induction n generalizing r x with
  | zero => exact le_refl _
  | succ n ih =>
    unfold ntpWait
    split
    · exact le_trans (by simp only [println_eq, clock_emit, clock_delay]; omega) (ih _ _)
    · exact le_refl _

theorem clock_le_setupNTP (hw : Hw) (x : World) : x.clock ≤ (setupNTP hw x).clock := by
  unfold setupNTP
  simp only [println_eq, apply_ite World.clock, clock_emit, clock_modState, ite_self]
  refine le_trans ?_ (clock_le_ntpWait hw _ _ _)
  exact le_refl _

theorem clock_le_setupLink (hw : Hw) (x : World) : x.clock ≤ (setupLink hw x).clock := by
  unfold setupLink
  split
  · simp only []
    split
    · unfold startStationMode
      refine le_trans ?_ (clock_le_setupNTP hw _)
      simp only [println_eq, clock_emit, clock_modState]
      refine le_trans ?_ (clock_le_connectToWiFi hw _)
      exact le_refl _
    · rw [clock_of_within (within_of_rule (within_startAPMode _ hw _ _ (by decide)))]
      simp only [println_eq, clock_emit]
      refine le_trans ?_ (clock_le_connectToWiFi hw _)
      exact le_refl _
  · rw [clock_of_within (within_of_rule (within_startAPMode _ hw _ _ (by decide)))]
    exact le_refl _

theorem clock_le_setup (hw : Hw) (x : World) : x.clock ≤ (setup hw x).clock := by
  unfold setup
  simp only [println_eq, clock_emit]
  rw [clock_of_within (within_of_rule (within_setupMQTT _ _ _ (by decide))),
    clock_of_within (within_of_rule (within_setupWebServer _ _ _ (by decide)))]
  refine le_trans ?_ (clock_le_setupLink hw _)
  unfold setupBegin
  rw [clock_of_within (within_of_rule (within_loadConfiguration _ _ _ (by decide)))]
  simp only [println_eq, clock_emit, clock_delay]
  omega

theorem clock_le_boot (hw : Hw) (x : World) : x.clock ≤ (boot hw x).clock := by
  unfold boot
  exact clock_le_setup hw { World.powerOn x.prefs x.clock with out := x.out }

theorem clock_le_handleConnect (hw : Hw) (body : Option JsonObj) (x : World) :
    x.clock ≤ (handleConnect hw body x).clock := by
  cases body with
  | none => exact le_refl _
  | some doc =>
    simp only [handleConnect, println_eq, sendJson_eq, apply_ite World.clock, clock_emit,
      clock_modState, ite_self]
    refine le_trans ?_ (clock_le_waitForLink hw _ _ _ _ _)
    exact le_refl _

theorem clock_le_handleSaveConfig (body : Option JsonObj) (x : World) :
    x.clock ≤ (handleSaveConfig body x).clock := by
  cases body with
  | none => exact le_refl _
  | some doc =>
    simp only [handleSaveConfig, espRestart_eq, sendJson_eq, clock_setRestarted, clock_emit,
      clock_delay]
    rw [clock_of_within (within_of_rule (within_setupMQTT _ _ _ (by decide))),
      clock_of_within (within_of_rule (within_saveConfiguration _ _ _ (by decide)))]
    split <;> split <;> (try simp only [clock_modState]) <;> omega

theorem clock_le_runHandler (hw : Hw) (h : Handler) (body : Option JsonObj) (x : World) :
    x.clock ≤ (runHandler hw h body x).clock := by
  cases h with
  | handleRoot =>
    exact le_of_eq (clock_of_within (within_of_rule (within_handleRoot _ x x (by decide)))).symm
  | handleScan =>
    exact le_of_eq (clock_of_within (within_of_rule (within_handleScan _ hw x x
      (by decide)))).symm
  | handleConnect => exact clock_le_handleConnect hw body x
  | handleStatus =>
    exact le_of_eq (clock_of_within (within_of_rule (within_handleStatus _ hw x x
      (by decide)))).symm
  | handleSaveConfig => exact clock_le_handleSaveConfig body x
  | handleReset =>
    show x.clock ≤ (handleReset x).clock
    simp only [handleReset, espRestart_eq, sendJson_eq, prefsClear_eq, println_eq,
      clock_setRestarted, clock_emit, clock_delay, clock_setPrefs]
    omega
  | handleDashboard =>
    exact le_of_eq (clock_of_within (within_of_rule (within_handleDashboard _ x x
      (by decide)))).symm
  | handleSystemInfo =>
    exact le_of_eq (clock_of_within (within_of_rule (within_handleSystemInfo _ hw x x
      (by decide)))).symm

theorem clock_le_handleClient (hw : Hw) (req : Option HttpRequest) (x : World) :
    x.clock ≤ (handleClient hw req x).clock := by
  unfold handleClient
  cases req with
  | none => exact le_refl _
  | some q =>
    cases hf : findRoute x.routes q with
    | none =>
      simp only [hf]
      exact le_of_eq (clock_of_within (within_of_rule (within_handleNotFound _ hw x x
        (by decide)))).symm
    | some hd =>
      simp only [hf]
      exact clock_le_runHandler hw hd q.body x

theorem clock_le_command (hw : Hw) (cmd : Str) (x : World) :
    x.clock ≤ (handleSerialCommand hw cmd x).clock := by
  unfold handleSerialCommand
  by_cases hin : trim cmd ∈ restartWords
  · have hcases : (trim cmd = "RESTART" ∨ trim cmd = "restart" ∨ trim cmd = "REBOOT" ∨
        trim cmd = "reboot") ∨
        (trim cmd = "RESET" ∨ trim cmd = "reset" ∨ trim cmd = "FACTORY_RESET") := by
      simp only [restartWords, List.mem_cons, List.mem_singleton, List.not_mem_nil,
        or_false] at hin
      tauto
    rcases hcases with hc | hc
    · simp only [dispatch_restart hw _ _ hc, cmdRestart, espRestart_eq, println_eq,
        clock_setRestarted, clock_emit, clock_delay]
      omega
    · simp only [dispatch_reset hw _ _ hc, cmdReset, espRestart_eq, prefsClear_eq, println_eq,
        clock_setRestarted, clock_emit, clock_delay, clock_setPrefs]
      omega
  · have hW : Within (allBut [Part.clock]) x
        (dispatchCommand hw (trim cmd) (println ("[CMD] Alındı: " ++ trim cmd) x)) := by
      rw [within_dispatch_other _ hw _ _ _ (by decide) hin, println_eq,
        within_emit _ _ _ _ (show allBut [Part.clock] (Part.ev Kind.serial) = true by decide)]
      exact (within_self _ _).2 trivial
    exact le_of_eq (clock_of_within hW).symm

theorem clock_le_serialChar (hw : Hw) (c : Char) (x : World) :
    x.clock ≤ (serialChar hw c x).clock := by
  unfold serialChar
  split
  · split
    · simp only []
      split
      · exact clock_le_command hw _ x
      · exact clock_le_command hw _ x
    · exact le_refl _
  · simp only []
    split <;> exact le_refl _

theorem clock_le_serial (hw : Hw) (cs : List Char) (x : World) :
    x.clock ≤ (processSerialCommands hw cs x).clock := by
  induction cs generalizing x with
  | nil => exact le_refl _
  | cons c cs ih =>
    unfold processSerialCommands
    simp only []
    split
    · exact clock_le_serialChar hw c x
    · exact le_trans (clock_le_serialChar hw c x) (ih _)

theorem clock_le_maintainMQTT (hw : Hw) (x : World) : x.clock ≤ (maintainMQTT hw x).clock := by
  unfold maintainMQTT
  split
  · exact le_refl _
  · split
    · split
      · exact le_of_eq (clock_of_within (within_of_rule (within_mqttAttempt _ hw x x
          (by decide)))).symm
      · exact le_refl _
    · simp only [clock_delay]
      rw [clock_of_within (within_of_rule (within_publishSensors _ hw _ _ (by decide)))]
      simp only [setMqttConnected_eq, clock_modState, clock_emit]
      omega

/-! ## The cooldown of the reconnection -/

/-- What a step kept that stayed clear of the reconnection. -/
theorem kept_reconnect {w y : World} (h : Within keepsReconnect w y) :
    y.bootedAt = w.bootedAt ∧ y.lastReconnect = w.lastReconnect ∧ requests y = requests w ∧
    y.state.mode = w.state.mode := by
  refine ⟨h.1, same_of_within h Part.lastReconnect (by decide), ?_,
    same_of_within h Part.mode (by decide)⟩
  have := same_of_within h (Part.ev Kind.wifiReconnect) (by decide)
  simp only [Same] at this
  unfold requests
  rw [this]

/-- The part of a pass before `loopTail`: it stays clear of the reconnection,
and either the pass ends there with a restart or `loopTail` follows. -/
theorem loop_front (hw : Hw) (inp : LoopInput) (w : World) :
    ∃ y, Within keepsReconnect w y ∧ w.clock ≤ y.clock ∧
      ((loop hw inp w = y ∧ y.restarted = true) ∨
        (loop hw inp w = loopTail hw y ∧ y.restarted = false)) := by
  obtain ⟨w0, hw0⟩ : ∃ w0, w0 = (if w.state.mode = SystemMode.MODE_SETUP then
      dnsProcessNextRequest inp.dnsQuery w else w) := ⟨_, rfl⟩
  have h0 : Within keepsReconnect w w0 := by
    rw [hw0, within_ite]
    split
    · exact within_of_rule (within_dnsProcessNextRequest _ _ w w (by decide))
    · exact (within_self _ _).2 trivial
  have hc0 : w0.clock = w.clock := by
    rw [hw0]; split
    · exact clock_of_within (within_of_rule (within_dnsProcessNextRequest _ _ w w (by decide)))
    · rfl
  have h1 : Within keepsReconnect w (handleClient hw inp.request w0) := by
    rw [within_handleClient _ hw _ _ _ (by decide)]; exact h0
  have hc1 : w.clock ≤ (handleClient hw inp.request w0).clock := by
    rw [← hc0]; exact clock_le_handleClient hw _ _
  have h2 : Within keepsReconnect w
      (processSerialCommands hw inp.serialIn (handleClient hw inp.request w0)) := by
    rw [within_processSerialCommands _ hw _ _ _ (by decide)]; exact h1
  have hc2 : w.clock ≤
      (processSerialCommands hw inp.serialIn (handleClient hw inp.request w0)).clock :=
    le_trans hc1 (clock_le_serial hw _ _)
  have hl : loop hw inp w = loopRest hw inp w0 := by rw [hw0]; rfl
  cases hr1 : (handleClient hw inp.request w0).restarted with
  | true =>
    refine ⟨_, h1, hc1, Or.inl ⟨?_, hr1⟩⟩
    rw [hl]; unfold loopRest; simp only [hr1, if_true]
  | false =>
    cases hr2 : (processSerialCommands hw inp.serialIn
        (handleClient hw inp.request w0)).restarted with
    | true =>
      refine ⟨_, h2, hc2, Or.inl ⟨?_, hr2⟩⟩
      rw [hl]; unfold loopRest; simp only [hr1, hr2, Bool.false_eq_true, if_false, if_true]
    | false =>
      refine ⟨_, h2, hc2, Or.inr ⟨?_, hr2⟩⟩
      rw [hl]; unfold loopRest; simp only [hr1, hr2, Bool.false_eq_true, if_false]

/-- The reconnection step, as a case distinction. -/
theorem reconnectStep_cases (z : World) :
    (reconnectStep z).bootedAt = z.bootedAt ∧ (reconnectStep z).clock = z.clock ∧
    (reconnectStep z).restarted = z.restarted ∧ (reconnectStep z).state = z.state ∧
    ((requests (reconnectStep z) = requests z ∧
        (reconnectStep z).lastReconnect = z.lastReconnect) ∨
      (requests (reconnectStep z) = requests z + 1 ∧
        (reconnectStep z).lastReconnect = millis z ∧
        subU32 (millis z) z.lastReconnect > 10000 ∧ z.state.wifiConnected = false)) := by
  by_cases hc : ¬ z.state.wifiConnected = true ∧ subU32 (millis z) z.lastReconnect > 10000
  · have he : reconnectStep z = emit Event.wifiReconnect
        (println "[WiFi] Bağlantı koptu, yeniden bağlanılıyor..."
          (setLastReconnect (millis z) z)) := by
      unfold reconnectStep; rw [if_pos hc]
    refine ⟨by rw [he]; rfl, by rw [he]; rfl, by rw [he]; rfl, by rw [he]; rfl, Or.inr ⟨?_, ?_,
      hc.2, by simpa using hc.1⟩⟩
    · rw [requests_reconnectStep, if_pos hc]
    · rw [he]; rfl
  · have he : reconnectStep z = z := by unfold reconnectStep; rw [if_neg hc]
    rw [he]
    exact ⟨rfl, rfl, rfl, rfl, Or.inl ⟨rfl, rfl⟩⟩

/-- The rest of a pass: at most one request, made in Running mode with the
link down where the pass read it, when the test of the cooldown passes. -/
theorem loopTail_outcome (hw : Hw) (y : World) :
    (loopTail hw y).bootedAt = y.bootedAt ∧ (loopTail hw y).restarted = y.restarted ∧
    (loopTail hw y).state.mode = y.state.mode ∧
    ∃ z, y.clock ≤ z.clock ∧ (loopTail hw y).clock = z.clock + 10 ∧ z.bootedAt = y.bootedAt ∧
      ((requests (loopTail hw y) = requests y ∧
          (loopTail hw y).lastReconnect = y.lastReconnect) ∨
        (requests (loopTail hw y) = requests y + 1 ∧
          (loopTail hw y).lastReconnect = millis z ∧
          subU32 (millis z) y.lastReconnect > 10000 ∧
          y.state.mode = SystemMode.MODE_RUNNING ∧
          (loopTail hw y).state.wifiConnected = false ∧ hw.linkUp y.clock = false)) := by
  have hW : Within (allBut [Part.restarted, Part.mode])
      y (loopTail hw y) := within_of_rule (within_loopTail _ hw y y (by decide))
  have hkeep : (loopTail hw y).bootedAt = y.bootedAt ∧ (loopTail hw y).restarted = y.restarted ∧
      (loopTail hw y).state.mode = y.state.mode :=
    ⟨hW.1, same_of_within hW Part.restarted (by decide), same_of_within hW Part.mode (by decide)⟩
  refine ⟨hkeep.1, hkeep.2.1, hkeep.2.2, ?_⟩
  obtain ⟨u, hu⟩ : ∃ u, u = millis y := ⟨_, rfl⟩
  obtain ⟨g, hg⟩ : ∃ g, g = hw.freeHeap y.clock := ⟨_, rfl⟩
  obtain ⟨y3, hy3⟩ : ∃ y3, y3 = modState (fun s => { s with uptime := u, freeHeap := g }) y :=
    ⟨_, rfl⟩
  by_cases hm : y.state.mode = SystemMode.MODE_RUNNING
  · obtain ⟨a, ha⟩ : ∃ a, a = hw.wifiRSSI y3.clock := ⟨_, rfl⟩
    obtain ⟨b, hb⟩ : ∃ b, b = hw.linkUp y3.clock := ⟨_, rfl⟩
    obtain ⟨y5, hy5⟩ : ∃ y5, y5 = modState (fun s => { s with rssi := a, wifiConnected := b }) y3 :=
      ⟨_, rfl⟩
    have hlt : loopTail hw y = delay 10 (reconnectStep (maintainMQTT hw y5)) := by
      unfold loopTail
      simp only [← hu, ← hg, ← hy3]
      have : y3.state.mode = SystemMode.MODE_RUNNING := by rw [hy3]; exact hm
      rw [if_pos this]
      unfold loopRunning
      simp only [← ha, ← hb, ← hy5]
    have hWz : Within (allBut [Part.lastReconnect, Part.ev Kind.wifiReconnect, Part.link])
        y5 (maintainMQTT hw y5) :=
      within_of_rule (within_maintainMQTT _ hw y5 y5 (by decide))
    have hz1 : (maintainMQTT hw y5).lastReconnect = y.lastReconnect := by
      rw [same_of_within hWz Part.lastReconnect (by decide), hy5, hy3]; rfl
    have hz2 : requests (maintainMQTT hw y5) = requests y := by
      have := same_of_within hWz (Part.ev Kind.wifiReconnect) (by decide)
      simp only [Same] at this
      unfold requests
      rw [this, hy5, hy3]; rfl
    have hz3 : (maintainMQTT hw y5).state.wifiConnected = hw.linkUp y.clock := by
      have := (same_of_within hWz Part.link (by decide)).1
      rw [this, hy5, hb, hy3]; rfl
    have hz4 : (maintainMQTT hw y5).bootedAt = y.bootedAt := by
      rw [hWz.1, hy5, hy3]; rfl
    have hz5 : y.clock ≤ (maintainMQTT hw y5).clock := by
      refine le_trans ?_ (clock_le_maintainMQTT hw y5)
      rw [hy5, hy3]; exact le_refl _
    obtain ⟨_, hr2, _, hr4, hr5⟩ := reconnectStep_cases (maintainMQTT hw y5)
    refine ⟨maintainMQTT hw y5, hz5, by rw [hlt, clock_delay, hr2], hz4, ?_⟩
    rw [hlt]
    rcases hr5 with ⟨ha, hb⟩ | ⟨ha, hb, hc, hd⟩
    · left
      exact ⟨by unfold requests at ha hz2 ⊢; rw [out_delay, ha, hz2],
        by rw [lastReconnect_delay, hb, hz1]⟩
    · right
      refine ⟨by unfold requests at ha hz2 ⊢; rw [out_delay, ha, hz2],
        by rw [lastReconnect_delay, hb], by rw [← hz1]; exact hc, hm, ?_, ?_⟩
      · rw [state_delay, hr4]; exact hd
      · rw [← hz3]; exact hd
  · have hlt : loopTail hw y = delay 10 y3 := by
      unfold loopTail
      simp only [← hu, ← hg, ← hy3]
      have : ¬ y3.state.mode = SystemMode.MODE_RUNNING := by rw [hy3]; exact hm
      rw [if_neg this]
    refine ⟨y, le_refl _, by rw [hlt, hy3]; rfl, rfl, Or.inl ⟨by rw [hlt, hy3]; rfl, ?_⟩⟩
    rw [hlt, hy3]; rfl

/-- A pass of `loop()`: the clock does not go back, and at most one request is
made, in Running mode, with the link down where the pass read it, when the
test of the cooldown passes at the time `t`, 10 ms before the end of the pass. -/
theorem loop_outcome (hw : Hw) (inp : LoopInput) (w : World) :
    (loop hw inp w).bootedAt = w.bootedAt ∧ w.clock ≤ (loop hw inp w).clock ∧
    (loop hw inp w).state.mode = w.state.mode ∧
    ((requests (loop hw inp w) = requests w ∧
        (loop hw inp w).lastReconnect = w.lastReconnect) ∨
      (requests (loop hw inp w) = requests w + 1 ∧ (loop hw inp w).restarted = false ∧
        w.state.mode = SystemMode.MODE_RUNNING ∧
        (loop hw inp w).state.wifiConnected = false ∧
        ∃ t, w.clock ≤ t ∧ (loop hw inp w).clock = t + 10 ∧
          (loop hw inp w).lastReconnect = (t - w.bootedAt) % 2 ^ 32 ∧
          subU32 ((t - w.bootedAt) % 2 ^ 32) w.lastReconnect > 10000 ∧
          ∃ t2, w.clock ≤ t2 ∧ t2 ≤ t ∧ hw.linkUp t2 = false)) := by
  obtain ⟨y, hy, hyc, hcase⟩ := loop_front hw inp w
  obtain ⟨k1, k2, k3, k4⟩ := kept_reconnect hy
  rcases hcase with ⟨he, _⟩ | ⟨he, hr⟩
  · rw [he]
    exact ⟨k1, hyc, k4, Or.inl ⟨k3, k2⟩⟩
  · obtain ⟨t1, t2, t3, z, hz1, hz2, hz3, hz⟩ := loopTail_outcome hw y
    rw [he]
    refine ⟨t1.trans k1, by omega, t3.trans k4, ?_⟩
    rcases hz with ⟨ha, hb⟩ | ⟨ha, hb, hc, hd, hf, hg⟩
    · exact Or.inl ⟨ha.trans k3, hb.trans k2⟩
    · right
      have hmz : millis z = (z.clock - w.bootedAt) % 2 ^ 32 := by
        unfold millis; rw [hz3, k1]
      refine ⟨by rw [ha, k3], t2.trans hr, by rw [← k4]; exact hd, hf, z.clock, by omega, hz2,
        by rw [hb, hmz], by rw [← hmz, ← k2]; exact hc, y.clock, hyc, hz1, hg⟩

theorem clock_le_run (hw : Hw) (inputs : List (Gap × LoopInput)) (w : World) :
    w.clock ≤ (run hw inputs w).clock := by
  induction inputs generalizing w with
  | nil => exact le_refl _
  | cons p rest ih =>
    obtain ⟨g, inp⟩ := p
    unfold run
    simp only []
    refine le_trans ?_ (ih _)
    have h1 : w.clock ≤ (idle g w).clock := by
      simp only [idle_eq, clock_setMqttSession, clock_delay]; omega
    have h2 := (loop_outcome hw inp (idle g w)).2.1
    split
    · exact le_trans (le_trans h1 h2) (clock_le_boot hw _)
    · exact le_trans h1 h2

/-- The start of a chain can be moved back. -/
theorem chain_weaken (a b : Nat) (l : List Nat) (hab : a ≤ b)
    (h : List.Chain (fun x y => x + 10000 < y) b l) :
    List.Chain (fun x y => x + 10000 < y) a l := by
  cases h with
  | nil => exact List.Chain.nil
  | cons h1 h2 => exact List.Chain.cons (by omega) h2

theorem boot_statics (hw : Hw) (x : World) :
    (boot hw x).bootedAt = x.clock ∧ (boot hw x).lastReconnect = 0 := by
  unfold boot
  have hW : Within (allBut [Part.lastReconnect])
      { World.powerOn x.prefs x.clock with out := x.out }
      (setup hw { World.powerOn x.prefs x.clock with out := x.out }) :=
    within_of_rule (within_setup _ hw _ _ (by decide))
  exact ⟨hW.1, same_of_within hW Part.lastReconnect (by decide)⟩

/-- The test of the cooldown in true time: where it passes at `t` with the
last request made at `l`, more than 10 000 ms lie between the two, however
often the 32-bit clock wrapped. -/
theorem cooldown_elapsed (b l t : Nat) (hb : b ≤ l) (hl : l ≤ t)
    (h : subU32 ((t - b) % 2 ^ 32) ((l - b) % 2 ^ 32) > 10000) : l + 10000 < t := by
  unfold subU32 at h
  omega

/-- The requests of a life lie more than 10 000 ms apart, the first of them
more than 10 000 ms after `l`, the time `lastReconnect` stands for. -/
theorem reconnectTimes_chain (hw : Hw) (inputs : List (Gap × LoopInput)) (w : World) (l : Nat)
    (hb : w.bootedAt ≤ l) (hl : l ≤ w.clock)
    (hlast : w.lastReconnect = (l - w.bootedAt) % 2 ^ 32) :
    List.Chain (fun a b => a + 10000 < b) l (reconnectTimes hw inputs w) := by
  induction inputs generalizing w l with
  | nil => exact List.Chain.nil
  | cons p rest ih =>
    obtain ⟨g, inp⟩ := p
    obtain ⟨w1, hw1⟩ : ∃ w1, w1 = idle g w := ⟨_, rfl⟩
    obtain ⟨w2, hw2⟩ : ∃ w2, w2 = loop hw inp w1 := ⟨_, rfl⟩
    obtain ⟨w3, hw3⟩ : ∃ w3, w3 = (if w2.restarted then boot hw w2 else w2) := ⟨_, rfl⟩
    have htimes : reconnectTimes hw ((g, inp) :: rest) w =
        (if requests w2 > requests w1 then [w2.clock - 10] else []) ++
          reconnectTimes hw rest w3 := by
      rw [hw3, hw2, hw1]; rfl
    have i1 : w1.bootedAt = w.bootedAt := by rw [hw1]; rfl
    have i2 : w1.lastReconnect = w.lastReconnect := by rw [hw1]; rfl
    have i3 : w.clock ≤ w1.clock := by
      rw [hw1]; simp only [idle_eq, clock_setMqttSession, clock_delay]; omega
    obtain ⟨o1, o2, _, o4⟩ := loop_outcome hw inp w1
    rw [← hw2] at o1 o2 o4
    rw [htimes]
    have hboot : w2.restarted = true → ∀ a, a ≤ w2.clock →
        List.Chain (fun a b => a + 10000 < b) a (reconnectTimes hw rest w3) := by
      intro hr a ha
      have hs := boot_statics hw w2
      have e3 : w3 = boot hw w2 := by rw [hw3, if_pos hr]
      rw [e3]
      have hc := ih (boot hw w2) w2.clock (by rw [hs.1]) (clock_le_boot hw w2)
        (by rw [hs.1, hs.2, Nat.sub_self]; rfl)
      exact chain_weaken a w2.clock _ ha hc
    have hkeep : w2.restarted = false → ∀ a, w.bootedAt ≤ a → a ≤ w2.clock →
        w2.lastReconnect = (a - w.bootedAt) % 2 ^ 32 →
        List.Chain (fun a b => a + 10000 < b) a (reconnectTimes hw rest w3) := by
      intro hr a h1 h2 h3
      have e3 : w3 = w2 := by rw [hw3, hr]; rfl
      rw [e3]
      exact ih w2 a (by rw [o1, i1]; exact h1) h2 (by rw [o1, i1]; exact h3)
    rcases o4 with ⟨q1, q2⟩ | ⟨q1, q2, _, _, t, p1, p2, p3, p4, _⟩
    · rw [if_neg (by omega), List.nil_append]
      cases hr : w2.restarted with
      | true => exact hboot hr _ (by omega)
      | false => exact hkeep hr l hb (by omega) (by rw [q2, i2]; exact hlast)
    · rw [if_pos (by omega)]
      rw [i1] at p3 p4
      rw [i2, hlast] at p4
      have hgap := cooldown_elapsed w.bootedAt l t hb (by omega) p4
      have e : w2.clock - 10 = t := by omega
      rw [e]
      exact List.Chain.cons hgap (hkeep q2 t (by omega) (by omega) p3)

/-- A boot requests no reconnection. -/
theorem requests_boot (hw : Hw) (x : World) : requests (boot hw x) = requests x := by
  unfold boot
  have hW : Within (allBut [Part.ev Kind.wifiReconnect])
      { World.powerOn x.prefs x.clock with out := x.out }
      (setup hw { World.powerOn x.prefs x.clock with out := x.out }) :=
    within_of_rule (within_setup _ hw _ _ (by decide))
  have := same_of_within hW (Part.ev Kind.wifiReconnect) (by decide)
  simp only [Same] at this
  unfold requests
  rw [this]

/-- The times listed by `reconnectTimes` are all the requests of the life. -/
theorem requests_run (hw : Hw) (inputs : List (Gap × LoopInput)) (w : World) :
    requests (run hw inputs w) = requests w + (reconnectTimes hw inputs w).length := by
  induction inputs generalizing w with
  | nil => rfl
  | cons p rest ih =>
    obtain ⟨g, inp⟩ := p
    obtain ⟨w1, hw1⟩ : ∃ w1, w1 = idle g w := ⟨_, rfl⟩
    obtain ⟨w2, hw2⟩ : ∃ w2, w2 = loop hw inp w1 := ⟨_, rfl⟩
    obtain ⟨w3, hw3⟩ : ∃ w3, w3 = (if w2.restarted then boot hw w2 else w2) := ⟨_, rfl⟩
    have hrun : run hw ((g, inp) :: rest) w = run hw rest w3 := by
      rw [hw3, hw2, hw1]; rfl
    have htimes : reconnectTimes hw ((g, inp) :: rest) w =
        (if requests w2 > requests w1 then [w2.clock - 10] else []) ++
          reconnectTimes hw rest w3 := by
      rw [hw3, hw2, hw1]; rfl
    have i0 : requests w1 = requests w := by rw [hw1]; rfl
    have h3 : requests w3 = requests w2 := by
      rw [hw3]; split
      · exact requests_boot hw w2
      · rfl
    obtain ⟨_, _, _, o4⟩ := loop_outcome hw inp w1
    rw [← hw2] at o4
    rw [hrun, htimes, ih w3, h3, List.length_append]
    rcases o4 with ⟨q1, _⟩ | ⟨q1, _⟩
    · rw [if_neg (by omega)]; simp only [List.length_nil]; omega
    · rw [if_pos (by omega)]; simp only [List.length_singleton]; omega

/-- C21. Link reconnection cooldown: over any life of the device, with any gaps between
the passes of `loop()` and whatever arrives in them, `reconnectTimes` lists every
request of a reconnection, and the requests lie more than 10 000 ms apart in true time,
the first of them more than 10 000 ms after `l`, the time `lastReconnect` stands for
(the boot or the request before), also where the 32-bit clock wraps or the device
restarts in between. In each pass at most one request is made and none is withdrawn;
none is made in Setup mode; none is made where the link is up throughout the pass; and
a pass that makes one is in Running mode, found the link down at a time of the pass,
leaves the flag `wifiConnected` false, and read, 10 ms before its end, a clock more than
10 000 ms past `lastReconnect` in 32-bit arithmetic. -/
theorem C21_reconnect_cooldown (hw : Hw) (inputs : List (Gap × LoopInput)) (w : World)
    (l : Nat) (hb : w.bootedAt ≤ l) (hl : l ≤ w.clock)
    (hlast : w.lastReconnect = (l - w.bootedAt) % 2 ^ 32) :
    requests (run hw inputs w) = requests w + (reconnectTimes hw inputs w).length ∧
    List.Chain (fun a b => a + 10000 < b) l (reconnectTimes hw inputs w) ∧
    ∀ (inp : LoopInput) (x : World),
      requests x ≤ requests (loop hw inp x) ∧ requests (loop hw inp x) ≤ requests x + 1 ∧
      (x.state.mode = SystemMode.MODE_SETUP → requests (loop hw inp x) = requests x) ∧
      ((∀ t, x.clock ≤ t → t ≤ (loop hw inp x).clock → hw.linkUp t = true) →
        requests (loop hw inp x) = requests x) ∧
      (requests (loop hw inp x) ≠ requests x →
        x.state.mode = SystemMode.MODE_RUNNING ∧
        (loop hw inp x).state.wifiConnected = false ∧
        subU32 (((loop hw inp x).clock - 10 - x.bootedAt) % 2 ^ 32) x.lastReconnect > 10000 ∧
        ∃ t, x.clock ≤ t ∧ t ≤ (loop hw inp x).clock ∧ hw.linkUp t = false) := by
  refine ⟨requests_run hw inputs w, reconnectTimes_chain hw inputs w l hb hl hlast, ?_⟩
  intro inp x
  obtain ⟨_, _, _, o4⟩ := loop_outcome hw inp x
  rcases o4 with ⟨q1, _⟩ | ⟨q1, _, q3, q4, t, p1, p2, _, p4, t2, r1, r2, r3⟩
  · exact ⟨by omega, by omega, fun _ => q1, fun _ => q1, fun h => absurd q1 h⟩
  · refine ⟨by omega, by omega, ?_, ?_, ?_⟩
    · intro hm
      rw [hm] at q3
      exact absurd q3 (by decide)
    · intro hup
      have := hup t2 r1 (by omega)
      rw [r3] at this
      exact absurd this (by decide)
    · intro _
      have e : (loop hw inp x).clock - 10 = t := by omega
      rw [e]
      exact ⟨q3, q4, p4, t2, r1, by omega, r3⟩

/-- Four passes 6 s apart with the link down: requests at 12 010 ms and at 24 030 ms. -/
theorem C21_reconnect_cooldown_witness :
    reconnectTimes Hw.quiet [sixSeconds, sixSeconds, sixSeconds, sixSeconds] runningWorld =
      [12010, 24030] ∧
    requests (run Hw.quiet [sixSeconds, sixSeconds, sixSeconds, sixSeconds] runningWorld) =
      requests runningWorld +
        (reconnectTimes Hw.quiet [sixSeconds, sixSeconds, sixSeconds, sixSeconds]
          runningWorld).length ∧
    List.Chain (fun a b => a + 10000 < b) 0
      (reconnectTimes Hw.quiet [sixSeconds, sixSeconds, sixSeconds, sixSeconds] runningWorld) :=
  ⟨by decide,
    (C21_reconnect_cooldown Hw.quiet [sixSeconds, sixSeconds, sixSeconds, sixSeconds]
      runningWorld 0 (by decide) (by decide) (by decide)).1,
    (C21_reconnect_cooldown Hw.quiet [sixSeconds, sixSeconds, sixSeconds, sixSeconds]
      runningWorld 0 (by decide) (by decide) (by decide)).2.1⟩

end IotEsp101
